import Mathlib

/-!
# BSplineLib: the spline kernel

A shallow embedding of the spline kernel of the repository:
`Sources/BSplineLib/Splines/b_spline.inl` (constructor, `Evaluate`, `InsertKnot`,
`RemoveKnot`, `ElevateDegree`, `ReduceDegree`, `MakeBezier`),
`Sources/BSplineLib/Splines/spline_item.cpp`, the one-dimensional arithmetic
and the n-dimensional `Array` of `Sources/BSplineLib/Utilities/containers.hpp`,
`Sources/BSplineLib/VectorSpaces/weighted_vector_space.inl` and
`Sources/ParameterSpaces/zero_degree_b_spline_basis_function.cpp`.  The classes
that these files call and that are not under src/ (`ParameterSpace`,
`VectorSpace`, `Index_`, `BSplineBasisFunction`, the error helpers) are
modelled from the specification, or taken as parameters; each such definition
says so.

Conventions of the embedding.

* `DataType_` (double) is embedded as `ℚ`: every statement is one of exact
  arithmetic.  The comparison `NormL2() <= tolerance` is embedded without a
  square root, as `0 ≤ tolerance ∧ Σ xᵢ² ≤ tolerance²`, which is the same
  proposition over the reals.
* `int`-valued named integers (`Index`, `Dimension`, `Multiplicity`, `Length`)
  are embedded as `Int`; no overflow is modelled.  The `IndexType` (`int`) of the
  n-dimensional `Array` is embedded as `Int` as well, and the products and sums
  that `SetShape` and `operator()` compute in it go through `IndexType.wrap`,
  the reduction to the 32-bit two's-complement range.
* A function that throws returns `Except Error _`; a function that mutates
  `*this` returns the new state.  The editing operations are embedded a second
  time with the spline that the call leaves when it throws (`inPlace`); the two
  embeddings are proved to agree.
* `#ifndef NDEBUG` blocks are guarded by the flag `NDEBUG : Bool`
  (`true` = the macro is defined, the block is compiled out).
* A pointer into the vector space (`CoordinateBegin(i)`) is embedded as the row
  index `i`; an `Array_` that was pointed at a row with `SetData` is a view, and
  writing through it writes the row.
* The n-dimensional `Array` holds the address of its first scalar in a
  `Memory` (the scalars at the addresses `0, 1, 2, ...`), so that two arrays can
  share scalars; a member that reads or writes scalars takes the memory and
  returns it.  A reference to a scalar is embedded as its offset from `data_`.
  An `assert` is active when `NDEBUG = false`; the result is `none` when one
  fails.
* The constructors, `Reallocate` and the destructor of `Array` act on a `Heap`:
  the memory, the addresses that `new[]` has returned and the addresses handed
  to `delete[]`.
-/

set_option autoImplicit false

namespace BSplineLib

/-! ## Error handling -/

/-- The exception kinds of `utilities::error_handling`, each carrying its
message (`what()`). -/
inductive Error where
  | InvalidArgument (message : String)
  | OutOfRange (message : String)
  | DomainError (message : String)
  | RuntimeError (message : String)
deriving DecidableEq, Repr

/-- The message carried by an exception (`std::exception::what`). -/
def Error.what : Error → String
  | .InvalidArgument m => m
  | .OutOfRange m => m
  | .DomainError m => m
  | .RuntimeError m => m

/-- Replaces the message of an exception, keeping its kind. -/
def Error.withMessage : Error → String → Error
  | .InvalidArgument _, m => .InvalidArgument m
  | .OutOfRange _, m => .OutOfRange m
  | .DomainError _, m => .DomainError m
  | .RuntimeError _, m => .RuntimeError m

/-- Modelled from the spec: `Throw(exception, name)` is declared in
`Utilities/error_handling.hpp`, which is not under src/.  It throws an
exception of the same kind (the kinds of §7) whose message is the name of the
throwing function followed by the original message. -/
def Throw (exception : Error) (name : String) : Error :=
  exception.withMessage (name ++ ": " ++ exception.what)

/-- Modelled from the spec: the three-argument `Throw(exception, name,
dimension)` of `Utilities/error_handling.hpp` (not under src/); as `Throw`,
with the dimension named in the message. -/
def ThrowForDimension (exception : Error) (name : String) (dimension : Int) : Error :=
  exception.withMessage
    (name ++ " for dimension " ++ toString dimension ++ ": " ++ exception.what)

/-- Modelled from the spec: `utilities::numeric_operations::
ThrowIfToleranceIsNegative` (not under src/); §4.2 and §7: a negative tolerance
is an InvalidArgument. -/
def ThrowIfToleranceIsNegative (tolerance : ℚ) : Except Error Unit :=
  if tolerance < 0 then
    .error (.InvalidArgument "The tolerance must be non-negative.")
  else .ok ()

/-- Modelled from the spec: `NamedInteger::ThrowIfNamedIntegerIsOutOfBounds`
(not under src/); §4.2 and §7: an index outside `[0, maximum_value]` is an
OutOfRange. -/
def ThrowIfNamedIntegerIsOutOfBounds (named_integer maximum_value : Int) :
    Except Error Unit :=
  if named_integer < 0 ∨ maximum_value < named_integer then
    .error (.OutOfRange ("The value " ++ toString named_integer
      ++ " is out of bounds: the maximum value is " ++ toString maximum_value ++ "."))
  else .ok ()

deriving instance DecidableEq for Except

/-- The text `part` occurs in `message`. -/
def Contains (message part : String) : Prop :=
  ∃ before after : String, message = before ++ part ++ after

/-! ## One-dimensional `Array` arithmetic (`Utilities/containers.hpp`) -/

/-- The loop `for (i = 0; i < size_; ++i) data_[i] = f(data_[i], a[i])` shared
by the element-wise members of `Array`.  `a` is the sequence of scalars behind
the argument; an `a` shorter than `size_` is read as zero there (the source
asserts `a.size() == size_`, or reads through a raw pointer). -/
def elementwise (f : ℚ → ℚ → ℚ) : List ℚ → List ℚ → List ℚ
  | [], _ => []
  | x :: xs, a => f x (a.headD 0) :: elementwise f xs a.tail

/-- `Array::Add` (containers.hpp:337): `this[i] += a[i]`. -/
def Array.Add (data a : List ℚ) : List ℚ :=
  elementwise (fun x y => x + y) data a

/-- `Array::Subtract` (containers.hpp:350): `this[i] -= a[i]`. -/
def Array.Subtract (data a : List ℚ) : List ℚ :=
  elementwise (fun x y => x - y) data a

/-- Modelled from the spec: `Array::MultiplyAssign(scalar, a)` is used by
b_spline.inl but is not in the containers.hpp under src/; `this[i] = scalar *
a[i]`, as the commented-out `Multiply(vector_space[...], coefficient)` beside
each use (b_spline.inl:300-305, 419-424) and its name say. -/
def Array.MultiplyAssign (data : List ℚ) (scalar : ℚ) (a : List ℚ) : List ℚ :=
  elementwise (fun _ y => scalar * y) data a

/-- Modelled from the spec: `Array::FlipSubtract(a)` (spelled `FlipSubstract`
at b_spline.inl:314) is not in the containers.hpp under src/; `this[i] = a[i] -
this[i]`, so that `MultiplyAssign(1 - c, lower); FlipSubtract(upper)` is
`upper - (1 - c) * lower`, the `Subtract(vector_space[coordinate_index],
Multiply(vector_space[lower_coordinate_index], k1_0 - c))` of the commented-out
formula (b_spline.inl:300-305, 321-330). -/
def Array.FlipSubtract (data a : List ℚ) : List ℚ :=
  elementwise (fun x y => y - x) data a

/-- Modelled from the spec: `Array::Multiply(scalar)` is not in the
containers.hpp under src/; `this[i] *= scalar`. -/
def Array.Multiply (data : List ℚ) (scalar : ℚ) : List ℚ :=
  data.map (fun x => x * scalar)

/-- The sum of squares accumulated by `Array::NormL2` (containers.hpp:448-453),
before the square root. -/
def Array.NormL2Squared (data : List ℚ) : ℚ :=
  data.foldl (fun norm data_i => norm + data_i * data_i) 0

/-- The test `NormL2() <= tolerance` (b_spline.inl:331, 623), with
`NormL2() = sqrt(NormL2Squared)` (containers.hpp:454): over the reals it is
`0 ≤ tolerance ∧ NormL2Squared ≤ tolerance²`. -/
def Array.NormL2LessOrEqual (data : List ℚ) (tolerance : ℚ) : Bool :=
  decide (0 ≤ tolerance) && decide (Array.NormL2Squared data ≤ tolerance * tolerance)

/-- Modelled from the spec: the free function `utilities::containers::Add(a, A,
b, B, out)` used by `InsertKnot` (b_spline.inl:184-190) is not under src/;
`out[i] = a * A[i] + b * B[i]`, the `Add(Multiply(A, a), Multiply(B, b))` of the
commented-out formula (b_spline.inl:192-201). -/
def Add (a : ℚ) (A : List ℚ) (b : ℚ) (B : List ℚ) (out : List ℚ) : List ℚ :=
  elementwise (fun x y => x + b * y) (Array.MultiplyAssign out a A) B

/-! ## Vector space (control-point storage) -/

/-- Modelled from the spec: `VectorSpace` (vector_space.hpp is not under src/);
§3/§4.4: a flat, ordered, resizable sequence of coordinates of one ambient
dimensionality, addressed by a flat index. -/
structure VectorSpace where
  /-- `Dim()`: the ambient dimensionality. -/
  dim : Nat
  /-- `GetCoordinates()`: the stored coordinates, in flat order. -/
  coordinates : List (List ℚ)
deriving DecidableEq, Repr

/-- `VectorSpace::Dim`. -/
def VectorSpace.Dim (vector_space : VectorSpace) : Nat := vector_space.dim

/-- `VectorSpace::GetNumberOfCoordinates`. -/
def VectorSpace.GetNumberOfCoordinates (vector_space : VectorSpace) : Int :=
  vector_space.coordinates.length

/-- `VectorSpace::CoordinateBegin(i)`, dereferenced: the scalars of the `i`-th
coordinate.  An index outside the storage is undefined in the source; the
embedding reads zeros there. -/
def VectorSpace.CoordinateBegin (vector_space : VectorSpace) (i : Int) : List ℚ :=
  if 0 ≤ i then vector_space.coordinates.getD i.toNat [] else []

/-- Modelled from the spec: `VectorSpace::ReallocateInsert(position, value)`
(§4.4): grows the storage by one element, placed at `position`.  A position
outside `[0, count]` is undefined in the source; the embedding leaves the
storage as it is. -/
def VectorSpace.ReallocateInsert (vector_space : VectorSpace) (position : Int)
    (value : List ℚ) : VectorSpace :=
  if 0 ≤ position ∧ position ≤ vector_space.coordinates.length then
    { vector_space with
      coordinates := vector_space.coordinates.take position.toNat ++ value ::
        vector_space.coordinates.drop position.toNat }
  else vector_space

/-- Modelled from the spec: `VectorSpace::Replace(position, value)` (§4.4):
overwrites the element at `position` (nothing outside the storage). -/
def VectorSpace.Replace (vector_space : VectorSpace) (position : Int)
    (value : List ℚ) : VectorSpace :=
  if 0 ≤ position then
    { vector_space with coordinates := vector_space.coordinates.set position.toNat value }
  else vector_space

/-- Modelled from the spec: `VectorSpace::Erase(position)` (§4.4): shrinks the
storage by the element at `position` (nothing outside the storage). -/
def VectorSpace.Erase (vector_space : VectorSpace) (position : Int) : VectorSpace :=
  if 0 ≤ position then
    { vector_space with coordinates := vector_space.coordinates.eraseIdx position.toNat }
  else vector_space

/-! ## Multi-dimensional index arithmetic -/

/-- Modelled from the spec: `Length{}`, the extent that a slice gives to the
edited dimension (b_spline.inl:169, 269, 386, 527); the named type `Length` is
not under src/.  §4.3: a slice is "all grid points sharing every coordinate
except the one being edited", so the edited dimension holds one coordinate. -/
def Length.slice : Int := 1

/-- Modelled from the spec: the multi-dimensional `Index_` (index.hpp is not
under src/); §3: a per-dimension extent tuple (`IndexLength_`) and a
per-dimension coordinate tuple (`IndexValue_`). -/
structure Index_ where
  /-- The extents (`IndexLength_`). -/
  length_ : List Int
  /-- The coordinates (`IndexValue_`). -/
  value_ : List Int
deriving DecidableEq, Repr

/-- Modelled from the spec: the flat offset of a coordinate tuple for an extent
tuple (§3, §4.3: "row-major strides"), by Horner's rule: the stride of a
dimension is the product of the extents after it. -/
def rowMajorOffset : List Int → List Int → Int → Int
  | length :: lengths, value :: values, offset =>
      rowMajorOffset lengths values (offset * length + value)
  | _, _, offset => offset

/-- Modelled from the spec: `Index_::GetIndex1d` (§3, §4.3): the flat offset
addressed by the coordinates, with row-major strides of the current extents. -/
def Index_.GetIndex1d (index : Index_) : Int :=
  rowMajorOffset index.length_ index.value_ 0

/-- `Index_::GetIndex`: the coordinate tuple. -/
def Index_.GetIndex (index : Index_) : List Int := index.value_

/-- Adds `step` to the entry `dimension` of a tuple. -/
def stepAt : List Int → Nat → Int → List Int
  | [], _, _ => []
  | value :: values, 0, step => (value + step) :: values
  | value :: values, dimension + 1, step => value :: stepAt values dimension step

/-- Modelled from the spec: `Index_::Increment(dimension)` (§4.3): steps only
along the named axis. -/
def Index_.Increment (index : Index_) (dimension : Int) : Index_ :=
  { index with value_ := stepAt index.value_ dimension.toNat 1 }

/-- Modelled from the spec: `Index_::Decrement(dimension)` (§4.3): steps only
along the named axis. -/
def Index_.Decrement (index : Index_) (dimension : Int) : Index_ :=
  { index with value_ := stepAt index.value_ dimension.toNat (-1) }

/-- Modelled from the spec: `operator+(Index_, IndexValue_)`: the index of the
same extents whose coordinates are the per-dimension sums. -/
def Index_.add (index : Index_) (value : List Int) : Index_ :=
  { index with value_ := List.zipWith (fun a b => a + b) index.value_ value }

/-- All coordinate tuples of an extent tuple, in flat (row-major) order. -/
def IndexValues : List Int → List (List Int)
  | [] => [[]]
  | length :: lengths =>
      (List.range length.toNat).flatMap
        (fun (i : Nat) => (IndexValues lengths).map (fun values => (i : Int) :: values))

/-- Modelled from the spec: the indices visited by
`for (i = Index_::First(l); i != Index_::Behind(l); ++i)` (§4.3: the unqualified
`++` enumerates the full flat order). -/
def Index_.FirstToBehind (length : List Int) : List Index_ :=
  (IndexValues length).map (fun value => { length_ := length, value_ := value })

/-- Modelled from the spec: the indices visited by
`for (i = Index_::Last(l); i != Index_::Before(l); --i)` (§4.3). -/
def Index_.LastToBefore (length : List Int) : List Index_ :=
  (Index_.FirstToBehind length).reverse

/-! ## Parameter space -/

/-- The members of `ParameterSpace` that the spline kernel calls.
parameter_space.hpp is not under src/, so the kernel is embedded over an
arbitrary implementation `PS` of them.  A mutating member returns the new
parameter space next to its result; a start index and the coefficient sets are
returned as `(start, coefficients)`. -/
structure ParameterSpaceOps (PS : Type) where
  /-- `GetNumberOfBasisFunctions()`: the count per dimension. -/
  GetNumberOfBasisFunctions : PS → List Int
  /-- `ThrowIfParametricCoordinateIsOutsideScope(dimension, knot, tolerance)`. -/
  ThrowIfParametricCoordinateIsOutsideScope : PS → Int → ℚ → ℚ → Except Error Unit
  /-- `InsertKnot(dimension, knot, multiplicity, tolerance)`. -/
  InsertKnot : PS → Int → ℚ → Int → ℚ → Except Error (PS × Int × List (List ℚ))
  /-- `RemoveKnot(dimension, knot, multiplicity, tolerance)`. -/
  RemoveKnot : PS → Int → ℚ → Int → ℚ → Except Error (PS × Int × List (List ℚ))
  /-- `ElevateDegree(dimension, multiplicity)`. -/
  ElevateDegree : PS → Int → Int → Except Error (PS × Int × List (List ℚ))
  /-- `ReduceDegree(dimension, multiplicity)`. -/
  ReduceDegree : PS → Int → Int → Except Error (PS × Int × List (List ℚ))
  /-- `DetermineBezierExtractionKnots(dimension, tolerance)`: the number of
  segments and the knots to insert. -/
  DetermineBezierExtractionKnots : PS → Int → ℚ → Except Error (Int × List ℚ)
  /-- `EvaluateBasisValuesPerDimension(parametric_coordinate)`. -/
  EvaluateBasisValuesPerDimension : PS → List ℚ → List (List ℚ)
  /-- `FindFirstNonZeroBasisFunction(parametric_coordinate)`. -/
  FindFirstNonZeroBasisFunction : PS → List ℚ → List Int

/-- Modelled from the spec: `ParameterSpace::GetTotalNumberOfBasisFunctions`
(not under src/); §4.2: "Reports total basis-function count as the product of
per-dimension counts." -/
def ParameterSpaceOps.GetTotalNumberOfBasisFunctions {PS : Type}
    (ops : ParameterSpaceOps PS) (parameter_space : PS) : Int :=
  (ops.GetNumberOfBasisFunctions parameter_space).prod

/-- Modelled from the spec: `ParameterSpace::First()` (not under src/): the
first index of the grid of basis functions. -/
def ParameterSpaceOps.First {PS : Type} (ops : ParameterSpaceOps PS)
    (parameter_space : PS) : Index_ :=
  { length_ := ops.GetNumberOfBasisFunctions parameter_space,
    value_ := (ops.GetNumberOfBasisFunctions parameter_space).map (fun _ => 0) }

/-- Modelled from the spec: `parameter_spaces::RecursiveCombine(basis,
beginning, offset, coordinates, out)` (not under src/); §4.5: the per-dimension
basis arrays are "recursively combined (nested weighted sums, one dimension at a
time) against the matching control-point window, into an output buffer sized to
ambient dimensionality".  `offset` carries the extents of the grid and the
coordinates chosen so far (relative to `beginning`). -/
def RecursiveCombine (coordinates : VectorSpace) (length_ : List Int) :
    List (List ℚ) → List Int → List Int → List ℚ → List ℚ
  | [], beginning, offset, out =>
      Array.MultiplyAssign out 1
        (coordinates.CoordinateBegin
          (Index_.GetIndex1d
            { length_ := length_, value_ := List.zipWith (fun a b => a + b) beginning offset }))
  | basis :: rest, beginning, offset, out =>
      (List.range basis.length).foldl
        (fun sum (i : Nat) =>
          elementwise (fun x y => x + basis.getD i 0 * y) sum
            (RecursiveCombine coordinates length_ rest beginning (offset ++ [(i : Int)]) out))
        (out.map (fun _ => 0))

/-! ## The spline kernel (`Splines/b_spline.inl`, `Splines/spline_item.cpp`) -/

/-- A `BSpline<parametric_dimensionality>`: the members of `SplineItem`
(spline_item.cpp:29-31), the parameter space owned by `Spline` and the vector
space owned by `BSpline`. -/
structure BSpline (PS : Type) where
  /-- `SplineItem::parametric_dimensionality_`. -/
  parametric_dimensionality_ : Int
  /-- `SplineItem::is_rational_`. -/
  is_rational_ : Bool
  /-- `Spline::parameter_space_`. -/
  parameter_space_ : PS
  /-- `BSpline::vector_space_`. -/
  vector_space_ : VectorSpace
deriving DecidableEq

/-- The message of the DomainError of the constructor (b_spline.inl:38-42). -/
def BSpline.cardinalityMessage (number_of_coordinates total_number_of_basis_functions : Int) :
    String :=
  toString number_of_coordinates ++ " coordinates were provided but "
    ++ toString total_number_of_basis_functions
    ++ " are needed to associate each basis function with a coordinate."

/-- `BSpline::BSpline(parameter_space, vector_space)` (b_spline.inl:26-46).
`Base_(std::move(parameter_space), false)` sets `is_rational_` to false.  (The
constructor cannot be named `BSpline.BSpline` next to the structure.) -/
def BSpline.Construct {PS : Type} (ops : ParameterSpaceOps PS) (NDEBUG : Bool)
    (parametric_dimensionality : Int) (parameter_space : PS)
    (vector_space : VectorSpace) : Except Error (BSpline PS) :=
  let total_number_of_basis_functions :=
    ops.GetTotalNumberOfBasisFunctions parameter_space
  let number_of_coordinates := vector_space.GetNumberOfCoordinates
  if ¬ NDEBUG ∧ number_of_coordinates ≠ total_number_of_basis_functions then
    .error (Throw
      (.DomainError
        (BSpline.cardinalityMessage number_of_coordinates total_number_of_basis_functions))
      "bsplinelib::splines::BSpline::BSpline")
  else
    .ok { parametric_dimensionality_ := parametric_dimensionality,
          is_rational_ := false,
          parameter_space_ := parameter_space,
          vector_space_ := vector_space }

/-- `BSpline::Evaluate(parametric_coordinate, evaluated)` (b_spline.inl:61-82):
the returned list is what the call leaves in the `Dim()` scalars behind
`evaluated`. -/
def BSpline.Evaluate {PS : Type} (ops : ParameterSpaceOps PS) (spline : BSpline PS)
    (parametric_coordinate : List ℚ) (evaluated : List ℚ) : List ℚ :=
  let evaluated_b_spline := (List.range spline.vector_space_.Dim).map
    (fun i => evaluated.getD i 0)
  let parameter_space := spline.parameter_space_
  let basis_per_dim :=
    ops.EvaluateBasisValuesPerDimension parameter_space parametric_coordinate
  let beginning :=
    ops.FindFirstNonZeroBasisFunction parameter_space parametric_coordinate
  let offset := ops.First parameter_space
  RecursiveCombine spline.vector_space_ offset.length_ basis_per_dim beginning []
    evaluated_b_spline

/-- The `catch` clauses shared by the precondition blocks (b_spline.inl:152-156,
242-246, 366-370, 508-512): an InvalidArgument or an OutOfRange is thrown again
through `Throw(exception, kName, dimension_value)`; any other exception passes. -/
def rethrow (kName : String) (dimension_value : Int) : Error → Error
  | .InvalidArgument m => ThrowForDimension (.InvalidArgument m) kName dimension_value
  | .OutOfRange m => ThrowForDimension (.OutOfRange m) kName dimension_value
  | exception => exception

/-- The `try` block of `InsertKnot` (b_spline.inl:145-156). -/
def BSpline.InsertKnot.checks {PS : Type} (ops : ParameterSpaceOps PS)
    (spline : BSpline PS) (dimension : Int) (knot tolerance : ℚ) : Except Error Unit :=
  (do
    ThrowIfNamedIntegerIsOutOfBounds dimension (spline.parametric_dimensionality_ - 1)
    ThrowIfToleranceIsNegative tolerance
    ops.ThrowIfParametricCoordinateIsOutsideScope spline.parameter_space_ dimension knot
      tolerance).mapError
    (rethrow "bsplinelib::splines::BSpline::InsertKnot" dimension)

/-- One pass of the replacement loop of `InsertKnot` (b_spline.inl:203-218):
`coordinate` is decremented inside the call of `Add`, after
`replacement_position` was read. -/
def BSpline.InsertKnot.replace (dimension : Int) (state : VectorSpace × Index_)
    (coefficient : ℚ) : VectorSpace × Index_ :=
  let k1_0 : ℚ := 1
  let vector_space := state.1
  let coordinate := state.2
  let replacement_position := coordinate.GetIndex1d
  let coordinate := coordinate.Decrement dimension
  let tmp_coord :=
    Add coefficient (vector_space.CoordinateBegin replacement_position)
      (k1_0 - coefficient) (vector_space.CoordinateBegin coordinate.GetIndex1d)
      (List.replicate vector_space.Dim 0)
  (vector_space.Replace replacement_position tmp_coord, coordinate)

/-- The body of the slice loop of `InsertKnot` (b_spline.inl:175-218) for one
`slice_coordinate`.  `*rbegin()` of an empty coefficient set is undefined in the
source; the embedding leaves the slice as it is. -/
def BSpline.InsertKnot.slice (dimension start_value : Int)
    (current_coefficients : List ℚ) (number_of_coordinates : List Int)
    (vector_space : VectorSpace) (slice_coordinate : Index_) : VectorSpace :=
  let k1_0 : ℚ := 1
  let coordinate_value := slice_coordinate.GetIndex.set dimension.toNat start_value
  let coordinate : Index_ := { length_ := number_of_coordinates, value_ := coordinate_value }
  match current_coefficients.reverse with
  | [] => vector_space
  | coefficient :: remaining =>
      let insertion_position := coordinate.GetIndex1d
      let coordinate := coordinate.Decrement dimension
      let tmp_coord :=
        Add coefficient
          (vector_space.CoordinateBegin (slice_coordinate.add coordinate_value).GetIndex1d)
          (k1_0 - coefficient) (vector_space.CoordinateBegin coordinate.GetIndex1d)
          (List.replicate vector_space.Dim 0)
      let vector_space := vector_space.ReallocateInsert insertion_position tmp_coord
      (remaining.foldl (BSpline.InsertKnot.replace dimension) (vector_space, coordinate)).1

/-- The body of the loop over the coefficient sets of `InsertKnot`
(b_spline.inl:167-220): the state is the vector space and
`number_of_coordinates`. -/
def BSpline.InsertKnot.round (dimension start_value : Int)
    (state : VectorSpace × List Int) (current_coefficients : List ℚ) :
    VectorSpace × List Int :=
  let vector_space := state.1
  let number_of_coordinates := state.2
  let number_of_coordinates_in_slice :=
    number_of_coordinates.set dimension.toNat Length.slice
  let number_of_coordinates := stepAt number_of_coordinates dimension.toNat 1
  ((Index_.FirstToBehind number_of_coordinates_in_slice).foldl
      (BSpline.InsertKnot.slice dimension start_value current_coefficients
        number_of_coordinates)
      vector_space,
    number_of_coordinates)

/-- `BSpline::InsertKnot(dimension, knot, multiplicity, tolerance)`
(b_spline.inl:131-221). -/
def BSpline.InsertKnot {PS : Type} (ops : ParameterSpaceOps PS) (NDEBUG : Bool)
    (spline : BSpline PS) (dimension : Int) (knot : ℚ) (multiplicity : Int)
    (tolerance : ℚ) : Except Error (BSpline PS) := do
  let parameter_space := spline.parameter_space_
  if ¬ NDEBUG then
    BSpline.InsertKnot.checks ops spline dimension knot tolerance
  let vector_space := spline.vector_space_
  let number_of_coordinates := ops.GetNumberOfBasisFunctions parameter_space
  let (parameter_space, start_value, coefficients) ←
    ops.InsertKnot parameter_space dimension knot multiplicity tolerance
  let state := coefficients.foldl (BSpline.InsertKnot.round dimension start_value)
    (vector_space, number_of_coordinates)
  pure { spline with parameter_space_ := parameter_space, vector_space_ := state.1 }

/-- The `try` block of `RemoveKnot` and of `ReduceDegree` (b_spline.inl:237-246,
503-512). -/
def BSpline.RemoveKnot.checks {PS : Type} (kName : String) (spline : BSpline PS)
    (dimension : Int) (tolerance_removal tolerance : ℚ) : Except Error Unit :=
  (do
    ThrowIfNamedIntegerIsOutOfBounds dimension (spline.parametric_dimensionality_ - 1)
    ThrowIfToleranceIsNegative tolerance_removal
    ThrowIfToleranceIsNegative tolerance).mapError (rethrow kName dimension)

/-- One pass of the replacement loop of `RemoveKnot` (b_spline.inl:285-306).
`replacement_coord` is a view on the row `coordinate_index` (`SetData`), so each
of `MultiplyAssign`, `FlipSubtract` and `Multiply` writes that row, and
`FlipSubtract` reads the row it has just been written to. -/
def BSpline.RemoveKnot.replace (dimension : Int)
    (state : VectorSpace × Index_ × Int) (current_coefficient : ℚ) :
    VectorSpace × Index_ × Int :=
  let k1_0 : ℚ := 1
  let vector_space := state.1
  let coordinate := state.2.1
  let coordinate_index := state.2.2
  let lower_coordinate_index := coordinate_index
  let coordinate := coordinate.Increment dimension
  let coordinate_index := coordinate.GetIndex1d
  let vector_space := vector_space.Replace coordinate_index
    (Array.MultiplyAssign (vector_space.CoordinateBegin coordinate_index)
      (k1_0 - current_coefficient) (vector_space.CoordinateBegin lower_coordinate_index))
  let vector_space := vector_space.Replace coordinate_index
    (Array.FlipSubtract (vector_space.CoordinateBegin coordinate_index)
      (vector_space.CoordinateBegin coordinate_index))
  let vector_space := vector_space.Replace coordinate_index
    (Array.Multiply (vector_space.CoordinateBegin coordinate_index)
      (1 / current_coefficient))
  (vector_space, coordinate, coordinate_index)

/-- The body of the slice loop of `RemoveKnot` (b_spline.inl:275-342) for one
`slice_coordinate`: `none` when the tolerance check fails, else the vector space
after the erasure.  `std::prev(end())` of an empty coefficient set is undefined
in the source; the embedding leaves the slice as it is. -/
def BSpline.RemoveKnot.slice (dimension start_value : Int)
    (current_coefficients : List ℚ) (previous_number_of_coordinates : List Int)
    (tolerance_removal : ℚ) (vector_space : VectorSpace) (slice_coordinate : Index_) :
    Option VectorSpace :=
  let k1_0 : ℚ := 1
  let coordinate_value := slice_coordinate.GetIndex.set dimension.toNat
    (start_value - (current_coefficients.length : Int))
  let coordinate : Index_ :=
    { length_ := previous_number_of_coordinates, value_ := coordinate_value }
  let coordinate_index := coordinate.GetIndex1d
  match current_coefficients.getLast? with
  | none => some vector_space
  | some current_coefficient =>
      let state := current_coefficients.dropLast.foldl
        (BSpline.RemoveKnot.replace dimension) (vector_space, coordinate, coordinate_index)
      let vector_space := state.1
      let coordinate := state.2.1
      let coordinate_index := state.2.2
      let lower_coordinate_index := coordinate_index
      let coordinate := coordinate.Increment dimension
      let coordinate_index := coordinate.GetIndex1d
      let comparison_value := Array.MultiplyAssign (List.replicate vector_space.Dim 0)
        (k1_0 - current_coefficient) (vector_space.CoordinateBegin lower_coordinate_index)
      let comparison_value := Array.FlipSubtract comparison_value
        (vector_space.CoordinateBegin coordinate_index)
      let comparison_value := Array.Multiply comparison_value (1 / current_coefficient)
      let subtract_id := (slice_coordinate.add coordinate.GetIndex).GetIndex1d + 1
      let comparison_value := Array.Subtract comparison_value
        (vector_space.CoordinateBegin subtract_id)
      if Array.NormL2LessOrEqual comparison_value tolerance_removal then
        some (vector_space.Erase coordinate_index)
      else none

/-- The slice loop of `RemoveKnot` (b_spline.inl:272-343), over the slices from
`Last` to `Before`: `none` as soon as one slice fails its check. -/
def BSpline.RemoveKnot.slices (dimension start_value : Int)
    (current_coefficients : List ℚ) (previous_number_of_coordinates : List Int)
    (tolerance_removal : ℚ) : VectorSpace → List Index_ → Option VectorSpace
  | vector_space, [] => some vector_space
  | vector_space, slice_coordinate :: rest =>
      match BSpline.RemoveKnot.slice dimension start_value current_coefficients
          previous_number_of_coordinates tolerance_removal vector_space slice_coordinate with
      | none => none
      | some vector_space =>
          BSpline.RemoveKnot.slices dimension start_value current_coefficients
            previous_number_of_coordinates tolerance_removal vector_space rest

/-- How the loop over the removals of `RemoveKnot` ends. -/
inductive RemovalOutcome where
  /-- The check failed in the round `removal`; `vector_space_backup` is the copy
  taken at the start of that round (b_spline.inl:266). -/
  | failed (removal : Int) (vector_space_backup : VectorSpace)
  /-- Every round was accepted. -/
  | completed (vector_space : VectorSpace)
deriving DecidableEq, Repr

/-- The loop `for (removal = removals; removal > 0; --removal)` of `RemoveKnot`
(b_spline.inl:264-344), entered with the counter `removal`. -/
def BSpline.RemoveKnot.loop (dimension start_value : Int) (coefficients : List (List ℚ))
    (tolerance_removal : ℚ) : Nat → VectorSpace → List Int → RemovalOutcome
  | 0, vector_space, _ => .completed vector_space
  | removal + 1, vector_space, number_of_coordinates =>
      let vector_space_backup := vector_space
      let current_coefficients := coefficients.getD removal []
      let number_of_coordinates_in_slice :=
        number_of_coordinates.set dimension.toNat Length.slice
      let previous_number_of_coordinates := number_of_coordinates
      let number_of_coordinates := stepAt number_of_coordinates dimension.toNat (-1)
      match BSpline.RemoveKnot.slices dimension start_value current_coefficients
          previous_number_of_coordinates tolerance_removal vector_space
          (Index_.LastToBefore number_of_coordinates_in_slice) with
      | none => .failed ((removal : Int) + 1) vector_space_backup
      | some vector_space =>
          BSpline.RemoveKnot.loop dimension start_value coefficients tolerance_removal
            removal vector_space number_of_coordinates

/-- `BSpline::RemoveKnot(dimension, knot, tolerance_removal, multiplicity,
tolerance)` (b_spline.inl:223-346): the returned multiplicity and the spline
after the call. -/
def BSpline.RemoveKnot {PS : Type} (ops : ParameterSpaceOps PS) (NDEBUG : Bool)
    (spline : BSpline PS) (dimension : Int) (knot tolerance_removal : ℚ)
    (multiplicity : Int) (tolerance : ℚ) : Except Error (Int × BSpline PS) := do
  if ¬ NDEBUG then
    BSpline.RemoveKnot.checks "bsplinelib::splines::BSpline::RemoveKnot" spline dimension
      tolerance_removal tolerance
  let parameter_space := spline.parameter_space_
  let parameter_space_backup := parameter_space
  let number_of_coordinates := ops.GetNumberOfBasisFunctions parameter_space
  let (parameter_space, start_value, coefficients) ←
    ops.RemoveKnot parameter_space dimension knot multiplicity tolerance
  let removals := coefficients.length
  match BSpline.RemoveKnot.loop dimension start_value coefficients tolerance_removal
      removals spline.vector_space_ number_of_coordinates with
  | .failed removal vector_space_backup =>
      let successful_removals := multiplicity - removal
      let (parameter_space_backup, _) ←
        ops.RemoveKnot parameter_space_backup dimension knot successful_removals tolerance
      pure (successful_removals,
        { spline with parameter_space_ := parameter_space_backup,
                      vector_space_ := vector_space_backup })
  | .completed vector_space =>
      pure ((removals : Int),
        { spline with parameter_space_ := parameter_space, vector_space_ := vector_space })

/-- Modelled from the spec: `Spline::RefineKnots(dimension, knots)` (spline.inl
is not under src/; §4.1, `MakeBezier`: "inserts knots"): each knot of the list
is inserted once through `InsertKnot`, with the default tolerance `kEpsilon`. -/
def BSpline.RefineKnots {PS : Type} (ops : ParameterSpaceOps PS) (NDEBUG : Bool)
    (kEpsilon : ℚ) (spline : BSpline PS) (dimension : Int) (knots : List ℚ) :
    Except Error (BSpline PS) :=
  knots.foldlM
    (fun spline knot => BSpline.InsertKnot ops NDEBUG spline dimension knot 1 kEpsilon)
    spline

/-- Modelled from the spec: `Spline::CoarsenKnots(dimension, knots,
tolerance_removal)` (spline.inl is not under src/; §4.1: "so the caller can
coarsen them back out afterward"): each knot of the list is removed once through
`RemoveKnot`, with the default tolerance `kEpsilon`; the callers in b_spline.inl
ignore the returned count. -/
def BSpline.CoarsenKnots {PS : Type} (ops : ParameterSpaceOps PS) (NDEBUG : Bool)
    (kEpsilon : ℚ) (spline : BSpline PS) (dimension : Int) (knots : List ℚ)
    (tolerance_removal : ℚ) : Except Error (BSpline PS) :=
  knots.foldlM
    (fun spline knot =>
      (BSpline.RemoveKnot ops NDEBUG spline dimension knot tolerance_removal 1
        kEpsilon).map (fun result => result.2))
    spline

/-- `BSpline::MakeBezier(dimension, tolerance)` (b_spline.inl:654-665): the
Bezier information and the spline after the call. -/
def BSpline.MakeBezier {PS : Type} (ops : ParameterSpaceOps PS) (NDEBUG : Bool)
    (kEpsilon : ℚ) (spline : BSpline PS) (dimension : Int) (tolerance : ℚ) :
    Except Error ((Int × List ℚ) × BSpline PS) := do
  let bezier_information ←
    ops.DetermineBezierExtractionKnots spline.parameter_space_ dimension tolerance
  let spline ← BSpline.RefineKnots ops NDEBUG kEpsilon spline dimension bezier_information.2
  pure (bezier_information, spline)

/-- Where an `Array_` keeps its scalars: in a buffer of its own (constructed
with a shape, containers.hpp:176-179), or, after `SetData`
(containers.hpp:104-107), in the row of the vector space it was pointed at. -/
inductive Storage where
  | owned (data : List ℚ)
  | view (row : Int)
deriving DecidableEq, Repr

/-- The scalars of an `Array_`. -/
def Storage.read (storage : Storage) (vector_space : VectorSpace) : List ℚ :=
  match storage with
  | .owned data => data
  | .view row => vector_space.CoordinateBegin row

/-- Writes the scalars of an `Array_`: a view writes the row it points at. -/
def Storage.write (storage : Storage) (vector_space : VectorSpace) (data : List ℚ) :
    VectorSpace × Storage :=
  match storage with
  | .owned _ => (vector_space, .owned data)
  | .view row => (vector_space.Replace row data, .view row)

/-- The integers `high, high - 1, ..., low` (none when `high < low`). -/
def descending (high low : Int) : List Int :=
  (List.range (high - low + 1).toNat).map (fun (i : Nat) => high - (i : Int))

/-- The integers `low, low + 1, ..., high` (none when `high < low`). -/
def ascending (low high : Int) : List Int :=
  (List.range (high - low + 1).toNat).map (fun (i : Nat) => low + (i : Int))

/-- Reads the coefficient set `interior_coordinate` (`coefficients[...]`). -/
def coefficientSet (coefficients : List (List ℚ)) (interior_coordinate : Int) : List ℚ :=
  if 0 ≤ interior_coordinate then coefficients.getD interior_coordinate.toNat [] else []

/-- The body of the `for_each` of `ElevateDegree` (b_spline.inl:427-442,
467-481): `tmp_coordinate = coefficient * P[--current_coordinate]`, then
`coordinate.Add(tmp_coordinate)`. -/
def BSpline.ElevateDegree.accumulate (dimension : Int)
    (state : VectorSpace × Storage × Index_) (coefficient : ℚ) :
    VectorSpace × Storage × Index_ :=
  let vector_space := state.1
  let coordinate := state.2.1
  let current_coordinate := state.2.2.Decrement dimension
  let tmp_coordinate := Array.MultiplyAssign (List.replicate vector_space.Dim 0) coefficient
    (vector_space.CoordinateBegin current_coordinate.GetIndex1d)
  let written := coordinate.write vector_space
    (Array.Add (coordinate.read vector_space) tmp_coordinate)
  (written.1, written.2, current_coordinate)

/-- The body of the slice loop of the insertion loop of `ElevateDegree`
(b_spline.inl:403-443).  `GetBack` of an empty coefficient set is undefined in
the source; the embedding leaves the slice as it is. -/
def BSpline.ElevateDegree.insert (dimension last_coordinate : Int)
    (maximum_interior_coordinate interior_coordinate : Int)
    (current_coefficients : List ℚ) (number_of_coordinates : List Int)
    (state : VectorSpace × Storage) (slice_coordinate : Index_) : VectorSpace × Storage :=
  let vector_space := state.1
  let coordinate := state.2
  let coordinate_value := slice_coordinate.GetIndex.set dimension.toNat last_coordinate
  let current_coordinate : Index_ :=
    { length_ := number_of_coordinates, value_ := coordinate_value }
  let insertion_position := current_coordinate.GetIndex1d
  let current_last_coordinate_value := stepAt coordinate_value dimension.toNat
    (maximum_interior_coordinate - interior_coordinate)
  match current_coefficients.reverse with
  | [] => state
  | back :: remaining =>
      let written := coordinate.write vector_space
        (Array.MultiplyAssign (coordinate.read vector_space) back
          (vector_space.CoordinateBegin
            (slice_coordinate.add current_last_coordinate_value).GetIndex1d))
      let accumulated := remaining.foldl (BSpline.ElevateDegree.accumulate dimension)
        (written.1, written.2, current_coordinate)
      let vector_space := accumulated.1
      let coordinate := accumulated.2.1
      (vector_space.ReallocateInsert insertion_position (coordinate.read vector_space),
        coordinate)

/-- The body of the slice loop of the replacement loop of `ElevateDegree`
(b_spline.inl:454-482): `coordinate` becomes a view on the row to replace. -/
def BSpline.ElevateDegree.replace (dimension last_coordinate : Int)
    (current_coefficients : List ℚ) (number_of_coordinates : List Int)
    (state : VectorSpace × Storage) (slice_coordinate : Index_) : VectorSpace × Storage :=
  let vector_space := state.1
  let coordinate_value := slice_coordinate.GetIndex.set dimension.toNat last_coordinate
  let current_coordinate : Index_ :=
    { length_ := number_of_coordinates, value_ := coordinate_value }
  let replacement_position := current_coordinate.GetIndex1d
  let coordinate := Storage.view replacement_position
  match current_coefficients.reverse with
  | [] => (vector_space, coordinate)
  | back :: remaining =>
      let written := coordinate.write vector_space
        (Array.Multiply (coordinate.read vector_space) back)
      let accumulated := remaining.foldl (BSpline.ElevateDegree.accumulate dimension)
        (written.1, written.2, current_coordinate)
      (accumulated.1, accumulated.2.1)

/-- The state of the loops of `ElevateDegree`: the vector space, the array
`coordinate`, `number_of_coordinates` and `last_coordinate`. -/
structure ElevationState where
  vector_space : VectorSpace
  coordinate : Storage
  number_of_coordinates : List Int
  last_coordinate : Int

/-- One pass of the insertion loop of `ElevateDegree` (b_spline.inl:393-445). -/
def BSpline.ElevateDegree.insertion (dimension : Int) (coefficients : List (List ℚ))
    (number_of_coordinates_in_slice : List Int) (maximum_interior_coordinate : Int)
    (state : ElevationState) (interior_coordinate : Int) : ElevationState :=
  let current_coefficients := coefficientSet coefficients interior_coordinate
  let number_of_coordinates := stepAt state.number_of_coordinates dimension.toNat 1
  let result := (Index_.FirstToBehind number_of_coordinates_in_slice).foldl
    (BSpline.ElevateDegree.insert dimension state.last_coordinate
      maximum_interior_coordinate interior_coordinate current_coefficients
      number_of_coordinates)
    (state.vector_space, state.coordinate)
  { state with vector_space := result.1, coordinate := result.2,
               number_of_coordinates := number_of_coordinates }

/-- One pass of the replacement loop of `ElevateDegree` (b_spline.inl:446-484). -/
def BSpline.ElevateDegree.replacement (dimension : Int) (coefficients : List (List ℚ))
    (number_of_coordinates_in_slice : List Int)
    (state : ElevationState) (interior_coordinate : Int) : ElevationState :=
  let current_coefficients := coefficientSet coefficients interior_coordinate
  let last_coordinate := state.last_coordinate - 1
  let result := (Index_.FirstToBehind number_of_coordinates_in_slice).foldl
    (BSpline.ElevateDegree.replace dimension last_coordinate current_coefficients
      state.number_of_coordinates)
    (state.vector_space, state.coordinate)
  { state with vector_space := result.1, coordinate := result.2,
               last_coordinate := last_coordinate }

/-- The body of the segment loop of `ElevateDegree` (b_spline.inl:387-485). -/
def BSpline.ElevateDegree.segment (dimension multiplicity last_segment_coordinate : Int)
    (coefficients : List (List ℚ)) (number_of_coordinates_in_slice : List Int)
    (state : ElevationState) (segment : Int) : ElevationState :=
  let maximum_interior_coordinate := (coefficients.length : Int) - 1
  let last_coordinate := ((segment + 1) * last_segment_coordinate) + (segment * multiplicity)
  let state := (descending maximum_interior_coordinate (last_segment_coordinate - 1)).foldl
    (BSpline.ElevateDegree.insertion dimension coefficients number_of_coordinates_in_slice
      maximum_interior_coordinate)
    { state with last_coordinate := last_coordinate }
  (descending (min maximum_interior_coordinate (last_segment_coordinate - 2)) 0).foldl
    (BSpline.ElevateDegree.replacement dimension coefficients number_of_coordinates_in_slice)
    state

/-- `BSpline::ElevateDegree(dimension, multiplicity, tolerance)`
(b_spline.inl:348-487). -/
def BSpline.ElevateDegree {PS : Type} (ops : ParameterSpaceOps PS) (NDEBUG : Bool)
    (kEpsilon : ℚ) (spline : BSpline PS) (dimension : Int) (multiplicity : Int)
    (tolerance : ℚ) : Except Error (BSpline PS) := do
  if ¬ NDEBUG then
    (do
      ThrowIfNamedIntegerIsOutOfBounds dimension (spline.parametric_dimensionality_ - 1)
      ThrowIfToleranceIsNegative tolerance).mapError
      (rethrow "bsplinelib::splines::BSpline::ElevateDegree" dimension)
  let vector_space_dim := spline.vector_space_.Dim
  let coordinate := Storage.owned (List.replicate vector_space_dim 0)
  let ((number_of_segments, knots_inserted), spline) ←
    BSpline.MakeBezier ops NDEBUG kEpsilon spline dimension tolerance
  let number_of_coordinates := ops.GetNumberOfBasisFunctions spline.parameter_space_
  let (parameter_space, last_segment_coordinate, coefficients) ←
    ops.ElevateDegree spline.parameter_space_ dimension multiplicity
  let number_of_coordinates_in_slice :=
    number_of_coordinates.set dimension.toNat Length.slice
  let state := (ascending 0 (number_of_segments - 1)).foldl
    (BSpline.ElevateDegree.segment dimension multiplicity last_segment_coordinate
      coefficients number_of_coordinates_in_slice)
    { vector_space := spline.vector_space_, coordinate := coordinate,
      number_of_coordinates := number_of_coordinates, last_coordinate := 0 }
  BSpline.CoarsenKnots ops NDEBUG kEpsilon
    { spline with parameter_space_ := parameter_space, vector_space_ := state.vector_space }
    dimension knots_inserted tolerance

/-- The body of the `for_each` of `ReduceDegree` (b_spline.inl:553-566,
603-616): `tmp_coordinate = coefficient * P[--current_coordinate]`, then
`view_coordinate.Subtract(tmp_coordinate)`, written to the row `view`. -/
def BSpline.ReduceDegree.accumulate (dimension view : Int)
    (state : VectorSpace × Index_) (coefficient : ℚ) : VectorSpace × Index_ :=
  let vector_space := state.1
  let current_coordinate := state.2.Decrement dimension
  let tmp_coordinate := Array.MultiplyAssign (List.replicate vector_space.Dim 0) coefficient
    (vector_space.CoordinateBegin current_coordinate.GetIndex1d)
  (vector_space.Replace view
      (Array.Subtract (vector_space.CoordinateBegin view) tmp_coordinate),
    current_coordinate)

/-- The body of the slice loop of the replacement loop of `ReduceDegree`
(b_spline.inl:543-572). -/
def BSpline.ReduceDegree.replace (dimension coordinate_index : Int)
    (current_coefficients : List ℚ) (number_of_coordinates : List Int)
    (vector_space : VectorSpace) (slice_coordinate : Index_) : VectorSpace :=
  let coordinate_value := slice_coordinate.GetIndex.set dimension.toNat coordinate_index
  let current_coordinate : Index_ :=
    { length_ := number_of_coordinates, value_ := coordinate_value }
  let replacement_position := current_coordinate.GetIndex1d
  match current_coefficients.getLast? with
  | none => vector_space
  | some back =>
      let vector_space := (current_coefficients.dropLast.foldl
        (BSpline.ReduceDegree.accumulate dimension replacement_position)
        (vector_space, current_coordinate)).1
      vector_space.Replace replacement_position
        (Array.Multiply (vector_space.CoordinateBegin replacement_position) (1 / back))

/-- The body of the slice loop of the erasure loop of `ReduceDegree`
(b_spline.inl:587-639): `none` when the tolerance check fails. -/
def BSpline.ReduceDegree.erase (dimension coordinate_index : Int)
    (maximum_interior_coordinate interior_coordinate : Int)
    (current_coefficients : List ℚ) (previous_number_of_coordinates : List Int)
    (tolerance_reduction : ℚ) (vector_space : VectorSpace) (slice_coordinate : Index_) :
    Option VectorSpace :=
  let coordinate_value := slice_coordinate.GetIndex.set dimension.toNat coordinate_index
  let current_coordinate : Index_ :=
    { length_ := previous_number_of_coordinates, value_ := coordinate_value }
  let erasure_position := current_coordinate.GetIndex1d
  let current_last_coordinate_value := stepAt coordinate_value dimension.toNat
    (maximum_interior_coordinate - interior_coordinate)
  match current_coefficients.reverse with
  | [] => some vector_space
  | back :: remaining =>
      let vector_space := (remaining.foldl
        (BSpline.ReduceDegree.accumulate dimension erasure_position)
        (vector_space, current_coordinate)).1
      let vector_space := vector_space.Replace erasure_position
        (Array.Multiply (vector_space.CoordinateBegin erasure_position) (1 / back))
      let vector_space := vector_space.Replace erasure_position
        (Array.Subtract (vector_space.CoordinateBegin erasure_position)
          (vector_space.CoordinateBegin
            ((slice_coordinate.add current_last_coordinate_value).GetIndex1d + 1)))
      if Array.NormL2LessOrEqual (vector_space.CoordinateBegin erasure_position)
          tolerance_reduction then
        some (vector_space.Erase erasure_position)
      else none

/-- The slice loop of the erasure loop of `ReduceDegree` (b_spline.inl:583-640),
over the slices from `Last` to `Before`. -/
def BSpline.ReduceDegree.eraseSlices (dimension coordinate_index : Int)
    (maximum_interior_coordinate interior_coordinate : Int)
    (current_coefficients : List ℚ) (previous_number_of_coordinates : List Int)
    (tolerance_reduction : ℚ) : VectorSpace → List Index_ → Option VectorSpace
  | vector_space, [] => some vector_space
  | vector_space, slice_coordinate :: rest =>
      match BSpline.ReduceDegree.erase dimension coordinate_index
          maximum_interior_coordinate interior_coordinate current_coefficients
          previous_number_of_coordinates tolerance_reduction vector_space
          slice_coordinate with
      | none => none
      | some vector_space =>
          BSpline.ReduceDegree.eraseSlices dimension coordinate_index
            maximum_interior_coordinate interior_coordinate current_coefficients
            previous_number_of_coordinates tolerance_reduction vector_space rest

/-- The replacement loop of `ReduceDegree` (b_spline.inl:535-575) over the
interior coordinates given; the state is the vector space and
`coordinate_index`. -/
def BSpline.ReduceDegree.replacement (dimension : Int) (coefficients : List (List ℚ))
    (number_of_coordinates_in_slice number_of_coordinates : List Int)
    (state : VectorSpace × Int) (interior_coordinate : Int) : VectorSpace × Int :=
  let current_coefficients := coefficientSet coefficients interior_coordinate
  ((Index_.LastToBefore number_of_coordinates_in_slice).foldl
      (BSpline.ReduceDegree.replace dimension state.2 current_coefficients
        number_of_coordinates)
      state.1,
    state.2 + 1)

/-- The erasure loop of `ReduceDegree` (b_spline.inl:577-641) over the interior
coordinates given: `none` when a tolerance check fails, else the vector space
and `number_of_coordinates`. -/
def BSpline.ReduceDegree.erasure (dimension coordinate_index : Int)
    (coefficients : List (List ℚ)) (number_of_coordinates_in_slice : List Int)
    (maximum_interior_coordinate : Int) (tolerance_reduction : ℚ) :
    VectorSpace → List Int → List Int → Option (VectorSpace × List Int)
  | vector_space, number_of_coordinates, [] => some (vector_space, number_of_coordinates)
  | vector_space, number_of_coordinates, interior_coordinate :: rest =>
      let current_coefficients := coefficientSet coefficients interior_coordinate
      let previous_number_of_coordinates := number_of_coordinates
      let number_of_coordinates := stepAt number_of_coordinates dimension.toNat (-1)
      match BSpline.ReduceDegree.eraseSlices dimension coordinate_index
          maximum_interior_coordinate interior_coordinate current_coefficients
          previous_number_of_coordinates tolerance_reduction vector_space
          (Index_.LastToBefore number_of_coordinates_in_slice) with
      | none => none
      | some vector_space =>
          BSpline.ReduceDegree.erasure dimension coordinate_index coefficients
            number_of_coordinates_in_slice maximum_interior_coordinate tolerance_reduction
            vector_space number_of_coordinates rest

/-- The segment loop of `ReduceDegree` (b_spline.inl:532-642) over the segments
given (from the last to the first): `none` when a tolerance check fails. -/
def BSpline.ReduceDegree.segments (dimension last_segment_coordinate : Int)
    (coefficients : List (List ℚ)) (number_of_coordinates_in_slice : List Int)
    (tolerance_reduction : ℚ) :
    VectorSpace → List Int → List Int → Option (VectorSpace × List Int)
  | vector_space, number_of_coordinates, [] => some (vector_space, number_of_coordinates)
  | vector_space, number_of_coordinates, segment :: rest =>
      let elevated_degree := (coefficients.length : Int) + 1
      let coordinate_index := 1 + (segment * elevated_degree)
      let replaced := (ascending 0 (last_segment_coordinate - 2)).foldl
        (BSpline.ReduceDegree.replacement dimension coefficients
          number_of_coordinates_in_slice number_of_coordinates)
        (vector_space, coordinate_index)
      let maximum_interior_coordinate := elevated_degree - 2
      match BSpline.ReduceDegree.erasure dimension replaced.2 coefficients
          number_of_coordinates_in_slice maximum_interior_coordinate tolerance_reduction
          replaced.1 number_of_coordinates
          (ascending (max 0 (last_segment_coordinate - 1)) maximum_interior_coordinate) with
      | none => none
      | some state =>
          BSpline.ReduceDegree.segments dimension last_segment_coordinate coefficients
            number_of_coordinates_in_slice tolerance_reduction state.1 state.2 rest

/-- `BSpline::ReduceDegree(dimension, tolerance_reduction, multiplicity,
tolerance)` (b_spline.inl:489-645): the returned flag and the spline after the
call. -/
def BSpline.ReduceDegree {PS : Type} (ops : ParameterSpaceOps PS) (NDEBUG : Bool)
    (kEpsilon : ℚ) (spline : BSpline PS) (dimension : Int) (tolerance_reduction : ℚ)
    (multiplicity : Int) (tolerance : ℚ) : Except Error (Bool × BSpline PS) := do
  if ¬ NDEBUG then
    BSpline.RemoveKnot.checks "bsplinelib::splines::BSpline::ReduceDegree" spline dimension
      tolerance_reduction tolerance
  let parameter_space_backup := spline.parameter_space_
  let vector_space_backup := spline.vector_space_
  let ((number_of_segments, knots_inserted), extracted) ←
    BSpline.MakeBezier ops NDEBUG kEpsilon spline dimension tolerance
  let number_of_coordinates := ops.GetNumberOfBasisFunctions extracted.parameter_space_
  let (parameter_space, last_segment_coordinate, coefficients) ←
    ops.ReduceDegree extracted.parameter_space_ dimension multiplicity
  let number_of_coordinates_in_slice :=
    number_of_coordinates.set dimension.toNat Length.slice
  match BSpline.ReduceDegree.segments dimension last_segment_coordinate coefficients
      number_of_coordinates_in_slice tolerance_reduction extracted.vector_space_
      number_of_coordinates (descending (number_of_segments - 1) 0) with
  | none =>
      pure (false,
        { spline with parameter_space_ := parameter_space_backup,
                      vector_space_ := vector_space_backup })
  | some state =>
      let coarsened ← BSpline.CoarsenKnots ops NDEBUG kEpsilon
        { extracted with parameter_space_ := parameter_space, vector_space_ := state.1 }
        dimension knots_inserted tolerance
      pure (true, coarsened)

/-! ## The editing operations as mutations of the spline

The definitions above return the spline after the call, and nothing of it when
the call throws.  Those of this section keep it: each returns the spline as the
call leaves it, by a return or by a throw, next to what the call returned or
threw. -/

/-- Modelled from the spec: the parameter space that a member of
`ParameterSpace` leaves when it throws (its code is not under src/).  §7:
violations are "detected eagerly before any mutation", so it is the parameter
space before the call. -/
def ParameterSpaceOps.afterThrow {PS : Type} (_ops : ParameterSpaceOps PS)
    (parameter_space : PS) : PS :=
  parameter_space

/-- The block `#ifndef NDEBUG ... #endif` of a function: `checks` when the macro
is not defined. -/
def precondition (NDEBUG : Bool) (checks : Except Error Unit) : Except Error Unit :=
  if NDEBUG then .ok () else checks

/-- `BSpline::InsertKnot` (b_spline.inl:131-221), with the spline it leaves. -/
def BSpline.InsertKnot.inPlace {PS : Type} (ops : ParameterSpaceOps PS) (NDEBUG : Bool)
    (spline : BSpline PS) (dimension : Int) (knot : ℚ) (multiplicity : Int)
    (tolerance : ℚ) : BSpline PS × Except Error Unit :=
  match precondition NDEBUG (BSpline.InsertKnot.checks ops spline dimension knot tolerance) with
  | .error exception => (spline, .error exception)
  | .ok _ =>
      let number_of_coordinates := ops.GetNumberOfBasisFunctions spline.parameter_space_
      match ops.InsertKnot spline.parameter_space_ dimension knot multiplicity tolerance with
      | .error exception =>
          ({ spline with parameter_space_ := ops.afterThrow spline.parameter_space_ },
            .error exception)
      | .ok (parameter_space, start_value, coefficients) =>
          let state := coefficients.foldl (BSpline.InsertKnot.round dimension start_value)
            (spline.vector_space_, number_of_coordinates)
          ({ spline with parameter_space_ := parameter_space, vector_space_ := state.1 },
            .ok ())

/-- The vector space that the replacement loop of `RemoveKnot` leaves for one
`slice_coordinate` (b_spline.inl:275-306), which is the vector space at the
tolerance check of that slice (b_spline.inl:331). -/
def BSpline.RemoveKnot.replaced (dimension start_value : Int)
    (current_coefficients : List ℚ) (previous_number_of_coordinates : List Int)
    (vector_space : VectorSpace) (slice_coordinate : Index_) : VectorSpace :=
  let coordinate_value := slice_coordinate.GetIndex.set dimension.toNat
    (start_value - (current_coefficients.length : Int))
  let coordinate : Index_ :=
    { length_ := previous_number_of_coordinates, value_ := coordinate_value }
  (current_coefficients.dropLast.foldl (BSpline.RemoveKnot.replace dimension)
    (vector_space, coordinate, coordinate.GetIndex1d)).1

/-- The vector space when a slice of the slice loop of `RemoveKnot` fails its
tolerance check (b_spline.inl:272-343): the slices before it are done and the
replacement loop of the failing slice has run. -/
def BSpline.RemoveKnot.slicesAtFailure (dimension start_value : Int)
    (current_coefficients : List ℚ) (previous_number_of_coordinates : List Int)
    (tolerance_removal : ℚ) : VectorSpace → List Index_ → VectorSpace
  | vector_space, [] => vector_space
  | vector_space, slice_coordinate :: rest =>
      match BSpline.RemoveKnot.slice dimension start_value current_coefficients
          previous_number_of_coordinates tolerance_removal vector_space slice_coordinate with
      | none =>
          BSpline.RemoveKnot.replaced dimension start_value current_coefficients
            previous_number_of_coordinates vector_space slice_coordinate
      | some vector_space =>
          BSpline.RemoveKnot.slicesAtFailure dimension start_value current_coefficients
            previous_number_of_coordinates tolerance_removal vector_space rest

/-- The vector space when a round of the loop over the removals of `RemoveKnot`
fails (b_spline.inl:264-344), before it is restored from the backup. -/
def BSpline.RemoveKnot.loopAtFailure (dimension start_value : Int)
    (coefficients : List (List ℚ)) (tolerance_removal : ℚ) :
    Nat → VectorSpace → List Int → VectorSpace
  | 0, vector_space, _ => vector_space
  | removal + 1, vector_space, number_of_coordinates =>
      let current_coefficients := coefficients.getD removal []
      let number_of_coordinates_in_slice :=
        number_of_coordinates.set dimension.toNat Length.slice
      let previous_number_of_coordinates := number_of_coordinates
      let number_of_coordinates := stepAt number_of_coordinates dimension.toNat (-1)
      match BSpline.RemoveKnot.slices dimension start_value current_coefficients
          previous_number_of_coordinates tolerance_removal vector_space
          (Index_.LastToBefore number_of_coordinates_in_slice) with
      | none =>
          BSpline.RemoveKnot.slicesAtFailure dimension start_value current_coefficients
            previous_number_of_coordinates tolerance_removal vector_space
            (Index_.LastToBefore number_of_coordinates_in_slice)
      | some vector_space =>
          BSpline.RemoveKnot.loopAtFailure dimension start_value coefficients
            tolerance_removal removal vector_space number_of_coordinates

/-- `BSpline::RemoveKnot` (b_spline.inl:223-346), with the spline it leaves.
When the call of `RemoveKnot` on `parameter_space_backup` throws
(b_spline.inl:335-338), neither the parameter space nor the vector space has
been restored. -/
def BSpline.RemoveKnot.inPlace {PS : Type} (ops : ParameterSpaceOps PS) (NDEBUG : Bool)
    (spline : BSpline PS) (dimension : Int) (knot tolerance_removal : ℚ)
    (multiplicity : Int) (tolerance : ℚ) : BSpline PS × Except Error Int :=
  match precondition NDEBUG
      (BSpline.RemoveKnot.checks "bsplinelib::splines::BSpline::RemoveKnot" spline dimension
        tolerance_removal tolerance) with
  | .error exception => (spline, .error exception)
  | .ok _ =>
      let parameter_space_backup := spline.parameter_space_
      let number_of_coordinates := ops.GetNumberOfBasisFunctions spline.parameter_space_
      match ops.RemoveKnot spline.parameter_space_ dimension knot multiplicity tolerance with
      | .error exception =>
          ({ spline with parameter_space_ := ops.afterThrow spline.parameter_space_ },
            .error exception)
      | .ok (parameter_space, start_value, coefficients) =>
          let removals := coefficients.length
          match BSpline.RemoveKnot.loop dimension start_value coefficients tolerance_removal
              removals spline.vector_space_ number_of_coordinates with
          | .failed removal vector_space_backup =>
              let successful_removals := multiplicity - removal
              match ops.RemoveKnot parameter_space_backup dimension knot successful_removals
                  tolerance with
              | .error exception =>
                  ({ spline with
                      parameter_space_ := parameter_space,
                      vector_space_ :=
                        BSpline.RemoveKnot.loopAtFailure dimension start_value coefficients
                          tolerance_removal removals spline.vector_space_
                          number_of_coordinates },
                    .error exception)
              | .ok (parameter_space_backup, _) =>
                  ({ spline with parameter_space_ := parameter_space_backup,
                                 vector_space_ := vector_space_backup },
                    .ok successful_removals)
          | .completed vector_space =>
              ({ spline with parameter_space_ := parameter_space,
                             vector_space_ := vector_space },
                .ok (removals : Int))

/-- Modelled from the spec: `Spline::RefineKnots(dimension, knots)` (see
`BSpline.RefineKnots`), with the spline it leaves: when an insertion throws, the
insertions before it stay. -/
def BSpline.RefineKnots.inPlace {PS : Type} (ops : ParameterSpaceOps PS) (NDEBUG : Bool)
    (kEpsilon : ℚ) (dimension : Int) : BSpline PS → List ℚ → BSpline PS × Except Error Unit
  | spline, [] => (spline, .ok ())
  | spline, knot :: knots =>
      match BSpline.InsertKnot.inPlace ops NDEBUG spline dimension knot 1 kEpsilon with
      | (spline, .error exception) => (spline, .error exception)
      | (spline, .ok _) => BSpline.RefineKnots.inPlace ops NDEBUG kEpsilon dimension spline knots

/-- Modelled from the spec: `Spline::CoarsenKnots(dimension, knots,
tolerance_removal)` (see `BSpline.CoarsenKnots`), with the spline it leaves:
when a removal throws, the removals before it stay. -/
def BSpline.CoarsenKnots.inPlace {PS : Type} (ops : ParameterSpaceOps PS) (NDEBUG : Bool)
    (kEpsilon : ℚ) (dimension : Int) (tolerance_removal : ℚ) :
    BSpline PS → List ℚ → BSpline PS × Except Error Unit
  | spline, [] => (spline, .ok ())
  | spline, knot :: knots =>
      match BSpline.RemoveKnot.inPlace ops NDEBUG spline dimension knot tolerance_removal 1
          kEpsilon with
      | (spline, .error exception) => (spline, .error exception)
      | (spline, .ok _) =>
          BSpline.CoarsenKnots.inPlace ops NDEBUG kEpsilon dimension tolerance_removal spline
            knots

/-- `BSpline::MakeBezier` (b_spline.inl:654-665), with the spline it leaves. -/
def BSpline.MakeBezier.inPlace {PS : Type} (ops : ParameterSpaceOps PS) (NDEBUG : Bool)
    (kEpsilon : ℚ) (spline : BSpline PS) (dimension : Int) (tolerance : ℚ) :
    BSpline PS × Except Error (Int × List ℚ) :=
  match ops.DetermineBezierExtractionKnots spline.parameter_space_ dimension tolerance with
  | .error exception =>
      ({ spline with parameter_space_ := ops.afterThrow spline.parameter_space_ },
        .error exception)
  | .ok bezier_information =>
      match BSpline.RefineKnots.inPlace ops NDEBUG kEpsilon dimension spline
          bezier_information.2 with
      | (spline, .error exception) => (spline, .error exception)
      | (spline, .ok _) => (spline, .ok bezier_information)

/-- The `try` block of `ElevateDegree` (b_spline.inl:361-370). -/
def BSpline.ElevateDegree.checks {PS : Type} (spline : BSpline PS) (dimension : Int)
    (tolerance : ℚ) : Except Error Unit :=
  (do
    ThrowIfNamedIntegerIsOutOfBounds dimension (spline.parametric_dimensionality_ - 1)
    ThrowIfToleranceIsNegative tolerance).mapError
    (rethrow "bsplinelib::splines::BSpline::ElevateDegree" dimension)

/-- `BSpline::ElevateDegree` (b_spline.inl:348-487), with the spline it
leaves. -/
def BSpline.ElevateDegree.inPlace {PS : Type} (ops : ParameterSpaceOps PS) (NDEBUG : Bool)
    (kEpsilon : ℚ) (spline : BSpline PS) (dimension : Int) (multiplicity : Int)
    (tolerance : ℚ) : BSpline PS × Except Error Unit :=
  match precondition NDEBUG (BSpline.ElevateDegree.checks spline dimension tolerance) with
  | .error exception => (spline, .error exception)
  | .ok _ =>
      let vector_space_dim := spline.vector_space_.Dim
      let coordinate := Storage.owned (List.replicate vector_space_dim 0)
      match BSpline.MakeBezier.inPlace ops NDEBUG kEpsilon spline dimension tolerance with
      | (spline, .error exception) => (spline, .error exception)
      | (spline, .ok (number_of_segments, knots_inserted)) =>
          let number_of_coordinates := ops.GetNumberOfBasisFunctions spline.parameter_space_
          match ops.ElevateDegree spline.parameter_space_ dimension multiplicity with
          | .error exception =>
              ({ spline with parameter_space_ := ops.afterThrow spline.parameter_space_ },
                .error exception)
          | .ok (parameter_space, last_segment_coordinate, coefficients) =>
              let number_of_coordinates_in_slice :=
                number_of_coordinates.set dimension.toNat Length.slice
              let state := (ascending 0 (number_of_segments - 1)).foldl
                (BSpline.ElevateDegree.segment dimension multiplicity last_segment_coordinate
                  coefficients number_of_coordinates_in_slice)
                { vector_space := spline.vector_space_, coordinate := coordinate,
                  number_of_coordinates := number_of_coordinates, last_coordinate := 0 }
              BSpline.CoarsenKnots.inPlace ops NDEBUG kEpsilon dimension tolerance
                { spline with parameter_space_ := parameter_space,
                              vector_space_ := state.vector_space }
                knots_inserted

/-- `BSpline::ReduceDegree` (b_spline.inl:489-645), with the spline it
leaves. -/
def BSpline.ReduceDegree.inPlace {PS : Type} (ops : ParameterSpaceOps PS) (NDEBUG : Bool)
    (kEpsilon : ℚ) (spline : BSpline PS) (dimension : Int) (tolerance_reduction : ℚ)
    (multiplicity : Int) (tolerance : ℚ) : BSpline PS × Except Error Bool :=
  match precondition NDEBUG
      (BSpline.RemoveKnot.checks "bsplinelib::splines::BSpline::ReduceDegree" spline dimension
        tolerance_reduction tolerance) with
  | .error exception => (spline, .error exception)
  | .ok _ =>
      let parameter_space_backup := spline.parameter_space_
      let vector_space_backup := spline.vector_space_
      match BSpline.MakeBezier.inPlace ops NDEBUG kEpsilon spline dimension tolerance with
      | (extracted, .error exception) => (extracted, .error exception)
      | (extracted, .ok (number_of_segments, knots_inserted)) =>
          let number_of_coordinates :=
            ops.GetNumberOfBasisFunctions extracted.parameter_space_
          match ops.ReduceDegree extracted.parameter_space_ dimension multiplicity with
          | .error exception =>
              ({ extracted with
                  parameter_space_ := ops.afterThrow extracted.parameter_space_ },
                .error exception)
          | .ok (parameter_space, last_segment_coordinate, coefficients) =>
              let number_of_coordinates_in_slice :=
                number_of_coordinates.set dimension.toNat Length.slice
              match BSpline.ReduceDegree.segments dimension last_segment_coordinate
                  coefficients number_of_coordinates_in_slice tolerance_reduction
                  extracted.vector_space_ number_of_coordinates
                  (descending (number_of_segments - 1) 0) with
              | none =>
                  ({ spline with parameter_space_ := parameter_space_backup,
                                 vector_space_ := vector_space_backup },
                    .ok false)
              | some state =>
                  match BSpline.CoarsenKnots.inPlace ops NDEBUG kEpsilon dimension tolerance
                      { extracted with parameter_space_ := parameter_space,
                                       vector_space_ := state.1 }
                      knots_inserted with
                  | (coarsened, .error exception) => (coarsened, .error exception)
                  | (coarsened, .ok _) => (coarsened, .ok true)

/-- What a call gives to its caller: the value and the spline when it returned,
the exception alone when it threw. -/
def returned {PS α : Type} : BSpline PS × Except Error α → Except Error (α × BSpline PS)
  | (spline, .ok value) => .ok (value, spline)
  | (_, .error exception) => .error exception

/-! ## A parameter space of knot vectors

`ParameterSpace` and `KnotVector` are not under src/.  The definitions of this
section give one implementation of `ParameterSpaceOps`, used to run the kernel
on concrete splines. -/

/-- Modelled from the spec: `ParameterSpace` (§3): the tensor product of one
knot vector and one degree per parametric dimension. -/
structure ParameterSpace where
  /-- The non-decreasing knot sequence of each dimension. -/
  knot_vectors_ : List (List ℚ)
  /-- The degree of each dimension. -/
  degrees_ : List Int
deriving DecidableEq, Repr

/-- The knot at an index (zero outside the vector). -/
def KnotVector.at (knots : List ℚ) (i : Int) : ℚ :=
  if 0 ≤ i then knots.getD i.toNat 0 else 0

/-- Modelled from the spec: the multiplicity of a knot (Glossary: "repeat count
of a knot value"), counted within the tolerance. -/
def KnotVector.DetermineMultiplicity (knots : List ℚ) (knot tolerance : ℚ) : Int :=
  (knots.filter (fun u => decide (|u - knot| ≤ tolerance))).length

/-- Modelled from the spec: the knot span of a parametric coordinate (§4.1,
"search over sorted knots, tolerant at span boundaries"): the index of the last
knot not above the coordinate; at the upper boundary of the domain, the index
of the last knot below it (§3: the final span is closed on the right). -/
def KnotVector.FindSpan (knots : List ℚ) (knot tolerance : ℚ) : Int :=
  if |knots.getLastD 0 - knot| ≤ tolerance then
    ((knots.filter (fun u => decide (u + tolerance < knot))).length : Int) - 1
  else
    ((knots.filter (fun u => decide (u ≤ knot + tolerance))).length : Int) - 1

/-- Modelled from the spec: the blending coefficients of one insertion of `knot`
into a knot vector of degree `degree` (b_spline.inl:131 "Cf. NURBS book Eq.
(5.15)"): the ratios `(knot - u_i) / (u_{i + degree} - u_i)` for `i` from
`span - degree + 1` to `span - multiplicity`, in increasing order of `i`. -/
def KnotVector.KnotRatios (knots : List ℚ) (degree : Int) (knot tolerance : ℚ) : List ℚ :=
  let span := KnotVector.FindSpan knots knot tolerance
  let previous_multiplicity := KnotVector.DetermineMultiplicity knots knot tolerance
  (List.range (degree - previous_multiplicity).toNat).map
    (fun (j : Nat) =>
      let i := span - degree + 1 + (j : Int)
      (knot - KnotVector.at knots i) / (KnotVector.at knots (i + degree) - KnotVector.at knots i))

/-- Modelled from the spec: `KnotVector::Insert` of one knot: the knot is placed
behind its span, which keeps the sequence non-decreasing. -/
def KnotVector.Insert (knots : List ℚ) (knot tolerance : ℚ) : List ℚ :=
  let position := (KnotVector.FindSpan knots knot tolerance + 1).toNat
  knots.take position ++ knot :: knots.drop position

/-- Modelled from the spec: the coefficient sets of `insertions` successive
insertions of `knot` (§4.1 "computes blending coefficients"), one set for each
insertion, each computed on the knot vector left by the insertions before it,
and the knot vector after all of them. -/
def KnotVector.InsertionCoefficients (degree : Int) (knot tolerance : ℚ) :
    Nat → List ℚ → List (List ℚ) × List ℚ
  | 0, knots => ([], knots)
  | insertions + 1, knots =>
      let rest := KnotVector.InsertionCoefficients degree knot tolerance insertions
        (KnotVector.Insert knots knot tolerance)
      (KnotVector.KnotRatios knots degree knot tolerance :: rest.1, rest.2)

/-- Modelled from the spec: the start index that goes with the coefficient sets
(§2 "returning a start index and blending coefficients"): `span - multiplicity`,
the position at which Eq. (5.15) places the new control point. -/
def KnotVector.InsertionStart (knots : List ℚ) (knot tolerance : ℚ) : Int :=
  KnotVector.FindSpan knots knot tolerance
    - KnotVector.DetermineMultiplicity knots knot tolerance

/-- Modelled from the spec: `KnotVector::Remove`: removes the first `removals`
knots equal to `knot` within the tolerance. -/
def KnotVector.Remove (knot tolerance : ℚ) : Nat → List ℚ → List ℚ
  | 0, knots => knots
  | _ + 1, [] => []
  | removals + 1, u :: knots =>
      if |u - knot| ≤ tolerance then KnotVector.Remove knot tolerance removals knots
      else u :: KnotVector.Remove knot tolerance (removals + 1) knots

/-- The runs of equal knots: each distinct knot with its multiplicity. -/
def KnotVector.Runs : List ℚ → List (ℚ × Nat)
  | [] => []
  | u :: knots =>
      match KnotVector.Runs knots with
      | (v, n) :: runs => if u = v then (v, n + 1) :: runs else (u, 1) :: (v, n) :: runs
      | [] => [(u, 1)]

/-- The knot vector of a list of runs. -/
def KnotVector.OfRuns (runs : List (ℚ × Nat)) : List ℚ :=
  runs.flatMap (fun run => List.replicate run.2 run.1)

/-- Modelled from the spec: the Bezier information of §4.1 (`MakeBezier`:
"inserts knots so every interior knot reaches multiplicity `degree`, producing
independent Bezier segments; returns segment count and the exact knots
inserted"): the number of segments is the number of interior knots plus one, and
an interior knot of multiplicity `s` is listed `degree - s` times. -/
def KnotVector.DetermineBezierExtractionKnots (knots : List ℚ) (degree : Int) :
    Int × List ℚ :=
  let interior := (KnotVector.Runs knots).tail.dropLast
  ((interior.length : Int) + 1,
    interior.flatMap (fun run => List.replicate (degree - (run.2 : Int)).toNat run.1))

/-- Modelled from the spec: the binomial blending coefficients of a Bezier
segment of degree `degree` elevated by `multiplicity` (§4.1 "binomial blending
coefficients"; b_spline.inl:348 "Cf. NURBS book Eq. (5.36)"): the set of the
`i`-th control point of the elevated segment holds, for `j` from
`max(0, i - multiplicity)` to `min(degree, i)`, the ratio
`C(degree, j) * C(multiplicity, i - j) / C(degree + multiplicity, i)`; the sets
are those of the interior points `i = 1, ..., degree + multiplicity - 1`. -/
def BinomialRatios (degree multiplicity : Nat) : List (List ℚ) :=
  (List.range (degree + multiplicity - 1)).map
    (fun (n : Nat) =>
      let i := n + 1
      (List.range (min degree i + 1 - (i - multiplicity))).map
        (fun (m : Nat) =>
          let j := (i - multiplicity) + m
          ((Nat.choose degree j * Nat.choose multiplicity (i - j) : Nat) : ℚ)
            / ((Nat.choose (degree + multiplicity) i : Nat) : ℚ)))

/-- Reads the entry `dimension` of a per-dimension tuple. -/
def perDimension {α : Type} (values : List α) (dimension : Int) (default : α) : α :=
  if 0 ≤ dimension then values.getD dimension.toNat default else default

/-- Modelled from the spec: `ParameterSpace::GetNumberOfBasisFunctions` (§3:
`basis_function_count = len(knots) - p - 1`), per dimension. -/
def ParameterSpace.GetNumberOfBasisFunctions (parameter_space : ParameterSpace) : List Int :=
  List.zipWith (fun knots degree => (knots.length : Int) - degree - 1)
    parameter_space.knot_vectors_ parameter_space.degrees_

/-- Modelled from the spec: the precondition checks of the members of
`ParameterSpace` (§4.2: OutOfRange for a dimension outside
`[0, parametric_dimensionality)`, InvalidArgument for a negative tolerance). -/
def ParameterSpace.checks (parameter_space : ParameterSpace) (dimension : Int)
    (tolerance : ℚ) : Except Error Unit := do
  ThrowIfNamedIntegerIsOutOfBounds dimension
    ((parameter_space.knot_vectors_.length : Int) - 1)
  ThrowIfToleranceIsNegative tolerance

/-- Modelled from the spec: `ParameterSpace::
ThrowIfParametricCoordinateIsOutsideScope` (§7: a knot outside the valid
parametric domain beyond tolerance is a DomainError). -/
def ParameterSpace.ThrowIfParametricCoordinateIsOutsideScope
    (parameter_space : ParameterSpace) (dimension : Int) (knot tolerance : ℚ) :
    Except Error Unit :=
  let knots := perDimension parameter_space.knot_vectors_ dimension []
  if knot + tolerance < knots.headD 0 ∨ knots.getLastD 0 + tolerance < knot then
    .error (.DomainError "The parametric coordinate is outside of the knot vector's scope.")
  else .ok ()

/-- Modelled from the spec: `ParameterSpace::InsertKnot` (§4.1, §4.2): inserts
the knot `multiplicity` times into the knot vector of the dimension and returns
the start index and the coefficient sets; fails when the resulting multiplicity
would exceed `degree + 1`. -/
def ParameterSpace.InsertKnot (NDEBUG : Bool) (parameter_space : ParameterSpace)
    (dimension : Int) (knot : ℚ) (multiplicity : Int) (tolerance : ℚ) :
    Except Error (ParameterSpace × Int × List (List ℚ)) := do
  let knots := perDimension parameter_space.knot_vectors_ dimension []
  let degree := perDimension parameter_space.degrees_ dimension 0
  if ¬ NDEBUG then
    parameter_space.checks dimension tolerance
    parameter_space.ThrowIfParametricCoordinateIsOutsideScope dimension knot tolerance
    if degree + 1 < KnotVector.DetermineMultiplicity knots knot tolerance + multiplicity then
      throw (.DomainError "The multiplicity of the knot would exceed the degree plus one.")
  let information :=
    KnotVector.InsertionCoefficients degree knot tolerance multiplicity.toNat knots
  pure ({ parameter_space with
            knot_vectors_ := parameter_space.knot_vectors_.set dimension.toNat information.2 },
        KnotVector.InsertionStart knots knot tolerance, information.1)

/-- Modelled from the spec: `ParameterSpace::RemoveKnot` (§4.1: "inverse of
insertion; attempts up to `multiplicity` removals"): removes as many occurrences
of the knot as requested and present, and returns the start index and the
coefficient sets of inserting them again, one set for each knot removed. -/
def ParameterSpace.RemoveKnot (NDEBUG : Bool) (parameter_space : ParameterSpace)
    (dimension : Int) (knot : ℚ) (multiplicity : Int) (tolerance : ℚ) :
    Except Error (ParameterSpace × Int × List (List ℚ)) := do
  let knots := perDimension parameter_space.knot_vectors_ dimension []
  let degree := perDimension parameter_space.degrees_ dimension 0
  if ¬ NDEBUG then
    parameter_space.checks dimension tolerance
  let removals :=
    min multiplicity.toNat (KnotVector.DetermineMultiplicity knots knot tolerance).toNat
  let removed := KnotVector.Remove knot tolerance removals knots
  let information := KnotVector.InsertionCoefficients degree knot tolerance removals removed
  pure ({ parameter_space with
            knot_vectors_ := parameter_space.knot_vectors_.set dimension.toNat removed },
        KnotVector.InsertionStart removed knot tolerance, information.1)

/-- Modelled from the spec: `ParameterSpace::ElevateDegree` (§4.1): raises the
degree of the dimension and the multiplicity of each of its knots by
`multiplicity`, and returns the index of the last control point of a Bezier
segment (the degree before the call) and the binomial coefficient sets. -/
def ParameterSpace.ElevateDegree (NDEBUG : Bool) (parameter_space : ParameterSpace)
    (dimension : Int) (multiplicity : Int) :
    Except Error (ParameterSpace × Int × List (List ℚ)) := do
  let knots := perDimension parameter_space.knot_vectors_ dimension []
  let degree := perDimension parameter_space.degrees_ dimension 0
  if ¬ NDEBUG then
    parameter_space.checks dimension 0
  let elevated := KnotVector.OfRuns
    ((KnotVector.Runs knots).map (fun run => (run.1, run.2 + multiplicity.toNat)))
  pure ({ knot_vectors_ := parameter_space.knot_vectors_.set dimension.toNat elevated,
          degrees_ := parameter_space.degrees_.set dimension.toNat (degree + multiplicity) },
        degree, BinomialRatios degree.toNat multiplicity.toNat)

/-- Modelled from the spec: `ParameterSpace::ReduceDegree` (§4.1): lowers the
degree of the dimension and the multiplicity of each of its knots by
`multiplicity`, and returns the index of the last control point of a Bezier
segment of the reduced degree and the binomial coefficient sets of elevating
the reduced degree again. -/
def ParameterSpace.ReduceDegree (NDEBUG : Bool) (parameter_space : ParameterSpace)
    (dimension : Int) (multiplicity : Int) :
    Except Error (ParameterSpace × Int × List (List ℚ)) := do
  let knots := perDimension parameter_space.knot_vectors_ dimension []
  let degree := perDimension parameter_space.degrees_ dimension 0
  if ¬ NDEBUG then
    parameter_space.checks dimension 0
  let reduced := KnotVector.OfRuns
    ((KnotVector.Runs knots).map (fun run => (run.1, run.2 - multiplicity.toNat)))
  pure ({ knot_vectors_ := parameter_space.knot_vectors_.set dimension.toNat reduced,
          degrees_ := parameter_space.degrees_.set dimension.toNat (degree - multiplicity) },
        degree - multiplicity,
        BinomialRatios (degree - multiplicity).toNat multiplicity.toNat)

/-- Modelled from the spec: `ParameterSpace::DetermineBezierExtractionKnots`
(§4.1, `MakeBezier`). -/
def ParameterSpace.DetermineBezierExtractionKnots (NDEBUG : Bool)
    (parameter_space : ParameterSpace) (dimension : Int) (tolerance : ℚ) :
    Except Error (Int × List ℚ) := do
  if ¬ NDEBUG then
    parameter_space.checks dimension tolerance
  pure (KnotVector.DetermineBezierExtractionKnots
    (perDimension parameter_space.knot_vectors_ dimension [])
    (perDimension parameter_space.degrees_ dimension 0))

/-- Modelled from the spec: the degree-0 basis function of the span `i` (§3, §4.1):
the indicator of the half-open span `[u_i, u_{i+1})`, closed on the right
when the span is the final one of the vector. -/
def ZeroDegreeBasisValue (knots : List ℚ) (i : Int) (u : ℚ) : ℚ :=
  if KnotVector.at knots i ≤ u ∧
      (u < KnotVector.at knots (i + 1) ∨
        (u = KnotVector.at knots (i + 1) ∧ KnotVector.at knots (i + 1) = knots.getLastD 0 ∧
          KnotVector.at knots i < KnotVector.at knots (i + 1))) then 1
  else 0

/-- Modelled from the spec: the basis function `i` of degree `degree` (§3:
"defined recursively from two degree-`(p-1)` neighbors (Cox–de Boor)"; §4.1:
combined "via knot-ratio weights"); a ratio with a zero denominator is zero. -/
def BasisValue (knots : List ℚ) : Nat → Int → ℚ → ℚ
  | 0, i, u => ZeroDegreeBasisValue knots i u
  | degree + 1, i, u =>
      (u - KnotVector.at knots i)
          / (KnotVector.at knots (i + degree + 1) - KnotVector.at knots i)
          * BasisValue knots degree i u
        + (KnotVector.at knots (i + degree + 2) - u)
          / (KnotVector.at knots (i + degree + 2) - KnotVector.at knots (i + 1))
          * BasisValue knots degree (i + 1) u

/-- Modelled from the spec: `ParameterSpace::FindFirstNonZeroBasisFunction`
(§4.2): per dimension, the index of the first of the `degree + 1` basis
functions that are non-zero at the coordinate. -/
def ParameterSpace.FindFirstNonZeroBasisFunction (parameter_space : ParameterSpace)
    (parametric_coordinate : List ℚ) : List Int :=
  List.zipWith (fun (knots_degree : List ℚ × Int) u =>
      KnotVector.FindSpan knots_degree.1 u 0 - knots_degree.2)
    (List.zip parameter_space.knot_vectors_ parameter_space.degrees_) parametric_coordinate

/-- Modelled from the spec: `ParameterSpace::EvaluateBasisValuesPerDimension`
(§4.2): per dimension, the values of the `degree + 1` non-zero basis functions
at the coordinate. -/
def ParameterSpace.EvaluateBasisValuesPerDimension (parameter_space : ParameterSpace)
    (parametric_coordinate : List ℚ) : List (List ℚ) :=
  List.zipWith (fun (knots_degree : List ℚ × Int) u =>
      (List.range (knots_degree.2.toNat + 1)).map (fun (j : Nat) =>
        BasisValue knots_degree.1 knots_degree.2.toNat
          (KnotVector.FindSpan knots_degree.1 u 0 - knots_degree.2 + (j : Int)) u))
    (List.zip parameter_space.knot_vectors_ parameter_space.degrees_) parametric_coordinate

/-- The implementation of `ParameterSpaceOps` by knot vectors. -/
def ParameterSpace.ops (NDEBUG : Bool) : ParameterSpaceOps ParameterSpace where
  GetNumberOfBasisFunctions := ParameterSpace.GetNumberOfBasisFunctions
  ThrowIfParametricCoordinateIsOutsideScope :=
    ParameterSpace.ThrowIfParametricCoordinateIsOutsideScope
  InsertKnot := ParameterSpace.InsertKnot NDEBUG
  RemoveKnot := ParameterSpace.RemoveKnot NDEBUG
  ElevateDegree := ParameterSpace.ElevateDegree NDEBUG
  ReduceDegree := ParameterSpace.ReduceDegree NDEBUG
  DetermineBezierExtractionKnots := ParameterSpace.DetermineBezierExtractionKnots NDEBUG
  EvaluateBasisValuesPerDimension := ParameterSpace.EvaluateBasisValuesPerDimension
  FindFirstNonZeroBasisFunction := ParameterSpace.FindFirstNonZeroBasisFunction

/-! ## Weighted vector space (`VectorSpaces/weighted_vector_space.inl`) -/

/-- The `catch (InvalidArgument const& exception) { Throw(exception, name); }`
of the tolerance checks (weighted_vector_space.inl:52-56,
zero_degree_b_spline_basis_function.cpp:43-47, 66-70, 95-99, 141-145): an
InvalidArgument is thrown again with the name of the function in its message;
any other exception passes. -/
def rethrowInvalidArgument (name : String) : Error → Error
  | .InvalidArgument m => Throw (.InvalidArgument m) name
  | exception => exception

/-- The block `#ifndef NDEBUG try { ThrowIfToleranceIsNegative(tolerance); }
catch ... #endif` (weighted_vector_space.inl:49-57,
zero_degree_b_spline_basis_function.cpp:40-48, 63-71, 92-100, 138-146). -/
def checkTolerance (NDEBUG : Bool) (name : String) (tolerance : ℚ) : Except Error Unit :=
  if NDEBUG then .ok ()
  else (ThrowIfToleranceIsNegative tolerance).mapError (rethrowInvalidArgument name)

/-- A `WeightedVectorSpace<dimensionality>`: the homogeneous coordinates kept by
its base class `VectorSpace<dimensionality + 1>` (`Base_::coordinates_`).  A
`std::array` of scalars (`Coordinate_`, `HomogeneousCoordinate_`) is embedded as
a list; an entry outside a list is read as zero. -/
structure WeightedVectorSpace where
  /-- The template parameter `dimensionality`. -/
  dimensionality : Nat
  /-- `Base_::coordinates_`: the homogeneous coordinates. -/
  coordinates_ : List (List ℚ)
deriving DecidableEq, Repr

/-- The message of the DomainError of `HomogenizeCoordinates`
(weighted_vector_space.inl:143-146). -/
def WeightedVectorSpace.cardinalityMessage (number_of_weights number_of_coordinates : Int) :
    String :=
  toString number_of_weights ++ " weights were provided but "
    ++ toString number_of_coordinates
    ++ " are needed to associate each weight with a coordinate."

/-- `WeightedVectorSpace::HomogenizeCoordinates(coordinates, weights)`
(weighted_vector_space.inl:132-163).  The homogeneous coordinate of a
coordinate holds `weight * coordinate[j]` for `j < dimensionality` and the
weight at the index `dimensionality`.  `weights[i]` behind the end of `weights`
is undefined in the source; the embedding reads zero there. -/
def WeightedVectorSpace.HomogenizeCoordinates (NDEBUG : Bool) (dimensionality : Nat)
    (coordinates : List (List ℚ)) (weights : List ℚ) : Except Error (List (List ℚ)) :=
  let number_of_coordinates : Int := coordinates.length
  let number_of_weights : Int := weights.length
  if ¬ NDEBUG ∧ number_of_coordinates ≠ number_of_weights then
    .error (.DomainError
      (WeightedVectorSpace.cardinalityMessage number_of_weights number_of_coordinates))
  else
    .ok ((List.range coordinates.length).map (fun (coordinate_index_value : Nat) =>
      let coordinate := coordinates.getD coordinate_index_value []
      let weight := weights.getD coordinate_index_value 0
      (List.range dimensionality).map (fun (j : Nat) => weight * coordinate.getD j 0)
        ++ [weight]))

/-- `WeightedVectorSpace::WeightedVectorSpace(coordinates, weights)`
(weighted_vector_space.inl:20-24): the base class is constructed from the
homogenized coordinates. -/
def WeightedVectorSpace.Construct (NDEBUG : Bool) (dimensionality : Nat)
    (coordinates : List (List ℚ)) (weights : List ℚ) : Except Error WeightedVectorSpace :=
  (WeightedVectorSpace.HomogenizeCoordinates NDEBUG dimensionality coordinates weights).map
    (fun homogeneous_coordinates =>
      { dimensionality := dimensionality, coordinates_ := homogeneous_coordinates })

/-- `WeightedVectorSpace::Project(homogeneous_coordinate)`
(weighted_vector_space.inl:26-39): each of the first `dimensionality` scalars
times `1 / homogeneous_coordinate[dimensionality]`. -/
def WeightedVectorSpace.Project (dimensionality : Nat) (homogeneous_coordinate : List ℚ) :
    List ℚ :=
  (List.range dimensionality).map (fun (j : Nat) =>
    homogeneous_coordinate.getD j 0 * (1 / homogeneous_coordinate.getD dimensionality 0))

/-- `WeightedVectorSpace::DetermineMaximumDistanceFromOriginAndMinimumWeight(
tolerance)` (weighted_vector_space.inl:41-69).  `utilities::containers::TwoNorm`
and the constant `std::numeric_limits<Weight>::max()` are not under src/: both
are parameters. -/
def WeightedVectorSpace.DetermineMaximumDistanceFromOriginAndMinimumWeight (NDEBUG : Bool)
    (TwoNorm : List ℚ → ℚ) (numeric_limits_max : ℚ)
    (weighted_vector_space : WeightedVectorSpace) (tolerance : ℚ) :
    Except Error (ℚ × ℚ) := do
  checkTolerance NDEBUG
    ("bsplinelib::vector_spaces::WeightedVectorSpace::"
      ++ "DetermineMaximumDistanceFromOriginAndMinimumWeight") tolerance
  let dimensionality := weighted_vector_space.dimensionality
  pure (weighted_vector_space.coordinates_.foldl
    (fun (extremes : ℚ × ℚ) homogeneous_coordinate =>
      (max (TwoNorm (WeightedVectorSpace.Project dimensionality homogeneous_coordinate))
          extremes.1,
        min (homogeneous_coordinate.getD dimensionality 0) extremes.2))
    (0, numeric_limits_max))

/-! ## Degree-0 basis function (`ParameterSpaces/zero_degree_b_spline_basis_function.cpp`) -/

/-- A `ZeroDegreeBSplineBasisFunction`.  Its data members are those of its base
class `BSplineBasisFunction`, which is not under src/: the object is embedded by
the one inherited member that the functions of the file call. -/
structure ZeroDegreeBSplineBasisFunction where
  /-- `BSplineBasisFunction::IsInSupport(parametric_coordinate, tolerance)`. -/
  IsInSupport : ℚ → ℚ → Except Error Bool

/-- `IsEqual(lhs, rhs, tolerance)` (zero_degree_b_spline_basis_function.cpp:35-52).
`Base_IsEqual` is the `IsEqual` of the base class, which is not under src/. -/
def ZeroDegreeBSplineBasisFunction.IsEqual (NDEBUG : Bool)
    (Base_IsEqual : ZeroDegreeBSplineBasisFunction → ZeroDegreeBSplineBasisFunction → ℚ →
      Except Error Bool)
    (lhs rhs : ZeroDegreeBSplineBasisFunction) (tolerance : ℚ) : Except Error Bool := do
  checkTolerance NDEBUG
    ("splinelib::sources::parameter_spaces::IsEqual::" ++ "ZeroDegreeBSplineBasisFunction")
    tolerance
  Base_IsEqual lhs rhs tolerance

/-- `ZeroDegreeBSplineBasisFunction::operator()(parametric_coordinate,
tolerance)` (zero_degree_b_spline_basis_function.cpp:59-73). -/
def ZeroDegreeBSplineBasisFunction.Evaluate (NDEBUG : Bool)
    (basis_function : ZeroDegreeBSplineBasisFunction) (parametric_coordinate tolerance : ℚ) :
    Except Error ℚ := do
  checkTolerance NDEBUG
    ("splinelib::sources::parameter_spaces::" ++ "ZeroDegreeBSplineBasisFunction::operator()")
    tolerance
  let is_in_support ← basis_function.IsInSupport parametric_coordinate tolerance
  pure (if is_in_support then 1 else 0)

/-- `ZeroDegreeBSplineBasisFunction::operator()(parametric_coordinate,
unique_evaluations, tree_info, tolerance)`
(zero_degree_b_spline_basis_function.cpp:75-85): neither the cache nor
`tree_info` is read or written. -/
def ZeroDegreeBSplineBasisFunction.EvaluateMemoized {UniqueEvaluations : Type}
    (NDEBUG : Bool) (basis_function : ZeroDegreeBSplineBasisFunction)
    (parametric_coordinate : ℚ) (_unique_evaluations : UniqueEvaluations) (_tree_info : Int)
    (tolerance : ℚ) : Except Error ℚ :=
  basis_function.Evaluate NDEBUG parametric_coordinate tolerance

/-- `ZeroDegreeBSplineBasisFunction::operator()(parametric_coordinate,
derivative, tolerance)` (zero_degree_b_spline_basis_function.cpp:87-104). -/
def ZeroDegreeBSplineBasisFunction.EvaluateDerivative (NDEBUG : Bool)
    (basis_function : ZeroDegreeBSplineBasisFunction) (parametric_coordinate : ℚ)
    (derivative : Int) (tolerance : ℚ) : Except Error ℚ := do
  checkTolerance NDEBUG
    ("splinelib::sources::parameter_spaces::" ++ "ZeroDegreeBSplineBasisFunction::operator()")
    tolerance
  if derivative = 0 then basis_function.Evaluate NDEBUG parametric_coordinate tolerance
  else pure 0

/-- `ZeroDegreeBSplineBasisFunction::ConsecutiveTopNodeEvaluation`
(zero_degree_b_spline_basis_function.cpp:106-127): the tolerance is not
checked. -/
def ZeroDegreeBSplineBasisFunction.ConsecutiveTopNodeEvaluation {EvaluationLookUp : Type}
    (_basis_function : ZeroDegreeBSplineBasisFunction) (_parametric_coordinate : ℚ)
    (_evaluation_look_up : EvaluationLookUp) (_end_support : Int)
    (is_first_support _check_right : Bool) (_tolerance : ℚ) : ℚ :=
  if is_first_support then 1 else 0

/-- `ZeroDegreeBSplineBasisFunction::operator()(parametric_coordinate,
derivative, unique_derivatives, unique_evaluations, top_level_computed,
tree_info, tolerance)` (zero_degree_b_spline_basis_function.cpp:129-155): for
the derivative 0 it calls the memoized overload with `unique_derivatives` as
its cache. -/
def ZeroDegreeBSplineBasisFunction.EvaluateDerivativeMemoized
    {UniqueDerivatives UniqueEvaluations IsTopLevelComputed : Type}
    (NDEBUG : Bool) (basis_function : ZeroDegreeBSplineBasisFunction)
    (parametric_coordinate : ℚ) (derivative : Int) (unique_derivatives : UniqueDerivatives)
    (_unique_evaluations : UniqueEvaluations) (_top_level_computed : IsTopLevelComputed)
    (tree_info : Int) (tolerance : ℚ) : Except Error ℚ := do
  checkTolerance NDEBUG
    ("splinelib::sources::parameter_spaces::" ++ "ZeroDegreeBSplineBasisFunction::operator()")
    tolerance
  if derivative = 0 then
    basis_function.EvaluateMemoized NDEBUG parametric_coordinate unique_derivatives tree_info
      tolerance
  else pure 0

/-- Modelled from the spec: the constructor `ZeroDegreeBSplineBasisFunction(
knot_vector, start_of_support, tolerance)`
(zero_degree_b_spline_basis_function.cpp:28-33) hands its arguments to the base
class `BSplineBasisFunction`, which is not under src/, and `IsInSupport` is a
member of that class.  §3, §4.1: the support of the degree-0 function of the
span `start_of_support` is the half-open span between the knot at that index
and the next one, with a "closed upper bound for the last span", the span whose
end knot is the last knot of the vector; the containment tests are "tolerant"
(§4.1), the tolerance being the "threshold governing floating-point
equivalence" (Glossary): two scalars are equal within a tolerance when they
differ by at most the tolerance, and a scalar is less than another one when it
is less and not equal within the tolerance, as in
`KnotVector.DetermineMultiplicity` and `KnotVector.FindSpan`.  The tolerance of
the constructor decides whether the end knot is the last knot, the tolerance of
`IsInSupport` where the parametric coordinate lies. -/
def ZeroDegreeBSplineBasisFunction.Construct (knot_vector : List ℚ)
    (start_of_support : Int) (tolerance : ℚ) : ZeroDegreeBSplineBasisFunction :=
  let start_knot := KnotVector.at knot_vector start_of_support
  let end_knot := KnotVector.at knot_vector (start_of_support + 1)
  let end_knot_equals_last_knot : Bool :=
    decide (|end_knot - knot_vector.getLastD 0| ≤ tolerance)
  { IsInSupport := fun parametric_coordinate tolerance =>
      .ok
        ((decide (start_knot - tolerance ≤ parametric_coordinate)
            && decide (parametric_coordinate < end_knot - tolerance))
          || (end_knot_equals_last_knot
            && decide (|parametric_coordinate - end_knot| ≤ tolerance))) }

/-! ## The n-dimensional `Array` (`Utilities/containers.hpp`) -/

/-- The memory that the pointers `data_` point into: the scalars at the
addresses `0, 1, 2, ...`. -/
abbrev Memory (DataType : Type) := List DataType

/-- An `Array<DataType, dim, IndexType>` (containers.hpp:11-43).  A pointer is
embedded as the address it holds (`none` for `nullptr`), `IndexType` as `Int`
(the arithmetic on it goes through `IndexType.wrap`) and each `std::array` as a
list (`shape_` of `dim` entries, `strides_` of
`dim - 1` entries). -/
structure Array (DataType : Type) (dim : Nat) where
  /-- `own_data_`. -/
  own_data_ : Bool
  /-- `data_`: the address of the first scalar. -/
  data_ : Option Nat
  /-- `size_`. -/
  size_ : Int
  /-- `strides_`. -/
  strides_ : List Int
  /-- `shape_`. -/
  shape_ : List Int
deriving DecidableEq, Repr

/-- `Array::size` (containers.hpp:93). -/
def Array.size {DataType : Type} {dim : Nat} (array : Array DataType dim) : Int :=
  array.size_

/-- `Array::Shape` (containers.hpp:251). -/
def Array.Shape {DataType : Type} {dim : Nat} (array : Array DataType dim) : List Int :=
  array.shape_

/-- `Array::Strides` (containers.hpp:255). -/
def Array.Strides {DataType : Type} {dim : Nat} (array : Array DataType dim) : List Int :=
  array.strides_

/-- The value that an `IndexType` holds after an arithmetic operation with the
exact result `value`.  `IndexType` is `int` (containers.hpp:11): a result within
the range of `int` is held as it is, and a result outside is reduced to its
32-bit two's-complement value (signed overflow is undefined in the source; the
reduction is what the arithmetic of the machine leaves). -/
def IndexType.wrap (value : Int) : Int :=
  (value + 2147483648) % 4294967296 - 2147483648

/-- The integers that an `IndexType` (`int`) can hold. -/
def IndexType.Representable (value : Int) : Prop :=
  -2147483648 ≤ value ∧ value < 2147483648

instance (value : Int) : Decidable (IndexType.Representable value) :=
  inferInstanceAs (Decidable (-2147483648 ≤ value ∧ value < 2147483648))

/-- The loop of `SetShape` over `strides_`, from its last entry to its first
(containers.hpp:155-162): `sub_total` after the loop, and the strides. -/
def Array.accumulate : List Int → Int × List Int
  | [] => (1, [])
  | stride :: strides =>
      let rest := Array.accumulate strides
      (IndexType.wrap (rest.1 * stride), IndexType.wrap (rest.1 * stride) :: rest.2)

/-- `Array::SetShape(shape0, shape...)` (containers.hpp:136-167); `shape` holds
the `dim` arguments (the `static_assert` refuses any other number of them, and
an empty list with it). -/
def Array.SetShape {DataType : Type} {dim : Nat} (array : Array DataType dim)
    (shape : List Int) : Array DataType dim :=
  match shape with
  | [] => array
  | [shape0] => { array with size_ := shape0, shape_ := [shape0] }
  | shape0 :: rest =>
      let accumulated := Array.accumulate rest
      { array with shape_ := shape0 :: rest,
                   strides_ := accumulated.2,
                   size_ := IndexType.wrap (accumulated.1 * shape0) }

/-- `Array::operator[](index)` (containers.hpp:260-264): the index of the scalar
referred to, `data_[index]`; `none` when the assertion fails (a build without
NDEBUG). -/
def Array.operatorBracket {DataType : Type} {dim : Nat} (NDEBUG : Bool)
    (array : Array DataType dim) (index : Int) : Option Int :=
  if ¬ NDEBUG ∧ ¬ (-1 < index ∧ index < array.size_) then none else some index

/-- `Array::operator[](index) const` (containers.hpp:269-273). -/
def Array.operatorBracketConst {DataType : Type} {dim : Nat} (NDEBUG : Bool)
    (array : Array DataType dim) (index : Int) : Option Int :=
  if ¬ NDEBUG ∧ ¬ (-1 < index ∧ index < array.size_) then none else some index

/-- `Array::ComputeRemainingOffset(index, counter, id0, id...)`
(containers.hpp:49-69): `index` and `counter` after the call. -/
def Array.ComputeRemainingOffset {DataType : Type} {dim : Nat} (array : Array DataType dim) :
    Int → Int → List Int → Int × Int
  | index, counter, [] => (index, counter)
  | index, counter, [id0] => (IndexType.wrap (index + id0), counter)
  | index, counter, id0 :: id =>
      Array.ComputeRemainingOffset array
        (IndexType.wrap (index + IndexType.wrap (perDimension array.strides_ counter 0 * id0)))
        (counter + 1) id

/-- `Array::operator()(id0, id...)` (containers.hpp:280-297): the index of the
scalar referred to, `data_[final_id]`; `none` when the assertion fails (a build
without NDEBUG).  `id` holds the `dim` arguments. -/
def Array.operatorParen {DataType : Type} {dim : Nat} (NDEBUG : Bool)
    (array : Array DataType dim) (id : List Int) : Option Int :=
  match id with
  | [] => none
  | id0 :: id =>
      if dim = 1 then array.operatorBracket NDEBUG id0
      else
        let final_id := IndexType.wrap (id0 * perDimension array.strides_ 0 0)
        let i : Int := 1
        let final_id := (array.ComputeRemainingOffset final_id i id).1
        if ¬ NDEBUG ∧ ¬ (-1 < final_id ∧ final_id < array.size_) then none else some final_id

/-- `Array::operator()(id0, id...) const` (containers.hpp:304-323). -/
def Array.operatorParenConst {DataType : Type} {dim : Nat} (NDEBUG : Bool)
    (array : Array DataType dim) (id : List Int) : Option Int :=
  match id with
  | [] => none
  | id0 :: id =>
      if dim = 1 then array.operatorBracketConst NDEBUG id0
      else
        let final_id := IndexType.wrap (id0 * perDimension array.strides_ 0 0)
        let i : Int := 1
        let final_id := (array.ComputeRemainingOffset final_id i id).1
        if ¬ NDEBUG ∧ ¬ (-1 < final_id ∧ final_id < array.size_) then none else some final_id

/-- The scalars of an array: those at the `size_` addresses from `data_` on
(`none` for an address outside the memory). -/
def Array.elements {DataType : Type} {dim : Nat} (array : Array DataType dim)
    (memory : Memory DataType) : List (Option DataType) :=
  match array.data_ with
  | none => []
  | some address =>
      (List.range array.size_.toNat).map (fun (i : Nat) => memory[address + i]?)

/-- `std::copy_n(first, count, result)`: `count` scalars are copied one after
the other, from the lowest address on.  An address outside the memory is
undefined in the source; the embedding copies nothing from or to it. -/
def copy_n {DataType : Type} : Nat → Memory DataType → Nat → Nat → Memory DataType
  | 0, memory, _, _ => memory
  | count + 1, memory, first, result =>
      copy_n count
        (match memory[first]? with
        | some value => memory.set result value
        | none => memory)
        (first + 1) (result + 1)

/-- `Array::operator=(const Array& rhs)` (containers.hpp:218-231): the array and
the memory after the call, and what the call threw; `none` when the assertion of
`rhs.data()` fails (a null pointer, in a build without NDEBUG).  A null pointer
is undefined for `std::copy_n`; the embedding copies nothing from or to it. -/
def Array.CopyAssign {DataType : Type} {dim : Nat} (NDEBUG : Bool)
    (array rhs : Array DataType dim) (memory : Memory DataType) :
    Option ((Array DataType dim × Memory DataType) × Except Error Unit) :=
  if array.size_ ≠ rhs.size_ then
    some ((array, memory),
      .error (.RuntimeError "Array::operator=(const Array&) - size mismatch between rhs"))
  else if ¬ NDEBUG ∧ rhs.data_ = none then none
  else
    let memory :=
      match rhs.data_, array.data_ with
      | some first, some result => copy_n rhs.size.toNat memory first result
      | _, _ => memory
    some (({ array with shape_ := rhs.Shape, strides_ := rhs.Strides }, memory), .ok ())

/-- `Array::NonZeros` (containers.hpp:459-467): the loop tests the counter `n`,
not `data_[i]`. -/
def Array.NonZeros {DataType : Type} {dim : Nat} (array : Array DataType dim) : Int :=
  (List.range array.size_.toNat).foldl
    (fun (n : Int) (_ : Nat) => if n ≠ 0 then n + 1 else n) 0

/-- One pass of the loop of `Array::Clip` (containers.hpp:425-443), at the index
`i`: the memory of the array and the memory of `clipped` after it, `none` when
the assertion of `clipped[i]` fails.  A scalar outside the memory or behind the
end of a bound sequence is undefined in the source; the embedding leaves the
pass out. -/
def Array.Clip.pass {dim : Nat} (NDEBUG : Bool) (address : Nat)
    (lower_bound upper_bound : List ℚ) (clipped : Array Int dim) (clipped_address : Nat)
    (state : Option (Memory ℚ × Memory Int)) (i : Nat) : Option (Memory ℚ × Memory Int) :=
  match state with
  | none => none
  | some (memory, clipped_memory) =>
      match clipped.operatorBracket NDEBUG i with
      | none => none
      | some _ =>
          match memory[address + i]?, upper_bound[i]? with
          | some data, some ub =>
              if data > ub then
                some (memory.set (address + i) ub, clipped_memory.set (clipped_address + i) 1)
              else
                match lower_bound[i]? with
                | some lb =>
                    if data < lb then
                      some (memory.set (address + i) lb,
                        clipped_memory.set (clipped_address + i) (-1))
                    else
                      some (memory, clipped_memory.set (clipped_address + i) 0)
                | none => some (memory, clipped_memory)
          | _, _ => some (memory, clipped_memory)

/-- `Array::Clip(lower_bound, upper_bound, clipped)` (containers.hpp:413-444):
the memory of the array and the memory of `clipped` after the call, `none` when
an assertion fails (a build without NDEBUG).  The two bound sequences are
embedded as lists. -/
def Array.Clip {dim : Nat} (NDEBUG : Bool) (array : Array ℚ dim) (memory : Memory ℚ)
    (lower_bound upper_bound : List ℚ) (clipped : Array Int dim)
    (clipped_memory : Memory Int) : Option (Memory ℚ × Memory Int) :=
  if ¬ NDEBUG ∧ ¬ ((lower_bound.length : Int) = array.size_
      ∧ (upper_bound.length : Int) = array.size_) then none
  else
    match array.data_, clipped.data_ with
    | some address, some clipped_address =>
        (List.range array.size_.toNat).foldl
          (Array.Clip.pass NDEBUG address lower_bound upper_bound clipped clipped_address)
          (some (memory, clipped_memory))
    | _, _ => some (memory, clipped_memory)

/-- One pass of the inner-product loop of `Array::AAt` (containers.hpp:395-397):
`ij += i_ptr[k] * j_ptr[k]`, with `ij` the scalar at the address `ij`.  A scalar
outside the memory is undefined in the source; the embedding leaves the pass
out. -/
def Array.AAt.accumulate (ij i_ptr j_ptr : Nat) (memory : Memory ℚ) (k : Nat) : Memory ℚ :=
  match memory[ij]?, memory[i_ptr + k]?, memory[j_ptr + k]? with
  | some value, some a, some b => memory.set ij (value + a * b)
  | _, _, _ => memory

/-- The body of the loop over `j` of `Array::AAt` (containers.hpp:384-401), for
the row `i`: `none` when an assertion of `operator()` fails (a build without
NDEBUG).  `address` and `out` are the addresses in `data_` of the array and of
`aa_t`. -/
def Array.AAt.entry (NDEBUG : Bool) (array aa_t : Array ℚ 2) (address out : Nat)
    (width : Int) (i : Nat) (state : Option (Memory ℚ)) (j : Nat) : Option (Memory ℚ) :=
  match state with
  | none => none
  | some memory =>
      match aa_t.operatorParen NDEBUG [(i : Int), (j : Int)] with
      | none => none
      | some ij =>
          let memory := memory.set (out + ij.toNat) 0
          match array.operatorParenConst NDEBUG [(i : Int), 0],
              array.operatorParenConst NDEBUG [(j : Int), 0] with
          | some i_offset, some j_offset =>
              let memory := (List.range width.toNat).foldl
                (Array.AAt.accumulate (out + ij.toNat) (address + i_offset.toNat)
                  (address + j_offset.toNat))
                memory
              match aa_t.operatorParen NDEBUG [(j : Int), (i : Int)] with
              | none => none
              | some ji =>
                  match memory[out + ij.toNat]? with
                  | some value => some (memory.set (out + ji.toNat) value)
                  | none => some memory
          | _, _ => none

/-- `Array::AAt(aa_t)` (containers.hpp:378-405), for the 2-dimensional array of
the `static_assert`: the memory after the call, `none` when an assertion fails
(a build without NDEBUG).  A null pointer is undefined in the source; the
embedding writes nothing through it. -/
def Array.AAt (NDEBUG : Bool) (array aa_t : Array ℚ 2) (memory : Memory ℚ) :
    Option (Memory ℚ) :=
  let height := perDimension array.shape_ 0 0
  let width := perDimension array.shape_ 1 0
  match array.data_, aa_t.data_ with
  | some address, some out =>
      (List.range height.toNat).foldl
        (fun (state : Option (Memory ℚ)) (i : Nat) =>
          (List.range (height.toNat - i)).foldl
            (fun (state : Option (Memory ℚ)) (step : Nat) =>
              Array.AAt.entry NDEBUG array aa_t address out width i state (i + step))
            state)
        (some memory)
  | _, _ => some memory

/-- The free store that `new[]` and `delete[]` act on: the memory, the addresses
that `new DataType[size]` has returned (containers.hpp:124) and the addresses
that were handed to `delete[]` (containers.hpp:97). -/
structure Heap (DataType : Type) where
  /-- The scalars at the addresses `0, 1, 2, ...`. -/
  memory : Memory DataType
  /-- The addresses returned by `new DataType[size]`. -/
  allocated : List Nat
  /-- The addresses handed to `delete[]`. -/
  deleted : List Nat
deriving DecidableEq, Repr

/-- `Array() = default` (containers.hpp:170): `own_data_{false}`,
`data_{nullptr}`, `size_{}`.  `strides_` and `shape_` have no initializer: their
values are indeterminate, and parameters of the embedding. -/
def Array.Default {DataType : Type} {dim : Nat} (strides_ shape_ : List Int) :
    Array DataType dim :=
  { own_data_ := false, data_ := none, size_ := 0, strides_ := strides_, shape_ := shape_ }

/-- `Array::DestroyData` (containers.hpp:95-102): the array and the free store
after the call. -/
def Array.DestroyData {DataType : Type} {dim : Nat} (array : Array DataType dim)
    (heap : Heap DataType) : Array DataType dim × Heap DataType :=
  let heap :=
    match array.own_data_, array.data_ with
    | true, some address => { heap with deleted := address :: heap.deleted }
    | _, _ => heap
  ({ array with data_ := none, own_data_ := false }, heap)

/-- `Array::SetData(data_pointer)` (containers.hpp:104-107). -/
def Array.SetData {DataType : Type} {dim : Nat} (array : Array DataType dim)
    (heap : Heap DataType) (data_pointer : Option Nat) :
    Array DataType dim × Heap DataType :=
  let destroyed := array.DestroyData heap
  ({ destroyed.1 with data_ := data_pointer }, destroyed.2)

/-- `Array::Reallocate(size)` (containers.hpp:119-134).  `new DataType[size]`
returns the address behind the memory in use, with `size` scalars from there on
(indeterminate in the source, `default` in the embedding); for a negative `size`
it throws `std::bad_array_new_length`, and the result is `none`. -/
def Array.Reallocate {DataType : Type} [Inhabited DataType] {dim : Nat}
    (array : Array DataType dim) (heap : Heap DataType) (size : Int) :
    Option (Array DataType dim × Heap DataType) :=
  let destroyed := array.DestroyData heap
  if size < 0 then none
  else
    let address := destroyed.2.memory.length
    let heap : Heap DataType :=
      { destroyed.2 with
        memory := destroyed.2.memory ++ List.replicate size.toNat default,
        allocated := address :: destroyed.2.allocated }
    let array : Array DataType dim :=
      { destroyed.1 with data_ := some address, own_data_ := true, size_ := size }
    some (if dim = 1 then { array with shape_ := [size] } else array, heap)

/-- `Array(shape...)` (containers.hpp:172-179), constructed from the members of
`Array.Default`. -/
def Array.Construct {DataType : Type} [Inhabited DataType] {dim : Nat}
    (strides_ shape_ : List Int) (heap : Heap DataType) (shape : List Int) :
    Option (Array DataType dim × Heap DataType) :=
  let array := (Array.Default strides_ shape_ : Array DataType dim).SetShape shape
  array.Reallocate heap array.size_

/-- `Array(data_pointer, shape...)` (containers.hpp:181-190), the data-wrapping
constructor. -/
def Array.Wrap {DataType : Type} {dim : Nat} (strides_ shape_ : List Int)
    (heap : Heap DataType) (data_pointer : Option Nat) (shape : List Int) :
    Array DataType dim × Heap DataType :=
  let set := (Array.Default strides_ shape_ : Array DataType dim).SetData heap data_pointer
  (set.1.SetShape shape, set.2)

/-- `Array(const Array& other)` (containers.hpp:192-203): `none` when `new`
throws or when the assertion of `other.data()` fails (a null pointer, in a build
without NDEBUG). -/
def Array.Copy {DataType : Type} [Inhabited DataType] {dim : Nat} (NDEBUG : Bool)
    (strides_ shape_ : List Int) (heap : Heap DataType) (other : Array DataType dim) :
    Option (Array DataType dim × Heap DataType) :=
  match (Array.Default strides_ shape_ : Array DataType dim).Reallocate heap other.size_ with
  | none => none
  | some (array, heap) =>
      if ¬ NDEBUG ∧ other.data_ = none then none
      else
        let memory :=
          match other.data_, array.data_ with
          | some first, some result => copy_n other.size_.toNat heap.memory first result
          | _, _ => heap.memory
        some ({ array with shape_ := other.shape_, strides_ := other.strides_ },
          { heap with memory := memory })

/-- `Array(Array&& other)` (containers.hpp:205-213): the new array and `other`
after the call. -/
def Array.Move {DataType : Type} {dim : Nat} (other : Array DataType dim) :
    Array DataType dim × Array DataType dim :=
  ({ own_data_ := true, data_ := other.data_, size_ := other.size_,
     strides_ := other.strides_, shape_ := other.shape_ },
    { other with own_data_ := false })

/-- `Array::operator=(Array&& rhs)` (containers.hpp:233-244), for `rhs` another
object than `*this`: the array and `rhs` after the call.  The memory that the
array held before is not released. -/
def Array.MoveAssign {DataType : Type} {dim : Nat} (_array rhs : Array DataType dim) :
    Array DataType dim × Array DataType dim :=
  ({ own_data_ := true, data_ := rhs.data_, size_ := rhs.size_,
     strides_ := rhs.strides_, shape_ := rhs.shape_ },
    { rhs with own_data_ := false })

/-- `~Array()` (containers.hpp:246-247): the free store after the call. -/
def Array.Destruct {DataType : Type} {dim : Nat} (array : Array DataType dim)
    (heap : Heap DataType) : Heap DataType :=
  (array.DestroyData heap).2

/-! ## Concrete splines -/

/-- A line with a kink: degree 1, knots `[0, 0, 1/2, 1, 1]`, control points
`(0,0), (1,2), (2,0)`.  The interior knot `1/2` has multiplicity one and cannot
be removed, since the control points are not collinear. -/
def kinkedLine : BSpline ParameterSpace :=
  { parametric_dimensionality_ := 1, is_rational_ := false,
    parameter_space_ := { knot_vectors_ := [[0, 0, 1/2, 1, 1]], degrees_ := [1] },
    vector_space_ := { dim := 2, coordinates := [[0, 0], [1, 2], [2, 0]] } }

/-- A parabola: the quadratic Bezier curve of knots `[0, 0, 0, 1, 1, 1]` and
control points `(0,0), (1,2), (3,0)`. -/
def parabola : BSpline ParameterSpace :=
  { parametric_dimensionality_ := 1, is_rational_ := false,
    parameter_space_ := { knot_vectors_ := [[0, 0, 0, 1, 1, 1]], degrees_ := [2] },
    vector_space_ := { dim := 2, coordinates := [[0, 0], [1, 2], [3, 0]] } }

/-- A quadratic curve of two segments: knots `[0, 0, 0, 1/2, 1, 1, 1]`, control
points `(0,0), (1,2), (3,0), (4,4)`. -/
def twoArcs : BSpline ParameterSpace :=
  { parametric_dimensionality_ := 1, is_rational_ := false,
    parameter_space_ := { knot_vectors_ := [[0, 0, 0, 1/2, 1, 1, 1]], degrees_ := [2] },
    vector_space_ := { dim := 2, coordinates := [[0, 0], [1, 2], [3, 0], [4, 4]] } }

/-- The curve `twoArcs` after one more insertion of its interior knot: knots
`[0, 0, 0, 1/2, 1/2, 1, 1, 1]`, control points `(0,0), (1,2), (2,1), (3,0),
(4,4)`.  One of the two knots `1/2` can be removed exactly, the other cannot. -/
def twoArcsRefined : BSpline ParameterSpace :=
  { parametric_dimensionality_ := 1, is_rational_ := false,
    parameter_space_ :=
      { knot_vectors_ := [[0, 0, 0, 1/2, 1/2, 1, 1, 1]], degrees_ := [2] },
    vector_space_ :=
      { dim := 2, coordinates := [[0, 0], [1, 2], [2, 1], [3, 0], [4, 4]] } }

/-- The quadratic Bezier curve of knots `[a, a, a, b, b, b]` and control points
`P0, P1, P2` of `D` scalars each. -/
def quadraticBezier (a b : ℚ) (D : Nat) (P0 P1 P2 : List ℚ) : BSpline ParameterSpace :=
  { parametric_dimensionality_ := 1, is_rational_ := false,
    parameter_space_ := { knot_vectors_ := [[a, a, a, b, b, b]], degrees_ := [2] },
    vector_space_ := { dim := D, coordinates := [P0, P1, P2] } }

/-- A trilinear volume: degree 1 and knots `[0, 0, 1, 1]` in each of its three
parametric dimensions, and the eight scalar control points `0, 1, 5, 2, 3, 7,
4, 9` in flat order. -/
def volume : BSpline ParameterSpace :=
  { parametric_dimensionality_ := 3, is_rational_ := false,
    parameter_space_ :=
      { knot_vectors_ := [[0, 0, 1, 1], [0, 0, 1, 1], [0, 0, 1, 1]], degrees_ := [1, 1, 1] },
    vector_space_ :=
      { dim := 1, coordinates := [[0], [1], [5], [2], [3], [7], [4], [9]] } }

/-- The curve `twoArcs` elevated to degree 3 (NURBS book Eq. (5.36) applied to
each of its two Bezier segments): knots `[0, 0, 0, 0, 1/2, 1/2, 1, 1, 1, 1]`,
control points `(0,0), (2/3,4/3), (4/3,5/3), (8/3,1/3), (10/3,4/3), (4,4)`. -/
def twoArcsElevated : BSpline ParameterSpace :=
  { parametric_dimensionality_ := 1, is_rational_ := false,
    parameter_space_ :=
      { knot_vectors_ := [[0, 0, 0, 0, 1/2, 1/2, 1, 1, 1, 1]], degrees_ := [3] },
    vector_space_ :=
      { dim := 2,
        coordinates := [[0, 0], [2/3, 4/3], [4/3, 5/3], [8/3, 1/3], [10/3, 4/3], [4, 4]] } }

/-- A value for the default tolerance `kEpsilon` of the knot refinement and
coarsening called by `MakeBezier`, `ElevateDegree` and `ReduceDegree` (the
constant is not under src/): a small positive number. -/
def smallEpsilon : ℚ := 1 / 1000000000000

/-- A cubic curve of two segments: knots `[0, 0, 0, 0, 1/2, 1, 1, 1, 1]`, scalar
control points `0, 1, 3, 2, 5`.  Its interior knot has multiplicity one, so
that the Bezier extraction inserts it twice. -/
def wiggle : BSpline ParameterSpace :=
  { parametric_dimensionality_ := 1, is_rational_ := false,
    parameter_space_ := { knot_vectors_ := [[0, 0, 0, 0, 1/2, 1, 1, 1, 1]], degrees_ := [3] },
    vector_space_ := { dim := 1, coordinates := [[0], [1], [3], [2], [5]] } }

/-- The trilinear volume `volume` with the knot `1/2` inserted along the
dimension 1, by Eq. (5.15) in each of its four slices: knots `[0, 0, 1/2, 1, 1]`
in that dimension and the twelve scalar control points `0, 1, 5/2, 3/2, 5, 2, 3,
7, 7/2, 8, 4, 9` in flat order. -/
def volumeRefined : BSpline ParameterSpace :=
  { parametric_dimensionality_ := 3, is_rational_ := false,
    parameter_space_ :=
      { knot_vectors_ := [[0, 0, 1, 1], [0, 0, 1/2, 1, 1], [0, 0, 1, 1]],
        degrees_ := [1, 1, 1] },
    vector_space_ :=
      { dim := 1,
        coordinates :=
          [[0], [1], [5/2], [3/2], [5], [2], [3], [7], [7/2], [8], [4], [9]] } }

/-- The trilinear volume `volume` elevated to degree 2 along the dimension 1, by
Eq. (5.36) in each of its four slices: knots `[0, 0, 0, 1, 1, 1]` in that
dimension and the same twelve control points as `volumeRefined`. -/
def volumeElevated : BSpline ParameterSpace :=
  { parametric_dimensionality_ := 3, is_rational_ := false,
    parameter_space_ :=
      { knot_vectors_ := [[0, 0, 1, 1], [0, 0, 0, 1, 1, 1], [0, 0, 1, 1]],
        degrees_ := [1, 2, 1] },
    vector_space_ :=
      { dim := 1,
        coordinates :=
          [[0], [1], [5/2], [3/2], [5], [2], [3], [7], [7/2], [8], [4], [9]] } }

/-! ## Specification-side definitions -/

/-- The weight of a window position: the product over the dimensions of the
basis value of that dimension at the position's coordinate. -/
def tensorWeight : List (List ℚ) → List Int → ℚ
  | basis :: rest, i :: position => basis.getD i.toNat 0 * tensorWeight rest position
  | _, _ => 1

/-- The `component`-th scalar of the tensor-product sum of §4.5: the sum, over
all positions of the window (`basis.length` consecutive basis functions per
dimension, starting at `beginning`), of the weight of the position times the
control point at the grid index `beginning + position`. -/
def tensorProductSum (coordinates : VectorSpace) (length_ : List Int)
    (basis_per_dim : List (List ℚ)) (beginning : List Int) (component : Nat) : ℚ :=
  ((IndexValues (basis_per_dim.map (fun basis => (basis.length : Int)))).map
    (fun position =>
      tensorWeight basis_per_dim position *
        (coordinates.CoordinateBegin
          (Index_.GetIndex1d
            { length_ := length_,
              value_ := List.zipWith (fun a b => a + b) beginning position })).getD
          component 0)).sum

/-- The control point `P1` is farther than `tolerance` from every point
`(1 - t) P0 + t P2` of the line through `P0` and `P2`: the three control points
are strictly non-collinear (for `tolerance = 0`: `P1` is not on the line, which
holds for every three points that are not collinear). -/
def StrictlyNonCollinear (P0 P1 P2 : List ℚ) (tolerance : ℚ) : Prop :=
  ∀ t : ℚ, tolerance * tolerance
    < Array.NormL2Squared (Array.Subtract P1 (Add (1 - t) P0 t P2 P1))

/-- The flat offset of an index tuple in row-major order: the sum over `k` of
`i_k` times the product of the extents `s_{k+1}, ..., s_{n-1}`. -/
def flatOffset (shape ids : List Int) : Int :=
  ((List.range ids.length).map
    (fun (k : Nat) => ids.getD k 0 * (shape.drop (k + 1)).prod)).sum

/-- An index tuple is in range of a shape: there are as many indices as extents,
and `0 <= i_k < s_k` for every `k`. -/
def InRange (shape ids : List Int) : Prop :=
  List.Forall₂ (fun (i s : Int) => 0 ≤ i ∧ i < s) ids shape

/-- The square of the Euclidean distance, over `dim` scalars, between the
coordinate reconstructed from `upper` and `lower` with the coefficient `a`,
`(upper - (1 - a) lower) / a`, and the coordinate `next`. -/
def reconstructionDistanceSquared (a : ℚ) (lower upper next : List ℚ) (dim : Nat) : ℚ :=
  ((List.range dim).map
    (fun (c : Nat) =>
      ((upper.getD c 0 - (1 - a) * lower.getD c 0) / a - next.getD c 0) ^ 2)).sum

/-- The shape invariant of an array: `size()` is the product of the extents in
`Shape()`, and `Strides()` are the row-major strides of `Shape()`, the stride
`k` being the product of the extents behind `k`; `size()` being an `IndexType`,
the product is an integer that an `IndexType` can hold. -/
def RowMajor {DataType : Type} {dim : Nat} (array : Array DataType dim) : Prop :=
  array.size = array.Shape.prod
  ∧ (∀ k : Nat, k + 1 < dim → array.Strides[k]? = some (array.Shape.drop (k + 1)).prod)
  ∧ IndexType.Representable array.size

/-- The inner product of the rows `i` and `j` of a 2-dimensional array of the
width `width` whose scalars lie in the memory from `address` on, in row-major
order: the sum over `k < width` of `A(i, k) * A(j, k)`. -/
def rowProduct (memory : Memory ℚ) (address width i j : Nat) : ℚ :=
  ((List.range width).map
    (fun (k : Nat) =>
      memory.getD (address + i * width + k) 0 * memory.getD (address + j * width + k) 0)).sum

/-! # Theorems -/

/-! ## Auxiliary facts -/

theorem contains_of_eq (message before part after : String)
    (h : message = before ++ part ++ after) : Contains message part :=
  ⟨before, after, h⟩

theorem elementwise_length (f : ℚ → ℚ → ℚ) (xs a : List ℚ) :
    (elementwise f xs a).length = xs.length := by
  induction xs generalizing a with
  | nil => rfl
  | cons x xs ih => simp [elementwise, ih]

theorem elementwise_getD (f : ℚ → ℚ → ℚ) (xs a : List ℚ) (j : Nat) (hj : j < xs.length) :
    (elementwise f xs a).getD j 0 = f (xs.getD j 0) (a.getD j 0) := by
  induction xs generalizing a j with
  | nil => simp at hj
  | cons x xs ih =>
    cases j with
    | zero => cases a <;> simp [elementwise]
    | succ j =>
      have hj' : j < xs.length := by simpa using hj
      cases a with
      | nil => simpa [elementwise] using ih [] j hj'
      | cons y ys => simpa [elementwise] using ih ys j hj'

theorem foldl_elementwise_length (c : Nat → ℚ) (h : Nat → List ℚ) (l : List Nat)
    (init : List ℚ) :
    (l.foldl (fun sum i => elementwise (fun x y => x + c i * y) sum (h i)) init).length
      = init.length := by
  induction l generalizing init with
  | nil => rfl
  | cons i l ih => simp [List.foldl_cons, ih, elementwise_length]

theorem foldl_elementwise_getD (c : Nat → ℚ) (h : Nat → List ℚ) (l : List Nat)
    (init : List ℚ) (j : Nat) (hj : j < init.length) :
    (l.foldl (fun sum i => elementwise (fun x y => x + c i * y) sum (h i)) init).getD j 0
      = init.getD j 0 + (l.map (fun i => c i * (h i).getD j 0)).sum := by
  induction l generalizing init with
  | nil => simp
  | cons i l ih =>
    rw [List.foldl_cons, ih _ (by simpa [elementwise_length] using hj),
      elementwise_getD _ _ _ _ hj]
    simp [add_assoc]

theorem sum_map_flatMap {α β : Type} (l : List α) (f : α → List β) (g : β → ℚ) :
    ((l.flatMap f).map g).sum = (l.map (fun i => ((f i).map g).sum)).sum := by
  induction l with
  | nil => simp
  | cons i l ih => simp [List.flatMap_cons, ih]

theorem RecursiveCombine_length (coordinates : VectorSpace) (length_ : List Int)
    (basis_per_dim : List (List ℚ)) (beginning offset : List Int) (out : List ℚ) :
    (RecursiveCombine coordinates length_ basis_per_dim beginning offset out).length
      = out.length := by
  induction basis_per_dim generalizing offset with
  | nil => simp [RecursiveCombine, Array.MultiplyAssign, elementwise_length]
  | cons basis rest _ =>
    simp only [RecursiveCombine]
    rw [foldl_elementwise_length (fun i => basis.getD i 0)
      (fun i => RecursiveCombine coordinates length_ rest beginning (offset ++ [(i : Int)]) out)]
    simp

theorem RecursiveCombine_getD (coordinates : VectorSpace) (length_ : List Int)
    (basis_per_dim : List (List ℚ)) (beginning offset : List Int) (out : List ℚ)
    (component : Nat) (h : component < out.length) :
    (RecursiveCombine coordinates length_ basis_per_dim beginning offset out).getD component 0
      = ((IndexValues (basis_per_dim.map (fun basis => (basis.length : Int)))).map
          (fun position =>
            tensorWeight basis_per_dim position *
              (coordinates.CoordinateBegin
                (Index_.GetIndex1d
                  { length_ := length_,
                    value_ := List.zipWith (fun a b => a + b) beginning
                      (offset ++ position) })).getD component 0)).sum := by
  induction basis_per_dim generalizing offset with
  | nil =>
    simp only [RecursiveCombine, Array.MultiplyAssign]
    rw [elementwise_getD _ _ _ _ h]
    simp [IndexValues, tensorWeight]
  | cons basis rest ih =>
    simp only [RecursiveCombine]
    rw [foldl_elementwise_getD (fun i => basis.getD i 0)
      (fun i => RecursiveCombine coordinates length_ rest beginning (offset ++ [(i : Int)]) out)
      _ _ _ (by simpa using h)]
    simp only [List.map_cons, IndexValues, Int.toNat_ofNat, sum_map_flatMap, List.map_map]
    have hzero : (List.map (fun _ => (0 : ℚ)) out).getD component 0 = 0 := by
      simp [List.getD_eq_getElem?_getD, List.getElem?_map]
    rw [hzero, zero_add]
    congr 1
    apply List.map_congr_left
    intro i _
    rw [ih (offset ++ [(i : Int)]), ← List.sum_map_mul_left]
    congr 1
    apply List.map_congr_left
    intro position _
    simp [tensorWeight, Function.comp, mul_assoc]

/-! ## C1: the constructor -/

/-- C1 (amended): in a build without NDEBUG the constructor succeeds exactly
when the number of coordinates equals the total number of basis functions (the
product of the per-dimension counts), and otherwise raises a DomainError whose
message contains both counts; in a build with NDEBUG the check is compiled out
and the constructor succeeds whatever the counts. -/
theorem C1_constructor_checks_cardinality_in_debug_builds {PS : Type}
    (ops : ParameterSpaceOps PS) (parametric_dimensionality : Int) (parameter_space : PS)
    (vector_space : VectorSpace) :
    ops.GetTotalNumberOfBasisFunctions parameter_space
        = (ops.GetNumberOfBasisFunctions parameter_space).prod
    ∧ ((∃ spline, BSpline.Construct ops false parametric_dimensionality parameter_space
            vector_space = .ok spline)
        ↔ vector_space.GetNumberOfCoordinates
            = ops.GetTotalNumberOfBasisFunctions parameter_space)
    ∧ (vector_space.GetNumberOfCoordinates
          ≠ ops.GetTotalNumberOfBasisFunctions parameter_space →
        ∃ message, BSpline.Construct ops false parametric_dimensionality parameter_space
            vector_space = .error (.DomainError message)
          ∧ Contains message (toString vector_space.GetNumberOfCoordinates)
          ∧ Contains message
              (toString (ops.GetTotalNumberOfBasisFunctions parameter_space)))
    ∧ BSpline.Construct ops true parametric_dimensionality parameter_space vector_space
        = .ok { parametric_dimensionality_ := parametric_dimensionality,
                is_rational_ := false,
                parameter_space_ := parameter_space,
                vector_space_ := vector_space } := by
  refine ⟨rfl, ?_, ?_, ?_⟩
  · by_cases h : vector_space.GetNumberOfCoordinates
        = ops.GetTotalNumberOfBasisFunctions parameter_space
    · simp [BSpline.Construct, h]
    · simp [BSpline.Construct, h]
  · intro h
    refine ⟨"bsplinelib::splines::BSpline::BSpline" ++ ": "
        ++ BSpline.cardinalityMessage vector_space.GetNumberOfCoordinates
            (ops.GetTotalNumberOfBasisFunctions parameter_space), ?_, ?_, ?_⟩
    · simp only [BSpline.Construct, Throw, Error.withMessage, Error.what]
      rw [if_pos ⟨by simp, h⟩]
    · exact contains_of_eq _ ("bsplinelib::splines::BSpline::BSpline" ++ ": ") _
        (" coordinates were provided but "
          ++ toString (ops.GetTotalNumberOfBasisFunctions parameter_space)
          ++ " are needed to associate each basis function with a coordinate.")
        (by simp [BSpline.cardinalityMessage, String.append_assoc])
    · exact contains_of_eq _
        ("bsplinelib::splines::BSpline::BSpline" ++ ": "
          ++ toString vector_space.GetNumberOfCoordinates
          ++ " coordinates were provided but ") _
        " are needed to associate each basis function with a coordinate."
        (by simp [BSpline.cardinalityMessage, String.append_assoc])
  · simp [BSpline.Construct]

/-- C1 (as stated) fails in a build with NDEBUG: a quadratic parameter space
with three basis functions and a vector space of one coordinate are made into a
spline. -/
theorem C1_release_build_accepts_mismatched_counts :
    (∃ spline, BSpline.Construct (ParameterSpace.ops true) true 1
        { knot_vectors_ := [[0, 0, 0, 1, 1, 1]], degrees_ := [2] }
        { dim := 2, coordinates := [[0, 0]] } = .ok spline)
    ∧ (VectorSpace.GetNumberOfCoordinates { dim := 2, coordinates := [[0, 0]] } = 1)
    ∧ ((ParameterSpace.ops true).GetTotalNumberOfBasisFunctions
        { knot_vectors_ := [[0, 0, 0, 1, 1, 1]], degrees_ := [2] } = 3) := by
  refine ⟨⟨_, rfl⟩, by decide, by decide⟩

/-! ## C2: evaluation -/

/-- C2: `Evaluate` leaves exactly `Dim()` scalars, and each of them is the
tensor-product sum over the window that starts at
`FindFirstNonZeroBasisFunction(u)` and holds as many consecutive basis functions
per dimension as `EvaluateBasisValuesPerDimension(u)` returns values (for the
parameter space of knot vectors: `degree + 1` in every dimension): the sum of
the products of the per-dimension basis values times the control point at the
corresponding grid index. -/
theorem C2_Evaluate_is_tensor_product_sum {PS : Type} (ops : ParameterSpaceOps PS)
    (spline : BSpline PS) (parametric_coordinate evaluated : List ℚ) :
    (BSpline.Evaluate ops spline parametric_coordinate evaluated).length
        = spline.vector_space_.Dim
    ∧ (∀ component, component < spline.vector_space_.Dim →
        (BSpline.Evaluate ops spline parametric_coordinate evaluated).getD component 0
          = tensorProductSum spline.vector_space_
              (ops.GetNumberOfBasisFunctions spline.parameter_space_)
              (ops.EvaluateBasisValuesPerDimension spline.parameter_space_
                parametric_coordinate)
              (ops.FindFirstNonZeroBasisFunction spline.parameter_space_
                parametric_coordinate)
              component)
    ∧ (∀ (parameter_space : ParameterSpace) (u : List ℚ),
        parameter_space.knot_vectors_.length = parameter_space.degrees_.length →
        u.length = parameter_space.degrees_.length →
        (ParameterSpace.EvaluateBasisValuesPerDimension parameter_space u).map List.length
          = parameter_space.degrees_.map (fun degree => degree.toNat + 1)) := by
  refine ⟨?_, ?_, ?_⟩
  · simp [BSpline.Evaluate, RecursiveCombine_length]
  · intro component h
    simp only [BSpline.Evaluate, tensorProductSum, ParameterSpaceOps.First]
    rw [RecursiveCombine_getD _ _ _ _ _ _ _ (by simpa using h)]
    simp
  · intro parameter_space u h₁ h₂
    simp only [ParameterSpace.EvaluateBasisValuesPerDimension]
    apply List.ext_getElem
    · simp [h₁, h₂]
    · intro n hn₁ hn₂
      simp

/-! ## C4, C6, C7, C8, C9: knot removal -/

theorem RemoveKnot_loop_failed (dimension start_value : Int) (coefficients : List (List ℚ))
    (tolerance_removal : ℚ) (removals : Nat) (vector_space : VectorSpace)
    (number_of_coordinates : List Int) (removal : Int) (vector_space_backup : VectorSpace)
    (h : BSpline.RemoveKnot.loop dimension start_value coefficients tolerance_removal removals
      vector_space number_of_coordinates = .failed removal vector_space_backup) :
    1 ≤ removal ∧ removal ≤ removals ∧ (removal = removals → vector_space_backup = vector_space) := by
  induction removals generalizing vector_space number_of_coordinates with
  | zero => simp [BSpline.RemoveKnot.loop] at h
  | succ n ih =>
    simp only [BSpline.RemoveKnot.loop] at h
    split at h
    · simp only [RemovalOutcome.failed.injEq] at h
      obtain ⟨h₁, h₂⟩ := h
      subst h₁ h₂
      exact ⟨by omega, by simp, fun _ => rfl⟩
    · obtain ⟨h₁, h₂, _⟩ := ih _ _ h
      refine ⟨h₁, by push_cast; omega, fun h₃ => ?_⟩
      push_cast at h₃
      omega


theorem RemoveKnot_of_failed_round {PS : Type}
    (ops : ParameterSpaceOps PS) (NDEBUG : Bool) (spline : BSpline PS) (dimension : Int)
    (knot tolerance_removal : ℚ) (multiplicity : Int) (tolerance : ℚ)
    (parameter_space : PS) (start_value : Int) (coefficients : List (List ℚ))
    (removal : Int) (vector_space_backup : VectorSpace)
    (hchecks : NDEBUG = true ∨ BSpline.RemoveKnot.checks
      "bsplinelib::splines::BSpline::RemoveKnot" spline dimension tolerance_removal tolerance
        = .ok ())
    (hremove : ops.RemoveKnot spline.parameter_space_ dimension knot multiplicity tolerance
      = .ok (parameter_space, start_value, coefficients))
    (hfailed : BSpline.RemoveKnot.loop dimension start_value coefficients tolerance_removal
      coefficients.length spline.vector_space_
      (ops.GetNumberOfBasisFunctions spline.parameter_space_)
        = .failed removal vector_space_backup) :
    BSpline.RemoveKnot ops NDEBUG spline dimension knot tolerance_removal multiplicity tolerance
        = (ops.RemoveKnot spline.parameter_space_ dimension knot
            (multiplicity - removal) tolerance).map
          (fun removed => (multiplicity - removal,
            { spline with parameter_space_ := removed.1,
                          vector_space_ := vector_space_backup })) := by
  have hbody : ∀ (pre : Except Error PUnit), pre = .ok PUnit.unit →
      (do
        pre
        let parameter_space := spline.parameter_space_
        let parameter_space_backup := parameter_space
        let number_of_coordinates := ops.GetNumberOfBasisFunctions parameter_space
        let (parameter_space, start_value, coefficients') ←
          ops.RemoveKnot parameter_space dimension knot multiplicity tolerance
        let removals := coefficients'.length
        match BSpline.RemoveKnot.loop dimension start_value coefficients' tolerance_removal
            removals spline.vector_space_ number_of_coordinates with
        | .failed removal vector_space_backup =>
            let successful_removals := multiplicity - removal
            let (parameter_space_backup, _) ←
              ops.RemoveKnot parameter_space_backup dimension knot successful_removals
                tolerance
            pure (successful_removals,
              { spline with parameter_space_ := parameter_space_backup,
                            vector_space_ := vector_space_backup })
        | .completed vector_space =>
            pure ((removals : Int),
              { spline with parameter_space_ := parameter_space,
                            vector_space_ := vector_space }) : Except Error (Int × BSpline PS))
        = (ops.RemoveKnot spline.parameter_space_ dimension knot
            (multiplicity - removal) tolerance).map
          (fun removed => (multiplicity - removal,
            { spline with parameter_space_ := removed.1,
                          vector_space_ := vector_space_backup })) := by
    intro pre hpre
    subst hpre
    simp only [hremove, bind, Except.bind, hfailed]
    cases ops.RemoveKnot spline.parameter_space_ dimension knot
      (multiplicity - removal) tolerance <;> rfl
  rcases hchecks with h | h
  · subst h
    exact hbody _ rfl
  · cases NDEBUG
    · exact hbody _ (by simpa using h)
    · exact hbody _ rfl

/-- C4: run on the parabola, `InsertKnot(0, 1/2, 1)` followed by
`RemoveKnot(0, 1/2, removal_tolerance = 0, 1)` returns 0, not 1, and the
inserted knot and control point stay: the replacement loop of `RemoveKnot`
overwrites the coordinate it reconstructs from (b_spline.inl:291-298).  Run on
the kinked line (degree 1, no pass of that loop), `InsertKnot(0, 1/4, 1)`
followed by `RemoveKnot(0, 1/4, 0, 1)` returns 1 and gives the curve back. -/
theorem C4_insert_then_remove_returns_zero_on_parabola :
    (BSpline.InsertKnot (ParameterSpace.ops false) false parabola 0 (1/2) 1 0).bind
        (fun inserted =>
          BSpline.RemoveKnot (ParameterSpace.ops false) false inserted 0 (1/2) 0 1 0)
      = .ok (0,
          { parametric_dimensionality_ := 1, is_rational_ := false,
            parameter_space_ :=
              { knot_vectors_ := [[0, 0, 0, 1/2, 1, 1, 1]], degrees_ := [2] },
            vector_space_ :=
              { dim := 2, coordinates := [[0, 0], [1/2, 1], [2, 1], [3, 0]] } })
    ∧ (BSpline.InsertKnot (ParameterSpace.ops false) false kinkedLine 0 (1/4) 1 0).bind
        (fun inserted =>
          BSpline.RemoveKnot (ParameterSpace.ops false) false inserted 0 (1/4) 0 1 0)
      = .ok (1, kinkedLine) := by
  refine ⟨by decide!, by decide!⟩

/-- C6: run on the kinked line, whose three coordinates match its three basis
functions, `RemoveKnot(0, 1/2, 0, multiplicity = 2)` returns a spline of three
coordinates and two basis functions. -/
theorem C6_failed_removal_breaks_cardinality_on_kinkedLine :
    kinkedLine.vector_space_.GetNumberOfCoordinates
        = (ParameterSpace.ops false).GetTotalNumberOfBasisFunctions
            kinkedLine.parameter_space_
    ∧ ∃ count spline,
        BSpline.RemoveKnot (ParameterSpace.ops false) false kinkedLine 0 (1/2) 0 2 0
          = .ok (count, spline)
        ∧ spline.vector_space_.GetNumberOfCoordinates = 3
        ∧ (ParameterSpace.ops false).GetTotalNumberOfBasisFunctions spline.parameter_space_
            = 2 := by
  refine ⟨by decide, 1,
    { parametric_dimensionality_ := 1, is_rational_ := false,
      parameter_space_ := { knot_vectors_ := [[0, 0, 1, 1]], degrees_ := [1] },
      vector_space_ := { dim := 2, coordinates := [[0, 0], [1, 2], [2, 0]] } },
    by decide!, by decide, by decide⟩

/-- C7: when the first attempted round of `RemoveKnot` fails its tolerance
check, no round was accepted and no coordinate was erased (the vector space is
the one before the call), yet the call returns `multiplicity - coefficients.size()`
and removes that many knots from the parameter space: not 0 when the parameter
space yielded fewer coefficient sets than the requested multiplicity. -/
theorem C7_RemoveKnot_counts_from_the_requested_multiplicity {PS : Type}
    (ops : ParameterSpaceOps PS) (NDEBUG : Bool) (spline : BSpline PS) (dimension : Int)
    (knot tolerance_removal : ℚ) (multiplicity : Int) (tolerance : ℚ)
    (parameter_space : PS) (start_value : Int) (coefficients : List (List ℚ))
    (vector_space_backup : VectorSpace)
    (hchecks : NDEBUG = true ∨ BSpline.RemoveKnot.checks
      "bsplinelib::splines::BSpline::RemoveKnot" spline dimension tolerance_removal tolerance
        = .ok ())
    (hremove : ops.RemoveKnot spline.parameter_space_ dimension knot multiplicity tolerance
      = .ok (parameter_space, start_value, coefficients))
    (hfirst : BSpline.RemoveKnot.loop dimension start_value coefficients tolerance_removal
      coefficients.length spline.vector_space_
      (ops.GetNumberOfBasisFunctions spline.parameter_space_)
        = .failed coefficients.length vector_space_backup) :
    vector_space_backup = spline.vector_space_
    ∧ BSpline.RemoveKnot ops NDEBUG spline dimension knot tolerance_removal multiplicity
        tolerance
      = (ops.RemoveKnot spline.parameter_space_ dimension knot
          (multiplicity - coefficients.length) tolerance).map
        (fun removed => (multiplicity - coefficients.length,
          { spline with parameter_space_ := removed.1,
                        vector_space_ := spline.vector_space_ })) := by
  have hloop := RemoveKnot_loop_failed _ _ _ _ _ _ _ _ _ hfirst
  have hback := hloop.2.2 rfl
  refine ⟨hback, ?_⟩
  rw [RemoveKnot_of_failed_round ops NDEBUG spline dimension knot tolerance_removal
    multiplicity tolerance parameter_space start_value coefficients coefficients.length
    vector_space_backup hchecks hremove hfirst, hback]

/-- C7 on the kinked line: `RemoveKnot(0, 1/2, 0, multiplicity = 2)` gets one
coefficient set from the parameter space, its only round fails the tolerance
check with no coordinate erased, and the call returns 1. -/
theorem C7_RemoveKnot_counts_from_the_requested_multiplicity_witness :
    BSpline.RemoveKnot.loop 0 1 [[1/2]] 0 1 kinkedLine.vector_space_
        ((ParameterSpace.ops false).GetNumberOfBasisFunctions kinkedLine.parameter_space_)
      = .failed 1 kinkedLine.vector_space_
    ∧ BSpline.RemoveKnot (ParameterSpace.ops false) false kinkedLine 0 (1/2) 0 2 0
      = .ok (1,
          { kinkedLine with
            parameter_space_ := { knot_vectors_ := [[0, 0, 1, 1]], degrees_ := [1] } }) :=
  ⟨by decide!,
   ((C7_RemoveKnot_counts_from_the_requested_multiplicity (ParameterSpace.ops false) false
      kinkedLine 0 (1/2) 0 2 0 { knot_vectors_ := [[0, 0, 1, 1]], degrees_ := [1] } 1
      [[1/2]] kinkedLine.vector_space_ (Or.inr (by decide!)) (by decide!)
      (by decide!)).2).trans (by decide!)⟩

/-- C9: run on the kinked line, whose interior knot `1/2` is not removable (the
first removal step fails the tolerance check at `removal_tolerance = 0`),
`RemoveKnot(0, 1/2, 0, multiplicity = 2)` returns 1, not 0, and removes the knot
from the knot vector while every control point stays. -/
theorem C9_RemoveKnot_on_non_removable_knot_returns_one_on_kinkedLine :
    BSpline.RemoveKnot.slice 0 1 [1/2] [3] 0 kinkedLine.vector_space_
        { length_ := [Length.slice], value_ := [0] } = none
    ∧ BSpline.RemoveKnot (ParameterSpace.ops false) false kinkedLine 0 (1/2) 0 2 0
      = .ok (1,
          { kinkedLine with
            parameter_space_ := { knot_vectors_ := [[0, 0, 1, 1]], degrees_ := [1] } }) := by
  refine ⟨by decide!, by decide!⟩

/-! ## C10: a failed degree reduction -/

theorem foldl_squares (data : List ℚ) (norm : ℚ) :
    data.foldl (fun norm data_i => norm + data_i * data_i) norm
      = norm + (data.map (fun x => x * x)).sum := by
  induction data generalizing norm with
  | nil => simp
  | cons x xs ih => simp [List.foldl_cons, ih, add_assoc]

theorem NormL2Squared_eq_sum (data : List ℚ) :
    Array.NormL2Squared data = (data.map (fun x => x * x)).sum := by
  simp [Array.NormL2Squared, foldl_squares]

theorem NormL2Squared_nonneg (data : List ℚ) : 0 ≤ Array.NormL2Squared data := by
  rw [NormL2Squared_eq_sum]
  apply List.sum_nonneg
  intro x hx
  obtain ⟨y, -, rfl⟩ := List.mem_map.mp hx
  exact mul_self_nonneg y

theorem NormL2Squared_scaled (c : ℚ) (v w : List ℚ) (hlen : v.length = w.length)
    (h : ∀ j, j < w.length → v.getD j 0 = c * w.getD j 0) :
    Array.NormL2Squared v = c * c * Array.NormL2Squared w := by
  rw [NormL2Squared_eq_sum, NormL2Squared_eq_sum]
  induction v generalizing w with
  | nil =>
    cases w with
    | nil => simp
    | cons y ys => simp at hlen
  | cons x xs ih =>
    cases w with
    | nil => simp at hlen
    | cons y ys =>
      have hx : x = c * y := by simpa using h 0 (by simp)
      have hrest := ih ys (by simpa using hlen)
        (fun j hj => by simpa using h (j + 1) (by simpa using hj))
      simp only [List.map_cons, List.sum_cons, hrest, hx]
      ring

theorem map_getD (f : ℚ → ℚ) (l : List ℚ) (j : Nat) (hj : j < l.length) :
    (l.map f).getD j 0 = f (l.getD j 0) := by
  simp [List.getD_eq_getElem?_getD, List.getElem?_eq_getElem hj]

theorem erase_none (D : Nat) (P0 P1 P2 : List ℚ)
    (tolerance_reduction : ℚ)
    (h1 : P1.length = D)
    (hnc : StrictlyNonCollinear P0 P1 P2 tolerance_reduction) :
    BSpline.ReduceDegree.erase 0 1 0 0 [1/2, 1/2] [3] tolerance_reduction
      { dim := D, coordinates := [P0, P1, P2] } { length_ := [1], value_ := [0] } = none := by
  simp [BSpline.ReduceDegree.erase, Index_.GetIndex, Index_.GetIndex1d, rowMajorOffset, stepAt,
    BSpline.ReduceDegree.accumulate, Index_.Decrement, Index_.add, VectorSpace.Replace,
    VectorSpace.CoordinateBegin, VectorSpace.Dim, VectorSpace.Erase]
  have hscaled := NormL2Squared_scaled 2
    (Array.Subtract
      (Array.Multiply (Array.Subtract P1 (Array.MultiplyAssign (List.replicate D 0) 2⁻¹ P0)) 2)
      P2)
    (Array.Subtract P1 (Add (1 - 1/2) P0 (1/2) P2 P1))
    (by simp [Array.Subtract, Array.Multiply, Add, Array.MultiplyAssign, elementwise_length])
    (by
      intro j hj
      have hj1 : j < P1.length := by
        simpa [Array.Subtract, elementwise_length] using hj
      simp only [Array.Subtract, Array.Multiply, Add, Array.MultiplyAssign]
      rw [elementwise_getD _ _ _ _ (by simpa [elementwise_length] using hj1),
        map_getD _ _ _ (by simpa [elementwise_length] using hj1),
        elementwise_getD _ _ _ _ hj1,
        elementwise_getD _ _ _ _ (by simpa [h1] using hj1),
        elementwise_getD _ _ _ _ hj1,
        elementwise_getD _ _ _ _ (by simpa [elementwise_length] using hj1),
        elementwise_getD _ _ _ _ hj1]
      ring)
  have hhalf := hnc (1/2)
  have hnonneg := NormL2Squared_nonneg (Array.Subtract P1 (Add (1 - 1/2) P0 (1/2) P2 P1))
  simp only [Array.NormL2LessOrEqual, Bool.and_eq_false_iff, decide_eq_false_iff_not, not_le]
  right
  rw [hscaled]
  linarith

theorem ReduceDegree_false {PS : Type} (ops : ParameterSpaceOps PS) (NDEBUG : Bool)
    (kEpsilon : ℚ) (spline : BSpline PS) (dimension : Int) (tolerance_reduction : ℚ)
    (multiplicity : Int) (tolerance : ℚ) (after : BSpline PS)
    (h : BSpline.ReduceDegree ops NDEBUG kEpsilon spline dimension tolerance_reduction
      multiplicity tolerance = .ok (false, after)) : after = spline := by
  simp only [BSpline.ReduceDegree, bind, Except.bind, pure, Except.pure] at h
  repeat' split at h
  all_goals first
    | (simp at h; done)
    | (simp only [Except.ok.injEq, Prod.mk.injEq] at h
       obtain ⟨-, h⟩ := h
       rw [← h])

theorem ReduceDegree_quadraticBezier (NDEBUG : Bool) (kEpsilon a b : ℚ) (D : Nat) (P0 P1 P2 : List ℚ)
    (tolerance_reduction tolerance : ℚ) (hab : a < b)
    (h1 : P1.length = D)
    (htolr : 0 ≤ tolerance_reduction) (htol : 0 ≤ tolerance)
    (hnc : StrictlyNonCollinear P0 P1 P2 tolerance_reduction) :
    BSpline.ReduceDegree (ParameterSpace.ops NDEBUG) NDEBUG kEpsilon
      (quadraticBezier a b D P0 P1 P2) 0 tolerance_reduction 1 tolerance
    = .ok (false, quadraticBezier a b D P0 P1 P2) := by
  have hne : a ≠ b := ne_of_lt hab
  have hchecks : BSpline.RemoveKnot.checks "bsplinelib::splines::BSpline::ReduceDegree"
      (quadraticBezier a b D P0 P1 P2) 0 tolerance_reduction tolerance = .ok () := by
    simp [BSpline.RemoveKnot.checks, quadraticBezier, ThrowIfNamedIntegerIsOutOfBounds, ThrowIfToleranceIsNegative,
      not_lt.mpr htolr, not_lt.mpr htol, bind, Except.bind, Except.mapError]
  have hbezier : ParameterSpace.DetermineBezierExtractionKnots NDEBUG
      { knot_vectors_ := [[a, a, a, b, b, b]], degrees_ := [2] } 0 tolerance
        = .ok (1, []) := by
    cases NDEBUG <;>
    simp [ParameterSpace.DetermineBezierExtractionKnots, ParameterSpace.checks,
      ThrowIfNamedIntegerIsOutOfBounds, ThrowIfToleranceIsNegative, not_lt.mpr htol,
      KnotVector.DetermineBezierExtractionKnots, KnotVector.Runs, perDimension, hne,
      bind, Except.bind, pure, Except.pure]
  have hreduce : ParameterSpace.ReduceDegree NDEBUG
      { knot_vectors_ := [[a, a, a, b, b, b]], degrees_ := [2] } 0 1
        = .ok ({ knot_vectors_ := [[a, a, b, b]], degrees_ := [1] }, 1, [[1/2, 1/2]]) := by
    cases NDEBUG <;>
    simp [ParameterSpace.ReduceDegree, ParameterSpace.checks,
      ThrowIfNamedIntegerIsOutOfBounds, ThrowIfToleranceIsNegative,
      KnotVector.Runs, KnotVector.OfRuns, perDimension, hne, BinomialRatios,
      bind, Except.bind, pure, Except.pure, List.replicate, List.range, List.range.loop]
  have hcount : ParameterSpace.GetNumberOfBasisFunctions
      { knot_vectors_ := [[a, a, a, b, b, b]], degrees_ := [2] } = [3] := by
    simp [ParameterSpace.GetNumberOfBasisFunctions]
  have hsegments : BSpline.ReduceDegree.segments 0 1 [[1/2, 1/2]] [1] tolerance_reduction
      { dim := D, coordinates := [P0, P1, P2] } [3] (descending (1 - 1) 0) = none := by
    have herase := erase_none D P0 P1 P2 tolerance_reduction h1 hnc
    simp only [one_div] at herase
    simp [BSpline.ReduceDegree.segments, descending, ascending, BSpline.ReduceDegree.erasure,
      BSpline.ReduceDegree.eraseSlices, coefficientSet, Index_.LastToBefore,
      Index_.FirstToBehind, IndexValues, stepAt, herase]
  have hbody : ∀ (pre : Except Error PUnit), pre = .ok PUnit.unit →
      (do
        pre
        let spline := quadraticBezier a b D P0 P1 P2
        let parameter_space_backup := spline.parameter_space_
        let vector_space_backup := spline.vector_space_
        let ((number_of_segments, knots_inserted), extracted) ←
          BSpline.MakeBezier (ParameterSpace.ops NDEBUG) NDEBUG kEpsilon spline 0 tolerance
        let number_of_coordinates :=
          (ParameterSpace.ops NDEBUG).GetNumberOfBasisFunctions extracted.parameter_space_
        let (parameter_space, last_segment_coordinate, coefficients) ←
          (ParameterSpace.ops NDEBUG).ReduceDegree extracted.parameter_space_ 0 1
        let number_of_coordinates_in_slice :=
          number_of_coordinates.set (0 : Int).toNat Length.slice
        match BSpline.ReduceDegree.segments 0 last_segment_coordinate coefficients
            number_of_coordinates_in_slice tolerance_reduction extracted.vector_space_
            number_of_coordinates (descending (number_of_segments - 1) 0) with
        | none =>
            pure (false,
              { spline with parameter_space_ := parameter_space_backup,
                            vector_space_ := vector_space_backup })
        | some state =>
            let coarsened ← BSpline.CoarsenKnots (ParameterSpace.ops NDEBUG) NDEBUG kEpsilon
              { extracted with parameter_space_ := parameter_space, vector_space_ := state.1 }
              0 knots_inserted tolerance
            pure (true, coarsened) : Except Error (Bool × BSpline ParameterSpace))
        = .ok (false, quadraticBezier a b D P0 P1 P2) := by
    intro pre hpre
    subst hpre
    simp only [BSpline.MakeBezier, ParameterSpace.ops, quadraticBezier, hbezier, hreduce,
      BSpline.RefineKnots, List.foldlM, bind, Except.bind, pure, Except.pure, hcount,
      Length.slice, Int.toNat_zero, List.set_cons_zero, hsegments]
  cases NDEBUG
  · exact hbody _ (by simpa using hchecks)
  · exact hbody _ rfl

/-- C10: whenever `ReduceDegree` returns false, the spline (parameter space and
vector space) equals its value before the call, for every implementation of the
parameter space; on a quadratic Bezier curve whose control points are strictly
non-collinear (by more than the reduction tolerance), `ReduceDegree` to degree 1
returns false and leaves the spline identical; and so it does on the quadratic
curve of two segments `twoArcs`, where the knot inserted by the Bezier
extraction is undone as well. -/
theorem C10_ReduceDegree_false_leaves_the_spline_identical :
    (∀ (PS : Type) (ops : ParameterSpaceOps PS) (NDEBUG : Bool) (kEpsilon : ℚ)
        (spline : BSpline PS) (dimension : Int) (tolerance_reduction : ℚ)
        (multiplicity : Int) (tolerance : ℚ) (after : BSpline PS),
        BSpline.ReduceDegree ops NDEBUG kEpsilon spline dimension tolerance_reduction
          multiplicity tolerance = .ok (false, after) →
        after = spline)
    ∧ (∀ (NDEBUG : Bool) (kEpsilon a b : ℚ) (D : Nat) (P0 P1 P2 : List ℚ)
        (tolerance_reduction tolerance : ℚ),
        a < b → P1.length = D → 0 ≤ tolerance_reduction → 0 ≤ tolerance →
        StrictlyNonCollinear P0 P1 P2 tolerance_reduction →
        BSpline.ReduceDegree (ParameterSpace.ops NDEBUG) NDEBUG kEpsilon
          (quadraticBezier a b D P0 P1 P2) 0 tolerance_reduction 1 tolerance
        = .ok (false, quadraticBezier a b D P0 P1 P2))
    ∧ (BSpline.MakeBezier (ParameterSpace.ops false) false smallEpsilon twoArcs 0 0).map
          (fun extracted => (extracted.1, extracted.2.parameter_space_.knot_vectors_))
        = .ok ((2, [1/2]), [[0, 0, 0, 1/2, 1/2, 1, 1, 1]])
    ∧ BSpline.ReduceDegree (ParameterSpace.ops false) false smallEpsilon twoArcs 0 0 1 0
        = .ok (false, twoArcs) :=
  ⟨fun _ ops NDEBUG kEpsilon spline dimension tolerance_reduction multiplicity tolerance
      after h =>
    ReduceDegree_false ops NDEBUG kEpsilon spline dimension tolerance_reduction
      multiplicity tolerance after h,
   fun NDEBUG kEpsilon a b D P0 P1 P2 tolerance_reduction tolerance hab h1 htolr htol hnc =>
    ReduceDegree_quadraticBezier NDEBUG kEpsilon a b D P0 P1 P2 tolerance_reduction
      tolerance hab h1 htolr htol hnc,
   by decide!, by decide!⟩

/-- C10 on the parabola: its control points `(0,0), (1,2), (3,0)` are not
collinear, and `ReduceDegree(0, 0, 1, 0)` returns false and leaves it
identical. -/
theorem C10_ReduceDegree_false_leaves_the_spline_identical_witness :
    BSpline.ReduceDegree (ParameterSpace.ops false) false smallEpsilon
        (quadraticBezier 0 1 2 [0, 0] [1, 2] [3, 0]) 0 0 1 0
      = .ok (false, quadraticBezier 0 1 2 [0, 0] [1, 2] [3, 0]) :=
  C10_ReduceDegree_false_leaves_the_spline_identical.2.1 false smallEpsilon 0 1 2
    [0, 0] [1, 2] [3, 0] 0 0 (by norm_num) rfl (le_refl 0) (le_refl 0)
    (by
      intro t
      simp only [Array.NormL2Squared, Array.Subtract, Add, Array.MultiplyAssign, elementwise,
        List.headD, List.tail, List.foldl]
      nlinarith [sq_nonneg (1 - 3 * t)])

/-! ## C3, C5: geometry under insertion and elevation -/

/-- C3: run on the trilinear volume, `InsertKnot(1, 1/2, 1)` changes the value
at the parametric coordinate `(1/4, 1/3, 1/2)` from `5/2` to `53/24`: for the
slices behind the first one, the control point read at
`(slice_coordinate + coordinate_value).GetIndex1d()` (b_spline.inl:185-186) is
not the one of the commented-out formula (b_spline.inl:194-197).  Along the
dimension 0, where the two offsets agree, the value stays `5/2`.  The value at
the mirrored coordinate `(1/2, 1/3, 1/4)` changes as well, from `3` to `21/8`:
the three knot vectors being equal, this is the same call read with the order
of the dimensions reversed, that is with column-major strides. -/
theorem C3_InsertKnot_changes_the_volume :
    BSpline.Evaluate (ParameterSpace.ops false) volume [1/4, 1/3, 1/2] [] = [5/2]
    ∧ (BSpline.InsertKnot (ParameterSpace.ops false) false volume 1 (1/2) 1 0).map
        (fun inserted =>
          BSpline.Evaluate (ParameterSpace.ops false) inserted [1/4, 1/3, 1/2] [])
      = .ok [53/24]
    ∧ (BSpline.InsertKnot (ParameterSpace.ops false) false volume 0 (1/2) 1 0).map
        (fun inserted =>
          BSpline.Evaluate (ParameterSpace.ops false) inserted [1/4, 1/3, 1/2] [])
      = .ok [5/2]
    ∧ BSpline.Evaluate (ParameterSpace.ops false) volume [1/2, 1/3, 1/4] [] = [3]
    ∧ (BSpline.InsertKnot (ParameterSpace.ops false) false volume 1 (1/2) 1 0).map
        (fun inserted =>
          BSpline.Evaluate (ParameterSpace.ops false) inserted [1/2, 1/3, 1/4] [])
      = .ok [21/8] := by
  refine ⟨by decide!, by decide!, by decide!, by decide!, by decide!⟩

/-- C5: run on the quadratic curve of two segments, `ElevateDegree(0, 1)`
overwrites a control point of the first segment while it computes the second
one (`(10/3, 4/3)` instead of `(2/3, 4/3)`), so that the value at `1/4` changes
from `(1, 5/4)` to `(2, 5/4)`, and `ReduceDegree(0, 0, 1)` then returns false;
run on the correctly elevated control points, `ReduceDegree(0, 0, 1)` returns
true and gives the curve back. -/
theorem C5_elevate_then_reduce_fails_on_twoArcs :
    BSpline.Evaluate (ParameterSpace.ops false) twoArcs [1/4] [] = [1, 5/4]
    ∧ (BSpline.ElevateDegree (ParameterSpace.ops false) false smallEpsilon twoArcs 0 1
          0).map
        (fun elevated =>
          (elevated.parameter_space_, elevated.vector_space_.coordinates,
            BSpline.Evaluate (ParameterSpace.ops false) elevated [1/4] []))
      = .ok (twoArcsElevated.parameter_space_,
          [[0, 0], [10/3, 4/3], [4/3, 5/3], [8/3, 1/3], [10/3, 4/3], [4, 4]], [2, 5/4])
    ∧ ((BSpline.ElevateDegree (ParameterSpace.ops false) false smallEpsilon twoArcs 0 1
          0).bind
        (fun elevated =>
          BSpline.ReduceDegree (ParameterSpace.ops false) false smallEpsilon elevated 0 0
            1 0)).map (fun result => result.1)
      = .ok false
    ∧ BSpline.ReduceDegree (ParameterSpace.ops false) false smallEpsilon twoArcsElevated
        0 0 1 0
      = .ok (true, twoArcs) := by
  refine ⟨by decide!, by decide!, by decide!, by decide!⟩

/-! ## C11, C12: the precondition blocks -/

theorem ThrowIfNamedIntegerIsOutOfBounds_error (named_integer maximum_value : Int)
    (h : named_integer < 0 ∨ maximum_value < named_integer) :
    ∃ message, ThrowIfNamedIntegerIsOutOfBounds named_integer maximum_value
      = .error (.OutOfRange message) := by
  simp [ThrowIfNamedIntegerIsOutOfBounds, h]

theorem ThrowIfNamedIntegerIsOutOfBounds_ok (named_integer maximum_value : Int)
    (h₀ : 0 ≤ named_integer) (h₁ : named_integer ≤ maximum_value) :
    ThrowIfNamedIntegerIsOutOfBounds named_integer maximum_value = .ok () := by
  simp [ThrowIfNamedIntegerIsOutOfBounds, not_lt.mpr h₀, not_lt.mpr h₁]

theorem ThrowIfToleranceIsNegative_error (tolerance : ℚ) (h : tolerance < 0) :
    ∃ message, ThrowIfToleranceIsNegative tolerance = .error (.InvalidArgument message) := by
  simp [ThrowIfToleranceIsNegative, h]

theorem ThrowIfToleranceIsNegative_ok (tolerance : ℚ) (h : 0 ≤ tolerance) :
    ThrowIfToleranceIsNegative tolerance = .ok () := by
  simp [ThrowIfToleranceIsNegative, not_lt.mpr h]

theorem InsertKnot_checks_out_of_bounds {PS : Type} (ops : ParameterSpaceOps PS)
    (spline : BSpline PS) (dimension : Int) (knot tolerance : ℚ)
    (h : dimension < 0 ∨ spline.parametric_dimensionality_ - 1 < dimension) :
    ∃ message, BSpline.InsertKnot.checks ops spline dimension knot tolerance
      = .error (.OutOfRange message) := by
  obtain ⟨message, hm⟩ := ThrowIfNamedIntegerIsOutOfBounds_error dimension
    (spline.parametric_dimensionality_ - 1) h
  simp [BSpline.InsertKnot.checks, hm, bind, Except.bind, Except.mapError, rethrow,
    ThrowForDimension, Error.withMessage]

theorem InsertKnot_checks_negative_tolerance {PS : Type} (ops : ParameterSpaceOps PS)
    (spline : BSpline PS) (dimension : Int) (knot tolerance : ℚ)
    (h₀ : 0 ≤ dimension) (h₁ : dimension ≤ spline.parametric_dimensionality_ - 1)
    (h : tolerance < 0) :
    ∃ message, BSpline.InsertKnot.checks ops spline dimension knot tolerance
      = .error (.InvalidArgument message) := by
  obtain ⟨message, hm⟩ := ThrowIfToleranceIsNegative_error tolerance h
  simp [BSpline.InsertKnot.checks, ThrowIfNamedIntegerIsOutOfBounds_ok _ _ h₀ h₁, hm, bind,
    Except.bind, Except.mapError, rethrow, ThrowForDimension, Error.withMessage]

theorem RemoveKnot_checks_out_of_bounds {PS : Type} (kName : String) (spline : BSpline PS)
    (dimension : Int) (tolerance_removal tolerance : ℚ)
    (h : dimension < 0 ∨ spline.parametric_dimensionality_ - 1 < dimension) :
    ∃ message, BSpline.RemoveKnot.checks kName spline dimension tolerance_removal tolerance
      = .error (.OutOfRange message) := by
  obtain ⟨message, hm⟩ := ThrowIfNamedIntegerIsOutOfBounds_error dimension
    (spline.parametric_dimensionality_ - 1) h
  simp [BSpline.RemoveKnot.checks, hm, bind, Except.bind, Except.mapError, rethrow,
    ThrowForDimension, Error.withMessage]

theorem RemoveKnot_checks_negative_tolerance {PS : Type} (kName : String)
    (spline : BSpline PS) (dimension : Int) (tolerance_removal tolerance : ℚ)
    (h₀ : 0 ≤ dimension) (h₁ : dimension ≤ spline.parametric_dimensionality_ - 1)
    (h : tolerance_removal < 0 ∨ tolerance < 0) :
    ∃ message, BSpline.RemoveKnot.checks kName spline dimension tolerance_removal tolerance
      = .error (.InvalidArgument message) := by
  by_cases hr : tolerance_removal < 0
  · obtain ⟨message, hm⟩ := ThrowIfToleranceIsNegative_error tolerance_removal hr
    simp [BSpline.RemoveKnot.checks, ThrowIfNamedIntegerIsOutOfBounds_ok _ _ h₀ h₁, hm, bind,
      Except.bind, Except.mapError, rethrow, ThrowForDimension, Error.withMessage]
  · have ht : tolerance < 0 := h.resolve_left hr
    obtain ⟨message, hm⟩ := ThrowIfToleranceIsNegative_error tolerance ht
    simp [BSpline.RemoveKnot.checks, ThrowIfNamedIntegerIsOutOfBounds_ok _ _ h₀ h₁,
      ThrowIfToleranceIsNegative_ok _ (not_lt.mp hr), hm, bind,
      Except.bind, Except.mapError, rethrow, ThrowForDimension, Error.withMessage]

theorem ElevateDegree_checks_out_of_bounds {PS : Type} (spline : BSpline PS)
    (dimension : Int) (tolerance : ℚ)
    (h : dimension < 0 ∨ spline.parametric_dimensionality_ - 1 < dimension) :
    ∃ message, BSpline.ElevateDegree.checks spline dimension tolerance
      = .error (.OutOfRange message) := by
  obtain ⟨message, hm⟩ := ThrowIfNamedIntegerIsOutOfBounds_error dimension
    (spline.parametric_dimensionality_ - 1) h
  simp [BSpline.ElevateDegree.checks, hm, bind, Except.bind, Except.mapError, rethrow,
    ThrowForDimension, Error.withMessage]

theorem ElevateDegree_checks_negative_tolerance {PS : Type} (spline : BSpline PS)
    (dimension : Int) (tolerance : ℚ)
    (h₀ : 0 ≤ dimension) (h₁ : dimension ≤ spline.parametric_dimensionality_ - 1)
    (h : tolerance < 0) :
    ∃ message, BSpline.ElevateDegree.checks spline dimension tolerance
      = .error (.InvalidArgument message) := by
  obtain ⟨message, hm⟩ := ThrowIfToleranceIsNegative_error tolerance h
  simp [BSpline.ElevateDegree.checks, ThrowIfNamedIntegerIsOutOfBounds_ok _ _ h₀ h₁, hm, bind,
    Except.bind, Except.mapError, rethrow, ThrowForDimension, Error.withMessage]

theorem InsertKnot_of_failed_checks {PS : Type} (ops : ParameterSpaceOps PS)
    (spline : BSpline PS) (dimension : Int) (knot : ℚ) (multiplicity : Int) (tolerance : ℚ)
    (exception : Error)
    (h : BSpline.InsertKnot.checks ops spline dimension knot tolerance = .error exception) :
    BSpline.InsertKnot ops false spline dimension knot multiplicity tolerance
      = .error exception := by
  simp [BSpline.InsertKnot, h, bind, Except.bind]

theorem RemoveKnot_of_failed_checks {PS : Type} (ops : ParameterSpaceOps PS)
    (spline : BSpline PS) (dimension : Int) (knot tolerance_removal : ℚ) (multiplicity : Int)
    (tolerance : ℚ) (exception : Error)
    (h : BSpline.RemoveKnot.checks "bsplinelib::splines::BSpline::RemoveKnot" spline dimension
      tolerance_removal tolerance = .error exception) :
    BSpline.RemoveKnot ops false spline dimension knot tolerance_removal multiplicity tolerance
      = .error exception := by
  simp [BSpline.RemoveKnot, h, bind, Except.bind]

theorem ElevateDegree_of_failed_checks {PS : Type} (ops : ParameterSpaceOps PS)
    (kEpsilon : ℚ) (spline : BSpline PS) (dimension : Int) (multiplicity : Int)
    (tolerance : ℚ) (exception : Error)
    (h : BSpline.ElevateDegree.checks spline dimension tolerance = .error exception) :
    BSpline.ElevateDegree ops false kEpsilon spline dimension multiplicity tolerance
      = .error exception := by
  simp only [BSpline.ElevateDegree.checks, bind, Except.bind] at h
  simp [BSpline.ElevateDegree, h, bind, Except.bind]

theorem ReduceDegree_of_failed_checks {PS : Type} (ops : ParameterSpaceOps PS)
    (kEpsilon : ℚ) (spline : BSpline PS) (dimension : Int) (tolerance_reduction : ℚ)
    (multiplicity : Int) (tolerance : ℚ) (exception : Error)
    (h : BSpline.RemoveKnot.checks "bsplinelib::splines::BSpline::ReduceDegree" spline dimension
      tolerance_reduction tolerance = .error exception) :
    BSpline.ReduceDegree ops false kEpsilon spline dimension tolerance_reduction multiplicity
      tolerance = .error exception := by
  simp [BSpline.ReduceDegree, h, bind, Except.bind]

theorem checkTolerance_negative (name : String) (tolerance : ℚ) (h : tolerance < 0) :
    ∃ message, checkTolerance false name tolerance = .error (.InvalidArgument message) := by
  simp [checkTolerance, ThrowIfToleranceIsNegative, h, Except.mapError,
    rethrowInvalidArgument, Throw, Error.withMessage]

theorem checkTolerance_ok (NDEBUG : Bool) (name : String) (tolerance : ℚ)
    (h : NDEBUG = true ∨ 0 ≤ tolerance) : checkTolerance NDEBUG name tolerance = .ok () := by
  cases NDEBUG
  · have h₀ : 0 ≤ tolerance := by simpa using h
    simp [checkTolerance, ThrowIfToleranceIsNegative, not_lt.mpr h₀, Except.mapError]
  · simp [checkTolerance]

/-- C12 (amended): in a build without NDEBUG, `InsertKnot` and `ElevateDegree`
raise InvalidArgument when the dimension is in bounds and the tolerance is
negative, `RemoveKnot` and `ReduceDegree` when the dimension is in bounds and
the removal (reduction) tolerance or the general tolerance is negative, and each
of the four overloads of `ZeroDegreeBSplineBasisFunction::operator()`, `IsEqual`
and `WeightedVectorSpace::DetermineMaximumDistanceFromOriginAndMinimumWeight`
when its tolerance is negative. -/
theorem C12_negative_tolerance_raises_InvalidArgument_in_debug_builds
    {PS UniqueEvaluations UniqueDerivatives IsTopLevelComputed : Type}
    (ops : ParameterSpaceOps PS) (kEpsilon : ℚ) (spline : BSpline PS) (dimension : Int)
    (knot tolerance_removal tolerance : ℚ) (multiplicity : Int)
    (basis_function lhs rhs : ZeroDegreeBSplineBasisFunction)
    (Base_IsEqual : ZeroDegreeBSplineBasisFunction → ZeroDegreeBSplineBasisFunction → ℚ →
      Except Error Bool)
    (parametric_coordinate : ℚ) (derivative tree_info : Int)
    (unique_evaluations : UniqueEvaluations) (unique_derivatives : UniqueDerivatives)
    (top_level_computed : IsTopLevelComputed)
    (TwoNorm : List ℚ → ℚ) (numeric_limits_max : ℚ)
    (weighted_vector_space : WeightedVectorSpace) :
    (0 ≤ dimension → dimension ≤ spline.parametric_dimensionality_ - 1 → tolerance < 0 →
      (∃ message, BSpline.InsertKnot ops false spline dimension knot multiplicity tolerance
          = .error (.InvalidArgument message))
      ∧ (∃ message, BSpline.ElevateDegree ops false kEpsilon spline dimension multiplicity
          tolerance = .error (.InvalidArgument message)))
    ∧ (0 ≤ dimension → dimension ≤ spline.parametric_dimensionality_ - 1 →
        tolerance_removal < 0 ∨ tolerance < 0 →
      (∃ message, BSpline.RemoveKnot ops false spline dimension knot tolerance_removal
          multiplicity tolerance = .error (.InvalidArgument message))
      ∧ (∃ message, BSpline.ReduceDegree ops false kEpsilon spline dimension
          tolerance_removal multiplicity tolerance = .error (.InvalidArgument message)))
    ∧ (tolerance < 0 →
      (∃ message, basis_function.Evaluate false parametric_coordinate tolerance
          = .error (.InvalidArgument message))
      ∧ (∃ message, basis_function.EvaluateMemoized false parametric_coordinate
          unique_evaluations tree_info tolerance = .error (.InvalidArgument message))
      ∧ (∃ message, basis_function.EvaluateDerivative false parametric_coordinate derivative
          tolerance = .error (.InvalidArgument message))
      ∧ (∃ message, basis_function.EvaluateDerivativeMemoized false parametric_coordinate
          derivative unique_derivatives unique_evaluations top_level_computed tree_info
          tolerance = .error (.InvalidArgument message))
      ∧ (∃ message, ZeroDegreeBSplineBasisFunction.IsEqual false Base_IsEqual lhs rhs
          tolerance = .error (.InvalidArgument message))
      ∧ (∃ message,
          WeightedVectorSpace.DetermineMaximumDistanceFromOriginAndMinimumWeight false TwoNorm
            numeric_limits_max weighted_vector_space tolerance
          = .error (.InvalidArgument message))) := by
  refine ⟨fun h₀ h₁ h => ?_, fun h₀ h₁ h => ?_, fun h => ?_⟩
  · obtain ⟨m₁, c₁⟩ := InsertKnot_checks_negative_tolerance ops spline dimension knot
      tolerance h₀ h₁ h
    obtain ⟨m₂, c₂⟩ := ElevateDegree_checks_negative_tolerance spline dimension tolerance
      h₀ h₁ h
    exact ⟨⟨m₁, InsertKnot_of_failed_checks ops spline dimension knot multiplicity tolerance
        _ c₁⟩,
      ⟨m₂, ElevateDegree_of_failed_checks ops kEpsilon spline dimension multiplicity
        tolerance _ c₂⟩⟩
  · obtain ⟨m₁, c₁⟩ := RemoveKnot_checks_negative_tolerance
      "bsplinelib::splines::BSpline::RemoveKnot" spline dimension tolerance_removal tolerance
      h₀ h₁ h
    obtain ⟨m₂, c₂⟩ := RemoveKnot_checks_negative_tolerance
      "bsplinelib::splines::BSpline::ReduceDegree" spline dimension tolerance_removal
      tolerance h₀ h₁ h
    exact ⟨⟨m₁, RemoveKnot_of_failed_checks ops spline dimension knot tolerance_removal
        multiplicity tolerance _ c₁⟩,
      ⟨m₂, ReduceDegree_of_failed_checks ops kEpsilon spline dimension tolerance_removal
        multiplicity tolerance _ c₂⟩⟩
  · obtain ⟨m₁, c₁⟩ := checkTolerance_negative
      ("splinelib::sources::parameter_spaces::"
        ++ "ZeroDegreeBSplineBasisFunction::operator()") tolerance h
    obtain ⟨m₂, c₂⟩ := checkTolerance_negative
      ("splinelib::sources::parameter_spaces::IsEqual::" ++ "ZeroDegreeBSplineBasisFunction")
      tolerance h
    obtain ⟨m₃, c₃⟩ := checkTolerance_negative
      ("bsplinelib::vector_spaces::WeightedVectorSpace::"
        ++ "DetermineMaximumDistanceFromOriginAndMinimumWeight") tolerance h
    refine ⟨⟨m₁, ?_⟩, ⟨m₁, ?_⟩, ⟨m₁, ?_⟩, ⟨m₁, ?_⟩, ⟨m₂, ?_⟩, ⟨m₃, ?_⟩⟩
    · simp only [ZeroDegreeBSplineBasisFunction.Evaluate, c₁, bind, Except.bind]
    · simp only [ZeroDegreeBSplineBasisFunction.EvaluateMemoized,
        ZeroDegreeBSplineBasisFunction.Evaluate, c₁, bind, Except.bind]
    · simp only [ZeroDegreeBSplineBasisFunction.EvaluateDerivative, c₁, bind, Except.bind]
    · simp only [ZeroDegreeBSplineBasisFunction.EvaluateDerivativeMemoized, c₁, bind,
        Except.bind]
    · simp only [ZeroDegreeBSplineBasisFunction.IsEqual, c₂, bind, Except.bind]
    · simp only [WeightedVectorSpace.DetermineMaximumDistanceFromOriginAndMinimumWeight, c₃,
        bind, Except.bind]

/-- C12 (amended) on the kinked line and on the degree-0 basis function of the
span `[0, 1)` of the knot vector `[0, 0, 1, 2, 2]`, with the tolerance `-1`. -/
theorem C12_negative_tolerance_raises_InvalidArgument_in_debug_builds_witness :
    (∃ message, BSpline.InsertKnot (ParameterSpace.ops false) false kinkedLine 0 (1/2) 1 (-1)
        = .error (.InvalidArgument message))
    ∧ (∃ message, BSpline.RemoveKnot (ParameterSpace.ops false) false kinkedLine 0 (1/2) (-1)
        1 0 = .error (.InvalidArgument message))
    ∧ (∃ message,
        (ZeroDegreeBSplineBasisFunction.Construct [0, 0, 1, 2, 2] 1 0).Evaluate false (1/2) (-1)
          = .error (.InvalidArgument message)) :=
  ⟨((C12_negative_tolerance_raises_InvalidArgument_in_debug_builds
      (ParameterSpace.ops false) smallEpsilon kinkedLine 0 (1/2) 0 (-1) 1
      (ZeroDegreeBSplineBasisFunction.Construct [0, 0, 1, 2, 2] 1 0)
      (ZeroDegreeBSplineBasisFunction.Construct [0, 0, 1, 2, 2] 1 0)
      (ZeroDegreeBSplineBasisFunction.Construct [0, 0, 1, 2, 2] 1 0)
      (fun _ _ _ => .ok true) (1/2) 1 0 () () () (fun _ => 0) 1
      { dimensionality := 2, coordinates_ := [] }).1
      (by decide) (by decide) (by norm_num)).1,
   ((C12_negative_tolerance_raises_InvalidArgument_in_debug_builds
      (ParameterSpace.ops false) smallEpsilon kinkedLine 0 (1/2) (-1) 0 1
      (ZeroDegreeBSplineBasisFunction.Construct [0, 0, 1, 2, 2] 1 0)
      (ZeroDegreeBSplineBasisFunction.Construct [0, 0, 1, 2, 2] 1 0)
      (ZeroDegreeBSplineBasisFunction.Construct [0, 0, 1, 2, 2] 1 0)
      (fun _ _ _ => .ok true) (1/2) 1 0 () () () (fun _ => 0) 1
      { dimensionality := 2, coordinates_ := [] }).2.1
      (by decide) (by decide) (Or.inl (by norm_num))).1,
   ((C12_negative_tolerance_raises_InvalidArgument_in_debug_builds
      (ParameterSpace.ops false) smallEpsilon kinkedLine 0 (1/2) 0 (-1) 1
      (ZeroDegreeBSplineBasisFunction.Construct [0, 0, 1, 2, 2] 1 0)
      (ZeroDegreeBSplineBasisFunction.Construct [0, 0, 1, 2, 2] 1 0)
      (ZeroDegreeBSplineBasisFunction.Construct [0, 0, 1, 2, 2] 1 0)
      (fun _ _ _ => .ok true) (1/2) 1 0 () () () (fun _ => 0) 1
      { dimensionality := 2, coordinates_ := [] }).2.2
      (by norm_num)).1⟩

/-- C12 (as stated) fails.  In a build with NDEBUG,
`DetermineMaximumDistanceFromOriginAndMinimumWeight` run with the tolerance `-1`
on the homogeneous coordinates `(6, 8, 2), (0, 1, 1)` returns the pair `(5, 1)`
(the norm being the exact rational square root).  In a build without NDEBUG,
`InsertKnot` run on the kinked line with the tolerance `-1` and the dimension 1,
which is out of bounds, raises OutOfRange: the dimension is checked first.  In
either build, `ConsecutiveTopNodeEvaluation` run with the tolerance `-1` returns
1: it makes no check. -/
theorem C12_negative_tolerance_without_InvalidArgument :
    WeightedVectorSpace.DetermineMaximumDistanceFromOriginAndMinimumWeight true
        (fun coordinate => Rat.sqrt (Array.NormL2Squared coordinate)) 1000
        { dimensionality := 2, coordinates_ := [[6, 8, 2], [0, 1, 1]] } (-1) = .ok (5, 1)
    ∧ (∃ message, BSpline.InsertKnot (ParameterSpace.ops false) false kinkedLine 1 (1/2) 1 (-1)
        = .error (.OutOfRange message))
    ∧ (ZeroDegreeBSplineBasisFunction.Construct [0, 0, 1, 2, 2] 1 0).ConsecutiveTopNodeEvaluation
        (1/2) () 2 true false (-1) = 1 :=
  ⟨by decide!,
    InsertKnot_checks_out_of_bounds (ParameterSpace.ops false) kinkedLine 1 (1/2) (-1)
        (Or.inr (by decide)) |>.elim
      (fun message h => ⟨message, InsertKnot_of_failed_checks _ _ _ _ 1 _ _ h⟩),
    rfl⟩

/-! ## C13, C14: precondition violations leave the spline as it was -/

theorem InsertKnot_inPlace_returned {PS : Type} (ops : ParameterSpaceOps PS) (NDEBUG : Bool)
    (spline : BSpline PS) (dimension : Int) (knot : ℚ) (multiplicity : Int) (tolerance : ℚ) :
    BSpline.InsertKnot ops NDEBUG spline dimension knot multiplicity tolerance
      = (returned (BSpline.InsertKnot.inPlace ops NDEBUG spline dimension knot multiplicity
          tolerance)).map (fun result => result.2) := by
  cases NDEBUG
  · simp only [BSpline.InsertKnot, BSpline.InsertKnot.inPlace, precondition, bind, Except.bind]
    cases BSpline.InsertKnot.checks ops spline dimension knot tolerance with
    | error e => simp [returned, Except.map]
    | ok _ =>
      cases ops.InsertKnot spline.parameter_space_ dimension knot multiplicity tolerance with
      | error e => simp [returned, Except.map]
      | ok r => simp [returned, Except.map, pure, Except.pure]
  · simp only [BSpline.InsertKnot, BSpline.InsertKnot.inPlace, precondition, bind, Except.bind]
    cases ops.InsertKnot spline.parameter_space_ dimension knot multiplicity tolerance with
    | error e => simp [returned, Except.map, pure, Except.pure]
    | ok r => simp [returned, Except.map, pure, Except.pure]

theorem RemoveKnot_inPlace_returned {PS : Type} (ops : ParameterSpaceOps PS) (NDEBUG : Bool)
    (spline : BSpline PS) (dimension : Int) (knot tolerance_removal : ℚ) (multiplicity : Int)
    (tolerance : ℚ) :
    BSpline.RemoveKnot ops NDEBUG spline dimension knot tolerance_removal multiplicity tolerance
      = returned (BSpline.RemoveKnot.inPlace ops NDEBUG spline dimension knot tolerance_removal
          multiplicity tolerance) := by
  have hbody : ∀ (pre : Except Error Unit),
      (do
        pre
        let parameter_space := spline.parameter_space_
        let parameter_space_backup := parameter_space
        let number_of_coordinates := ops.GetNumberOfBasisFunctions parameter_space
        let (parameter_space, start_value, coefficients) ←
          ops.RemoveKnot parameter_space dimension knot multiplicity tolerance
        let removals := coefficients.length
        match BSpline.RemoveKnot.loop dimension start_value coefficients tolerance_removal
            removals spline.vector_space_ number_of_coordinates with
        | .failed removal vector_space_backup =>
            let successful_removals := multiplicity - removal
            let (parameter_space_backup, _) ←
              ops.RemoveKnot parameter_space_backup dimension knot successful_removals
                tolerance
            pure (successful_removals,
              { spline with parameter_space_ := parameter_space_backup,
                            vector_space_ := vector_space_backup })
        | .completed vector_space =>
            pure ((removals : Int),
              { spline with parameter_space_ := parameter_space,
                            vector_space_ := vector_space }) : Except Error (Int × BSpline PS))
      = returned
          (match pre with
          | .error exception => (spline, .error exception)
          | .ok _ =>
              let parameter_space_backup := spline.parameter_space_
              let number_of_coordinates :=
                ops.GetNumberOfBasisFunctions spline.parameter_space_
              match ops.RemoveKnot spline.parameter_space_ dimension knot multiplicity
                  tolerance with
              | .error exception =>
                  ({ spline with
                      parameter_space_ := ops.afterThrow spline.parameter_space_ },
                    .error exception)
              | .ok (parameter_space, start_value, coefficients) =>
                  let removals := coefficients.length
                  match BSpline.RemoveKnot.loop dimension start_value coefficients
                      tolerance_removal removals spline.vector_space_
                      number_of_coordinates with
                  | .failed removal vector_space_backup =>
                      let successful_removals := multiplicity - removal
                      match ops.RemoveKnot parameter_space_backup dimension knot
                          successful_removals tolerance with
                      | .error exception =>
                          ({ spline with
                              parameter_space_ := parameter_space,
                              vector_space_ :=
                                BSpline.RemoveKnot.loopAtFailure dimension start_value
                                  coefficients tolerance_removal removals
                                  spline.vector_space_ number_of_coordinates },
                            .error exception)
                      | .ok (parameter_space_backup, _) =>
                          ({ spline with parameter_space_ := parameter_space_backup,
                                         vector_space_ := vector_space_backup },
                            .ok successful_removals)
                  | .completed vector_space =>
                      ({ spline with parameter_space_ := parameter_space,
                                     vector_space_ := vector_space },
                        .ok (removals : Int))) := by
    intro pre
    cases pre with
    | error e => rfl
    | ok _ =>
      simp only [bind, Except.bind]
      cases ops.RemoveKnot spline.parameter_space_ dimension knot multiplicity tolerance with
      | error e => rfl
      | ok r =>
        obtain ⟨parameter_space, start_value, coefficients⟩ := r
        simp only []
        cases BSpline.RemoveKnot.loop dimension start_value coefficients tolerance_removal
            coefficients.length spline.vector_space_
            (ops.GetNumberOfBasisFunctions spline.parameter_space_) with
        | failed removal vector_space_backup =>
          simp only []
          cases ops.RemoveKnot spline.parameter_space_ dimension knot (multiplicity - removal)
              tolerance with
          | error e => rfl
          | ok r' => rfl
        | completed vector_space => rfl
  cases NDEBUG
  · exact hbody _
  · exact hbody (.ok ())

theorem RefineKnots_inPlace_returned {PS : Type} (ops : ParameterSpaceOps PS) (NDEBUG : Bool)
    (kEpsilon : ℚ) (dimension : Int) (knots : List ℚ) (spline : BSpline PS) :
    BSpline.RefineKnots ops NDEBUG kEpsilon spline dimension knots
      = (returned (BSpline.RefineKnots.inPlace ops NDEBUG kEpsilon dimension spline knots)).map
          (fun result => result.2) := by
  induction knots generalizing spline with
  | nil => rfl
  | cons knot knots ih =>
    simp only [BSpline.RefineKnots, List.foldlM_cons, BSpline.RefineKnots.inPlace]
    rw [InsertKnot_inPlace_returned]
    rcases BSpline.InsertKnot.inPlace ops NDEBUG spline dimension knot 1 kEpsilon with
      ⟨after, _ | _⟩
    · rfl
    · simp only [returned, Except.map, bind, Except.bind]
      exact ih after

theorem CoarsenKnots_inPlace_returned {PS : Type} (ops : ParameterSpaceOps PS) (NDEBUG : Bool)
    (kEpsilon : ℚ) (dimension : Int) (tolerance_removal : ℚ) (knots : List ℚ)
    (spline : BSpline PS) :
    BSpline.CoarsenKnots ops NDEBUG kEpsilon spline dimension knots tolerance_removal
      = (returned (BSpline.CoarsenKnots.inPlace ops NDEBUG kEpsilon dimension tolerance_removal
          spline knots)).map (fun result => result.2) := by
  induction knots generalizing spline with
  | nil => rfl
  | cons knot knots ih =>
    simp only [BSpline.CoarsenKnots, List.foldlM_cons, BSpline.CoarsenKnots.inPlace]
    rw [RemoveKnot_inPlace_returned]
    rcases BSpline.RemoveKnot.inPlace ops NDEBUG spline dimension knot tolerance_removal 1
      kEpsilon with ⟨after, _ | _⟩
    · rfl
    · simp only [returned, Except.map, bind, Except.bind]
      exact ih after

theorem MakeBezier_inPlace_returned {PS : Type} (ops : ParameterSpaceOps PS) (NDEBUG : Bool)
    (kEpsilon : ℚ) (spline : BSpline PS) (dimension : Int) (tolerance : ℚ) :
    BSpline.MakeBezier ops NDEBUG kEpsilon spline dimension tolerance
      = returned (BSpline.MakeBezier.inPlace ops NDEBUG kEpsilon spline dimension tolerance) := by
  simp only [BSpline.MakeBezier, BSpline.MakeBezier.inPlace, bind, Except.bind]
  cases ops.DetermineBezierExtractionKnots spline.parameter_space_ dimension tolerance with
  | error e => rfl
  | ok bezier_information =>
    simp only [RefineKnots_inPlace_returned]
    rcases BSpline.RefineKnots.inPlace ops NDEBUG kEpsilon dimension spline
      bezier_information.2 with ⟨after, _ | _⟩
    · rfl
    · rfl

theorem ElevateDegree_inPlace_returned {PS : Type} (ops : ParameterSpaceOps PS)
    (NDEBUG : Bool) (kEpsilon : ℚ) (spline : BSpline PS) (dimension : Int)
    (multiplicity : Int) (tolerance : ℚ) :
    BSpline.ElevateDegree ops NDEBUG kEpsilon spline dimension multiplicity tolerance
      = (returned (BSpline.ElevateDegree.inPlace ops NDEBUG kEpsilon spline dimension
          multiplicity tolerance)).map (fun result => result.2) := by
  have hbody : ∀ (pre : Except Error Unit),
      (do
        pre
        let vector_space_dim := spline.vector_space_.Dim
        let coordinate := Storage.owned (List.replicate vector_space_dim 0)
        let ((number_of_segments, knots_inserted), spline) ←
          BSpline.MakeBezier ops NDEBUG kEpsilon spline dimension tolerance
        let number_of_coordinates := ops.GetNumberOfBasisFunctions spline.parameter_space_
        let (parameter_space, last_segment_coordinate, coefficients) ←
          ops.ElevateDegree spline.parameter_space_ dimension multiplicity
        let number_of_coordinates_in_slice :=
          number_of_coordinates.set dimension.toNat Length.slice
        let state := (ascending 0 (number_of_segments - 1)).foldl
          (BSpline.ElevateDegree.segment dimension multiplicity last_segment_coordinate
            coefficients number_of_coordinates_in_slice)
          { vector_space := spline.vector_space_, coordinate := coordinate,
            number_of_coordinates := number_of_coordinates, last_coordinate := 0 }
        BSpline.CoarsenKnots ops NDEBUG kEpsilon
          { spline with parameter_space_ := parameter_space,
                        vector_space_ := state.vector_space }
          dimension knots_inserted tolerance : Except Error (BSpline PS))
      = (returned
          (match pre with
          | .error exception => (spline, .error exception)
          | .ok _ =>
              let vector_space_dim := spline.vector_space_.Dim
              let coordinate := Storage.owned (List.replicate vector_space_dim 0)
              match BSpline.MakeBezier.inPlace ops NDEBUG kEpsilon spline dimension
                  tolerance with
              | (spline, .error exception) => (spline, .error exception)
              | (spline, .ok (number_of_segments, knots_inserted)) =>
                  let number_of_coordinates :=
                    ops.GetNumberOfBasisFunctions spline.parameter_space_
                  match ops.ElevateDegree spline.parameter_space_ dimension multiplicity with
                  | .error exception =>
                      ({ spline with
                          parameter_space_ := ops.afterThrow spline.parameter_space_ },
                        .error exception)
                  | .ok (parameter_space, last_segment_coordinate, coefficients) =>
                      let number_of_coordinates_in_slice :=
                        number_of_coordinates.set dimension.toNat Length.slice
                      let state := (ascending 0 (number_of_segments - 1)).foldl
                        (BSpline.ElevateDegree.segment dimension multiplicity
                          last_segment_coordinate coefficients number_of_coordinates_in_slice)
                        { vector_space := spline.vector_space_, coordinate := coordinate,
                          number_of_coordinates := number_of_coordinates,
                          last_coordinate := 0 }
                      BSpline.CoarsenKnots.inPlace ops NDEBUG kEpsilon dimension tolerance
                        { spline with parameter_space_ := parameter_space,
                                      vector_space_ := state.vector_space }
                        knots_inserted)).map (fun result => result.2) := by
    intro pre
    cases pre with
    | error e => rfl
    | ok _ =>
      simp only [bind, Except.bind, MakeBezier_inPlace_returned]
      rcases BSpline.MakeBezier.inPlace ops NDEBUG kEpsilon spline dimension tolerance with
        ⟨extracted, _ | ⟨number_of_segments, knots_inserted⟩⟩
      · rfl
      · simp only [returned]
        cases ops.ElevateDegree extracted.parameter_space_ dimension multiplicity with
        | error e => rfl
        | ok r =>
          obtain ⟨parameter_space, last_segment_coordinate, coefficients⟩ := r
          simp only []
          exact CoarsenKnots_inPlace_returned ops NDEBUG kEpsilon dimension tolerance
            knots_inserted _
  cases NDEBUG
  · exact hbody _
  · exact hbody (.ok ())

theorem ReduceDegree_inPlace_returned {PS : Type} (ops : ParameterSpaceOps PS)
    (NDEBUG : Bool) (kEpsilon : ℚ) (spline : BSpline PS) (dimension : Int)
    (tolerance_reduction : ℚ) (multiplicity : Int) (tolerance : ℚ) :
    BSpline.ReduceDegree ops NDEBUG kEpsilon spline dimension tolerance_reduction multiplicity
        tolerance
      = returned (BSpline.ReduceDegree.inPlace ops NDEBUG kEpsilon spline dimension
          tolerance_reduction multiplicity tolerance) := by
  have hbody : ∀ (pre : Except Error Unit),
      (do
        pre
        let parameter_space_backup := spline.parameter_space_
        let vector_space_backup := spline.vector_space_
        let ((number_of_segments, knots_inserted), extracted) ←
          BSpline.MakeBezier ops NDEBUG kEpsilon spline dimension tolerance
        let number_of_coordinates := ops.GetNumberOfBasisFunctions extracted.parameter_space_
        let (parameter_space, last_segment_coordinate, coefficients) ←
          ops.ReduceDegree extracted.parameter_space_ dimension multiplicity
        let number_of_coordinates_in_slice :=
          number_of_coordinates.set dimension.toNat Length.slice
        match BSpline.ReduceDegree.segments dimension last_segment_coordinate coefficients
            number_of_coordinates_in_slice tolerance_reduction extracted.vector_space_
            number_of_coordinates (descending (number_of_segments - 1) 0) with
        | none =>
            pure (false,
              { spline with parameter_space_ := parameter_space_backup,
                            vector_space_ := vector_space_backup })
        | some state =>
            let coarsened ← BSpline.CoarsenKnots ops NDEBUG kEpsilon
              { extracted with parameter_space_ := parameter_space, vector_space_ := state.1 }
              dimension knots_inserted tolerance
            pure (true, coarsened) : Except Error (Bool × BSpline PS))
      = returned
          (match pre with
          | .error exception => (spline, .error exception)
          | .ok _ =>
              let parameter_space_backup := spline.parameter_space_
              let vector_space_backup := spline.vector_space_
              match BSpline.MakeBezier.inPlace ops NDEBUG kEpsilon spline dimension
                  tolerance with
              | (extracted, .error exception) => (extracted, .error exception)
              | (extracted, .ok (number_of_segments, knots_inserted)) =>
                  let number_of_coordinates :=
                    ops.GetNumberOfBasisFunctions extracted.parameter_space_
                  match ops.ReduceDegree extracted.parameter_space_ dimension multiplicity with
                  | .error exception =>
                      ({ extracted with
                          parameter_space_ := ops.afterThrow extracted.parameter_space_ },
                        .error exception)
                  | .ok (parameter_space, last_segment_coordinate, coefficients) =>
                      let number_of_coordinates_in_slice :=
                        number_of_coordinates.set dimension.toNat Length.slice
                      match BSpline.ReduceDegree.segments dimension last_segment_coordinate
                          coefficients number_of_coordinates_in_slice tolerance_reduction
                          extracted.vector_space_ number_of_coordinates
                          (descending (number_of_segments - 1) 0) with
                      | none =>
                          ({ spline with parameter_space_ := parameter_space_backup,
                                         vector_space_ := vector_space_backup },
                            .ok false)
                      | some state =>
                          match BSpline.CoarsenKnots.inPlace ops NDEBUG kEpsilon dimension
                              tolerance
                              { extracted with parameter_space_ := parameter_space,
                                               vector_space_ := state.1 }
                              knots_inserted with
                          | (coarsened, .error exception) => (coarsened, .error exception)
                          | (coarsened, .ok _) => (coarsened, .ok true)) := by
    intro pre
    cases pre with
    | error e => rfl
    | ok _ =>
      simp only [bind, Except.bind, MakeBezier_inPlace_returned]
      rcases BSpline.MakeBezier.inPlace ops NDEBUG kEpsilon spline dimension tolerance with
        ⟨extracted, _ | ⟨number_of_segments, knots_inserted⟩⟩
      · rfl
      · simp only [returned]
        cases ops.ReduceDegree extracted.parameter_space_ dimension multiplicity with
        | error e => rfl
        | ok r =>
          obtain ⟨parameter_space, last_segment_coordinate, coefficients⟩ := r
          simp only []
          cases BSpline.ReduceDegree.segments dimension last_segment_coordinate coefficients
              ((ops.GetNumberOfBasisFunctions extracted.parameter_space_).set dimension.toNat
                Length.slice)
              tolerance_reduction extracted.vector_space_
              (ops.GetNumberOfBasisFunctions extracted.parameter_space_)
              (descending (number_of_segments - 1) 0) with
          | none => rfl
          | some state =>
            simp only [CoarsenKnots_inPlace_returned]
            rcases BSpline.CoarsenKnots.inPlace ops NDEBUG kEpsilon dimension tolerance
              { extracted with parameter_space_ := parameter_space, vector_space_ := state.1 }
              knots_inserted with ⟨coarsened, _ | _⟩
            · rfl
            · rfl
  cases NDEBUG
  · exact hbody _
  · exact hbody (.ok ())

theorem InsertKnot_checks_error {PS : Type} (ops : ParameterSpaceOps PS)
    (spline : BSpline PS) (dimension : Int) (knot tolerance : ℚ)
    (h : dimension < 0 ∨ spline.parametric_dimensionality_ - 1 < dimension ∨ tolerance < 0
      ∨ ∃ exception, ops.ThrowIfParametricCoordinateIsOutsideScope spline.parameter_space_
          dimension knot tolerance = .error exception) :
    ∃ exception, BSpline.InsertKnot.checks ops spline dimension knot tolerance
      = .error exception := by
  by_cases hd : dimension < 0 ∨ spline.parametric_dimensionality_ - 1 < dimension
  · obtain ⟨message, hm⟩ := InsertKnot_checks_out_of_bounds ops spline dimension knot
      tolerance hd
    exact ⟨_, hm⟩
  · have h₀ : 0 ≤ dimension := by omega
    have h₁ : dimension ≤ spline.parametric_dimensionality_ - 1 := by omega
    by_cases ht : tolerance < 0
    · obtain ⟨message, hm⟩ := InsertKnot_checks_negative_tolerance ops spline dimension knot
        tolerance h₀ h₁ ht
      exact ⟨_, hm⟩
    · obtain ⟨exception, he⟩ : ∃ exception,
          ops.ThrowIfParametricCoordinateIsOutsideScope spline.parameter_space_ dimension knot
            tolerance = .error exception := by
        rcases h with h | h | h | h
        · exact absurd (Or.inl h) hd
        · exact absurd (Or.inr h) hd
        · exact absurd h ht
        · exact h
      exact ⟨rethrow "bsplinelib::splines::BSpline::InsertKnot" dimension exception, by
        simp [BSpline.InsertKnot.checks, ThrowIfNamedIntegerIsOutOfBounds_ok _ _ h₀ h₁,
          ThrowIfToleranceIsNegative_ok _ (not_lt.mp ht), he, bind, Except.bind,
          Except.mapError]⟩

theorem RemoveKnot_checks_error {PS : Type} (kName : String) (spline : BSpline PS)
    (dimension : Int) (tolerance_removal tolerance : ℚ)
    (h : dimension < 0 ∨ spline.parametric_dimensionality_ - 1 < dimension
      ∨ tolerance_removal < 0 ∨ tolerance < 0) :
    ∃ exception, BSpline.RemoveKnot.checks kName spline dimension tolerance_removal tolerance
      = .error exception := by
  by_cases hd : dimension < 0 ∨ spline.parametric_dimensionality_ - 1 < dimension
  · obtain ⟨message, hm⟩ := RemoveKnot_checks_out_of_bounds kName spline dimension
      tolerance_removal tolerance hd
    exact ⟨_, hm⟩
  · have h₀ : 0 ≤ dimension := by omega
    have h₁ : dimension ≤ spline.parametric_dimensionality_ - 1 := by omega
    have ht : tolerance_removal < 0 ∨ tolerance < 0 := by
      rcases h with h | h | h | h
      · exact absurd (Or.inl h) hd
      · exact absurd (Or.inr h) hd
      · exact Or.inl h
      · exact Or.inr h
    obtain ⟨message, hm⟩ := RemoveKnot_checks_negative_tolerance kName spline dimension
      tolerance_removal tolerance h₀ h₁ ht
    exact ⟨_, hm⟩

theorem ElevateDegree_checks_error {PS : Type} (spline : BSpline PS) (dimension : Int)
    (tolerance : ℚ)
    (h : dimension < 0 ∨ spline.parametric_dimensionality_ - 1 < dimension ∨ tolerance < 0) :
    ∃ exception, BSpline.ElevateDegree.checks spline dimension tolerance
      = .error exception := by
  by_cases hd : dimension < 0 ∨ spline.parametric_dimensionality_ - 1 < dimension
  · obtain ⟨message, hm⟩ := ElevateDegree_checks_out_of_bounds spline dimension tolerance hd
    exact ⟨_, hm⟩
  · have h₀ : 0 ≤ dimension := by omega
    have h₁ : dimension ≤ spline.parametric_dimensionality_ - 1 := by omega
    have ht : tolerance < 0 := by
      rcases h with h | h | h
      · exact absurd (Or.inl h) hd
      · exact absurd (Or.inr h) hd
      · exact h
    obtain ⟨message, hm⟩ := ElevateDegree_checks_negative_tolerance spline dimension
      tolerance h₀ h₁ ht
    exact ⟨_, hm⟩

/-- C13: in a build without NDEBUG, when the dimension is out of bounds or a
tolerance is negative (for `InsertKnot` also: when the scope check of the knot
throws), each of `InsertKnot`, `RemoveKnot`, `ElevateDegree` and `ReduceDegree`
ends with an exception and leaves the spline (parameter space and vector space)
as it was before the call: the precondition block comes first.  In either
build, `InsertKnot` leaves the spline as it was whenever it throws, and so do
`RemoveKnot`, `ElevateDegree` and `ReduceDegree` when the first member of the
parameter space that they call throws (`RemoveKnot`,
`DetermineBezierExtractionKnots`): no coordinate has been written by then (a
member that throws is taken to leave the parameter space as it was). -/
theorem C13_precondition_violations_leave_the_spline_unchanged {PS : Type}
    (ops : ParameterSpaceOps PS) (kEpsilon : ℚ) (spline : BSpline PS) (dimension : Int)
    (knot tolerance_removal tolerance : ℚ) (multiplicity : Int) :
    ((dimension < 0 ∨ spline.parametric_dimensionality_ - 1 < dimension ∨ tolerance < 0
        ∨ ∃ exception, ops.ThrowIfParametricCoordinateIsOutsideScope spline.parameter_space_
            dimension knot tolerance = .error exception) →
      ∃ exception, BSpline.InsertKnot.inPlace ops false spline dimension knot multiplicity
        tolerance = (spline, .error exception))
    ∧ ((dimension < 0 ∨ spline.parametric_dimensionality_ - 1 < dimension
        ∨ tolerance_removal < 0 ∨ tolerance < 0) →
      (∃ exception, BSpline.RemoveKnot.inPlace ops false spline dimension knot
        tolerance_removal multiplicity tolerance = (spline, .error exception))
      ∧ (∃ exception, BSpline.ReduceDegree.inPlace ops false kEpsilon spline dimension
        tolerance_removal multiplicity tolerance = (spline, .error exception)))
    ∧ ((dimension < 0 ∨ spline.parametric_dimensionality_ - 1 < dimension ∨ tolerance < 0) →
      ∃ exception, BSpline.ElevateDegree.inPlace ops false kEpsilon spline dimension
        multiplicity tolerance = (spline, .error exception))
    ∧ (∀ (NDEBUG : Bool) (exception : Error),
        (BSpline.InsertKnot.inPlace ops NDEBUG spline dimension knot multiplicity
          tolerance).2 = .error exception →
        (BSpline.InsertKnot.inPlace ops NDEBUG spline dimension knot multiplicity
          tolerance).1 = spline)
    ∧ (∀ (NDEBUG : Bool) (exception : Error),
        precondition NDEBUG
          (BSpline.RemoveKnot.checks "bsplinelib::splines::BSpline::RemoveKnot" spline
            dimension tolerance_removal tolerance) = .ok () →
        ops.RemoveKnot spline.parameter_space_ dimension knot multiplicity tolerance
          = .error exception →
        BSpline.RemoveKnot.inPlace ops NDEBUG spline dimension knot tolerance_removal
          multiplicity tolerance = (spline, .error exception))
    ∧ (∀ (NDEBUG : Bool) (exception : Error),
        ops.DetermineBezierExtractionKnots spline.parameter_space_ dimension tolerance
          = .error exception →
        (precondition NDEBUG (BSpline.ElevateDegree.checks spline dimension tolerance)
            = .ok () →
          BSpline.ElevateDegree.inPlace ops NDEBUG kEpsilon spline dimension multiplicity
            tolerance = (spline, .error exception))
        ∧ (precondition NDEBUG
            (BSpline.RemoveKnot.checks "bsplinelib::splines::BSpline::ReduceDegree" spline
              dimension tolerance_removal tolerance) = .ok () →
          BSpline.ReduceDegree.inPlace ops NDEBUG kEpsilon spline dimension tolerance_removal
            multiplicity tolerance = (spline, .error exception))) := by
  refine ⟨fun h => ?_, fun h => ⟨?_, ?_⟩, fun h => ?_, fun NDEBUG exception h => ?_,
    fun NDEBUG exception hpre h => ?_, fun NDEBUG exception h => ⟨fun hpre => ?_, fun hpre => ?_⟩⟩
  · obtain ⟨exception, he⟩ := InsertKnot_checks_error ops spline dimension knot tolerance h
    exact ⟨exception, by simp [BSpline.InsertKnot.inPlace, precondition, he]⟩
  · obtain ⟨exception, he⟩ := RemoveKnot_checks_error
      "bsplinelib::splines::BSpline::RemoveKnot" spline dimension tolerance_removal tolerance h
    exact ⟨exception, by simp [BSpline.RemoveKnot.inPlace, precondition, he]⟩
  · obtain ⟨exception, he⟩ := RemoveKnot_checks_error
      "bsplinelib::splines::BSpline::ReduceDegree" spline dimension tolerance_removal
      tolerance h
    exact ⟨exception, by simp [BSpline.ReduceDegree.inPlace, precondition, he]⟩
  · obtain ⟨exception, he⟩ := ElevateDegree_checks_error spline dimension tolerance h
    exact ⟨exception, by simp [BSpline.ElevateDegree.inPlace, precondition, he]⟩
  · simp only [BSpline.InsertKnot.inPlace] at h ⊢
    generalize precondition NDEBUG
      (BSpline.InsertKnot.checks ops spline dimension knot tolerance) = pre at h ⊢
    cases pre with
    | error e => rfl
    | ok _ =>
      simp only [] at h ⊢
      generalize ops.InsertKnot spline.parameter_space_ dimension knot multiplicity
        tolerance = inserted at h ⊢
      cases inserted with
      | error e => rfl
      | ok r => simp at h
  · simp [BSpline.RemoveKnot.inPlace, hpre, h, ParameterSpaceOps.afterThrow]
  · simp [BSpline.ElevateDegree.inPlace, BSpline.MakeBezier.inPlace, hpre, h,
      ParameterSpaceOps.afterThrow]
  · simp [BSpline.ReduceDegree.inPlace, BSpline.MakeBezier.inPlace, hpre, h,
      ParameterSpaceOps.afterThrow]

/-- C13 on the kinked line: `InsertKnot(0, 2, 1, 0)`, whose knot 2 is outside
the domain `[0, 1]`, `RemoveKnot(0, 1/2, -1, 1, 0)` and `ElevateDegree(1, 1, 0)`
throw and leave the curve as it was; so does `InsertKnot(0, 1/2, 5, 0)`, which
passes the precondition block and throws from the parameter space (the
multiplicity would exceed the degree plus one). -/
theorem C13_precondition_violations_leave_the_spline_unchanged_witness :
    (∃ exception, BSpline.InsertKnot.inPlace (ParameterSpace.ops false) false kinkedLine 0 2
        1 0 = (kinkedLine, .error exception))
    ∧ (∃ exception, BSpline.RemoveKnot.inPlace (ParameterSpace.ops false) false kinkedLine 0
        (1/2) (-1) 1 0 = (kinkedLine, .error exception))
    ∧ (∃ exception, BSpline.ElevateDegree.inPlace (ParameterSpace.ops false) false
        smallEpsilon kinkedLine 1 1 0 = (kinkedLine, .error exception))
    ∧ (BSpline.InsertKnot.inPlace (ParameterSpace.ops false) false kinkedLine 0 (1/2) 5 0).1
        = kinkedLine :=
  ⟨(C13_precondition_violations_leave_the_spline_unchanged (ParameterSpace.ops false)
      smallEpsilon kinkedLine 0 2 0 0 1).1
      (Or.inr (Or.inr (Or.inr
        ⟨.DomainError "The parametric coordinate is outside of the knot vector's scope.",
          by decide!⟩))),
   ((C13_precondition_violations_leave_the_spline_unchanged (ParameterSpace.ops false)
      smallEpsilon kinkedLine 0 (1/2) (-1) 0 1).2.1
      (Or.inr (Or.inr (Or.inl (by norm_num))))).1,
   (C13_precondition_violations_leave_the_spline_unchanged (ParameterSpace.ops false)
      smallEpsilon kinkedLine 1 (1/2) 0 0 1).2.2.1 (Or.inr (Or.inl (by decide))),
   (C13_precondition_violations_leave_the_spline_unchanged (ParameterSpace.ops false)
      smallEpsilon kinkedLine 0 (1/2) 0 0 5).2.2.2.1 false
      (.DomainError "The multiplicity of the knot would exceed the degree plus one.")
      (by decide!)⟩

theorem HomogenizeCoordinates_ok (NDEBUG : Bool) (dimensionality : Nat)
    (coordinates : List (List ℚ)) (weights : List ℚ)
    (h : NDEBUG = true ∨ coordinates.length = weights.length) :
    WeightedVectorSpace.HomogenizeCoordinates NDEBUG dimensionality coordinates weights
      = .ok ((List.range coordinates.length).map (fun (i : Nat) =>
          (List.range dimensionality).map
              (fun (j : Nat) => weights.getD i 0 * (coordinates.getD i []).getD j 0)
            ++ [weights.getD i 0])) := by
  have hcond : ¬ (¬ (NDEBUG = true) ∧ ((coordinates.length : Int) ≠ (weights.length : Int))) := by
    rintro ⟨h₁, h₂⟩
    rcases h with h | h
    · exact h₁ h
    · exact h₂ (by exact_mod_cast h)
  simp only [WeightedVectorSpace.HomogenizeCoordinates]
  rw [if_neg hcond]

/-- C15 (amended): in a build without NDEBUG, `HomogenizeCoordinates`, and with
it the constructor of `WeightedVectorSpace`, raises a DomainError whose message
contains both the number of weights and the number of coordinates when the
coordinate list and the weight list differ in length; with equal lengths no
error is raised, in either build. -/
theorem C15_HomogenizeCoordinates_checks_cardinality_in_debug_builds (dimensionality : Nat)
    (coordinates : List (List ℚ)) (weights : List ℚ) :
    (coordinates.length ≠ weights.length →
      ∃ message,
        WeightedVectorSpace.HomogenizeCoordinates false dimensionality coordinates weights
          = .error (.DomainError message)
        ∧ WeightedVectorSpace.Construct false dimensionality coordinates weights
          = .error (.DomainError message)
        ∧ Contains message (toString (weights.length : Int))
        ∧ Contains message (toString (coordinates.length : Int)))
    ∧ (coordinates.length = weights.length →
      ∀ NDEBUG : Bool,
        (∃ homogeneous_coordinates,
          WeightedVectorSpace.HomogenizeCoordinates NDEBUG dimensionality coordinates weights
            = .ok homogeneous_coordinates)
        ∧ (∃ weighted_vector_space,
          WeightedVectorSpace.Construct NDEBUG dimensionality coordinates weights
            = .ok weighted_vector_space)) := by
  refine ⟨fun h => ?_, fun h NDEBUG => ?_⟩
  · have hcond : ¬ ((false : Bool) = true) ∧ ((coordinates.length : Int) ≠ (weights.length : Int)) :=
      ⟨by simp, fun hc => h (by exact_mod_cast hc)⟩
    have hthrow :
        WeightedVectorSpace.HomogenizeCoordinates false dimensionality coordinates weights
          = .error (.DomainError
              (WeightedVectorSpace.cardinalityMessage weights.length coordinates.length)) := by
      simp only [WeightedVectorSpace.HomogenizeCoordinates]
      rw [if_pos hcond]
    refine ⟨_, hthrow, ?_, ?_, ?_⟩
    · simp only [WeightedVectorSpace.Construct, hthrow, Except.map]
    · exact contains_of_eq _ "" _
        (" weights were provided but " ++ toString (coordinates.length : Int)
          ++ " are needed to associate each weight with a coordinate.")
        (by simp [WeightedVectorSpace.cardinalityMessage, String.append_assoc])
    · exact contains_of_eq _
        (toString (weights.length : Int) ++ " weights were provided but ") _
        " are needed to associate each weight with a coordinate."
        (by simp [WeightedVectorSpace.cardinalityMessage, String.append_assoc])
  · have hok := HomogenizeCoordinates_ok NDEBUG dimensionality coordinates weights (Or.inr h)
    refine ⟨⟨_, hok⟩, ?_⟩
    simp only [WeightedVectorSpace.Construct, hok, Except.map]
    exact ⟨_, rfl⟩

/-- C15 (amended) on one coordinate and two weights, and on two coordinates and
two weights. -/
theorem C15_HomogenizeCoordinates_checks_cardinality_in_debug_builds_witness :
    (∃ message,
      WeightedVectorSpace.HomogenizeCoordinates false 2 [[1, 2]] [2, 3]
        = .error (.DomainError message)
      ∧ WeightedVectorSpace.Construct false 2 [[1, 2]] [2, 3] = .error (.DomainError message)
      ∧ Contains message (toString (([2, 3] : List ℚ).length : Int))
      ∧ Contains message (toString (([[1, 2]] : List (List ℚ)).length : Int)))
    ∧ (∃ homogeneous_coordinates,
        WeightedVectorSpace.HomogenizeCoordinates false 2 [[1, 2], [3, 4]] [2, 3]
          = .ok homogeneous_coordinates) :=
  ⟨(C15_HomogenizeCoordinates_checks_cardinality_in_debug_builds 2 [[1, 2]] [2, 3]).1
      (by decide),
    ((C15_HomogenizeCoordinates_checks_cardinality_in_debug_builds 2 [[1, 2], [3, 4]]
      [2, 3]).2 rfl false).1⟩

/-- C15 (as stated) fails in a build with NDEBUG: one coordinate and two weights
are homogenized, and made into a weighted vector space, without an error. -/
theorem C15_release_build_accepts_mismatched_weights :
    WeightedVectorSpace.HomogenizeCoordinates true 2 [[1, 2]] [2, 3] = .ok [[2, 4, 2]]
    ∧ WeightedVectorSpace.Construct true 2 [[1, 2]] [2, 3]
      = .ok { dimensionality := 2, coordinates_ := [[2, 4, 2]] } := by
  refine ⟨by decide!, by decide!⟩

theorem getD_range_map {α : Type} (f : Nat → α) (n i : Nat) (default : α) (h : i < n) :
    ((List.range n).map f).getD i default = f i := by
  simp [List.getD_eq_getElem?_getD, List.getElem?_map, List.getElem?_range h]

theorem map_range_getD (c : List ℚ) (w : ℚ) :
    (List.range c.length).map (fun (j : Nat) => w * c.getD j 0) = c.map (fun x => w * x) := by
  apply List.ext_getElem
  · simp
  · intro j h₁ h₂
    have hj : j < c.length := by simpa using h₂
    simp [List.getD_eq_getElem?_getD, List.getElem?_eq_getElem hj]

/-- C16: for `n` coordinates and `n` weights, `HomogenizeCoordinates` returns
exactly `n` homogeneous coordinates in the input order; the `i`-th one has
`dimensionality + 1` components, `w_i * c_i[j]` at each `j < dimensionality`
and `w_i` at the index `dimensionality`, so that it equals `w_i * [c_i, 1]` for
a coordinate `c_i` of `dimensionality` components. -/
theorem C16_HomogenizeCoordinates_weights_each_coordinate (NDEBUG : Bool)
    (dimensionality : Nat) (coordinates : List (List ℚ)) (weights : List ℚ)
    (h : coordinates.length = weights.length) :
    ∃ homogeneous_coordinates,
      WeightedVectorSpace.HomogenizeCoordinates NDEBUG dimensionality coordinates weights
        = .ok homogeneous_coordinates
      ∧ homogeneous_coordinates.length = coordinates.length
      ∧ ∀ i, i < coordinates.length →
          (homogeneous_coordinates.getD i []).length = dimensionality + 1
          ∧ (∀ j, j < dimensionality →
              (homogeneous_coordinates.getD i []).getD j 0
                = weights.getD i 0 * (coordinates.getD i []).getD j 0)
          ∧ (homogeneous_coordinates.getD i []).getD dimensionality 0 = weights.getD i 0
          ∧ ((coordinates.getD i []).length = dimensionality →
              homogeneous_coordinates.getD i []
                = (coordinates.getD i [] ++ [1]).map (fun x => weights.getD i 0 * x)) := by
  refine ⟨_, HomogenizeCoordinates_ok NDEBUG dimensionality coordinates weights (Or.inr h),
    by simp, fun i hi => ?_⟩
  rw [getD_range_map _ _ _ _ hi]
  refine ⟨by simp, fun j hj => ?_, ?_, fun hlen => ?_⟩
  · rw [List.getD_append _ _ _ _ (by simpa using hj), getD_range_map _ _ _ _ hj]
  · rw [List.getD_append_right _ _ _ _ (by simp)]
    simp
  · rw [List.map_append, ← hlen, map_range_getD]
    simp

/-- C16 on the coordinates `(1, 2), (3, 4)` and the weights `2, 3`: the
homogeneous coordinates are `(2, 4, 2), (9, 12, 3)`. -/
theorem C16_HomogenizeCoordinates_weights_each_coordinate_witness :
    WeightedVectorSpace.HomogenizeCoordinates false 2 [[1, 2], [3, 4]] [2, 3]
        = .ok [[2, 4, 2], [9, 12, 3]]
    ∧ ∃ homogeneous_coordinates,
        WeightedVectorSpace.HomogenizeCoordinates false 2 [[1, 2], [3, 4]] [2, 3]
          = .ok homogeneous_coordinates
        ∧ homogeneous_coordinates.length = 2 :=
  ⟨by decide!,
    (C16_HomogenizeCoordinates_weights_each_coordinate false 2 [[1, 2], [3, 4]] [2, 3]
      rfl).imp (fun _ h => ⟨h.1, h.2.1⟩)⟩

theorem Project_getD (dimensionality : Nat) (homogeneous_coordinate : List ℚ) (j : Nat)
    (h : j < dimensionality) :
    (WeightedVectorSpace.Project dimensionality homogeneous_coordinate).getD j 0
      = homogeneous_coordinate.getD j 0 / homogeneous_coordinate.getD dimensionality 0 := by
  rw [WeightedVectorSpace.Project, getD_range_map _ _ _ _ h]
  ring

theorem Project_homogeneous (coordinate : List ℚ) (weight : ℚ) (h : weight ≠ 0) :
    WeightedVectorSpace.Project coordinate.length
        ((List.range coordinate.length).map (fun (j : Nat) => weight * coordinate.getD j 0)
          ++ [weight])
      = coordinate := by
  apply List.ext_getElem
  · simp [WeightedVectorSpace.Project]
  · intro j h₁ h₂
    have hj : j < coordinate.length := h₂
    have hget := Project_getD coordinate.length
      ((List.range coordinate.length).map (fun (j : Nat) => weight * coordinate.getD j 0)
        ++ [weight]) j hj
    rw [List.getD_append _ _ _ _ (by simpa using hj), getD_range_map _ _ _ _ hj,
      List.getD_append_right _ _ _ _ (by simp)] at hget
    simp only [List.length_map, List.length_range, Nat.sub_self, List.getD_cons_zero] at hget
    rw [mul_div_cancel_left₀ _ h] at hget
    rw [List.getD_eq_getElem _ _ h₁, List.getD_eq_getElem _ _ hj] at hget
    exact hget

/-- C17: `Project(h)` has `dimensionality` components, the leading components
of `h` each divided by the trailing component `h[dimensionality]`; and `Project`
applied to each homogeneous coordinate that `HomogenizeCoordinates` builds from
coordinates of `dimensionality` components and positive weights gives the
coordinates back. -/
theorem C17_Project_inverts_homogenization (NDEBUG : Bool) (dimensionality : Nat)
    (homogeneous_coordinate : List ℚ) (coordinates : List (List ℚ)) (weights : List ℚ) :
    (WeightedVectorSpace.Project dimensionality homogeneous_coordinate).length = dimensionality
    ∧ (∀ j, j < dimensionality →
        (WeightedVectorSpace.Project dimensionality homogeneous_coordinate).getD j 0
          = homogeneous_coordinate.getD j 0 / homogeneous_coordinate.getD dimensionality 0)
    ∧ (coordinates.length = weights.length →
        (∀ coordinate ∈ coordinates, coordinate.length = dimensionality) →
        (∀ weight ∈ weights, 0 < weight) →
        (WeightedVectorSpace.HomogenizeCoordinates NDEBUG dimensionality coordinates
            weights).map
          (fun homogeneous_coordinates =>
            homogeneous_coordinates.map (WeightedVectorSpace.Project dimensionality))
          = .ok coordinates) := by
  refine ⟨by simp [WeightedVectorSpace.Project],
    fun j hj => Project_getD dimensionality homogeneous_coordinate j hj,
    fun hlen hdim hpos => ?_⟩
  rw [HomogenizeCoordinates_ok NDEBUG dimensionality coordinates weights (Or.inr hlen)]
  simp only [Except.map, List.map_map]
  congr 1
  apply List.ext_getElem
  · simp
  · intro i h₁ h₂
    have hi : i < coordinates.length := h₂
    have hw : i < weights.length := hlen ▸ hi
    have hc : (coordinates.getD i []).length = dimensionality := by
      rw [List.getD_eq_getElem _ _ hi]
      exact hdim _ (List.getElem_mem hi)
    have hne : weights.getD i 0 ≠ 0 := by
      rw [List.getD_eq_getElem _ _ hw]
      exact ne_of_gt (hpos _ (List.getElem_mem hw))
    have hproject := Project_homogeneous (coordinates.getD i []) (weights.getD i 0) hne
    rw [hc] at hproject
    simp only [List.getElem_map, List.getElem_range, Function.comp]
    rw [hproject, List.getD_eq_getElem _ _ hi]

/-- C17 on the coordinates `(1, 2), (3, 4)` and the weights `2, 3`. -/
theorem C17_Project_inverts_homogenization_witness :
    (WeightedVectorSpace.HomogenizeCoordinates false 2 [[1, 2], [3, 4]] [2, 3]).map
        (fun homogeneous_coordinates =>
          homogeneous_coordinates.map (WeightedVectorSpace.Project 2))
      = .ok [[1, 2], [3, 4]] :=
  (C17_Project_inverts_homogenization false 2 [] [[1, 2], [3, 4]] [2, 3]).2.2 rfl
    (by decide) (by
      intro weight h
      simp only [List.mem_cons, List.mem_singleton, List.not_mem_nil, or_false] at h
      rcases h with h | h <;> rw [h] <;> norm_num)

theorem extremes_foldl (f g : List ℚ → ℚ) (coordinates : List (List ℚ)) (a b : ℚ) :
    (a ≤ (coordinates.foldl (fun (extremes : ℚ × ℚ) h =>
            (max (f h) extremes.1, min (g h) extremes.2)) (a, b)).1
      ∧ ∀ h ∈ coordinates, f h ≤ (coordinates.foldl (fun (extremes : ℚ × ℚ) h =>
            (max (f h) extremes.1, min (g h) extremes.2)) (a, b)).1)
    ∧ ((coordinates.foldl (fun (extremes : ℚ × ℚ) h =>
            (max (f h) extremes.1, min (g h) extremes.2)) (a, b)).1 = a
      ∨ ∃ h ∈ coordinates, f h = (coordinates.foldl (fun (extremes : ℚ × ℚ) h =>
            (max (f h) extremes.1, min (g h) extremes.2)) (a, b)).1)
    ∧ ((coordinates.foldl (fun (extremes : ℚ × ℚ) h =>
            (max (f h) extremes.1, min (g h) extremes.2)) (a, b)).2 ≤ b
      ∧ ∀ h ∈ coordinates, (coordinates.foldl (fun (extremes : ℚ × ℚ) h =>
            (max (f h) extremes.1, min (g h) extremes.2)) (a, b)).2 ≤ g h)
    ∧ ((coordinates.foldl (fun (extremes : ℚ × ℚ) h =>
            (max (f h) extremes.1, min (g h) extremes.2)) (a, b)).2 = b
      ∨ ∃ h ∈ coordinates, g h = (coordinates.foldl (fun (extremes : ℚ × ℚ) h =>
            (max (f h) extremes.1, min (g h) extremes.2)) (a, b)).2) := by
  induction coordinates generalizing a b with
  | nil => simp
  | cons c rest ih =>
    simp only [List.foldl_cons]
    obtain ⟨⟨h₁, h₂⟩, h₃, ⟨h₄, h₅⟩, h₆⟩ := ih (max (f c) a) (min (g c) b)
    refine ⟨⟨le_trans (le_max_right _ _) h₁, ?_⟩, ?_, ⟨le_trans h₄ (min_le_right _ _), ?_⟩, ?_⟩
    · intro h hh
      rcases List.mem_cons.mp hh with rfl | hh
      · exact le_trans (le_max_left _ _) h₁
      · exact h₂ h hh
    · rcases h₃ with h₃ | ⟨h, hh, h₃⟩
      · rcases max_choice (f c) a with hm | hm
        · exact Or.inr ⟨c, List.mem_cons_self _ _, by rw [h₃, hm]⟩
        · exact Or.inl (by rw [h₃, hm])
      · exact Or.inr ⟨h, List.mem_cons_of_mem _ hh, h₃⟩
    · intro h hh
      rcases List.mem_cons.mp hh with rfl | hh
      · exact le_trans h₄ (min_le_left _ _)
      · exact h₅ h hh
    · rcases h₆ with h₆ | ⟨h, hh, h₆⟩
      · rcases min_choice (g c) b with hm | hm
        · exact Or.inr ⟨c, List.mem_cons_self _ _, by rw [h₆, hm]⟩
        · exact Or.inl (by rw [h₆, hm])
      · exact Or.inr ⟨h, List.mem_cons_of_mem _ hh, h₆⟩

/-- C18: for a non-empty weighted vector space and a non-negative tolerance,
`DetermineMaximumDistanceFromOriginAndMinimumWeight` returns the pair of the
maximum, over the stored homogeneous coordinates, of the norm `TwoNorm` of the
projected point and of the minimum, over the stored homogeneous coordinates, of
the trailing weight, and each of the two is attained by a stored coordinate.
`TwoNorm` is any function without negative values, and no stored weight exceeds
`std::numeric_limits<Weight>::max()`. -/
theorem C18_DetermineMaximumDistanceFromOriginAndMinimumWeight_returns_the_extremes
    (NDEBUG : Bool) (TwoNorm : List ℚ → ℚ) (numeric_limits_max : ℚ)
    (weighted_vector_space : WeightedVectorSpace) (tolerance : ℚ)
    (hne : weighted_vector_space.coordinates_ ≠ []) (htolerance : 0 ≤ tolerance)
    (hnorm : ∀ coordinate, 0 ≤ TwoNorm coordinate)
    (hmax : ∀ h ∈ weighted_vector_space.coordinates_,
      h.getD weighted_vector_space.dimensionality 0 ≤ numeric_limits_max) :
    ∃ maximum_distance minimum_weight,
      WeightedVectorSpace.DetermineMaximumDistanceFromOriginAndMinimumWeight NDEBUG TwoNorm
          numeric_limits_max weighted_vector_space tolerance
        = .ok (maximum_distance, minimum_weight)
      ∧ (∀ h ∈ weighted_vector_space.coordinates_,
          TwoNorm (WeightedVectorSpace.Project weighted_vector_space.dimensionality h)
            ≤ maximum_distance)
      ∧ (∃ h ∈ weighted_vector_space.coordinates_,
          TwoNorm (WeightedVectorSpace.Project weighted_vector_space.dimensionality h)
            = maximum_distance)
      ∧ (∀ h ∈ weighted_vector_space.coordinates_,
          minimum_weight ≤ h.getD weighted_vector_space.dimensionality 0)
      ∧ (∃ h ∈ weighted_vector_space.coordinates_,
          h.getD weighted_vector_space.dimensionality 0 = minimum_weight) := by
  obtain ⟨⟨h₁, h₂⟩, h₃, ⟨h₄, h₅⟩, h₆⟩ := extremes_foldl
    (fun h => TwoNorm (WeightedVectorSpace.Project weighted_vector_space.dimensionality h))
    (fun h => h.getD weighted_vector_space.dimensionality 0)
    weighted_vector_space.coordinates_ 0 numeric_limits_max
  obtain ⟨first, hfirst⟩ := List.exists_mem_of_ne_nil _ hne
  refine ⟨_, _, ?_, h₂, ?_, h₅, ?_⟩
  · simp only [WeightedVectorSpace.DetermineMaximumDistanceFromOriginAndMinimumWeight,
      checkTolerance_ok NDEBUG _ tolerance (Or.inr htolerance), bind, Except.bind, pure,
      Except.pure]
  · rcases h₃ with h₃ | h₃
    · exact ⟨first, hfirst, le_antisymm (h₂ first hfirst) (by rw [h₃]; exact hnorm _)⟩
    · exact h₃
  · rcases h₆ with h₆ | h₆
    · exact ⟨first, hfirst, le_antisymm (by rw [h₆]; exact hmax first hfirst) (h₅ first hfirst)⟩
    · exact h₆

/-- C18 on the homogeneous coordinates `(6, 8, 2), (0, 1, 1)`, whose projected
points `(3, 4)` and `(0, 1)` have the norms 5 and 1, with the exact rational
square root as the norm. -/
theorem C18_DetermineMaximumDistanceFromOriginAndMinimumWeight_returns_the_extremes_witness :
    WeightedVectorSpace.DetermineMaximumDistanceFromOriginAndMinimumWeight false
        (fun coordinate => Rat.sqrt (Array.NormL2Squared coordinate)) 1000
        { dimensionality := 2, coordinates_ := [[6, 8, 2], [0, 1, 1]] } 0
      = .ok (5, 1)
    ∧ ∃ maximum_distance minimum_weight,
      WeightedVectorSpace.DetermineMaximumDistanceFromOriginAndMinimumWeight false
          (fun coordinate => Rat.sqrt (Array.NormL2Squared coordinate)) 1000
          { dimensionality := 2, coordinates_ := [[6, 8, 2], [0, 1, 1]] } 0
        = .ok (maximum_distance, minimum_weight)
      ∧ (∃ h ∈ ([[6, 8, 2], [0, 1, 1]] : List (List ℚ)),
          Rat.sqrt (Array.NormL2Squared (WeightedVectorSpace.Project 2 h)) = maximum_distance)
      ∧ (∃ h ∈ ([[6, 8, 2], [0, 1, 1]] : List (List ℚ)), h.getD 2 0 = minimum_weight) := by
  refine ⟨by decide!, ?_⟩
  obtain ⟨maximum_distance, minimum_weight, h₁, -, h₂, -, h₃⟩ :=
    C18_DetermineMaximumDistanceFromOriginAndMinimumWeight_returns_the_extremes false
      (fun coordinate => Rat.sqrt (Array.NormL2Squared coordinate)) 1000
      { dimensionality := 2, coordinates_ := [[6, 8, 2], [0, 1, 1]] } 0
      (by simp) (le_refl 0) (fun _ => Rat.sqrt_nonneg _)
      (by
        intro h hh
        simp only [List.mem_cons, List.mem_singleton, List.not_mem_nil, or_false] at hh
        rcases hh with hh | hh <;> rw [hh] <;> norm_num)
  exact ⟨maximum_distance, minimum_weight, h₁, h₂, h₃⟩

/-! ## C19, C20: the degree-0 basis function -/

theorem Evaluate_of_IsInSupport (NDEBUG : Bool)
    (basis_function : ZeroDegreeBSplineBasisFunction) (parametric_coordinate tolerance : ℚ)
    (is_in_support : Bool) (h : NDEBUG = true ∨ 0 ≤ tolerance)
    (hsupport : basis_function.IsInSupport parametric_coordinate tolerance
      = .ok is_in_support) :
    basis_function.Evaluate NDEBUG parametric_coordinate tolerance
      = .ok (if is_in_support then 1 else 0) := by
  simp only [ZeroDegreeBSplineBasisFunction.Evaluate, checkTolerance_ok NDEBUG _ tolerance h,
    hsupport, bind, Except.bind, pure, Except.pure]

theorem Evaluate_Construct (NDEBUG : Bool) (knot_vector : List ℚ) (start_of_support : Int)
    (construction_tolerance parametric_coordinate tolerance : ℚ)
    (h : NDEBUG = true ∨ 0 ≤ tolerance) :
    (ZeroDegreeBSplineBasisFunction.Construct knot_vector start_of_support
        construction_tolerance).Evaluate NDEBUG parametric_coordinate tolerance
      = .ok
          (if (KnotVector.at knot_vector start_of_support - tolerance ≤ parametric_coordinate
                ∧ parametric_coordinate
                  < KnotVector.at knot_vector (start_of_support + 1) - tolerance)
              ∨ (|KnotVector.at knot_vector (start_of_support + 1) - knot_vector.getLastD 0|
                  ≤ construction_tolerance
                ∧ |parametric_coordinate - KnotVector.at knot_vector (start_of_support + 1)|
                  ≤ tolerance) then 1
          else 0) := by
  rw [Evaluate_of_IsInSupport NDEBUG _ parametric_coordinate tolerance _ h rfl]
  by_cases hin : (KnotVector.at knot_vector start_of_support - tolerance ≤ parametric_coordinate
                ∧ parametric_coordinate
                  < KnotVector.at knot_vector (start_of_support + 1) - tolerance)
              ∨ (|KnotVector.at knot_vector (start_of_support + 1) - knot_vector.getLastD 0|
                  ≤ construction_tolerance
                ∧ |parametric_coordinate - KnotVector.at knot_vector (start_of_support + 1)|
                  ≤ tolerance)
  · rw [if_pos hin, if_pos]
    simpa only [Bool.or_eq_true, Bool.and_eq_true, decide_eq_true_eq] using hin
  · rw [if_neg hin, if_neg]
    simpa only [Bool.or_eq_true, Bool.and_eq_true, decide_eq_true_eq] using hin

theorem ok_one_ne_ok_zero : (Except.ok 1 : Except Error ℚ) ≠ .ok 0 := by
  intro h
  injection h with h
  exact one_ne_zero h

theorem Evaluate_Construct_eq_one (NDEBUG : Bool) (knot_vector : List ℚ)
    (start_of_support : Int) (construction_tolerance parametric_coordinate tolerance : ℚ)
    (h : NDEBUG = true ∨ 0 ≤ tolerance) :
    (ZeroDegreeBSplineBasisFunction.Construct knot_vector start_of_support
        construction_tolerance).Evaluate NDEBUG parametric_coordinate tolerance = .ok 1
      ↔ (KnotVector.at knot_vector start_of_support - tolerance ≤ parametric_coordinate
          ∧ parametric_coordinate
            < KnotVector.at knot_vector (start_of_support + 1) - tolerance)
        ∨ (|KnotVector.at knot_vector (start_of_support + 1) - knot_vector.getLastD 0|
            ≤ construction_tolerance
          ∧ |parametric_coordinate - KnotVector.at knot_vector (start_of_support + 1)|
            ≤ tolerance) := by
  rw [Evaluate_Construct NDEBUG knot_vector start_of_support construction_tolerance
    parametric_coordinate tolerance h]
  constructor
  · intro hvalue
    by_contra hout
    rw [if_neg hout] at hvalue
    exact ok_one_ne_ok_zero hvalue.symm
  · intro hin
    rw [if_pos hin]

theorem Evaluate_Construct_eq_zero (NDEBUG : Bool) (knot_vector : List ℚ)
    (start_of_support : Int) (construction_tolerance parametric_coordinate tolerance : ℚ)
    (h : NDEBUG = true ∨ 0 ≤ tolerance) :
    (ZeroDegreeBSplineBasisFunction.Construct knot_vector start_of_support
        construction_tolerance).Evaluate NDEBUG parametric_coordinate tolerance = .ok 0
      ↔ ¬ ((KnotVector.at knot_vector start_of_support - tolerance ≤ parametric_coordinate
          ∧ parametric_coordinate
            < KnotVector.at knot_vector (start_of_support + 1) - tolerance)
        ∨ (|KnotVector.at knot_vector (start_of_support + 1) - knot_vector.getLastD 0|
            ≤ construction_tolerance
          ∧ |parametric_coordinate - KnotVector.at knot_vector (start_of_support + 1)|
            ≤ tolerance)) := by
  rw [Evaluate_Construct NDEBUG knot_vector start_of_support construction_tolerance
    parametric_coordinate tolerance h]
  constructor
  · intro hvalue hin
    rw [if_pos hin] at hvalue
    exact ok_one_ne_ok_zero hvalue
  · intro hout
    rw [if_neg hout]

/-- C20: for a degree-0 basis function, each of the two derivative-taking
overloads of `operator()` yields 0 for every derivative order other than 0, at
every parametric coordinate (the tolerance being non-negative, or the build one
with NDEBUG), and for the derivative order 0 it yields what
`operator()(parametric_coordinate, tolerance)` yields. -/
theorem C20_degree_zero_derivatives_vanish
    {UniqueDerivatives UniqueEvaluations IsTopLevelComputed : Type} (NDEBUG : Bool)
    (basis_function : ZeroDegreeBSplineBasisFunction) (parametric_coordinate : ℚ)
    (derivative : Int) (unique_derivatives : UniqueDerivatives)
    (unique_evaluations : UniqueEvaluations) (top_level_computed : IsTopLevelComputed)
    (tree_info : Int) (tolerance : ℚ) :
    (derivative ≠ 0 → NDEBUG = true ∨ 0 ≤ tolerance →
      basis_function.EvaluateDerivative NDEBUG parametric_coordinate derivative tolerance
        = .ok 0
      ∧ basis_function.EvaluateDerivativeMemoized NDEBUG parametric_coordinate derivative
          unique_derivatives unique_evaluations top_level_computed tree_info tolerance
        = .ok 0)
    ∧ basis_function.EvaluateDerivative NDEBUG parametric_coordinate 0 tolerance
        = basis_function.Evaluate NDEBUG parametric_coordinate tolerance
    ∧ basis_function.EvaluateDerivativeMemoized NDEBUG parametric_coordinate 0
          unique_derivatives unique_evaluations top_level_computed tree_info tolerance
        = basis_function.Evaluate NDEBUG parametric_coordinate tolerance := by
  refine ⟨fun hd ht => ?_, ?_, ?_⟩
  · constructor
    · simp only [ZeroDegreeBSplineBasisFunction.EvaluateDerivative,
        checkTolerance_ok NDEBUG _ tolerance ht, bind, Except.bind, if_neg hd, pure,
        Except.pure]
    · simp only [ZeroDegreeBSplineBasisFunction.EvaluateDerivativeMemoized,
        checkTolerance_ok NDEBUG _ tolerance ht, bind, Except.bind, if_neg hd, pure,
        Except.pure]
  · simp only [ZeroDegreeBSplineBasisFunction.EvaluateDerivative,
      ZeroDegreeBSplineBasisFunction.Evaluate, bind, Except.bind, if_true]
    cases checkTolerance NDEBUG
      ("splinelib::sources::parameter_spaces::"
        ++ "ZeroDegreeBSplineBasisFunction::operator()") tolerance <;> rfl
  · simp only [ZeroDegreeBSplineBasisFunction.EvaluateDerivativeMemoized,
      ZeroDegreeBSplineBasisFunction.EvaluateMemoized,
      ZeroDegreeBSplineBasisFunction.Evaluate, bind, Except.bind, if_true]
    cases checkTolerance NDEBUG
      ("splinelib::sources::parameter_spaces::"
        ++ "ZeroDegreeBSplineBasisFunction::operator()") tolerance <;> rfl

/-- C20 on the function of the span `[0, 1)` of the knot vector `[0, 0, 1, 2,
2]`: the first derivative is 0 at `1/2`, inside the support, through both
overloads. -/
theorem C20_degree_zero_derivatives_vanish_witness :
    (ZeroDegreeBSplineBasisFunction.Construct [0, 0, 1, 2, 2] 1 0).Evaluate false (1/2) 0
        = .ok 1
    ∧ (ZeroDegreeBSplineBasisFunction.Construct [0, 0, 1, 2, 2] 1 0).EvaluateDerivative false
        (1/2) 1 0 = .ok 0
    ∧ (ZeroDegreeBSplineBasisFunction.Construct [0, 0, 1, 2, 2] 1 0).EvaluateDerivativeMemoized
        false (1/2) 1 () () () 0 0 = .ok 0 :=
  ⟨by decide!,
    (C20_degree_zero_derivatives_vanish false
      (ZeroDegreeBSplineBasisFunction.Construct [0, 0, 1, 2, 2] 1 0) (1/2) 1 () () () 0 0).1
      (by decide) (Or.inr (le_refl 0))⟩

/-! ## C21, C22: the degree-0 basis functions of a knot vector -/

theorem EvaluateDerivative_of_ne_zero (NDEBUG : Bool)
    (basis_function : ZeroDegreeBSplineBasisFunction) (parametric_coordinate : ℚ)
    (derivative : Int) (tolerance : ℚ) (hd : derivative ≠ 0)
    (h : NDEBUG = true ∨ 0 ≤ tolerance) :
    basis_function.EvaluateDerivative NDEBUG parametric_coordinate derivative tolerance
      = .ok 0 := by
  simp only [ZeroDegreeBSplineBasisFunction.EvaluateDerivative,
    checkTolerance_ok NDEBUG _ tolerance h, bind, Except.bind, if_neg hd, pure, Except.pure]

/-- C21: the degree-0 example.  The knot vector `[0, 0, 1, 2, 2]` has two knot
spans that are not empty, the spans 1 and 2, and there are two basis functions
with the supports `[0, 1)` and `[1, 2]`, the degree-0 functions of these spans
(at the tolerance 0).  Evaluated at `3/2` the two give `(0, 1)` and at `1/2`
they give `(1, 0)`, for every tolerance from 0 to below `1/2`; any derivative
order other than 0 gives 0 for each of them at every coordinate, through both
derivative-taking overloads. -/
theorem C21_degree_zero_example_of_the_two_spans
    {UniqueDerivatives UniqueEvaluations IsTopLevelComputed : Type} (NDEBUG : Bool)
    (parametric_coordinate tolerance : ℚ) (derivative tree_info : Int)
    (unique_derivatives : UniqueDerivatives) (unique_evaluations : UniqueEvaluations)
    (top_level_computed : IsTopLevelComputed) (h : 0 ≤ tolerance) (hsmall : tolerance < 1/2) :
    (List.range 4).filter
        (fun (i : Nat) =>
          decide (KnotVector.at [0, 0, 1, 2, 2] i < KnotVector.at [0, 0, 1, 2, 2] ((i : Int) + 1)))
      = [1, 2]
    ∧ ((ZeroDegreeBSplineBasisFunction.Construct [0, 0, 1, 2, 2] 1 0).Evaluate NDEBUG
        parametric_coordinate 0 = .ok 1
        ↔ 0 ≤ parametric_coordinate ∧ parametric_coordinate < 1)
    ∧ ((ZeroDegreeBSplineBasisFunction.Construct [0, 0, 1, 2, 2] 1 0).Evaluate NDEBUG
        parametric_coordinate 0 = .ok 0
        ↔ ¬ (0 ≤ parametric_coordinate ∧ parametric_coordinate < 1))
    ∧ ((ZeroDegreeBSplineBasisFunction.Construct [0, 0, 1, 2, 2] 2 0).Evaluate NDEBUG
        parametric_coordinate 0 = .ok 1
        ↔ 1 ≤ parametric_coordinate ∧ parametric_coordinate ≤ 2)
    ∧ ((ZeroDegreeBSplineBasisFunction.Construct [0, 0, 1, 2, 2] 2 0).Evaluate NDEBUG
        parametric_coordinate 0 = .ok 0
        ↔ ¬ (1 ≤ parametric_coordinate ∧ parametric_coordinate ≤ 2))
    ∧ (ZeroDegreeBSplineBasisFunction.Construct [0, 0, 1, 2, 2] 1 tolerance).Evaluate NDEBUG
        (3/2) tolerance = .ok 0
    ∧ (ZeroDegreeBSplineBasisFunction.Construct [0, 0, 1, 2, 2] 2 tolerance).Evaluate NDEBUG
        (3/2) tolerance = .ok 1
    ∧ (ZeroDegreeBSplineBasisFunction.Construct [0, 0, 1, 2, 2] 1 tolerance).Evaluate NDEBUG
        (1/2) tolerance = .ok 1
    ∧ (ZeroDegreeBSplineBasisFunction.Construct [0, 0, 1, 2, 2] 2 tolerance).Evaluate NDEBUG
        (1/2) tolerance = .ok 0
    ∧ (derivative ≠ 0 → ∀ i : Int,
        (ZeroDegreeBSplineBasisFunction.Construct [0, 0, 1, 2, 2] i
            tolerance).EvaluateDerivative NDEBUG parametric_coordinate derivative tolerance
          = .ok 0
        ∧ (ZeroDegreeBSplineBasisFunction.Construct [0, 0, 1, 2, 2] i
            tolerance).EvaluateDerivativeMemoized NDEBUG parametric_coordinate derivative
            unique_derivatives unique_evaluations top_level_computed tree_info tolerance
          = .ok 0) := by
  have hat1 : KnotVector.at [0, 0, 1, 2, 2] 1 = 0 := by decide!
  have hat2 : KnotVector.at [0, 0, 1, 2, 2] (1 + 1) = 1 := by decide!
  have hat2' : KnotVector.at [0, 0, 1, 2, 2] 2 = 1 := by decide!
  have hat3 : KnotVector.at [0, 0, 1, 2, 2] (2 + 1) = 2 := by decide!
  have hlast : ([0, 0, 1, 2, 2] : List ℚ).getLastD 0 = 2 := by decide!
  have hsupport1 : ((0 : ℚ) - 0 ≤ parametric_coordinate ∧ parametric_coordinate < 1 - 0)
      ∨ (|(1 : ℚ) - 2| ≤ 0 ∧ |parametric_coordinate - 1| ≤ 0)
      ↔ 0 ≤ parametric_coordinate ∧ parametric_coordinate < 1 := by
    have : ¬ |(1 : ℚ) - 2| ≤ 0 := by norm_num
    simp only [this, false_and, or_false, sub_zero]
  have hsupport2 : ((1 : ℚ) - 0 ≤ parametric_coordinate ∧ parametric_coordinate < 2 - 0)
      ∨ (|(2 : ℚ) - 2| ≤ 0 ∧ |parametric_coordinate - 2| ≤ 0)
      ↔ 1 ≤ parametric_coordinate ∧ parametric_coordinate ≤ 2 := by
    simp only [sub_zero, sub_self, abs_zero, le_refl, true_and, abs_nonpos_iff, sub_eq_zero]
    constructor
    · rintro (⟨h1, h2⟩ | h2)
      · exact ⟨h1, le_of_lt h2⟩
      · rw [h2]
        norm_num
    · rintro ⟨h1, h2⟩
      rcases lt_or_eq_of_le h2 with h3 | h3
      · exact Or.inl ⟨h1, h3⟩
      · exact Or.inr h3
  refine ⟨by decide!, ?_, ?_, ?_, ?_, ?_, ?_, ?_, ?_, fun hd i => ⟨?_, ?_⟩⟩
  · rw [Evaluate_Construct_eq_one NDEBUG _ _ _ _ _ (Or.inr (le_refl 0)), hat1, hat2, hlast,
      hsupport1]
  · rw [Evaluate_Construct_eq_zero NDEBUG _ _ _ _ _ (Or.inr (le_refl 0)), hat1, hat2, hlast,
      hsupport1]
  · rw [Evaluate_Construct_eq_one NDEBUG _ _ _ _ _ (Or.inr (le_refl 0)), hat2', hat3, hlast,
      hsupport2]
  · rw [Evaluate_Construct_eq_zero NDEBUG _ _ _ _ _ (Or.inr (le_refl 0)), hat2', hat3, hlast,
      hsupport2]
  · rw [Evaluate_Construct_eq_zero NDEBUG _ _ _ _ _ (Or.inr h), hat1, hat2, hlast]
    rintro (⟨-, h2⟩ | ⟨h1, -⟩)
    · linarith
    · rw [abs_le] at h1
      linarith [h1.1]
  · rw [Evaluate_Construct_eq_one NDEBUG _ _ _ _ _ (Or.inr h), hat2', hat3, hlast]
    left
    constructor <;> linarith
  · rw [Evaluate_Construct_eq_one NDEBUG _ _ _ _ _ (Or.inr h), hat1, hat2, hlast]
    left
    constructor <;> linarith
  · rw [Evaluate_Construct_eq_zero NDEBUG _ _ _ _ _ (Or.inr h), hat2', hat3, hlast]
    rintro (⟨h1, -⟩ | ⟨-, h2⟩)
    · linarith
    · rw [abs_le] at h2
      linarith [h2.1]
  · exact EvaluateDerivative_of_ne_zero NDEBUG _ parametric_coordinate derivative tolerance
      hd (Or.inr h)
  · simp only [ZeroDegreeBSplineBasisFunction.EvaluateDerivativeMemoized,
      checkTolerance_ok NDEBUG _ tolerance (Or.inr h), bind, Except.bind, if_neg hd, pure,
      Except.pure]

/-- C21 at the tolerance 0, the coordinate `3/2` and the derivative order 1: the
function of the span `[1, 2]` is 1 at `3/2`, and its first derivative is 0. -/
theorem C21_degree_zero_example_of_the_two_spans_witness :
    (ZeroDegreeBSplineBasisFunction.Construct [0, 0, 1, 2, 2] 2 0).Evaluate false (3/2) 0
        = .ok 1
    ∧ (ZeroDegreeBSplineBasisFunction.Construct [0, 0, 1, 2, 2] 2 0).EvaluateDerivative false
        (3/2) 1 0 = .ok 0 :=
  ⟨(C21_degree_zero_example_of_the_two_spans false (3/2) 0 1 0 () () ()
      (le_refl 0) (by norm_num)).2.2.2.2.2.2.1,
    ((C21_degree_zero_example_of_the_two_spans false (3/2) 0 1 0 () () ()
      (le_refl 0) (by norm_num)).2.2.2.2.2.2.2.2.2 (by decide) 2).1⟩

theorem flatOffset_cons (s : Int) (shape : List Int) (i : Int) (ids : List Int) :
    flatOffset (s :: shape) (i :: ids) = i * shape.prod + flatOffset shape ids := by
  simp only [flatOffset, List.length_cons, List.range_succ_eq_map, List.map_cons, List.sum_cons,
    List.map_map, Function.comp_def, List.getD_cons_zero, List.getD_cons_succ, List.drop_succ_cons,
    Nat.zero_add, List.drop_zero]

theorem flatOffset_nil (shape : List Int) : flatOffset shape [] = 0 := by
  simp [flatOffset]

theorem wrap_of_representable (value : Int) (h : IndexType.Representable value) :
    IndexType.wrap value = value := by
  unfold IndexType.Representable at h
  unfold IndexType.wrap
  omega

theorem fits_tail (a : Int) (l : List Int)
    (hfit : ∀ k : Nat, k < (a :: l).length → IndexType.Representable ((a :: l).drop k).prod) :
    ∀ k : Nat, k < l.length → IndexType.Representable (l.drop k).prod := by
  intro k hk
  have := hfit (k + 1) (by simpa using hk)
  simpa using this

theorem accumulate_fst (l : List Int)
    (hfit : ∀ k : Nat, k < l.length → IndexType.Representable (l.drop k).prod) :
    (Array.accumulate l).1 = l.prod := by
  induction l with
  | nil => rfl
  | cons a l ih =>
      have h0 := hfit 0 (by simp)
      simp only [List.drop_zero, List.prod_cons] at h0
      simp only [Array.accumulate, ih (fits_tail a l hfit), List.prod_cons]
      rw [mul_comm, wrap_of_representable _ h0]

theorem accumulate_length (l : List Int) : (Array.accumulate l).2.length = l.length := by
  induction l with
  | nil => rfl
  | cons a l ih => simp [Array.accumulate, ih]

theorem accumulate_getElem? (l : List Int)
    (hfit : ∀ k : Nat, k < l.length → IndexType.Representable (l.drop k).prod)
    (k : Nat) (h : k < l.length) :
    (Array.accumulate l).2[k]? = some (l.drop k).prod := by
  induction l generalizing k with
  | nil => simp at h
  | cons a l ih =>
      cases k with
      | zero =>
          have h0 := hfit 0 (by simp)
          simp only [List.drop_zero, List.prod_cons] at h0
          simp only [Array.accumulate, accumulate_fst l (fits_tail a l hfit),
            List.getElem?_cons_zero, List.drop_zero, List.prod_cons]
          rw [mul_comm, wrap_of_representable _ h0]
      | succ k =>
          simp only [List.length_cons, Nat.add_lt_add_iff_right] at h
          simp [Array.accumulate, ih (fits_tail a l hfit) k h]

theorem positive_fits (shape : List Int) (hpos : ∀ s ∈ shape, 0 < s)
    (hfit : shape.prod < 2147483648) :
    ∀ k : Nat, k < shape.length → IndexType.Representable (shape.drop k).prod := by
  induction shape with
  | nil =>
      intro k hk
      simp at hk
  | cons s shape ih =>
      have hs : 0 < s := hpos s (List.mem_cons_self _ _)
      have hP : 0 < shape.prod :=
        List.prod_pos (fun a ha => hpos a (List.mem_cons_of_mem _ ha))
      rw [List.prod_cons] at hfit
      have hle : shape.prod ≤ s * shape.prod := by nlinarith
      intro k hk
      cases k with
      | zero =>
          simp only [List.drop_zero, List.prod_cons, IndexType.Representable]
          constructor
          · nlinarith
          · exact hfit
      | succ k =>
          simp only [List.drop_succ_cons]
          exact ih (fun a ha => hpos a (List.mem_cons_of_mem _ ha)) (by omega) k
            (by simpa using hk)

theorem InRange_positive (shape ids : List Int) (h : InRange shape ids) :
    ∀ s ∈ shape, 0 < s := by
  unfold InRange at h
  induction h with
  | nil =>
      intro s hs
      simp at hs
  | @cons i s ids shape hi _ ih =>
      intro x hx
      rcases List.mem_cons.mp hx with hx | hx
      · rw [hx]
        omega
      · exact ih x hx

theorem InRange_bounds (shape ids : List Int) (h : InRange shape ids) :
    0 ≤ flatOffset shape ids ∧ flatOffset shape ids < shape.prod := by
  unfold InRange at h
  induction h with
  | nil => simp [flatOffset_nil]
  | @cons i s ids shape hi _ ih =>
      rw [flatOffset_cons, List.prod_cons]
      obtain ⟨h0, h1⟩ := ih
      obtain ⟨hi0, hi1⟩ := hi
      have hp : 0 < shape.prod := lt_of_le_of_lt h0 h1
      constructor
      · have := mul_nonneg hi0 hp.le
        linarith
      · nlinarith

theorem InRange_length (shape ids : List Int) (h : InRange shape ids) :
    ids.length = shape.length :=
  List.Forall₂.length_eq h

theorem ComputeRemainingOffset_eq {DataType : Type} {dim : Nat} (array : Array DataType dim)
    (shape ids : List Int) (hrange : InRange shape ids) (index : Int) (counter : Nat)
    (hindex : 0 ≤ index) (hfit : index + shape.prod ≤ 2147483648)
    (hstrides : ∀ r : Nat, r + 1 < ids.length →
      array.strides_[counter + r]? = some (shape.drop (r + 1)).prod) :
    (array.ComputeRemainingOffset index counter ids).1 = index + flatOffset shape ids := by
  unfold InRange at hrange
  induction hrange generalizing index counter with
  | nil => simp [Array.ComputeRemainingOffset, flatOffset_nil]
  | @cons i s ids shape hi hrest ih =>
      cases hrest with
      | nil =>
          simp only [List.prod_cons, List.prod_nil, mul_one] at hfit
          simp only [Array.ComputeRemainingOffset, flatOffset_cons, flatOffset_nil,
            List.prod_nil, mul_one, add_zero]
          exact wrap_of_representable _ ⟨by omega, by omega⟩
      | @cons j s' ids shape hj hrest' =>
          have hrest : InRange (s' :: shape) (j :: ids) := List.Forall₂.cons hj hrest'
          have hb := InRange_bounds (s' :: shape) (j :: ids) hrest
          have hP : 0 < (s' :: shape).prod := lt_of_le_of_lt hb.1 hb.2
          have h0 := hstrides 0 (by simp)
          have hp : perDimension array.strides_ (counter : Int) 0 = (s' :: shape).prod := by
            simp only [perDimension, Int.natCast_nonneg, if_true, Int.toNat_ofNat]
            simp only [Nat.add_zero, Nat.zero_add, List.drop_succ_cons, List.drop_zero] at h0
            simp [List.getD_eq_getElem?_getD, h0]
          rw [List.prod_cons (a := s)] at hfit
          have hterm0 : 0 ≤ (s' :: shape).prod * i := mul_nonneg hP.le hi.1
          have hterm1 : (s' :: shape).prod * i + (s' :: shape).prod ≤ s * (s' :: shape).prod := by
            nlinarith [hi.2]
          have hc : ((counter : Int) + 1) = ((counter + 1 : Nat) : Int) := by push_cast; rfl
          simp only [Array.ComputeRemainingOffset]
          rw [hp, wrap_of_representable ((s' :: shape).prod * i) ⟨by omega, by omega⟩,
            wrap_of_representable (index + (s' :: shape).prod * i) ⟨by omega, by omega⟩, hc,
            ih (index + (s' :: shape).prod * i) (counter + 1) (by omega) (by omega) (by
              intro r hr
              have := hstrides (r + 1) (by simpa using hr)
              simpa [Nat.add_assoc, Nat.add_comm 1 r] using this),
            flatOffset_cons (s := s)]
          ring

theorem SetShape_shape {DataType : Type} {dim : Nat} (array : Array DataType dim)
    (shape : List Int) (h : shape ≠ []) : (array.SetShape shape).shape_ = shape := by
  match shape, h with
  | [s], _ => rfl
  | s :: s' :: rest, _ => rfl

theorem SetShape_size {DataType : Type} {dim : Nat} (array : Array DataType dim)
    (shape : List Int) (h : shape ≠ [])
    (hfit : ∀ k : Nat, k < shape.length → IndexType.Representable (shape.drop k).prod) :
    (array.SetShape shape).size_ = shape.prod := by
  match shape, h, hfit with
  | [s], _, _ => simp [Array.SetShape]
  | s :: s' :: rest, _, hfit =>
      have h0 := hfit 0 (by simp)
      simp only [List.drop_zero] at h0
      simp only [Array.SetShape, accumulate_fst (s' :: rest) (fits_tail s (s' :: rest) hfit)]
      rw [List.prod_cons (a := s), mul_comm]
      exact wrap_of_representable _ h0

theorem SetShape_strides {DataType : Type} {dim : Nat} (array : Array DataType dim)
    (shape : List Int)
    (hfit : ∀ k : Nat, k < shape.length → IndexType.Representable (shape.drop k).prod)
    (k : Nat) (h : k + 1 < shape.length) :
    (array.SetShape shape).strides_[k]? = some (shape.drop (k + 1)).prod := by
  match shape, h, hfit with
  | [s], h, _ => simp at h
  | s :: s' :: rest, h, hfit =>
      simp only [Array.SetShape, List.drop_succ_cons]
      exact accumulate_getElem? (s' :: rest) (fits_tail s (s' :: rest) hfit) k
        (by simpa using h)

theorem operatorParen_SetShape {DataType : Type} {dim : Nat} (NDEBUG : Bool)
    (array : Array DataType dim) (shape ids : List Int) (hlen : shape.length = dim)
    (hdim : 0 < dim) (hrange : InRange shape ids) (hfit : shape.prod < 2147483648) :
    (array.SetShape shape).operatorParen NDEBUG ids
      = (array.SetShape shape).operatorBracket NDEBUG (flatOffset shape ids) := by
  have hfits := positive_fits shape (InRange_positive shape ids hrange) hfit
  unfold InRange at hrange
  match shape, ids, hrange with
  | [], _, _ => simp at hlen; omega
  | [s], [i], _ =>
      have hd : dim = 1 := by simpa using hlen.symm
      simp [Array.operatorParen, hd, flatOffset_cons, flatOffset_nil]
  | s :: s' :: rest, i :: ids, hrange =>
      have hd : dim ≠ 1 := by
        simp only [List.length_cons] at hlen
        omega
      cases hrange with
      | cons hi hrest =>
          have hb := InRange_bounds (s' :: rest) ids hrest
          have hP : 0 < (s' :: rest).prod := lt_of_le_of_lt hb.1 hb.2
          have h0 := SetShape_strides array (s :: s' :: rest) hfits 0 (by simp)
          simp only [Nat.zero_add, List.drop_succ_cons, List.drop_zero] at h0
          have hp : perDimension (array.SetShape (s :: s' :: rest)).strides_ 0 0
              = (s' :: rest).prod := by
            simp [perDimension, List.getD_eq_getElem?_getD, h0]
          rw [List.prod_cons (a := s)] at hfit
          have hterm0 : 0 ≤ i * (s' :: rest).prod := mul_nonneg hi.1 hP.le
          have hterm1 : i * (s' :: rest).prod + (s' :: rest).prod ≤ s * (s' :: rest).prod := by
            nlinarith [hi.2]
          have h := ComputeRemainingOffset_eq (array.SetShape (s :: s' :: rest)) (s' :: rest)
            ids hrest (i * (s' :: rest).prod) 1 hterm0 (by omega) (by
              intro r hr
              have hl := List.Forall₂.length_eq hrest
              have := SetShape_strides array (s :: s' :: rest) hfits (1 + r) (by
                simp only [List.length_cons] at hl ⊢
                omega)
              simpa [Nat.add_comm 1 r] using this)
          simp only [Array.operatorParen, if_neg hd, hp, Array.operatorBracket]
          simp only [Nat.cast_one] at h
          rw [wrap_of_representable (i * (s' :: rest).prod) ⟨by omega, by omega⟩, h,
            flatOffset_cons]

theorem operatorParenConst_eq {DataType : Type} {dim : Nat} (NDEBUG : Bool)
    (array : Array DataType dim) (ids : List Int) :
    array.operatorParenConst NDEBUG ids = array.operatorParen NDEBUG ids := by
  cases ids <;> rfl

theorem operatorBracket_in_bounds {DataType : Type} {dim : Nat} (NDEBUG : Bool)
    (array : Array DataType dim) (index : Int) (h0 : 0 ≤ index) (h1 : index < array.size_) :
    array.operatorBracket NDEBUG index = some index := by
  have : -1 < index := by omega
  simp [Array.operatorBracket, this, h1]

theorem flatOffset_injective (shape ids ids' : List Int) (h : InRange shape ids)
    (h' : InRange shape ids') (heq : flatOffset shape ids = flatOffset shape ids') :
    ids = ids' := by
  unfold InRange at h h'
  induction h generalizing ids' with
  | nil =>
      cases h'
      rfl
  | @cons i s ids shape hi hrest ih =>
      cases h' with
      | @cons i' _ ids' _ hi' hrest' =>
          rw [flatOffset_cons, flatOffset_cons] at heq
          have b := InRange_bounds shape ids hrest
          have b' := InRange_bounds shape ids' hrest'
          have hii : i = i' := by
            rcases lt_trichotomy i i' with hlt | heq' | hgt
            · exfalso
              have : (i + 1) * shape.prod ≤ i' * shape.prod :=
                mul_le_mul_of_nonneg_right (by omega) (by linarith)
              nlinarith
            · exact heq'
            · exfalso
              have : (i' + 1) * shape.prod ≤ i * shape.prod :=
                mul_le_mul_of_nonneg_right (by omega) (by linarith)
              nlinarith
          subst hii
          have := ih ids' hrest' (by linarith)
          rw [this]

theorem flatOffset_surjective (shape : List Int) (hpos : ∀ s ∈ shape, 0 < s) (offset : Int)
    (h0 : 0 ≤ offset) (h1 : offset < shape.prod) :
    ∃ ids, InRange shape ids ∧ flatOffset shape ids = offset := by
  induction shape generalizing offset with
  | nil =>
      refine ⟨[], List.Forall₂.nil, ?_⟩
      simp only [List.prod_nil] at h1
      rw [flatOffset_nil]; omega
  | cons s shape ih =>
      have hP : 0 < shape.prod := List.prod_pos (fun a ha => hpos a (List.mem_cons_of_mem _ ha))
      obtain ⟨ids, hr, ho⟩ := ih (fun a ha => hpos a (List.mem_cons_of_mem _ ha))
        (offset % shape.prod) (Int.emod_nonneg _ hP.ne') (Int.emod_lt_of_pos _ hP)
      refine ⟨offset / shape.prod :: ids, List.Forall₂.cons ⟨Int.ediv_nonneg h0 hP.le, ?_⟩ hr, ?_⟩
      · rw [List.prod_cons] at h1
        exact Int.ediv_lt_of_lt_mul hP h1
      · rw [flatOffset_cons, ho]
        have := Int.ediv_add_emod offset shape.prod
        linarith [mul_comm shape.prod (offset / shape.prod)]

/-- C23 (amended): after `SetShape(s_0, ..., s_{n-1})` on an n-dimensional array
with a shape none of whose products `s_k * ... * s_{n-1}` leaves the range of
`IndexType`, `Shape()` is `(s_0, ..., s_{n-1})`, the stride `k` is the product of
the extents `s_{k+1}, ..., s_{n-1}` (there are `n - 1` strides when `n > 1`), and
`size()` is the product of all extents; for a 1-dimensional array `size()` is
`s_0`. -/
theorem C23_SetShape_sets_shape_row_major_strides_and_size_within_the_range_of_IndexType
    {DataType : Type} {dim : Nat}
    (array : Array DataType dim) (shape : List Int) (hlen : shape.length = dim)
    (hdim : 0 < dim)
    (hfit : ∀ k : Nat, k < shape.length → IndexType.Representable (shape.drop k).prod) :
    (array.SetShape shape).Shape = shape
    ∧ (∀ k : Nat, k + 1 < dim →
        (array.SetShape shape).Strides[k]? = some (shape.drop (k + 1)).prod)
    ∧ (1 < dim → (array.SetShape shape).Strides.length = dim - 1)
    ∧ (array.SetShape shape).size = shape.prod
    ∧ (dim = 1 → (array.SetShape shape).size = shape.headD 0) := by
  have hne : shape ≠ [] := by
    intro h
    rw [h] at hlen
    simp at hlen
    omega
  refine ⟨SetShape_shape array shape hne, ?_, ?_, SetShape_size array shape hne hfit, ?_⟩
  · intro k hk
    exact SetShape_strides array shape hfit k (by omega)
  · intro hd
    match shape, hne with
    | [s], _ =>
        simp at hlen
        omega
    | s :: s' :: rest, _ =>
        simp only [Array.Strides, Array.SetShape, accumulate_length]
        rw [← hlen]
        simp
  · intro hd
    match shape, hne with
    | [s], _ => rfl
    | s :: s' :: rest, _ =>
        simp at hlen
        omega

/-- C23 (amended) on a 3-dimensional array and the shape `(2, 3, 4)`: the strides
are `(12, 4)` and the size is 24. -/
theorem C23_SetShape_sets_shape_row_major_strides_and_size_within_the_range_of_IndexType_witness :
    (({ own_data_ := false, data_ := none, size_ := 0, strides_ := [], shape_ := [] } :
        Array ℚ 3).SetShape [2, 3, 4]).Shape = [2, 3, 4]
    ∧ (({ own_data_ := false, data_ := none, size_ := 0, strides_ := [], shape_ := [] } :
        Array ℚ 3).SetShape [2, 3, 4]).Strides = [12, 4]
    ∧ (({ own_data_ := false, data_ := none, size_ := 0, strides_ := [], shape_ := [] } :
        Array ℚ 3).SetShape [2, 3, 4]).size = ([2, 3, 4] : List Int).prod :=
  ⟨(C23_SetShape_sets_shape_row_major_strides_and_size_within_the_range_of_IndexType
      ({ own_data_ := false, data_ := none, size_ := 0, strides_ := [], shape_ := [] } :
        Array ℚ 3) [2, 3, 4] (by decide) (by decide)
      (positive_fits [2, 3, 4] (by decide) (by decide))).1,
    by decide,
    (C23_SetShape_sets_shape_row_major_strides_and_size_within_the_range_of_IndexType
      ({ own_data_ := false, data_ := none, size_ := 0, strides_ := [], shape_ := [] } :
        Array ℚ 3) [2, 3, 4] (by decide) (by decide)
      (positive_fits [2, 3, 4] (by decide) (by decide))).2.2.2.1⟩

/-- C23 (as stated) fails where a product of extents leaves the range of
`IndexType`: after `SetShape(65536, 65536)` the size is 0, where the product of
the extents is 4294967296, and after `SetShape(1, 65536, 65536)` the stride 0 is
0 as well. -/
theorem C23_SetShape_reduces_a_product_outside_the_range_of_IndexType :
    (({ own_data_ := false, data_ := none, size_ := 0, strides_ := [], shape_ := [] } :
        Array ℚ 2).SetShape [65536, 65536]).Shape = [65536, 65536]
    ∧ (({ own_data_ := false, data_ := none, size_ := 0, strides_ := [], shape_ := [] } :
        Array ℚ 2).SetShape [65536, 65536]).size = 0
    ∧ ([65536, 65536] : List Int).prod = 4294967296
    ∧ (({ own_data_ := false, data_ := none, size_ := 0, strides_ := [], shape_ := [] } :
        Array ℚ 3).SetShape [1, 65536, 65536]).Strides = [0, 65536]
    ∧ (([1, 65536, 65536] : List Int).drop 1).prod = 4294967296 := by
  refine ⟨by decide, by decide, by decide, by decide, by decide⟩

/-- C24 (amended): for an array whose shape `(s_0, ..., s_{n-1})` was set by
`SetShape`, the product of the extents being within the range of `IndexType`,
and an index tuple with `0 <= i_k < s_k` for all `k`,
`operator()(i_0, ..., i_{n-1})` refers to the same scalar as `operator[]` at the
offset that is the sum over `k` of `i_k` times the product of
`s_{k+1}, ..., s_{n-1}`; that offset lies in `[0, size())`, so that no assertion
fails, whatever the build; and the const overload refers to the same scalar. -/
theorem C24_multi_index_access_is_flat_access_within_the_range_of_IndexType
    {DataType : Type} {dim : Nat} (NDEBUG : Bool) (array : Array DataType dim)
    (shape ids : List Int) (hlen : shape.length = dim) (hdim : 0 < dim)
    (hrange : InRange shape ids) (hfit : shape.prod < 2147483648) :
    (array.SetShape shape).operatorParen NDEBUG ids
      = (array.SetShape shape).operatorBracket NDEBUG (flatOffset shape ids)
    ∧ (array.SetShape shape).operatorParen NDEBUG ids = some (flatOffset shape ids)
    ∧ 0 ≤ flatOffset shape ids
    ∧ flatOffset shape ids < (array.SetShape shape).size
    ∧ (array.SetShape shape).operatorParenConst NDEBUG ids
        = (array.SetShape shape).operatorParen NDEBUG ids
    ∧ (array.SetShape shape).operatorBracketConst NDEBUG (flatOffset shape ids)
        = (array.SetShape shape).operatorBracket NDEBUG (flatOffset shape ids) := by
  have hne : shape ≠ [] := by
    intro h
    rw [h] at hlen
    simp at hlen
    omega
  have hb := InRange_bounds shape ids hrange
  have hsize := SetShape_size array shape hne
    (positive_fits shape (InRange_positive shape ids hrange) hfit)
  have hparen := operatorParen_SetShape NDEBUG array shape ids hlen hdim hrange hfit
  refine ⟨hparen, ?_, hb.1, ?_, operatorParenConst_eq NDEBUG _ ids, rfl⟩
  · rw [hparen]
    exact operatorBracket_in_bounds NDEBUG _ _ hb.1 (by rw [hsize]; exact hb.2)
  · simp only [Array.size, hsize]
    exact hb.2

/-- C24 (amended) on the shape `(2, 3, 4)` and the index tuple `(1, 2, 3)`, in a
build without NDEBUG: the offset is `1 * 12 + 2 * 4 + 3 = 23`. -/
theorem C24_multi_index_access_is_flat_access_within_the_range_of_IndexType_witness :
    flatOffset [2, 3, 4] [1, 2, 3] = 23
    ∧ (({ own_data_ := false, data_ := none, size_ := 0, strides_ := [], shape_ := [] } :
        Array ℚ 3).SetShape [2, 3, 4]).operatorParen false [1, 2, 3]
      = some (flatOffset [2, 3, 4] [1, 2, 3]) :=
  ⟨by decide,
    (C24_multi_index_access_is_flat_access_within_the_range_of_IndexType false
      ({ own_data_ := false, data_ := none, size_ := 0, strides_ := [], shape_ := [] } :
        Array ℚ 3) [2, 3, 4] [1, 2, 3] (by decide) (by decide)
      (by simp [InRange]) (by decide)).2.1⟩

/-- C24 (as stated) fails where the product of the extents leaves the range of
`IndexType`: after `SetShape(65536, 65536)` the size is 0, the tuple `(0, 0)` is
within the shape, and `operator()(0, 0)` fails its assertion in a build without
NDEBUG; with NDEBUG it refers to the offset 0, which is not below the size. -/
theorem C24_the_assertion_fails_on_a_shape_outside_the_range_of_IndexType :
    InRange [65536, 65536] [0, 0]
    ∧ (({ own_data_ := false, data_ := none, size_ := 0, strides_ := [], shape_ := [] } :
        Array ℚ 2).SetShape [65536, 65536]).size = 0
    ∧ (({ own_data_ := false, data_ := none, size_ := 0, strides_ := [], shape_ := [] } :
        Array ℚ 2).SetShape [65536, 65536]).operatorParen false [0, 0] = none
    ∧ (({ own_data_ := false, data_ := none, size_ := 0, strides_ := [], shape_ := [] } :
        Array ℚ 2).SetShape [65536, 65536]).operatorParen true [0, 0] = some 0 := by
  refine ⟨by simp [InRange], by decide, by decide, by decide⟩

/-- C25 (amended): for a shape with all extents positive and a product within the
range of `IndexType`, set by `SetShape`, the offset that `operator()` refers to
is a bijection between the in-range index tuples and the offsets in
`[0, size())`: two in-range tuples that differ refer to different offsets, and
every offset in `[0, size())` is referred to by exactly one in-range tuple. -/
theorem C25_multi_index_offset_is_a_bijection_within_the_range_of_IndexType
    {DataType : Type} {dim : Nat} (NDEBUG : Bool)
    (array : Array DataType dim) (shape : List Int) (hlen : shape.length = dim)
    (hdim : 0 < dim) (hpos : ∀ s ∈ shape, 0 < s) (hfit : shape.prod < 2147483648) :
    (∀ ids ids' : List Int, InRange shape ids → InRange shape ids' → ids ≠ ids' →
      (array.SetShape shape).operatorParen NDEBUG ids
        ≠ (array.SetShape shape).operatorParen NDEBUG ids')
    ∧ (∀ offset : Int, 0 ≤ offset → offset < (array.SetShape shape).size →
      ∃! ids : List Int, InRange shape ids
        ∧ (array.SetShape shape).operatorParen NDEBUG ids = some offset) := by
  have hne : shape ≠ [] := by
    intro h
    rw [h] at hlen
    simp at hlen
    omega
  have hsize := SetShape_size array shape hne (positive_fits shape hpos hfit)
  have hparen : ∀ ids : List Int, InRange shape ids →
      (array.SetShape shape).operatorParen NDEBUG ids = some (flatOffset shape ids) := by
    intro ids hrange
    have hb := InRange_bounds shape ids hrange
    rw [operatorParen_SetShape NDEBUG array shape ids hlen hdim hrange hfit]
    exact operatorBracket_in_bounds NDEBUG _ _ hb.1 (by rw [hsize]; exact hb.2)
  constructor
  · intro ids ids' h h' hne' heq
    rw [hparen ids h, hparen ids' h'] at heq
    exact hne' (flatOffset_injective shape ids ids' h h' (Option.some.inj heq))
  · intro offset h0 h1
    simp only [Array.size, hsize] at h1
    obtain ⟨ids, hr, ho⟩ := flatOffset_surjective shape hpos offset h0 h1
    refine ⟨ids, ⟨hr, by rw [hparen ids hr, ho]⟩, ?_⟩
    rintro ids' ⟨hr', ho'⟩
    rw [hparen ids' hr'] at ho'
    exact flatOffset_injective shape ids' ids hr' hr (by rw [Option.some.inj ho', ho])

/-- C25 (amended) on the shape `(2, 3)`: the tuples `(0, 2)` and `(1, 0)` refer
to different offsets (2 and 3). -/
theorem C25_multi_index_offset_is_a_bijection_within_the_range_of_IndexType_witness :
    (({ own_data_ := false, data_ := none, size_ := 0, strides_ := [], shape_ := [] } :
        Array ℚ 2).SetShape [2, 3]).operatorParen false [0, 2]
      ≠ (({ own_data_ := false, data_ := none, size_ := 0, strides_ := [], shape_ := [] } :
        Array ℚ 2).SetShape [2, 3]).operatorParen false [1, 0] :=
  (C25_multi_index_offset_is_a_bijection_within_the_range_of_IndexType false
    ({ own_data_ := false, data_ := none, size_ := 0, strides_ := [], shape_ := [] } :
      Array ℚ 2) [2, 3] (by decide) (by decide) (by decide) (by decide)).1 [0, 2] [1, 0]
    (by simp [InRange]) (by simp [InRange]) (by decide)

/-- C25 (as stated) fails where the product of the extents leaves the range of
`IndexType`: after `SetShape(65536, 65537)`, a shape with positive extents, the
size is 65536, and the in-range tuples `(0, 0)` and `(65535, 1)` both refer to
the offset 0, in either build: `65535 * 65537 + 1` is 4294967296. -/
theorem C25_two_tuples_share_an_offset_outside_the_range_of_IndexType :
    InRange [65536, 65537] [0, 0]
    ∧ InRange [65536, 65537] [65535, 1]
    ∧ (({ own_data_ := false, data_ := none, size_ := 0, strides_ := [], shape_ := [] } :
        Array ℚ 2).SetShape [65536, 65537]).size = 65536
    ∧ (∀ NDEBUG : Bool,
        (({ own_data_ := false, data_ := none, size_ := 0, strides_ := [], shape_ := [] } :
          Array ℚ 2).SetShape [65536, 65537]).operatorParen NDEBUG [0, 0] = some 0
        ∧ (({ own_data_ := false, data_ := none, size_ := 0, strides_ := [], shape_ := [] } :
          Array ℚ 2).SetShape [65536, 65537]).operatorParen NDEBUG [65535, 1] = some 0) := by
  refine ⟨by simp [InRange], by simp [InRange], by decide, ?_⟩
  intro NDEBUG
  cases NDEBUG <;> exact ⟨by decide, by decide⟩

/-! ## C26, C27, C28: copy assignment, `NonZeros` and `Clip` -/

theorem copy_n_apart {DataType : Type} (count : Nat) (memory : Memory DataType)
    (first result : Nat) (hfirst : first + count ≤ memory.length)
    (hresult : result + count ≤ memory.length)
    (hapart : first + count ≤ result ∨ result + count ≤ first) :
    ∀ j : Nat, (copy_n count memory first result)[j]?
      = if result ≤ j ∧ j < result + count then memory[first + (j - result)]? else memory[j]? := by
  induction count generalizing memory first result with
  | zero =>
      intro j
      have : ¬ (result ≤ j ∧ j < result + 0) := by omega
      rw [if_neg this]
      rfl
  | succ count ih =>
      intro j
      have hlt : first < memory.length := by omega
      have hget : memory[first]? = some memory[first] := List.getElem?_eq_getElem hlt
      simp only [copy_n, hget]
      rw [ih (memory.set result memory[first]) (first + 1) (result + 1)
        (by rw [List.length_set]; omega) (by rw [List.length_set]; omega) (by omega) j]
      simp only [List.getElem?_set]
      by_cases h1 : result + 1 ≤ j ∧ j < result + 1 + count
      · have h2 : result ≤ j ∧ j < result + (count + 1) := by omega
        have h3 : ¬ result = first + 1 + (j - (result + 1)) := by omega
        have h4 : first + 1 + (j - (result + 1)) = first + (j - result) := by omega
        rw [if_pos h1, if_pos h2, if_neg h3, h4]
      · rw [if_neg h1]
        by_cases h5 : result = j
        · have h2 : result ≤ j ∧ j < result + (count + 1) := by omega
          have h6 : result < memory.length := by omega
          have h7 : first + (j - result) = first := by omega
          rw [if_pos h5, if_pos h6, if_pos h2, h7, hget]
        · have h2 : ¬ (result ≤ j ∧ j < result + (count + 1)) := by omega
          rw [if_neg h5, if_neg h2]

theorem elements_eq {DataType : Type} {dim : Nat} (array : Array DataType dim)
    (memory : Memory DataType) (address : Nat) (h : array.data_ = some address) :
    array.elements memory
      = (List.range array.size_.toNat).map (fun (i : Nat) => memory[address + i]?) := by
  simp [Array.elements, h]

/-- C26 (amended): copy assignment raises RuntimeError exactly when the sizes of
the two arrays differ, and then the target and the memory are as before; when
the sizes are equal and the scalars of the right-hand side lie apart from those
of the target (both in the memory), the call returns, the scalars, the shape and
the strides of the target become those of the right-hand side, and the scalars
of the right-hand side are as before. -/
theorem C26_copy_assignment_checks_the_sizes_and_copies_between_arrays_apart
    {DataType : Type} {dim : Nat} (NDEBUG : Bool) (array rhs : Array DataType dim)
    (memory : Memory DataType) :
    ((∃ state, array.CopyAssign NDEBUG rhs memory
        = some (state,
            .error (.RuntimeError "Array::operator=(const Array&) - size mismatch between rhs")))
      ↔ array.size ≠ rhs.size)
    ∧ (array.size ≠ rhs.size →
        array.CopyAssign NDEBUG rhs memory
          = some ((array, memory),
              .error (.RuntimeError "Array::operator=(const Array&) - size mismatch between rhs")))
    ∧ (array.size = rhs.size →
        ∀ first result : Nat, rhs.data_ = some first → array.data_ = some result →
          first + rhs.size.toNat ≤ memory.length →
          result + array.size.toNat ≤ memory.length →
          (first + rhs.size.toNat ≤ result ∨ result + array.size.toNat ≤ first) →
            ∃ array' memory',
              array.CopyAssign NDEBUG rhs memory = some ((array', memory'), .ok ())
              ∧ array'.elements memory' = rhs.elements memory
              ∧ array'.Shape = rhs.Shape
              ∧ array'.Strides = rhs.Strides
              ∧ array'.size = array.size
              ∧ array'.data_ = array.data_
              ∧ rhs.elements memory' = rhs.elements memory) := by
  by_cases hsize : array.size_ = rhs.size_
  · refine ⟨?_, ?_, ?_⟩
    · constructor
      · rintro ⟨state, h⟩
        by_cases hnull : ¬ NDEBUG ∧ rhs.data_ = none
        · simp [Array.CopyAssign, hsize, hnull] at h
        · simp [Array.CopyAssign, hsize, hnull] at h
      · intro h
        exact absurd hsize h
    · intro h
      exact absurd hsize h
    · intro _ first result hfirst hresult hin hin' hapart
      simp only [Array.size] at hin hin' hapart
      rw [hsize] at hin' hapart
      have hcopy := copy_n_apart rhs.size_.toNat memory first result hin hin' hapart
      refine ⟨{ array with shape_ := rhs.shape_, strides_ := rhs.strides_ },
        copy_n rhs.size_.toNat memory first result, ?_, ?_, rfl, rfl, rfl, rfl, ?_⟩
      · simp [Array.CopyAssign, hsize, hfirst, hresult, Array.Shape, Array.Strides, Array.size]
      · rw [elements_eq { array with shape_ := rhs.shape_, strides_ := rhs.strides_ } _ result
          hresult, elements_eq rhs _ first hfirst]
        simp only [hsize]
        apply List.map_congr_left
        intro i hi
        rw [List.mem_range] at hi
        rw [hcopy]
        have : result ≤ result + i ∧ result + i < result + rhs.size_.toNat := by omega
        rw [if_pos this]
        congr 2
        omega
      · rw [elements_eq rhs _ first hfirst, elements_eq rhs _ first hfirst]
        apply List.map_congr_left
        intro i hi
        rw [List.mem_range] at hi
        rw [hcopy]
        have : ¬ (result ≤ first + i ∧ first + i < result + rhs.size_.toNat) := by omega
        rw [if_neg this]
  · have hthrow : array.CopyAssign NDEBUG rhs memory
        = some ((array, memory),
            .error (.RuntimeError "Array::operator=(const Array&) - size mismatch between rhs")) := by
      simp only [Array.CopyAssign, ne_eq, hsize, not_false_eq_true, if_true]
    refine ⟨?_, ?_, ?_⟩
    · constructor
      · intro _
        exact hsize
      · intro _
        exact ⟨_, hthrow⟩
    · intro _
      exact hthrow
    · intro h
      exact absurd h hsize

/-- C26 on the memory `1, 2, 3, 4`, in a build without NDEBUG: a target of
three scalars and a right-hand side of two; and a target at the addresses 0, 1
with a right-hand side at the addresses 2, 3, whose scalars 3, 4 the target
holds afterwards. -/
theorem C26_copy_assignment_checks_the_sizes_and_copies_between_arrays_apart_witness :
    ({ own_data_ := false, data_ := some 0, size_ := 3, strides_ := [], shape_ := [3] } :
        Array ℚ 1).CopyAssign false
        { own_data_ := false, data_ := some 2, size_ := 2, strides_ := [], shape_ := [2] }
        [1, 2, 3, 4]
      = some
          (({ own_data_ := false, data_ := some 0, size_ := 3, strides_ := [], shape_ := [3] },
            [1, 2, 3, 4]),
            .error (.RuntimeError "Array::operator=(const Array&) - size mismatch between rhs"))
    ∧ (∃ array' memory',
        ({ own_data_ := false, data_ := some 0, size_ := 2, strides_ := [], shape_ := [2] } :
          Array ℚ 1).CopyAssign false
          { own_data_ := false, data_ := some 2, size_ := 2, strides_ := [], shape_ := [2] }
          [1, 2, 3, 4]
          = some ((array', memory'), .ok ())
        ∧ array'.elements memory'
          = ({ own_data_ := false, data_ := some 2, size_ := 2, strides_ := [], shape_ := [2] } :
              Array ℚ 1).elements [1, 2, 3, 4])
    ∧ ({ own_data_ := false, data_ := some 0, size_ := 2, strides_ := [], shape_ := [2] } :
          Array ℚ 1).CopyAssign false
          { own_data_ := false, data_ := some 2, size_ := 2, strides_ := [], shape_ := [2] }
          [1, 2, 3, 4]
        = some
            (({ own_data_ := false, data_ := some 0, size_ := 2, strides_ := [], shape_ := [2] },
              [3, 4, 3, 4]), .ok ()) := by
  refine ⟨(C26_copy_assignment_checks_the_sizes_and_copies_between_arrays_apart false
      ({ own_data_ := false, data_ := some 0, size_ := 3, strides_ := [], shape_ := [3] } :
        Array ℚ 1)
      { own_data_ := false, data_ := some 2, size_ := 2, strides_ := [], shape_ := [2] }
      [1, 2, 3, 4]).2.1 (by decide), ?_, by decide!⟩
  obtain ⟨array', memory', h, helements, -⟩ :=
    (C26_copy_assignment_checks_the_sizes_and_copies_between_arrays_apart false
      ({ own_data_ := false, data_ := some 0, size_ := 2, strides_ := [], shape_ := [2] } :
        Array ℚ 1)
      { own_data_ := false, data_ := some 2, size_ := 2, strides_ := [], shape_ := [2] }
      [1, 2, 3, 4]).2.2 (by decide) 2 0 rfl rfl (by decide) (by decide) (by decide)
  exact ⟨array', memory', h, helements⟩

/-- C26 (as stated) fails: on the memory `1, 2, 3`, a target at the addresses
0, 1 and a right-hand side of the same size at the addresses 1, 2 (the scalars
2, 3): nothing is raised, the target holds 2, 3 afterwards, and the right-hand
side holds 3, 3. -/
theorem C26_copy_assignment_changes_an_overlapping_right_hand_side :
    ({ own_data_ := false, data_ := some 0, size_ := 2, strides_ := [], shape_ := [2] } :
        Array ℚ 1).size
      = ({ own_data_ := false, data_ := some 1, size_ := 2, strides_ := [], shape_ := [2] } :
        Array ℚ 1).size
    ∧ ({ own_data_ := false, data_ := some 1, size_ := 2, strides_ := [], shape_ := [2] } :
        Array ℚ 1).elements [1, 2, 3] = [some 2, some 3]
    ∧ (({ own_data_ := false, data_ := some 0, size_ := 2, strides_ := [], shape_ := [2] } :
        Array ℚ 1).CopyAssign false
        { own_data_ := false, data_ := some 1, size_ := 2, strides_ := [], shape_ := [2] }
        [1, 2, 3])
      = some
          (({ own_data_ := false, data_ := some 0, size_ := 2, strides_ := [], shape_ := [2] },
            [2, 3, 3]), .ok ())
    ∧ ({ own_data_ := false, data_ := some 0, size_ := 2, strides_ := [], shape_ := [2] } :
        Array ℚ 1).elements [2, 3, 3] = [some 2, some 3]
    ∧ ({ own_data_ := false, data_ := some 1, size_ := 2, strides_ := [], shape_ := [2] } :
        Array ℚ 1).elements [2, 3, 3] = [some 3, some 3] := by
  refine ⟨by decide, by decide!, by decide!, by decide!, by decide!⟩

theorem NonZeros_loop (l : List Nat) :
    l.foldl (fun (n : Int) (_ : Nat) => if n ≠ 0 then n + 1 else n) 0 = 0 := by
  induction l with
  | nil => rfl
  | cons a l ih => simpa using ih

/-- C27 (what the code does): `NonZeros` returns 0 for every array, whatever its
scalars; the array of the one scalar 1 has one scalar that is not zero. -/
theorem C27_NonZeros_returns_zero_for_every_array :
    (∀ (DataType : Type) (dim : Nat) (array : Array DataType dim), array.NonZeros = 0)
    ∧ ({ own_data_ := false, data_ := some 0, size_ := 1, strides_ := [], shape_ := [1] } :
        Array ℚ 1).elements [1] = [some 1]
    ∧ (([some 1] : List (Option ℚ)).filter (fun scalar => scalar ≠ some 0)).length = 1 := by
  refine ⟨?_, by decide!, by decide!⟩
  intro DataType dim array
  exact NonZeros_loop _

theorem Clip_loop {dim : Nat} (NDEBUG : Bool) (address clipped_address : Nat)
    (lower_bound upper_bound : List ℚ) (clipped : Array Int dim) (memory : Memory ℚ)
    (clipped_memory : Memory Int) (n : Nat)
    (hmemory : address + n ≤ memory.length)
    (hclipped : clipped_address + n ≤ clipped_memory.length)
    (hsize : (n : Int) ≤ clipped.size_)
    (hlower : n ≤ lower_bound.length) (hupper : n ≤ upper_bound.length)
    (hbounds : ∀ i : Nat, i < n → lower_bound.getD i 0 ≤ upper_bound.getD i 0)
    (k : Nat) (hk : k ≤ n) :
    ∃ memory' clipped_memory',
      (List.range k).foldl
          (Array.Clip.pass NDEBUG address lower_bound upper_bound clipped clipped_address)
          (some (memory, clipped_memory))
        = some (memory', clipped_memory')
      ∧ memory'.length = memory.length
      ∧ clipped_memory'.length = clipped_memory.length
      ∧ (∀ j : Nat, memory'[j]? =
          if address ≤ j ∧ j < address + k then
            some (min (max (memory.getD j 0) (lower_bound.getD (j - address) 0))
              (upper_bound.getD (j - address) 0))
          else memory[j]?)
      ∧ (∀ j : Nat, clipped_memory'[j]? =
          if clipped_address ≤ j ∧ j < clipped_address + k then
            some (if memory.getD (address + (j - clipped_address)) 0
                      > upper_bound.getD (j - clipped_address) 0 then 1
                  else if memory.getD (address + (j - clipped_address)) 0
                      < lower_bound.getD (j - clipped_address) 0 then -1
                  else 0)
          else clipped_memory[j]?) := by
  induction k with
  | zero =>
      refine ⟨memory, clipped_memory, rfl, rfl, rfl, ?_, ?_⟩
      · intro j
        have : ¬ (address ≤ j ∧ j < address + 0) := by omega
        rw [if_neg this]
      · intro j
        have : ¬ (clipped_address ≤ j ∧ j < clipped_address + 0) := by omega
        rw [if_neg this]
  | succ k ih =>
      obtain ⟨m, c, hfold, hml, hcl, hm, hc⟩ := ih (by omega)
      rw [List.range_succ, List.foldl_append, hfold]
      simp only [List.foldl_cons, List.foldl_nil]
      have hbr : clipped.operatorBracket NDEBUG (k : Int) = some (k : Int) :=
        operatorBracket_in_bounds NDEBUG clipped k (by omega) (by omega)
      have hdata : m[address + k]? = some (memory.getD (address + k) 0) := by
        rw [hm]
        have : ¬ (address ≤ address + k ∧ address + k < address + k) := by omega
        rw [if_neg this, List.getD_eq_getElem?_getD,
          List.getElem?_eq_getElem (show address + k < memory.length by omega)]
        rfl
      have hub : upper_bound[k]? = some (upper_bound.getD k 0) := by
        rw [List.getD_eq_getElem?_getD,
          List.getElem?_eq_getElem (show k < upper_bound.length by omega)]
        rfl
      have hlb : lower_bound[k]? = some (lower_bound.getD k 0) := by
        rw [List.getD_eq_getElem?_getD,
          List.getElem?_eq_getElem (show k < lower_bound.length by omega)]
        rfl
      have hle := hbounds k (by omega)
      simp only [Array.Clip.pass, hbr, hdata, hub, hlb]
      generalize hd : memory.getD (address + k) 0 = data at *
      generalize hu : upper_bound.getD k 0 = ub at *
      generalize hl : lower_bound.getD k 0 = lb at *
      have key : ∀ (value : ℚ) (sign : Int) (memory'' : Memory ℚ),
          value = min (max data lb) ub →
          sign = (if data > ub then 1 else if data < lb then -1 else 0) →
          memory''.length = m.length →
          (∀ j : Nat, memory''[j]? = if address + k = j then some value else m[j]?) →
          ∃ memory' clipped_memory',
            some (memory'', c.set (clipped_address + k) sign) = some (memory', clipped_memory')
            ∧ memory'.length = memory.length
            ∧ clipped_memory'.length = clipped_memory.length
            ∧ (∀ j : Nat, memory'[j]? =
                if address ≤ j ∧ j < address + (k + 1) then
                  some (min (max (memory.getD j 0) (lower_bound.getD (j - address) 0))
                    (upper_bound.getD (j - address) 0))
                else memory[j]?)
            ∧ (∀ j : Nat, clipped_memory'[j]? =
                if clipped_address ≤ j ∧ j < clipped_address + (k + 1) then
                  some (if memory.getD (address + (j - clipped_address)) 0
                            > upper_bound.getD (j - clipped_address) 0 then 1
                        else if memory.getD (address + (j - clipped_address)) 0
                            < lower_bound.getD (j - clipped_address) 0 then -1
                        else 0)
                else clipped_memory[j]?) := by
        intro value sign memory'' hvalue hsign hlen hget
        refine ⟨memory'', c.set (clipped_address + k) sign, rfl, by rw [hlen, hml],
          by rw [List.length_set, hcl], ?_, ?_⟩
        · intro j
          rw [hget j]
          by_cases hj : address + k = j
          · have h1 : address ≤ j ∧ j < address + (k + 1) := by omega
            have h2 : j - address = k := by omega
            rw [if_pos hj, if_pos h1, h2, ← hj, hd, hu, hl, hvalue]
          · rw [if_neg hj, hm j]
            by_cases h1 : address ≤ j ∧ j < address + k
            · have h2 : address ≤ j ∧ j < address + (k + 1) := by omega
              rw [if_pos h1, if_pos h2]
            · have h2 : ¬ (address ≤ j ∧ j < address + (k + 1)) := by omega
              rw [if_neg h1, if_neg h2]
        · intro j
          rw [List.getElem?_set]
          by_cases hj : clipped_address + k = j
          · have h1 : clipped_address ≤ j ∧ j < clipped_address + (k + 1) := by omega
            have h2 : j - clipped_address = k := by omega
            have h3 : clipped_address + k < c.length := by omega
            rw [if_pos hj, if_pos h3, if_pos h1, h2, hd, hu, hl, hsign]
          · rw [if_neg hj, hc j]
            by_cases h1 : clipped_address ≤ j ∧ j < clipped_address + k
            · have h2 : clipped_address ≤ j ∧ j < clipped_address + (k + 1) := by omega
              rw [if_pos h1, if_pos h2]
            · have h2 : ¬ (clipped_address ≤ j ∧ j < clipped_address + (k + 1)) := by omega
              rw [if_neg h1, if_neg h2]
      have hset : ∀ value : ℚ, ∀ j : Nat,
          (m.set (address + k) value)[j]? = if address + k = j then some value else m[j]? := by
        intro value j
        rw [List.getElem?_set]
        by_cases hj : address + k = j
        · rw [if_pos hj, if_pos hj, if_pos (by omega)]
        · rw [if_neg hj, if_neg hj]
      by_cases h1 : data > ub
      · rw [if_pos h1]
        refine key ub 1 _ ?_ (by rw [if_pos h1]) (List.length_set ..) (hset ub)
        rw [max_eq_left (by linarith), min_eq_right h1.le]
      · rw [if_neg h1]
        by_cases h2 : data < lb
        · rw [if_pos h2]
          refine key lb (-1) _ ?_ (by rw [if_neg h1, if_pos h2]) (List.length_set ..) (hset lb)
          rw [max_eq_right h2.le, min_eq_left hle]
        · rw [if_neg h2]
          refine key data 0 m ?_ (by rw [if_neg h1, if_neg h2]) rfl ?_
          · rw [max_eq_left (not_lt.mp h2), min_eq_left (not_lt.mp h1)]
          · intro j
            by_cases hj : address + k = j
            · rw [if_pos hj, ← hj, hdata]
            · rw [if_neg hj]

/-- C28: `Clip` clips in place.  For an array and a `clipped` array that hold
their scalars in the memory (`clipped` at least as many as the array), and lower
and upper bound sequences of the size of the array with
`lower[i] <= upper[i]`: no assertion fails, afterwards every scalar `i` of the
array is `min(max(old[i], lower[i]), upper[i])`, and `clipped[i]` is 1 if
`old[i] > upper[i]`, -1 if `old[i] < lower[i]`, and 0 otherwise; the scalars
outside the two arrays are as before. -/
theorem C28_Clip_clips_each_scalar_into_its_bounds {dim : Nat} (NDEBUG : Bool)
    (array : Array ℚ dim) (memory : Memory ℚ) (lower_bound upper_bound : List ℚ)
    (clipped : Array Int dim) (clipped_memory : Memory Int) (address clipped_address : Nat)
    (hdata : array.data_ = some address) (hclipped : clipped.data_ = some clipped_address)
    (hmemory : address + array.size.toNat ≤ memory.length)
    (hclipped_memory : clipped_address + array.size.toNat ≤ clipped_memory.length)
    (hsize : array.size ≤ clipped.size)
    (hlower : (lower_bound.length : Int) = array.size)
    (hupper : (upper_bound.length : Int) = array.size)
    (hbounds : ∀ i : Nat, i < lower_bound.length →
      lower_bound.getD i 0 ≤ upper_bound.getD i 0) :
    ∃ memory' clipped_memory',
      array.Clip NDEBUG memory lower_bound upper_bound clipped clipped_memory
        = some (memory', clipped_memory')
      ∧ (∀ i : Nat, (i : Int) < array.size →
          memory'[address + i]?
            = some (min (max (memory.getD (address + i) 0) (lower_bound.getD i 0))
                (upper_bound.getD i 0))
          ∧ lower_bound.getD i 0 ≤ memory'.getD (address + i) 0
          ∧ memory'.getD (address + i) 0 ≤ upper_bound.getD i 0
          ∧ (lower_bound.getD i 0 ≤ memory.getD (address + i) 0 →
              memory.getD (address + i) 0 ≤ upper_bound.getD i 0 →
                memory'.getD (address + i) 0 = memory.getD (address + i) 0)
          ∧ clipped_memory'[clipped_address + i]?
            = some (if memory.getD (address + i) 0 > upper_bound.getD i 0 then 1
                else if memory.getD (address + i) 0 < lower_bound.getD i 0 then -1
                else 0))
      ∧ (∀ j : Nat, ¬ (address ≤ j ∧ (j : Int) < address + array.size) →
          memory'[j]? = memory[j]?)
      ∧ (∀ j : Nat, ¬ (clipped_address ≤ j ∧ (j : Int) < clipped_address + array.size) →
          clipped_memory'[j]? = clipped_memory[j]?) := by
  simp only [Array.size] at *
  have hn : ((array.size_.toNat : Nat) : Int) = array.size_ := Int.toNat_of_nonneg (by omega)
  obtain ⟨m, c, hfold, -, -, hm, hc⟩ := Clip_loop NDEBUG address clipped_address lower_bound
    upper_bound clipped memory clipped_memory array.size_.toNat hmemory hclipped_memory
    (by omega) (by omega) (by omega) (fun i hi => hbounds i (by omega)) array.size_.toNat
    (le_refl _)
  refine ⟨m, c, ?_, ?_, ?_, ?_⟩
  · simp only [Array.Clip, hlower, hupper, hdata, hclipped, hfold]
    simp
  · intro i hi
    have h1 : address ≤ address + i ∧ address + i < address + array.size_.toNat := by omega
    have h2 : clipped_address ≤ clipped_address + i
        ∧ clipped_address + i < clipped_address + array.size_.toNat := by omega
    have hmi := hm (address + i)
    rw [if_pos h1, Nat.add_sub_cancel_left] at hmi
    have hci := hc (clipped_address + i)
    rw [if_pos h2, Nat.add_sub_cancel_left] at hci
    have hle := hbounds i (by omega)
    have hgetD : m.getD (address + i) 0
        = min (max (memory.getD (address + i) 0) (lower_bound.getD i 0))
            (upper_bound.getD i 0) := by
      rw [List.getD_eq_getElem?_getD, hmi]
      rfl
    refine ⟨hmi, ?_, ?_, ?_, hci⟩
    · rw [hgetD]
      exact le_min (le_max_right _ _) hle
    · rw [hgetD]
      exact min_le_right _ _
    · intro h3 h4
      rw [hgetD, max_eq_left h3, min_eq_left h4]
  · intro j hj
    have : ¬ (address ≤ j ∧ j < address + array.size_.toNat) := by omega
    rw [hm j, if_neg this]
  · intro j hj
    have : ¬ (clipped_address ≤ j ∧ j < clipped_address + array.size_.toNat) := by omega
    rw [hc j, if_neg this]

/-- C28 on the array `5, -5, 1` with the bounds `0 <= . <= 2`, in a build
without NDEBUG: the array becomes `2, 0, 1` and `clipped` becomes `1, -1, 0`. -/
theorem C28_Clip_clips_each_scalar_into_its_bounds_witness :
    Array.Clip false
        ({ own_data_ := false, data_ := some 0, size_ := 3, strides_ := [], shape_ := [3] } :
          Array ℚ 1) [5, -5, 1] [0, 0, 0] [2, 2, 2]
        ({ own_data_ := false, data_ := some 1, size_ := 3, strides_ := [], shape_ := [3] } :
          Array Int 1) [7, 7, 7, 7]
      = some ([2, 0, 1], [7, 1, -1, 0])
    ∧ ∃ memory' clipped_memory',
      Array.Clip false
          ({ own_data_ := false, data_ := some 0, size_ := 3, strides_ := [], shape_ := [3] } :
            Array ℚ 1) [5, -5, 1] [0, 0, 0] [2, 2, 2]
          ({ own_data_ := false, data_ := some 1, size_ := 3, strides_ := [], shape_ := [3] } :
            Array Int 1) [7, 7, 7, 7]
        = some (memory', clipped_memory')
      ∧ memory'[0 + 1]? = some (min (max (([5, -5, 1] : List ℚ).getD (0 + 1) 0)
          (([0, 0, 0] : List ℚ).getD 1 0)) (([2, 2, 2] : List ℚ).getD 1 0)) := by
  refine ⟨by decide!, ?_⟩
  obtain ⟨memory', clipped_memory', h, hall, -, -⟩ :=
    C28_Clip_clips_each_scalar_into_its_bounds false
      ({ own_data_ := false, data_ := some 0, size_ := 3, strides_ := [], shape_ := [3] } :
        Array ℚ 1) [5, -5, 1] [0, 0, 0] [2, 2, 2]
      ({ own_data_ := false, data_ := some 1, size_ := 3, strides_ := [], shape_ := [3] } :
        Array Int 1) [7, 7, 7, 7] 0 1 rfl rfl (by decide) (by decide) (by decide) (by decide)
      (by decide)
      (by
        intro i hi
        have hi' : i < 3 := hi
        interval_cases i <;> norm_num)
  exact ⟨memory', clipped_memory', h, (hall 1 (by decide)).1⟩

/-! ## C29, C30: Bezier extraction and the control points of an insertion -/

theorem GetIndex1d_curve (n v : Int) :
    Index_.GetIndex1d { length_ := [n], value_ := [v] } = v := by
  simp [Index_.GetIndex1d, rowMajorOffset]

theorem insert_getElem? {α : Type} (C : List α) (s : Nat) (x : α) (hs : s ≤ C.length)
    (j : Nat) :
    (C.take s ++ x :: C.drop s)[j]?
      = if j < s then C[j]? else if j = s then some x else C[j - 1]? := by
  have hlen : (C.take s).length = s := by simp [hs]
  by_cases h1 : j < s
  · rw [if_pos h1, List.getElem?_append_left (by omega), List.getElem?_take_of_lt h1]
  · rw [if_neg h1, List.getElem?_append_right (by omega), hlen]
    by_cases h2 : j = s
    · rw [if_pos h2, h2]
      simp
    · rw [if_neg h2]
      obtain ⟨i, hi⟩ : ∃ i, j - s = i + 1 := ⟨j - s - 1, by omega⟩
      rw [hi, List.getElem?_cons_succ, List.getElem?_drop]
      congr 1
      omega

theorem InsertKnot_replace_fold (n : Int) (l : List ℚ) (vector_space : VectorSpace) (c : Nat)
    (hl : l.length ≤ c) (hc : c < vector_space.coordinates.length) :
    (l.foldl (BSpline.InsertKnot.replace 0)
        (vector_space, { length_ := [n], value_ := [(c : Int)] })).1.dim = vector_space.dim
    ∧ ∀ j : Nat,
      (l.foldl (BSpline.InsertKnot.replace 0)
          (vector_space, { length_ := [n], value_ := [(c : Int)] })).1.coordinates[j]?
        = if c < j + l.length ∧ j ≤ c then
            some (Add (l.getD (c - j) 0) (vector_space.coordinates.getD j [])
              (1 - l.getD (c - j) 0) (vector_space.coordinates.getD (j - 1) [])
              (List.replicate vector_space.dim 0))
          else vector_space.coordinates[j]? := by
  induction l generalizing vector_space c with
  | nil =>
      refine ⟨rfl, ?_⟩
      intro j
      have : ¬ (c < j + ([] : List ℚ).length ∧ j ≤ c) := by
        simp only [List.length_nil]
        omega
      rw [if_neg this]
      rfl
  | cons b l ih =>
      simp only [List.length_cons] at hl
      have hstep : BSpline.InsertKnot.replace 0
            (vector_space, { length_ := [n], value_ := [(c : Int)] }) b
          = (vector_space.Replace (c : Int)
              (Add b (vector_space.coordinates.getD c []) (1 - b)
                (vector_space.coordinates.getD (c - 1) [])
                (List.replicate vector_space.dim 0)),
              { length_ := [n], value_ := [((c - 1 : Nat) : Int)] }) := by
        have hc1 : ((c : Int) + -1) = ((c - 1 : Nat) : Int) := by omega
        simp only [BSpline.InsertKnot.replace, GetIndex1d_curve, Index_.Decrement, stepAt,
          Int.toNat_zero, hc1, VectorSpace.CoordinateBegin, Int.natCast_nonneg, if_true,
          Int.toNat_ofNat, VectorSpace.Dim]
      rw [List.foldl_cons, hstep]
      have hrep : (vector_space.Replace (c : Int)
            (Add b (vector_space.coordinates.getD c []) (1 - b)
              (vector_space.coordinates.getD (c - 1) [])
              (List.replicate vector_space.dim 0)))
          = { vector_space with
              coordinates := vector_space.coordinates.set c
                (Add b (vector_space.coordinates.getD c []) (1 - b)
                  (vector_space.coordinates.getD (c - 1) [])
                  (List.replicate vector_space.dim 0)) } := by
        simp [VectorSpace.Replace]
      rw [hrep]
      obtain ⟨hdim, hget⟩ := ih
        { vector_space with
          coordinates := vector_space.coordinates.set c
            (Add b (vector_space.coordinates.getD c []) (1 - b)
              (vector_space.coordinates.getD (c - 1) [])
              (List.replicate vector_space.dim 0)) } (c - 1) (by omega)
        (by simp only [List.length_set]; omega)
      refine ⟨hdim, ?_⟩
      intro j
      rw [hget j]
      simp only [List.length_cons, List.getD_eq_getElem?_getD, List.getElem?_set]
      by_cases h1 : c - 1 < j + l.length ∧ j ≤ c - 1
      · have h2 : c < j + (l.length + 1) ∧ j ≤ c := by omega
        have h3 : ¬ c = j := by omega
        have h4 : ¬ c = j - 1 := by omega
        obtain ⟨i, hi⟩ : ∃ i, c - j = i + 1 := ⟨c - j - 1, by omega⟩
        have h5 : c - 1 - j = i := by omega
        rw [if_pos h1, if_pos h2, if_neg h3, if_neg h4, hi, h5, List.getElem?_cons_succ]
      · rw [if_neg h1]
        by_cases h6 : c = j
        · have h2 : c < j + (l.length + 1) ∧ j ≤ c := by omega
          have h7 : c - j = 0 := by omega
          rw [if_pos h6, if_pos hc, if_pos h2, h7, ← h6]
          simp
        · have h2 : ¬ (c < j + (l.length + 1) ∧ j ≤ c) := by omega
          rw [if_neg h6, if_neg h2]

theorem reverse_cons_getD (a : List ℚ) (coefficient : ℚ) (remaining : List ℚ)
    (h : a.reverse = coefficient :: remaining) :
    coefficient = a.getD (a.length - 1) 0
    ∧ remaining.length + 1 = a.length
    ∧ ∀ i : Nat, i + 1 < a.length → remaining.getD i 0 = a.getD (a.length - 2 - i) 0 := by
  have hlen : remaining.length + 1 = a.length := by
    have := congrArg List.length h
    simpa using this.symm
  have ha : a = (coefficient :: remaining).reverse := by
    rw [← h, List.reverse_reverse]
  have hget : ∀ i : Nat, i < a.length →
      (coefficient :: remaining).getD i 0 = a.getD (a.length - 1 - i) 0 := by
    intro i hi
    rw [← h]
    simp only [List.getD_eq_getElem?_getD]
    rw [List.getElem?_reverse hi]
  refine ⟨?_, hlen, ?_⟩
  · have := hget 0 (by omega)
    simpa using this
  · intro i hi
    have := hget (i + 1) (by omega)
    rw [List.getD_cons_succ] at this
    rw [this]
    congr 1
    omega

theorem InsertKnot_round_curve (vector_space : VectorSpace) (n : Int) (s : Nat) (a : List ℚ)
    (hk : 1 ≤ a.length) (hks : a.length ≤ s) (hs : s < vector_space.coordinates.length) :
    (∀ j : Nat, j + a.length ≤ s →
      (BSpline.InsertKnot.round 0 s (vector_space, [n]) a).1.coordinates[j]?
        = vector_space.coordinates[j]?)
    ∧ (∀ m : Nat, 1 ≤ m → m ≤ a.length →
      (BSpline.InsertKnot.round 0 s (vector_space, [n]) a).1.coordinates[s - a.length + m]?
        = some (Add (a.getD (m - 1) 0) (vector_space.coordinates.getD (s - a.length + m) [])
            (1 - a.getD (m - 1) 0) (vector_space.coordinates.getD (s - a.length + m - 1) [])
            (List.replicate vector_space.dim 0)))
    ∧ (∀ j : Nat, s ≤ j →
      (BSpline.InsertKnot.round 0 s (vector_space, [n]) a).1.coordinates[j + 1]?
        = vector_space.coordinates[j]?) := by
  obtain ⟨coefficient, remaining, hrev⟩ : ∃ c r, a.reverse = c :: r := by
    cases hr : a.reverse with
    | nil =>
        rw [List.reverse_eq_nil_iff] at hr
        rw [hr] at hk
        simp at hk
    | cons c r => exact ⟨c, r, rfl⟩
  obtain ⟨hcoef, hlen, hrem⟩ := reverse_cons_getD a coefficient remaining hrev
  have hfirst : Index_.FirstToBehind [Length.slice] = [{ length_ := [1], value_ := [0] }] := by
    decide
  have hs1 : ((s : Int) + -1) = ((s - 1 : Nat) : Int) := by omega
  have hround : (BSpline.InsertKnot.round 0 s (vector_space, [n]) a).1
      = (remaining.foldl (BSpline.InsertKnot.replace 0)
          ({ vector_space with
              coordinates := vector_space.coordinates.take s
                ++ Add coefficient (vector_space.coordinates.getD s []) (1 - coefficient)
                    (vector_space.coordinates.getD (s - 1) [])
                    (List.replicate vector_space.dim 0)
                  :: vector_space.coordinates.drop s },
            { length_ := stepAt [n] 0 1, value_ := [((s - 1 : Nat) : Int)] })).1 := by
    simp only [BSpline.InsertKnot.round, hfirst, List.foldl_cons, List.foldl_nil,
      BSpline.InsertKnot.slice, hrev, Index_.GetIndex, Int.toNat_zero, List.set_cons_zero,
      Index_.add, List.zipWith_cons_cons, List.zipWith_nil_left, zero_add,
      Index_.Decrement, stepAt, hs1, GetIndex1d_curve, VectorSpace.CoordinateBegin,
      Int.natCast_nonneg, if_true, Int.toNat_ofNat, VectorSpace.Dim,
      VectorSpace.ReallocateInsert, Nat.cast_le, hs.le, and_self]
  rw [hround]
  obtain ⟨-, hget⟩ := InsertKnot_replace_fold (n + 1) remaining
    { vector_space with
      coordinates := vector_space.coordinates.take s
        ++ Add coefficient (vector_space.coordinates.getD s []) (1 - coefficient)
            (vector_space.coordinates.getD (s - 1) [])
            (List.replicate vector_space.dim 0)
          :: vector_space.coordinates.drop s } (s - 1) (by omega)
    (by simp only [List.length_append, List.length_take, List.length_cons, List.length_drop]; omega)
  simp only [stepAt] at hget ⊢
  refine ⟨?_, ?_, ?_⟩
  · intro j hj
    have h1 : ¬ (s - 1 < j + remaining.length ∧ j ≤ s - 1) := by omega
    have h2 : j < s := by omega
    rw [hget j, if_neg h1]
    simp only [insert_getElem? _ s _ hs.le, if_pos h2]
  · intro m hm1 hm2
    by_cases hm : m = a.length
    · have h0 : s - a.length + m = s := by omega
      have h1 : ¬ (s - 1 < s + remaining.length ∧ s ≤ s - 1) := by omega
      have h3 : a.length - 1 = m - 1 := by omega
      rw [h0, hget s, if_neg h1]
      simp only [insert_getElem? _ s _ hs.le, if_neg (lt_irrefl s), if_true, hcoef, h3]
    · have h1 : s - 1 < s - a.length + m + remaining.length ∧ s - a.length + m ≤ s - 1 := by
        omega
      have h2 : s - a.length + m < s := by omega
      have h3 : s - a.length + m - 1 < s := by omega
      have h4 : s - 1 - (s - a.length + m) = a.length - m - 1 := by omega
      have h5 := hrem (a.length - m - 1) (by omega)
      have h6 : a.length - 2 - (a.length - m - 1) = m - 1 := by omega
      rw [hget (s - a.length + m), if_pos h1, h4, h5, h6]
      simp only [List.getD_eq_getElem?_getD, insert_getElem? _ s _ hs.le, if_pos h2, if_pos h3]
  · intro j hj
    have h1 : ¬ (s - 1 < j + 1 + remaining.length ∧ j + 1 ≤ s - 1) := by omega
    have h2 : ¬ (j + 1 < s) := by omega
    have h3 : ¬ (j + 1 = s) := by omega
    rw [hget (j + 1), if_neg h1]
    simp only [insert_getElem? _ s _ hs.le, if_neg h2, if_neg h3, Nat.add_sub_cancel]

/-- C29 (what the code does): `MakeBezier` returns the Bezier information of the
parameter space and refines by exactly the knots of that information.  On the
quadratic curve `twoArcs` it returns 2 segments and the knot `1/2`, and
coarsening that knot gives the curve back.  On the cubic curve `wiggle` it
returns 2 segments and the knots `1/2, 1/2` and keeps the value at `1/4`, but
coarsening the two knots removes only one of them and does not give the curve
back: the second removal runs the replacement loop of `RemoveKnot`
(b_spline.inl:291-298). -/
theorem C29_coarsening_the_returned_knots_does_not_undo_MakeBezier_on_wiggle :
    (∀ (PS : Type) (ops : ParameterSpaceOps PS) (NDEBUG : Bool) (kEpsilon : ℚ)
        (spline : BSpline PS) (dimension : Int) (tolerance : ℚ),
      BSpline.MakeBezier ops NDEBUG kEpsilon spline dimension tolerance
        = (ops.DetermineBezierExtractionKnots spline.parameter_space_ dimension tolerance).bind
            (fun bezier_information =>
              (BSpline.RefineKnots ops NDEBUG kEpsilon spline dimension
                bezier_information.2).map
                (fun refined => (bezier_information, refined))))
    ∧ BSpline.MakeBezier (ParameterSpace.ops false) false smallEpsilon twoArcs 0 0
        = .ok ((2, [1/2]), twoArcsRefined)
    ∧ BSpline.CoarsenKnots (ParameterSpace.ops false) false smallEpsilon twoArcsRefined 0
        [1/2] 0 = .ok twoArcs
    ∧ BSpline.MakeBezier (ParameterSpace.ops false) false smallEpsilon wiggle 0 0
        = .ok ((2, [1/2, 1/2]),
            { parametric_dimensionality_ := 1, is_rational_ := false,
              parameter_space_ :=
                { knot_vectors_ := [[0, 0, 0, 0, 1/2, 1/2, 1/2, 1, 1, 1, 1]], degrees_ := [3] },
              vector_space_ :=
                { dim := 1, coordinates := [[0], [1], [2], [9/4], [5/2], [2], [5]] } })
    ∧ BSpline.Evaluate (ParameterSpace.ops false) wiggle [1/4] [] = [45/32]
    ∧ (BSpline.MakeBezier (ParameterSpace.ops false) false smallEpsilon wiggle 0 0).map
        (fun extracted => BSpline.Evaluate (ParameterSpace.ops false) extracted.2 [1/4] [])
        = .ok [45/32]
    ∧ (BSpline.MakeBezier (ParameterSpace.ops false) false smallEpsilon wiggle 0 0).bind
        (fun extracted =>
          BSpline.CoarsenKnots (ParameterSpace.ops false) false smallEpsilon extracted.2 0
            extracted.1.2 0)
        = .ok
            { parametric_dimensionality_ := 1, is_rational_ := false,
              parameter_space_ :=
                { knot_vectors_ := [[0, 0, 0, 0, 1/2, 1/2, 1, 1, 1, 1]], degrees_ := [3] },
              vector_space_ :=
                { dim := 1, coordinates := [[0], [1], [2], [5/2], [2], [5]] } } := by
  refine ⟨?_, by decide!, by decide!, by decide!, by decide!, by decide!, by decide!⟩
  intro PS ops NDEBUG kEpsilon spline dimension tolerance
  unfold BSpline.MakeBezier
  cases ops.DetermineBezierExtractionKnots spline.parameter_space_ dimension tolerance with
  | error e => rfl
  | ok info =>
      show (BSpline.RefineKnots ops NDEBUG kEpsilon spline dimension info.2).bind _
        = (BSpline.RefineKnots ops NDEBUG kEpsilon spline dimension info.2).map _
      cases BSpline.RefineKnots ops NDEBUG kEpsilon spline dimension info.2 <;> rfl

/-- C30 (what the code does): for a curve with the control points `P`, a start
index `s` and one coefficient set `a_1, ..., a_k` with `1 <= k <= s < |P|`, the
control points `Q` after the pass of `InsertKnot` for that set are
`Q[j] = P[j]` for `j <= s - k`,
`Q[s - k + m] = a_m P[s - k + m] + (1 - a_m) P[s - k + m - 1]` for `m = 1..k`,
and `Q[j + 1] = P[j]` for `j >= s`: every right-hand side reads the control
points held before the pass.  On the trilinear volume, along the dimension 1
with the start index 1 and the coefficient set `1/2` that the parameter space
returns for the knot `1/2`, the slices `(0, ., 0)`, `(0, ., 1)` are as in
Eq. (5.15), and the new control points of the slices `(1, ., 0)`, `(1, ., 1)`
are `3`, `5` where Eq. (5.15) gives `1/2 * 4 + 1/2 * 3 = 7/2` and
`1/2 * 9 + 1/2 * 7 = 8`. -/
theorem C30_InsertKnot_follows_Eq_5_15_on_curves_and_not_on_the_volume :
    (∀ (vector_space : VectorSpace) (n : Int) (s : Nat) (a : List ℚ),
      1 ≤ a.length → a.length ≤ s → s < vector_space.coordinates.length →
        (∀ j : Nat, j + a.length ≤ s →
          (BSpline.InsertKnot.round 0 s (vector_space, [n]) a).1.coordinates[j]?
            = vector_space.coordinates[j]?)
        ∧ (∀ m : Nat, 1 ≤ m → m ≤ a.length →
          (BSpline.InsertKnot.round 0 s (vector_space, [n]) a).1.coordinates[s - a.length + m]?
            = some (Add (a.getD (m - 1) 0) (vector_space.coordinates.getD (s - a.length + m) [])
                (1 - a.getD (m - 1) 0)
                (vector_space.coordinates.getD (s - a.length + m - 1) [])
                (List.replicate vector_space.dim 0)))
        ∧ (∀ j : Nat, s ≤ j →
          (BSpline.InsertKnot.round 0 s (vector_space, [n]) a).1.coordinates[j + 1]?
            = vector_space.coordinates[j]?))
    ∧ (ParameterSpace.ops false).InsertKnot volume.parameter_space_ 1 (1/2) 1 0
      = .ok ({ knot_vectors_ := [[0, 0, 1, 1], [0, 0, 1/2, 1, 1], [0, 0, 1, 1]],
               degrees_ := [1, 1, 1] },
          1, [[1/2]])
    ∧ (BSpline.InsertKnot.round 1 1 (volume.vector_space_, [2, 2, 2]) [1/2]).1.coordinates
      = [[0], [1], [5/2], [3/2], [5], [2], [3], [7], [3], [5], [4], [9]]
    ∧ Add (1/2) [5] (1 - 1/2) [0] [0] = [5/2]
    ∧ Add (1/2) [2] (1 - 1/2) [1] [0] = [3/2]
    ∧ Add (1/2) [4] (1 - 1/2) [3] [0] = [7/2]
    ∧ Add (1/2) [9] (1 - 1/2) [7] [0] = [8] := by
  refine ⟨?_, by decide!, by decide!, by decide!, by decide!, by decide!, by decide!⟩
  intro vector_space n s a hk hks hs
  exact InsertKnot_round_curve vector_space n s a hk hks hs

/-- C30 on the curve `twoArcs` (control points `(0,0), (1,2), (3,0), (4,4)`),
the start index 2 and the coefficient set `1/2, 1/4` that the parameter space
returns for the knot `1/4`: the control point 2 becomes
`1/4 (3,0) + 3/4 (1,2) = (3/2, 3/2)`, and the whole pass gives
`(0,0), (1/2,1), (3/2,3/2), (3,0), (4,4)`. -/
theorem C30_InsertKnot_follows_Eq_5_15_on_curves_and_not_on_the_volume_witness :
    (ParameterSpace.ops false).InsertKnot twoArcs.parameter_space_ 0 (1/4) 1 0
      = .ok ({ knot_vectors_ := [[0, 0, 0, 1/4, 1/2, 1, 1, 1]], degrees_ := [2] },
          2, [[1/2, 1/4]])
    ∧ (BSpline.InsertKnot.round 0 (2 : Nat) (twoArcs.vector_space_, [4]) [1/2, 1/4]).1.coordinates[
          2 - ([1/2, 1/4] : List ℚ).length + 2]?
      = some (Add (([1/2, 1/4] : List ℚ).getD (2 - 1) 0)
          (twoArcs.vector_space_.coordinates.getD (2 - ([1/2, 1/4] : List ℚ).length + 2) [])
          (1 - ([1/2, 1/4] : List ℚ).getD (2 - 1) 0)
          (twoArcs.vector_space_.coordinates.getD
            (2 - ([1/2, 1/4] : List ℚ).length + 2 - 1) [])
          (List.replicate twoArcs.vector_space_.dim 0))
    ∧ (BSpline.InsertKnot.round 0 2 (twoArcs.vector_space_, [4]) [1/2, 1/4]).1.coordinates
      = [[0, 0], [1/2, 1], [3/2, 3/2], [3, 0], [4, 4]] :=
  ⟨by decide!,
    (C30_InsertKnot_follows_Eq_5_15_on_curves_and_not_on_the_volume.1 twoArcs.vector_space_ 4 2
      [1/2, 1/4] (by decide) (by decide) (by decide)).2.1 2 (by decide) (by decide),
    by decide!⟩

/-! ## C31, C32, C36: the steps of a knot removal -/

theorem elementwise_self_zero (f : ℚ → ℚ → ℚ) (hf : ∀ x, f x x = 0) (xs : List ℚ) :
    elementwise f xs xs = List.replicate xs.length 0 := by
  induction xs with
  | nil => rfl
  | cons x xs ih => simp [elementwise, hf, ih, List.replicate_succ]

theorem Multiply_zero (n : Nat) (scalar : ℚ) :
    Array.Multiply (List.replicate n 0) scalar = List.replicate n 0 := by
  simp [Array.Multiply]

theorem CoordinateBegin_Replace (vector_space : VectorSpace) (i : Int) (value : List ℚ)
    (h0 : 0 ≤ i) (h1 : i.toNat < vector_space.coordinates.length) :
    (vector_space.Replace i value).CoordinateBegin i = value := by
  simp [VectorSpace.Replace, VectorSpace.CoordinateBegin, h0, List.getD_eq_getElem?_getD, h1]

theorem Replace_Replace (vector_space : VectorSpace) (i : Int) (value value' : List ℚ) :
    (vector_space.Replace i value).Replace i value' = vector_space.Replace i value' := by
  by_cases h0 : 0 ≤ i
  · simp [VectorSpace.Replace, h0]
  · simp [VectorSpace.Replace, h0]

theorem Replace_length (vector_space : VectorSpace) (i : Int) (value : List ℚ) :
    (vector_space.Replace i value).coordinates.length = vector_space.coordinates.length := by
  by_cases h0 : 0 ≤ i
  · simp [VectorSpace.Replace, h0]
  · simp [VectorSpace.Replace, h0]

theorem RemoveKnot_replace_zero (dimension : Int) (vector_space : VectorSpace)
    (coordinate : Index_) (coordinate_index : Int) (current_coefficient : ℚ)
    (h0 : 0 ≤ (coordinate.Increment dimension).GetIndex1d)
    (h1 : (coordinate.Increment dimension).GetIndex1d.toNat
      < vector_space.coordinates.length) :
    (BSpline.RemoveKnot.replace dimension (vector_space, coordinate, coordinate_index)
        current_coefficient).1
      = vector_space.Replace (coordinate.Increment dimension).GetIndex1d
          (List.replicate
            (vector_space.CoordinateBegin (coordinate.Increment dimension).GetIndex1d).length
            0) := by
  simp only [BSpline.RemoveKnot.replace]
  generalize (coordinate.Increment dimension).GetIndex1d = i at h0 h1 ⊢
  rw [CoordinateBegin_Replace _ _ _ h0 h1, Replace_Replace,
    CoordinateBegin_Replace _ _ _ h0 (by rw [Replace_length]; exact h1), Replace_Replace]
  congr 1
  simp only [Array.FlipSubtract]
  rw [elementwise_self_zero (fun x y => y - x) (fun x => sub_self x), Multiply_zero]
  simp [Array.MultiplyAssign, elementwise_length]

theorem RemoveKnot_replace_fold_index (n : Int) (l : List ℚ) (vector_space : VectorSpace)
    (v : Int) :
    (l.foldl (BSpline.RemoveKnot.replace 0)
        (vector_space, { length_ := [n], value_ := [v] }, v)).2
      = ({ length_ := [n], value_ := [v + l.length] }, v + l.length) := by
  induction l generalizing vector_space v with
  | nil => simp
  | cons a l ih =>
      rw [List.foldl_cons]
      have hstep2 : (BSpline.RemoveKnot.replace 0
          (vector_space, { length_ := [n], value_ := [v] }, v) a).2
            = ({ length_ := [n], value_ := [v + 1] }, v + 1) := by
        simp only [BSpline.RemoveKnot.replace, Index_.Increment, stepAt, Int.toNat_zero,
          GetIndex1d_curve]
      have hstep : BSpline.RemoveKnot.replace 0
          (vector_space, { length_ := [n], value_ := [v] }, v) a
            = ((BSpline.RemoveKnot.replace 0
                (vector_space, { length_ := [n], value_ := [v] }, v) a).1,
              { length_ := [n], value_ := [v + 1] }, v + 1) := Prod.ext rfl hstep2
      rw [hstep, ih]
      simp only [List.length_cons, Nat.cast_add, Nat.cast_one, Prod.mk.injEq, Index_.mk.injEq,
        true_and, List.cons.injEq, and_true]
      constructor <;> ring

theorem comparison_getD (a : ℚ) (lower upper next : List ℚ) (dim c : Nat) (hc : c < dim) :
    (Array.Subtract
        (Array.Multiply
          (Array.FlipSubtract (Array.MultiplyAssign (List.replicate dim 0) (1 - a) lower) upper)
          (1 / a))
        next).getD c 0
      = (upper.getD c 0 - (1 - a) * lower.getD c 0) / a - next.getD c 0 := by
  have h1 : c < (Array.MultiplyAssign (List.replicate dim 0) (1 - a) lower).length := by
    simp [Array.MultiplyAssign, elementwise_length, hc]
  have h2 : c < (Array.FlipSubtract
      (Array.MultiplyAssign (List.replicate dim 0) (1 - a) lower) upper).length := by
    simp [Array.FlipSubtract, Array.MultiplyAssign, elementwise_length, hc]
  have h3 : c < (Array.Multiply (Array.FlipSubtract
      (Array.MultiplyAssign (List.replicate dim 0) (1 - a) lower) upper) (1 / a)).length := by
    simp [Array.Multiply, Array.FlipSubtract, Array.MultiplyAssign, elementwise_length, hc]
  rw [Array.Subtract, elementwise_getD _ _ _ _ h3, Array.Multiply, map_getD _ _ _ h2,
    Array.FlipSubtract, elementwise_getD _ _ _ _ h1, Array.MultiplyAssign,
    elementwise_getD _ _ _ _ (by simpa using hc)]
  ring

theorem comparison_length (a : ℚ) (lower upper next : List ℚ) (dim : Nat) :
    (Array.Subtract
        (Array.Multiply
          (Array.FlipSubtract (Array.MultiplyAssign (List.replicate dim 0) (1 - a) lower) upper)
          (1 / a))
        next).length = dim := by
  simp [Array.Subtract, Array.Multiply, Array.FlipSubtract, Array.MultiplyAssign,
    elementwise_length]

theorem NormL2Squared_eq_sum_range (data : List ℚ) :
    Array.NormL2Squared data
      = ((List.range data.length).map (fun (c : Nat) => data.getD c 0 * data.getD c 0)).sum := by
  rw [NormL2Squared_eq_sum]
  congr 1
  apply List.ext_getElem
  · simp
  · intro j h₁ h₂
    have hj : j < data.length := by simpa using h₁
    simp [List.getD_eq_getElem?_getD, List.getElem?_eq_getElem hj]

theorem RemoveKnot_slice_curve (n start_value : Int) (current_coefficients : List ℚ) (a : ℚ)
    (tolerance_removal : ℚ) (vector_space : VectorSpace)
    (h : current_coefficients.getLast? = some a) :
    BSpline.RemoveKnot.slice 0 start_value current_coefficients [n] tolerance_removal
        vector_space { length_ := [Length.slice], value_ := [0] }
      = if Array.NormL2LessOrEqual
            (Array.Subtract
              (Array.Multiply
                (Array.FlipSubtract
                  (Array.MultiplyAssign
                    (List.replicate
                      (BSpline.RemoveKnot.replaced 0 start_value current_coefficients [n]
                        vector_space { length_ := [Length.slice], value_ := [0] }).dim 0)
                    (1 - a)
                    ((BSpline.RemoveKnot.replaced 0 start_value current_coefficients [n]
                      vector_space
                      { length_ := [Length.slice], value_ := [0] }).CoordinateBegin
                      (start_value - 1)))
                  ((BSpline.RemoveKnot.replaced 0 start_value current_coefficients [n]
                    vector_space
                    { length_ := [Length.slice], value_ := [0] }).CoordinateBegin start_value))
                (1 / a))
              ((BSpline.RemoveKnot.replaced 0 start_value current_coefficients [n]
                vector_space
                { length_ := [Length.slice], value_ := [0] }).CoordinateBegin
                (start_value + 1)))
            tolerance_removal then
          some ((BSpline.RemoveKnot.replaced 0 start_value current_coefficients [n]
            vector_space { length_ := [Length.slice], value_ := [0] }).Erase start_value)
        else none := by
  have hlen : (current_coefficients.dropLast.length : Int)
      = (current_coefficients.length : Int) - 1 := by
    have : current_coefficients ≠ [] := by
      intro hnil
      rw [hnil] at h
      simp at h
    have := List.length_pos.mpr this
    rw [List.length_dropLast]
    omega
  have hindex := RemoveKnot_replace_fold_index n current_coefficients.dropLast vector_space
    (start_value - (current_coefficients.length : Int))
  have hv : start_value - (current_coefficients.length : Int)
      + (current_coefficients.dropLast.length : Int) = start_value - 1 := by
    rw [hlen]; ring
  rw [hv] at hindex
  have h1 : start_value - 1 + 1 = start_value := by ring
  have h2 : (0 : Int) + start_value = start_value := by ring
  simp only [BSpline.RemoveKnot.slice, BSpline.RemoveKnot.replaced, h, Index_.GetIndex,
    Int.toNat_zero, List.set_cons_zero, GetIndex1d_curve, hindex, Index_.Increment, stepAt,
    h1, Index_.add, List.zipWith_cons_cons, List.zipWith_nil_left, h2, VectorSpace.Dim]

theorem comparison_accepts (a tolerance : ℚ) (lower upper next : List ℚ) (dim : Nat) :
    Array.NormL2LessOrEqual
        (Array.Subtract
          (Array.Multiply
            (Array.FlipSubtract (Array.MultiplyAssign (List.replicate dim 0) (1 - a) lower)
              upper)
            (1 / a))
          next) tolerance = true
      ↔ 0 ≤ tolerance
        ∧ reconstructionDistanceSquared a lower upper next dim ≤ tolerance * tolerance := by
  have hsum : Array.NormL2Squared
      (Array.Subtract
        (Array.Multiply
          (Array.FlipSubtract (Array.MultiplyAssign (List.replicate dim 0) (1 - a) lower)
            upper)
          (1 / a))
        next) = reconstructionDistanceSquared a lower upper next dim := by
    rw [NormL2Squared_eq_sum_range, comparison_length, reconstructionDistanceSquared]
    congr 1
    apply List.map_congr_left
    intro c hc
    rw [List.mem_range] at hc
    rw [comparison_getD a lower upper next dim c hc]
    ring
  simp only [Array.NormL2LessOrEqual, Bool.and_eq_true, decide_eq_true_eq, hsum]

/-- C31 (what the code does): on a curve, for a coefficient set whose last
coefficient is `a` and the start index `i`, a removal step is accepted exactly
when `tolerance_removal` is not negative and the Euclidean distance between
`(P[i] - (1 - a) P[i-1]) / a` and `P[i+1]` is at most `tolerance_removal`, `P`
being the control points that the replacement loop has left; an accepted step
erases the control point `i` and nothing else.  On the trilinear volume with the
knot `1/2` inserted along the dimension 1 by Eq. (5.15), every slice has the
distance 0 (`(8 - 1/2 * 7) / (1/2) = 9` in the slice `(1, ., 1)`), and
`RemoveKnot(1, 1/2, 0, 1)` accepts no step and returns 0: in the slice
`(1, ., 1)` the step compares with the control point 9 of the flat order, the
control point `(1, 1, 1)` itself, not with `(1, 2, 1)`.  The same holds with the
control points in the mirrored flat order. -/
theorem C31_RemoveKnot_compares_with_the_next_control_point_on_curves_only :
    (∀ (n start_value : Int) (current_coefficients : List ℚ) (a tolerance_removal : ℚ)
        (vector_space : VectorSpace),
      current_coefficients.getLast? = some a →
        (BSpline.RemoveKnot.slice 0 start_value current_coefficients [n] tolerance_removal
            vector_space { length_ := [Length.slice], value_ := [0] } ≠ none
          ↔ 0 ≤ tolerance_removal
            ∧ reconstructionDistanceSquared a
                ((BSpline.RemoveKnot.replaced 0 start_value current_coefficients [n]
                  vector_space
                  { length_ := [Length.slice], value_ := [0] }).CoordinateBegin
                  (start_value - 1))
                ((BSpline.RemoveKnot.replaced 0 start_value current_coefficients [n]
                  vector_space
                  { length_ := [Length.slice], value_ := [0] }).CoordinateBegin start_value)
                ((BSpline.RemoveKnot.replaced 0 start_value current_coefficients [n]
                  vector_space
                  { length_ := [Length.slice], value_ := [0] }).CoordinateBegin
                  (start_value + 1))
                (BSpline.RemoveKnot.replaced 0 start_value current_coefficients [n]
                  vector_space { length_ := [Length.slice], value_ := [0] }).dim
              ≤ tolerance_removal * tolerance_removal)
        ∧ (∀ erased : VectorSpace,
            BSpline.RemoveKnot.slice 0 start_value current_coefficients [n] tolerance_removal
                vector_space { length_ := [Length.slice], value_ := [0] } = some erased →
              0 ≤ start_value →
              erased.coordinates
                = (BSpline.RemoveKnot.replaced 0 start_value current_coefficients [n]
                    vector_space
                    { length_ := [Length.slice], value_ := [0] }).coordinates.eraseIdx
                    start_value.toNat))
    ∧ (ParameterSpace.ops false).RemoveKnot volumeRefined.parameter_space_ 1 (1/2) 1 0
      = .ok (volume.parameter_space_, 1, [[1/2]])
    ∧ BSpline.Evaluate (ParameterSpace.ops false) volumeRefined [1/4, 1/3, 1/2] []
      = BSpline.Evaluate (ParameterSpace.ops false) volume [1/4, 1/3, 1/2] []
    ∧ reconstructionDistanceSquared (1/2) [7] [8] [9] 1 = 0
    ∧ reconstructionDistanceSquared (1/2) [3] [7/2] [4] 1 = 0
    ∧ reconstructionDistanceSquared (1/2) [1] [3/2] [2] 1 = 0
    ∧ reconstructionDistanceSquared (1/2) [0] [5/2] [5] 1 = 0
    ∧ BSpline.RemoveKnot.slice 1 1 [1/2] [2, 3, 2] 0 volumeRefined.vector_space_
        { length_ := [2, Length.slice, 2], value_ := [1, 0, 1] } = none
    ∧ reconstructionDistanceSquared (1/2) [7] [8] [8] 1 = 1
    ∧ BSpline.RemoveKnot (ParameterSpace.ops false) false volumeRefined 1 (1/2) 0 1 0
      = .ok (0, volumeRefined)
    ∧ BSpline.RemoveKnot (ParameterSpace.ops false) false
        { volumeRefined with
          vector_space_ :=
            { dim := 1,
              coordinates :=
                [[0], [3], [5/2], [7/2], [5], [4], [1], [7], [3/2], [8], [2], [9]] } }
        1 (1/2) 0 1 0
      = .ok (0,
          { volumeRefined with
            vector_space_ :=
              { dim := 1,
                coordinates :=
                  [[0], [3], [5/2], [7/2], [5], [4], [1], [7], [3/2], [8], [2], [9]] } }) := by
  refine ⟨?_, by decide!, by decide!, by decide!, by decide!, by decide!, by decide!,
    by decide!, by decide!, by decide!, by decide!⟩
  intro n start_value current_coefficients a tolerance_removal vector_space h
  have hslice := RemoveKnot_slice_curve n start_value current_coefficients a tolerance_removal
    vector_space h
  have haccept := comparison_accepts a tolerance_removal
    ((BSpline.RemoveKnot.replaced 0 start_value current_coefficients [n] vector_space
      { length_ := [Length.slice], value_ := [0] }).CoordinateBegin (start_value - 1))
    ((BSpline.RemoveKnot.replaced 0 start_value current_coefficients [n] vector_space
      { length_ := [Length.slice], value_ := [0] }).CoordinateBegin start_value)
    ((BSpline.RemoveKnot.replaced 0 start_value current_coefficients [n] vector_space
      { length_ := [Length.slice], value_ := [0] }).CoordinateBegin (start_value + 1))
    (BSpline.RemoveKnot.replaced 0 start_value current_coefficients [n] vector_space
      { length_ := [Length.slice], value_ := [0] }).dim
  constructor
  · rw [← haccept, hslice]
    split <;> simp_all
  · intro erased herased h0
    rw [hslice] at herased
    split at herased
    · simp only [Option.some.injEq] at herased
      rw [← herased]
      simp [VectorSpace.Erase, h0]
    · simp at herased

/-- C32 (what the code does): a pass of the replacement loop of `RemoveKnot`
leaves the stored coordinate `P[i]` zero, whatever `P[i]`, `P[i-1]` and the
coefficient are: `replacement_coord` is a view on `P[i]`, so once
`MultiplyAssign` has written it, `FlipSubtract` subtracts `P[i]` from itself.
On the parabola after the insertion of `1/2` (control points `(0,0), (1/2,1),
(2,1), (3,0)`, coefficient `1/2`) the pass leaves `P[1] = (0,0)`, where
`(P[1] - (1 - 1/2) P[0]) / (1/2)` is `(1,2)`. -/
theorem C32_replacement_pass_of_RemoveKnot_leaves_zeros :
    (∀ (dimension : Int) (vector_space : VectorSpace) (coordinate : Index_)
        (coordinate_index : Int) (current_coefficient : ℚ),
      0 ≤ (coordinate.Increment dimension).GetIndex1d →
      (coordinate.Increment dimension).GetIndex1d.toNat < vector_space.coordinates.length →
        (BSpline.RemoveKnot.replace dimension (vector_space, coordinate, coordinate_index)
            current_coefficient).1
          = vector_space.Replace (coordinate.Increment dimension).GetIndex1d
              (List.replicate
                (vector_space.CoordinateBegin
                  (coordinate.Increment dimension).GetIndex1d).length 0))
    ∧ BSpline.InsertKnot (ParameterSpace.ops false) false parabola 0 (1/2) 1 0
      = .ok
          { parametric_dimensionality_ := 1, is_rational_ := false,
            parameter_space_ :=
              { knot_vectors_ := [[0, 0, 0, 1/2, 1, 1, 1]], degrees_ := [2] },
            vector_space_ :=
              { dim := 2, coordinates := [[0, 0], [1/2, 1], [2, 1], [3, 0]] } }
    ∧ (ParameterSpace.ops false).RemoveKnot
        { knot_vectors_ := [[0, 0, 0, 1/2, 1, 1, 1]], degrees_ := [2] } 0 (1/2) 1 0
      = .ok ({ knot_vectors_ := [[0, 0, 0, 1, 1, 1]], degrees_ := [2] }, 2, [[1/2, 1/2]])
    ∧ (BSpline.RemoveKnot.replace 0
        ({ dim := 2, coordinates := [[0, 0], [1/2, 1], [2, 1], [3, 0]] },
          { length_ := [4], value_ := [2 - 2] }, 0) (1/2)).1.coordinates
      = [[0, 0], [0, 0], [2, 1], [3, 0]]
    ∧ Array.Multiply (Array.Subtract [1/2, 1] (Array.Multiply [0, 0] (1 - 1/2))) (1 / (1/2))
      = [1, 2] := by
  refine ⟨?_, by decide!, by decide!, by decide!, by decide!⟩
  intro dimension vector_space coordinate coordinate_index current_coefficient h0 h1
  exact RemoveKnot_replace_zero dimension vector_space coordinate coordinate_index
    current_coefficient h0 h1

/-- C36 (what the code does): when a round of `RemoveKnot` fails its tolerance
check, the vector space is the copy taken at the start of that round, and the
returned count and the number of knots removed from the parameter-space backup
are `multiplicity - removal`, with `removal` the counter of the failing round,
which counts down from the number of coefficient sets: `r = coefficients.size()
- removal` rounds were accepted.  On `twoArcsRefined` (knot `1/2` of
multiplicity 2) with the requested multiplicity 3 there are two coefficient
sets, the first round is accepted and the second fails: the call returns 2, not
1, and removes both knots from the knot vector, while the vector space is the
one at the start of the second round (four control points). -/
theorem C36_failed_round_counts_from_the_requested_multiplicity :
    (∀ (PS : Type) (ops : ParameterSpaceOps PS) (NDEBUG : Bool) (spline : BSpline PS)
        (dimension : Int) (knot tolerance_removal : ℚ) (multiplicity : Int) (tolerance : ℚ)
        (parameter_space : PS) (start_value : Int) (coefficients : List (List ℚ))
        (removal : Int) (vector_space_backup : VectorSpace),
      (NDEBUG = true ∨ BSpline.RemoveKnot.checks
        "bsplinelib::splines::BSpline::RemoveKnot" spline dimension tolerance_removal
          tolerance = .ok ()) →
      ops.RemoveKnot spline.parameter_space_ dimension knot multiplicity tolerance
        = .ok (parameter_space, start_value, coefficients) →
      BSpline.RemoveKnot.loop dimension start_value coefficients tolerance_removal
        coefficients.length spline.vector_space_
        (ops.GetNumberOfBasisFunctions spline.parameter_space_)
          = .failed removal vector_space_backup →
        1 ≤ removal ∧ removal ≤ coefficients.length
        ∧ BSpline.RemoveKnot ops NDEBUG spline dimension knot tolerance_removal multiplicity
            tolerance
          = (ops.RemoveKnot spline.parameter_space_ dimension knot
              (multiplicity - removal) tolerance).map
            (fun removed => (multiplicity - removal,
              { spline with parameter_space_ := removed.1,
                            vector_space_ := vector_space_backup })))
    ∧ (ParameterSpace.ops false).RemoveKnot twoArcsRefined.parameter_space_ 0 (1/2) 3 0
      = .ok ({ knot_vectors_ := [[0, 0, 0, 1, 1, 1]], degrees_ := [2] }, 2,
          [[1/2, 1/2], [1/2]])
    ∧ BSpline.RemoveKnot.loop 0 2 [[1/2, 1/2], [1/2]] 0 2 twoArcsRefined.vector_space_
        ((ParameterSpace.ops false).GetNumberOfBasisFunctions
          twoArcsRefined.parameter_space_)
      = .failed 1 twoArcs.vector_space_
    ∧ BSpline.RemoveKnot (ParameterSpace.ops false) false twoArcsRefined 0 (1/2) 0 3 0
      = .ok (2,
          { twoArcs with
            parameter_space_ := { knot_vectors_ := [[0, 0, 0, 1, 1, 1]], degrees_ := [2] } })
    ∧ (ParameterSpace.ops false).RemoveKnot twoArcsRefined.parameter_space_ 0 (1/2) 1 0
      = .ok (twoArcs.parameter_space_, 2, [[1/2]]) := by
  refine ⟨?_, by decide!, by decide!, by decide!, by decide!⟩
  intro PS ops NDEBUG spline dimension knot tolerance_removal multiplicity tolerance
    parameter_space start_value coefficients removal vector_space_backup hchecks hremove hfailed
  obtain ⟨h1, h2, -⟩ := RemoveKnot_loop_failed _ _ _ _ _ _ _ _ _ hfailed
  exact ⟨h1, h2, RemoveKnot_of_failed_round ops NDEBUG spline dimension knot tolerance_removal
    multiplicity tolerance parameter_space start_value coefficients removal vector_space_backup
    hchecks hremove hfailed⟩

/-! ## C33, C37: degree reduction and elevation -/

theorem ReduceDegree_of_segments {PS : Type} (ops : ParameterSpaceOps PS) (NDEBUG : Bool)
    (kEpsilon : ℚ) (spline : BSpline PS) (dimension : Int) (tolerance_reduction : ℚ)
    (multiplicity : Int) (tolerance : ℚ) (number_of_segments : Int) (knots_inserted : List ℚ)
    (extracted : BSpline PS) (parameter_space : PS) (last_segment_coordinate : Int)
    (coefficients : List (List ℚ))
    (hchecks : NDEBUG = true ∨ BSpline.RemoveKnot.checks
      "bsplinelib::splines::BSpline::ReduceDegree" spline dimension tolerance_reduction
        tolerance = .ok ())
    (hbezier : BSpline.MakeBezier ops NDEBUG kEpsilon spline dimension tolerance
      = .ok ((number_of_segments, knots_inserted), extracted))
    (hreduce : ops.ReduceDegree extracted.parameter_space_ dimension multiplicity
      = .ok (parameter_space, last_segment_coordinate, coefficients)) :
    BSpline.ReduceDegree ops NDEBUG kEpsilon spline dimension tolerance_reduction multiplicity
        tolerance
      = match BSpline.ReduceDegree.segments dimension last_segment_coordinate coefficients
          ((ops.GetNumberOfBasisFunctions extracted.parameter_space_).set dimension.toNat
            Length.slice)
          tolerance_reduction extracted.vector_space_
          (ops.GetNumberOfBasisFunctions extracted.parameter_space_)
          (descending (number_of_segments - 1) 0) with
        | none => .ok (false, spline)
        | some state =>
            (BSpline.CoarsenKnots ops NDEBUG kEpsilon
              { extracted with parameter_space_ := parameter_space, vector_space_ := state.1 }
              dimension knots_inserted tolerance).map (fun coarsened => (true, coarsened)) := by
  have hbody : ∀ (pre : Except Error PUnit), pre = .ok PUnit.unit →
      (do
        pre
        let parameter_space_backup := spline.parameter_space_
        let vector_space_backup := spline.vector_space_
        let ((number_of_segments, knots_inserted), extracted) ←
          BSpline.MakeBezier ops NDEBUG kEpsilon spline dimension tolerance
        let number_of_coordinates := ops.GetNumberOfBasisFunctions extracted.parameter_space_
        let (parameter_space, last_segment_coordinate, coefficients) ←
          ops.ReduceDegree extracted.parameter_space_ dimension multiplicity
        let number_of_coordinates_in_slice :=
          number_of_coordinates.set dimension.toNat Length.slice
        match BSpline.ReduceDegree.segments dimension last_segment_coordinate coefficients
            number_of_coordinates_in_slice tolerance_reduction extracted.vector_space_
            number_of_coordinates (descending (number_of_segments - 1) 0) with
        | none =>
            pure (false,
              { spline with parameter_space_ := parameter_space_backup,
                            vector_space_ := vector_space_backup })
        | some state =>
            let coarsened ← BSpline.CoarsenKnots ops NDEBUG kEpsilon
              { extracted with parameter_space_ := parameter_space, vector_space_ := state.1 }
              dimension knots_inserted tolerance
            pure (true, coarsened) : Except Error (Bool × BSpline PS))
      = match BSpline.ReduceDegree.segments dimension last_segment_coordinate coefficients
          ((ops.GetNumberOfBasisFunctions extracted.parameter_space_).set dimension.toNat
            Length.slice)
          tolerance_reduction extracted.vector_space_
          (ops.GetNumberOfBasisFunctions extracted.parameter_space_)
          (descending (number_of_segments - 1) 0) with
        | none => .ok (false, spline)
        | some state =>
            (BSpline.CoarsenKnots ops NDEBUG kEpsilon
              { extracted with parameter_space_ := parameter_space, vector_space_ := state.1 }
              dimension knots_inserted tolerance).map (fun coarsened => (true, coarsened)) := by
    intro pre hpre
    subst hpre
    simp only [bind, Except.bind, hbezier, hreduce, pure, Except.pure]
    split
    · rfl
    · rename_i state _
      cases BSpline.CoarsenKnots ops NDEBUG kEpsilon
        { extracted with parameter_space_ := parameter_space, vector_space_ := state.1 }
        dimension knots_inserted tolerance <;> rfl
  unfold BSpline.ReduceDegree
  rcases hchecks with h | h
  · subst h
    exact hbody _ rfl
  · cases NDEBUG
    · simp only [Bool.false_eq_true, not_false_eq_true, if_true]
      exact hbody _ h
    · exact hbody _ rfl

theorem eraseSlices_first_failure (dimension coordinate_index : Int)
    (maximum_interior_coordinate interior_coordinate : Int)
    (current_coefficients : List ℚ) (previous_number_of_coordinates : List Int)
    (tolerance_reduction : ℚ) (passed : List Index_) (failing : Index_) (later : List Index_)
    (vector_space before_failure : VectorSpace)
    (hpassed : BSpline.ReduceDegree.eraseSlices dimension coordinate_index
      maximum_interior_coordinate interior_coordinate current_coefficients
      previous_number_of_coordinates tolerance_reduction vector_space passed
        = some before_failure)
    (hfailing : BSpline.ReduceDegree.erase dimension coordinate_index
      maximum_interior_coordinate interior_coordinate current_coefficients
      previous_number_of_coordinates tolerance_reduction before_failure failing = none) :
    BSpline.ReduceDegree.eraseSlices dimension coordinate_index
      maximum_interior_coordinate interior_coordinate current_coefficients
      previous_number_of_coordinates tolerance_reduction vector_space
      (passed ++ failing :: later) = none := by
  induction passed generalizing vector_space with
  | nil =>
      simp only [BSpline.ReduceDegree.eraseSlices, Option.some.injEq] at hpassed
      subst hpassed
      simp only [List.nil_append, BSpline.ReduceDegree.eraseSlices, hfailing]
  | cons slice passed ih =>
      simp only [List.cons_append, BSpline.ReduceDegree.eraseSlices] at hpassed ⊢
      split at hpassed
      · simp at hpassed
      · rename_i next hnext
        exact ih next hpassed

/-- C33 (what the code does): once the checks, the Bezier extraction and the
`ReduceDegree` of the parameter space have returned, `ReduceDegree` returns
false with the spline of before the call when a step of the segment loop fails
its tolerance check, and otherwise coarsens the extraction knots and returns
true; a slice loop fails at its first failing slice, whatever the slices behind
it.  On the curve `twoArcsElevated` every step passes and the call returns true
with `twoArcs`.  On the trilinear volume elevated to degree 2 along the
dimension 1 by Eq. (5.36), the reconstructed coordinate of every slice is at the
distance 0 from the coordinate it replaces, and `ReduceDegree(1, 0, 1)` returns
false; in the slice `(1, ., 1)` the step subtracts the control point 9 of the
flat order, the one it has just reconstructed in place, and passes whatever the
control point `(1, 2, 1)` is that it should compare with.  The call returns
false as well with the control points in the mirrored flat order. -/
theorem C33_ReduceDegree_fails_at_the_first_failing_check_and_misreads_the_volume :
    (∀ (PS : Type) (ops : ParameterSpaceOps PS) (NDEBUG : Bool) (kEpsilon : ℚ)
        (spline : BSpline PS) (dimension : Int) (tolerance_reduction : ℚ)
        (multiplicity : Int) (tolerance : ℚ) (number_of_segments : Int)
        (knots_inserted : List ℚ) (extracted : BSpline PS) (parameter_space : PS)
        (last_segment_coordinate : Int) (coefficients : List (List ℚ)),
      (NDEBUG = true ∨ BSpline.RemoveKnot.checks
        "bsplinelib::splines::BSpline::ReduceDegree" spline dimension tolerance_reduction
          tolerance = .ok ()) →
      BSpline.MakeBezier ops NDEBUG kEpsilon spline dimension tolerance
        = .ok ((number_of_segments, knots_inserted), extracted) →
      ops.ReduceDegree extracted.parameter_space_ dimension multiplicity
        = .ok (parameter_space, last_segment_coordinate, coefficients) →
        BSpline.ReduceDegree ops NDEBUG kEpsilon spline dimension tolerance_reduction
            multiplicity tolerance
          = match BSpline.ReduceDegree.segments dimension last_segment_coordinate coefficients
              ((ops.GetNumberOfBasisFunctions extracted.parameter_space_).set dimension.toNat
                Length.slice)
              tolerance_reduction extracted.vector_space_
              (ops.GetNumberOfBasisFunctions extracted.parameter_space_)
              (descending (number_of_segments - 1) 0) with
            | none => .ok (false, spline)
            | some state =>
                (BSpline.CoarsenKnots ops NDEBUG kEpsilon
                  { extracted with parameter_space_ := parameter_space,
                                   vector_space_ := state.1 }
                  dimension knots_inserted tolerance).map
                  (fun coarsened => (true, coarsened)))
    ∧ (∀ (dimension coordinate_index maximum_interior_coordinate interior_coordinate : Int)
        (current_coefficients : List ℚ) (previous_number_of_coordinates : List Int)
        (tolerance_reduction : ℚ) (passed : List Index_) (failing : Index_)
        (later : List Index_) (vector_space before_failure : VectorSpace),
      BSpline.ReduceDegree.eraseSlices dimension coordinate_index
        maximum_interior_coordinate interior_coordinate current_coefficients
        previous_number_of_coordinates tolerance_reduction vector_space passed
          = some before_failure →
      BSpline.ReduceDegree.erase dimension coordinate_index
        maximum_interior_coordinate interior_coordinate current_coefficients
        previous_number_of_coordinates tolerance_reduction before_failure failing = none →
        BSpline.ReduceDegree.eraseSlices dimension coordinate_index
          maximum_interior_coordinate interior_coordinate current_coefficients
          previous_number_of_coordinates tolerance_reduction vector_space
          (passed ++ failing :: later) = none)
    ∧ BSpline.ReduceDegree (ParameterSpace.ops false) false smallEpsilon twoArcsElevated
        0 0 1 0
      = .ok (true, twoArcs)
    ∧ BSpline.MakeBezier (ParameterSpace.ops false) false smallEpsilon volumeElevated 1 0
      = .ok ((1, []), volumeElevated)
    ∧ (ParameterSpace.ops false).ReduceDegree volumeElevated.parameter_space_ 1 1
      = .ok (volume.parameter_space_, 1, [[1/2, 1/2]])
    ∧ BSpline.Evaluate (ParameterSpace.ops false) volumeElevated [1/4, 1/3, 1/2] []
      = BSpline.Evaluate (ParameterSpace.ops false) volume [1/4, 1/3, 1/2] []
    ∧ reconstructionDistanceSquared (1/2) [7] [8] [9] 1 = 0
    ∧ reconstructionDistanceSquared (1/2) [3] [7/2] [4] 1 = 0
    ∧ reconstructionDistanceSquared (1/2) [1] [3/2] [2] 1 = 0
    ∧ reconstructionDistanceSquared (1/2) [0] [5/2] [5] 1 = 0
    ∧ BSpline.ReduceDegree (ParameterSpace.ops false) false smallEpsilon volumeElevated
        1 0 1 0
      = .ok (false, volumeElevated)
    ∧ (∀ x : ℚ,
        BSpline.ReduceDegree.erase 1 1 0 0 [1/2, 1/2] [2, 3, 2] 0
            { dim := 1,
              coordinates :=
                [[0], [1], [5/2], [3/2], [5], [2], [3], [7], [7/2], [8], [4], [x]] }
            { length_ := [2, Length.slice, 2], value_ := [1, 0, 1] }
          = some
              { dim := 1,
                coordinates :=
                  [[0], [1], [5/2], [3/2], [5], [2], [3], [7], [7/2], [4], [x]] })
    ∧ BSpline.ReduceDegree (ParameterSpace.ops false) false smallEpsilon
        { volumeElevated with
          vector_space_ :=
            { dim := 1,
              coordinates :=
                [[0], [3], [5/2], [7/2], [5], [4], [1], [7], [3/2], [8], [2], [9]] } }
        1 0 1 0
      = .ok (false,
          { volumeElevated with
            vector_space_ :=
              { dim := 1,
                coordinates :=
                  [[0], [3], [5/2], [7/2], [5], [4], [1], [7], [3/2], [8], [2], [9]] } }) := by
  refine ⟨?_, ?_, by decide!, by decide!, by decide!, by decide!, by decide!, by decide!,
    by decide!, by decide!, by decide!, ?_, by decide!⟩
  · intro PS ops NDEBUG kEpsilon spline dimension tolerance_reduction multiplicity tolerance
      number_of_segments knots_inserted extracted parameter_space last_segment_coordinate
      coefficients hchecks hbezier hreduce
    exact ReduceDegree_of_segments ops NDEBUG kEpsilon spline dimension tolerance_reduction
      multiplicity tolerance number_of_segments knots_inserted extracted parameter_space
      last_segment_coordinate coefficients hchecks hbezier hreduce
  · intro dimension coordinate_index maximum_interior_coordinate interior_coordinate
      current_coefficients previous_number_of_coordinates tolerance_reduction passed failing
      later vector_space before_failure hpassed hfailing
    exact eraseSlices_first_failure dimension coordinate_index maximum_interior_coordinate
      interior_coordinate current_coefficients previous_number_of_coordinates
      tolerance_reduction passed failing later vector_space before_failure hpassed hfailing
  · intro x
    simp [BSpline.ReduceDegree.erase, BSpline.ReduceDegree.accumulate, Index_.GetIndex,
      Index_.GetIndex1d, rowMajorOffset, stepAt, Index_.add, Index_.Decrement,
      VectorSpace.CoordinateBegin, VectorSpace.Replace, VectorSpace.Erase, VectorSpace.Dim,
      Array.MultiplyAssign, Array.Subtract, Array.Multiply, elementwise,
      Array.NormL2LessOrEqual, Array.NormL2Squared, Length.slice]

/-- C37 (what the code does): on the quadratic curve `twoArcs` of two Bezier
segments, elevated by one degree.  After the Bezier extraction the control
points are `(0,0), (1,2), (2,1), (3,0), (4,4)`.  The first segment leaves
`(0,0), (2/3,4/3), (4/3,5/3), (2,1), (3,0), (4,4)` and the array `coordinate` as
a view on the control point 1.  The second segment computes the coordinate to
insert through that view: afterwards the control point 1 of the first segment is
`(10/3, 4/3)`, the coordinate inserted for the second segment, and no longer
`(2/3, 4/3)`. -/
theorem C37_second_segment_overwrites_a_control_point_of_the_first_on_twoArcs :
    BSpline.MakeBezier (ParameterSpace.ops false) false smallEpsilon twoArcs 0 0
      = .ok ((2, [1/2]), twoArcsRefined)
    ∧ (ParameterSpace.ops false).ElevateDegree twoArcsRefined.parameter_space_ 0 1
      = .ok ({ knot_vectors_ := [[0, 0, 0, 0, 1/2, 1/2, 1/2, 1, 1, 1, 1]], degrees_ := [3] },
          2, [[1/3, 2/3], [2/3, 1/3]])
    ∧ (BSpline.ElevateDegree.segment 0 1 2 [[1/3, 2/3], [2/3, 1/3]] [Length.slice]
        { vector_space := twoArcsRefined.vector_space_, coordinate := Storage.owned [0, 0],
          number_of_coordinates := [5], last_coordinate := 0 } 0).vector_space.coordinates
      = [[0, 0], [2/3, 4/3], [4/3, 5/3], [2, 1], [3, 0], [4, 4]]
    ∧ (BSpline.ElevateDegree.segment 0 1 2 [[1/3, 2/3], [2/3, 1/3]] [Length.slice]
        { vector_space := twoArcsRefined.vector_space_, coordinate := Storage.owned [0, 0],
          number_of_coordinates := [5], last_coordinate := 0 } 0).coordinate
      = Storage.view 1
    ∧ (BSpline.ElevateDegree.segment 0 1 2 [[1/3, 2/3], [2/3, 1/3]] [Length.slice]
        (BSpline.ElevateDegree.segment 0 1 2 [[1/3, 2/3], [2/3, 1/3]] [Length.slice]
          { vector_space := twoArcsRefined.vector_space_, coordinate := Storage.owned [0, 0],
            number_of_coordinates := [5], last_coordinate := 0 } 0) 1).vector_space.coordinates
      = [[0, 0], [10/3, 4/3], [4/3, 5/3], [2, 1], [8/3, 1/3], [10/3, 4/3], [4, 4]]
    ∧ Array.Add (Array.MultiplyAssign [0, 0] (2/3) [1, 2]) (Array.MultiplyAssign [0, 0] (1/3) [0, 0])
      = [2/3, 4/3]
    ∧ Array.Add (Array.MultiplyAssign [0, 0] (2/3) [3, 0]) (Array.MultiplyAssign [0, 0] (1/3) [4, 4])
      = [10/3, 4/3]
    ∧ (BSpline.ElevateDegree (ParameterSpace.ops false) false smallEpsilon parabola 0 1
        0).map (fun elevated => elevated.vector_space_.coordinates)
      = .ok [[0, 0], [2/3, 4/3], [5/3, 4/3], [3, 0]] := by
  refine ⟨by decide!, by decide!, by decide!, by decide!, by decide!, by decide!, by decide!,
    by decide!⟩

/-! ## C34: the memoized overloads of the degree-0 basis function -/

/-- C34: the memoized overloads of `ZeroDegreeBSplineBasisFunction` return what
the direct ones return (a value or the same exception), for every parametric
coordinate, tolerance, derivative, `tree_info` and every content of the caches
and of `top_level_computed`, in both builds. -/
theorem C34_memoized_overloads_return_what_the_direct_ones_return
    {UniqueDerivatives UniqueEvaluations IsTopLevelComputed : Type} (NDEBUG : Bool)
    (basis_function : ZeroDegreeBSplineBasisFunction)
    (parametric_coordinate tolerance : ℚ) (derivative tree_info : Int)
    (unique_derivatives : UniqueDerivatives) (unique_evaluations : UniqueEvaluations)
    (top_level_computed : IsTopLevelComputed) :
    basis_function.EvaluateMemoized NDEBUG parametric_coordinate unique_evaluations tree_info
        tolerance
      = basis_function.Evaluate NDEBUG parametric_coordinate tolerance
    ∧ basis_function.EvaluateDerivativeMemoized NDEBUG parametric_coordinate derivative
        unique_derivatives unique_evaluations top_level_computed tree_info tolerance
      = basis_function.EvaluateDerivative NDEBUG parametric_coordinate derivative tolerance := by
  constructor
  · rfl
  · simp only [ZeroDegreeBSplineBasisFunction.EvaluateDerivativeMemoized,
      ZeroDegreeBSplineBasisFunction.EvaluateDerivative,
      ZeroDegreeBSplineBasisFunction.EvaluateMemoized]

theorem operatorParen_two {DataType : Type} (NDEBUG : Bool) (array : Array DataType 2)
    (x y : Int) :
    array.operatorParen NDEBUG [x, y]
      = array.operatorBracket NDEBUG
          (IndexType.wrap (IndexType.wrap (x * perDimension array.strides_ 0 0) + y)) := by
  simp [Array.operatorParen, Array.ComputeRemainingOffset, Array.operatorBracket]

theorem operatorBracket_release {DataType : Type} {dim : Nat} (array : Array DataType dim)
    (index : Int) : array.operatorBracket true index = some index := by
  simp [Array.operatorBracket]

theorem RowMajor_two {DataType : Type} (array : Array DataType 2) (h w : Int)
    (hrow : RowMajor array) (hshape : array.Shape = [h, w]) :
    perDimension array.strides_ 0 0 = w ∧ array.size_ = h * w
    ∧ IndexType.Representable (h * w) := by
  obtain ⟨hsize, hstrides, hfit⟩ := hrow
  have h0 := hstrides 0 (by decide)
  rw [hshape] at h0 hsize
  simp only [Array.Strides, Array.size] at h0 hsize hfit
  have hproduct : array.size_ = h * w := by rw [hsize]; simp
  refine ⟨?_, hproduct, ?_⟩
  · simp [perDimension, List.getD_eq_getElem?_getD, h0]
  · rw [← hproduct]
    exact hfit

theorem row_le (i h w : Nat) (hi : i < h) : i * w + w ≤ h * w := by
  have : (i + 1) * w ≤ h * w := Nat.mul_le_mul_right w hi
  nlinarith

theorem AAt_offset {DataType : Type} (NDEBUG : Bool) (array : Array DataType 2) (h w : Nat)
    (hrow : RowMajor array) (hshape : array.Shape = [(h : Int), (w : Int)]) (i j : Nat)
    (hi : i < h) (hj : NDEBUG = true ∨ j < w) (hjw : j ≤ w) :
    array.operatorParen NDEBUG [(i : Int), (j : Int)] = some (((i * w + j : Nat)) : Int) := by
  obtain ⟨hs, hsize, hfit⟩ := RowMajor_two array h w hrow hshape
  rw [operatorParen_two, hs]
  have hle : i * w + j ≤ h * w := by
    have := row_le i h w hi
    omega
  have hN1 : (i : Int) * (w : Int) = ((i * w : Nat) : Int) := by push_cast; rfl
  have hN2 : ((i * w : Nat) : Int) + (j : Int) = ((i * w + j : Nat) : Int) := by push_cast; rfl
  have hN3 : (h : Int) * (w : Int) = ((h * w : Nat) : Int) := by push_cast; rfl
  have hfit2 : ((h * w : Nat) : Int) < 2147483648 := by
    rw [← hN3]
    exact hfit.2
  have hb1 : ((i * w : Nat) : Int) ≤ ((h * w : Nat) : Int) := by
    exact_mod_cast (le_trans (Nat.le_add_right _ _) hle)
  have hb2 : ((i * w + j : Nat) : Int) ≤ ((h * w : Nat) : Int) := by exact_mod_cast hle
  have hn1 : (0 : Int) ≤ ((i * w : Nat) : Int) := Int.natCast_nonneg _
  have hn2 : (0 : Int) ≤ ((i * w + j : Nat) : Int) := Int.natCast_nonneg _
  rw [hN1, wrap_of_representable ((i * w : Nat) : Int) ⟨by linarith, by linarith⟩, hN2,
    wrap_of_representable ((i * w + j : Nat) : Int) ⟨by linarith, by linarith⟩]
  rcases hj with hN | hj
  · subst hN
    exact operatorBracket_release _ _
  · apply operatorBracket_in_bounds
    · exact Int.natCast_nonneg _
    · rw [hsize, hN3]
      have : i * w + j < h * w := by
        have := row_le i h w hi
        omega
      exact_mod_cast this

theorem set_of_getElem? {α : Type} (l : List α) (i : Nat) (value : α)
    (h : l[i]? = some value) : l.set i value = l := by
  apply List.ext_getElem?
  intro j
  rw [List.getElem?_set]
  by_cases hij : i = j
  · subst hij
    rw [if_pos rfl, h]
    have : i < l.length := by
      by_contra hlt
      rw [List.getElem?_eq_none (by omega)] at h
      simp at h
    rw [if_pos this]
  · rw [if_neg hij]

theorem getElem?_of_lt_getD (l : List ℚ) (i : Nat) (h : i < l.length) :
    l[i]? = some (l.getD i 0) := by
  rw [List.getD_eq_getElem?_getD, List.getElem?_eq_getElem h]
  rfl

theorem AAt_accumulate_fold (memory : Memory ℚ) (cell i_ptr j_ptr K : Nat) (value : ℚ)
    (hvalue : memory[cell]? = some value)
    (hi : i_ptr + K ≤ memory.length) (hj : j_ptr + K ≤ memory.length)
    (hapart_i : cell < i_ptr ∨ i_ptr + K ≤ cell)
    (hapart_j : cell < j_ptr ∨ j_ptr + K ≤ cell) :
    (List.range K).foldl (Array.AAt.accumulate cell i_ptr j_ptr) memory
      = memory.set cell
          (value + ((List.range K).map
            (fun (k : Nat) => memory.getD (i_ptr + k) 0 * memory.getD (j_ptr + k) 0)).sum) := by
  induction K with
  | zero =>
      simp only [List.range_zero, List.foldl_nil, List.map_nil, List.sum_nil, add_zero]
      exact (set_of_getElem? memory cell value hvalue).symm
  | succ K ih =>
      rw [List.range_succ, List.foldl_append, ih (by omega) (by omega) (by omega) (by omega)]
      simp only [List.foldl_cons, List.foldl_nil, List.map_append, List.map_cons, List.map_nil,
        List.sum_append, List.sum_cons, List.sum_nil, add_zero]
      have hcell : cell < memory.length := by
        by_contra hlt
        rw [List.getElem?_eq_none (by omega)] at hvalue
        simp at hvalue
      have h1 : (memory.set cell
          (value + ((List.range K).map
            (fun (k : Nat) => memory.getD (i_ptr + k) 0 * memory.getD (j_ptr + k) 0)).sum))[cell]?
          = some (value + ((List.range K).map
            (fun (k : Nat) => memory.getD (i_ptr + k) 0 * memory.getD (j_ptr + k) 0)).sum) := by
        rw [List.getElem?_set, if_pos rfl, if_pos hcell]
      have h2 : (memory.set cell
          (value + ((List.range K).map
            (fun (k : Nat) => memory.getD (i_ptr + k) 0 * memory.getD (j_ptr + k) 0)).sum))[
            i_ptr + K]?
          = some (memory.getD (i_ptr + K) 0) := by
        rw [List.getElem?_set, if_neg (by omega), getElem?_of_lt_getD _ _ (by omega)]
      have h3 : (memory.set cell
          (value + ((List.range K).map
            (fun (k : Nat) => memory.getD (i_ptr + k) 0 * memory.getD (j_ptr + k) 0)).sum))[
            j_ptr + K]?
          = some (memory.getD (j_ptr + K) 0) := by
        rw [List.getElem?_set, if_neg (by omega), getElem?_of_lt_getD _ _ (by omega)]
      simp only [Array.AAt.accumulate, h1, h2, h3, List.set_set, add_assoc]

theorem cell_lt (i j h : Nat) (hi : i < h) (hj : j < h) : i * h + j < h * h := by
  have : (i + 1) * h ≤ h * h := Nat.mul_le_mul_right h hi
  nlinarith

theorem AAt_entry (NDEBUG : Bool) (array aa_t : Array ℚ 2) (h w address out : Nat)
    (memory m : Memory ℚ)
    (hrow : RowMajor array) (hshape : array.Shape = [(h : Int), (w : Int)])
    (hrow' : RowMajor aa_t) (hshape' : aa_t.Shape = [(h : Int), (h : Int)])
    (hw : NDEBUG = true ∨ 0 < w)
    (hA : address + h * w ≤ memory.length) (hO : out + h * h ≤ memory.length)
    (hapart : address + h * w ≤ out ∨ out + h * h ≤ address)
    (i j : Nat) (hi : i < h) (hj : j < h)
    (hlen : m.length = memory.length)
    (hframe : ∀ x : Nat, ¬ (out ≤ x ∧ x < out + h * h) → m[x]? = memory[x]?) :
    Array.AAt.entry NDEBUG array aa_t address out w i (some m) j
      = some ((m.set (out + (i * h + j)) (rowProduct memory address w i j)).set
          (out + (j * h + i)) (rowProduct memory address w i j)) := by
  have hij := AAt_offset NDEBUG aa_t h h hrow' hshape' i j hi (Or.inr hj) (le_of_lt hj)
  have hji := AAt_offset NDEBUG aa_t h h hrow' hshape' j i hj (Or.inr hi) (le_of_lt hi)
  have hi0 := AAt_offset NDEBUG array h w hrow hshape i 0 hi hw (Nat.zero_le w)
  have hj0 := AAt_offset NDEBUG array h w hrow hshape j 0 hj hw (Nat.zero_le w)
  rw [Nat.cast_zero] at hi0 hj0
  have hc := cell_lt i j h hi hj
  have hri := row_le i h w hi
  have hrj := row_le j h w hj
  have hcell : (m.set (out + (i * h + j)) 0)[out + (i * h + j)]? = some 0 := by
    rw [List.getElem?_set, if_pos rfl, if_pos (by omega)]
  have hfold := AAt_accumulate_fold (m.set (out + (i * h + j)) 0) (out + (i * h + j))
    (address + (i * w + 0)) (address + (j * w + 0)) w 0 hcell
    (by rw [List.length_set]; omega) (by rw [List.length_set]; omega) (by omega) (by omega)
  have hsum : ((List.range w).map
      (fun (k : Nat) =>
        (m.set (out + (i * h + j)) 0).getD (address + (i * w + 0) + k) 0
          * (m.set (out + (i * h + j)) 0).getD (address + (j * w + 0) + k) 0)).sum
      = rowProduct memory address w i j := by
    rw [rowProduct]
    congr 1
    apply List.map_congr_left
    intro k hk
    rw [List.mem_range] at hk
    have e1 : (m.set (out + (i * h + j)) 0).getD (address + (i * w + 0) + k) 0
        = memory.getD (address + i * w + k) 0 := by
      simp only [List.getD_eq_getElem?_getD, List.getElem?_set]
      rw [if_neg (by omega), hframe _ (by omega)]
      congr 2
    have e2 : (m.set (out + (i * h + j)) 0).getD (address + (j * w + 0) + k) 0
        = memory.getD (address + j * w + k) 0 := by
      simp only [List.getD_eq_getElem?_getD, List.getElem?_set]
      rw [if_neg (by omega), hframe _ (by omega)]
      congr 2
    rw [e1, e2]
  rw [hsum, List.set_set, zero_add] at hfold
  have hread : (m.set (out + (i * h + j)) (rowProduct memory address w i j))[
      out + (i * h + j)]? = some (rowProduct memory address w i j) := by
    rw [List.getElem?_set, if_pos rfl, if_pos (by omega)]
  simp only [Array.AAt.entry, hij, hji, operatorParenConst_eq, hi0, hj0, Int.toNat_ofNat,
    hfold, hread]

theorem cell_inj (p q i j h : Nat) (hq : q < h) (hj : j < h)
    (heq : p * h + q = i * h + j) : p = i ∧ q = j := by
  have hp : p = i := by
    rcases Nat.lt_trichotomy p i with hlt | heq' | hgt
    · exfalso
      have : (p + 1) * h ≤ i * h := Nat.mul_le_mul_right h hlt
      nlinarith
    · exact heq'
    · exfalso
      have : (i + 1) * h ≤ p * h := Nat.mul_le_mul_right h hgt
      nlinarith
  subst hp
  exact ⟨rfl, by omega⟩

theorem rowProduct_comm (memory : Memory ℚ) (address w i j : Nat) :
    rowProduct memory address w i j = rowProduct memory address w j i := by
  unfold rowProduct
  congr 1
  apply List.map_congr_left
  intro k _
  exact mul_comm _ _

theorem AAt_entry_invariant (NDEBUG : Bool) (array aa_t : Array ℚ 2) (h w address out : Nat)
    (memory m : Memory ℚ)
    (hrow : RowMajor array) (hshape : array.Shape = [(h : Int), (w : Int)])
    (hrow' : RowMajor aa_t) (hshape' : aa_t.Shape = [(h : Int), (h : Int)])
    (hw : NDEBUG = true ∨ 0 < w)
    (hA : address + h * w ≤ memory.length) (hO : out + h * h ≤ memory.length)
    (hapart : address + h * w ≤ out ∨ out + h * h ≤ address)
    (i j : Nat) (hi : i < h) (hj : j < h) (D : Nat → Nat → Prop)
    (hlen : m.length = memory.length)
    (hframe : ∀ x : Nat, ¬ (out ≤ x ∧ x < out + h * h) → m[x]? = memory[x]?)
    (hdone : ∀ p q : Nat, p < h → q < h → D p q →
      m[out + (p * h + q)]? = some (rowProduct memory address w p q)) :
    ∃ m' : Memory ℚ,
      Array.AAt.entry NDEBUG array aa_t address out w i (some m) j = some m'
      ∧ m'.length = memory.length
      ∧ (∀ x : Nat, ¬ (out ≤ x ∧ x < out + h * h) → m'[x]? = memory[x]?)
      ∧ ∀ p q : Nat, p < h → q < h → (D p q ∨ (p = i ∧ q = j) ∨ (p = j ∧ q = i)) →
          m'[out + (p * h + q)]? = some (rowProduct memory address w p q) := by
  have hc := cell_lt i j h hi hj
  have hc' := cell_lt j i h hj hi
  refine ⟨_, AAt_entry NDEBUG array aa_t h w address out memory m hrow hshape hrow' hshape' hw
    hA hO hapart i j hi hj hlen hframe, ?_, ?_, ?_⟩
  · simp only [List.length_set]
    exact hlen
  · intro x hx
    rw [List.getElem?_set, if_neg (by omega), List.getElem?_set, if_neg (by omega)]
    exact hframe x hx
  · intro p q hp hq hD
    have hpq := cell_lt p q h hp hq
    rw [List.getElem?_set]
    by_cases h1 : out + (j * h + i) = out + (p * h + q)
    · rw [if_pos h1, if_pos (by rw [List.length_set]; omega)]
      obtain ⟨e1, e2⟩ := cell_inj p q j i h hq hi (by omega)
      rw [e1, e2, rowProduct_comm]
    · rw [if_neg h1, List.getElem?_set]
      by_cases h2 : out + (i * h + j) = out + (p * h + q)
      · rw [if_pos h2, if_pos (by omega)]
        obtain ⟨e1, e2⟩ := cell_inj p q i j h hq hj (by omega)
        rw [e1, e2]
      · rw [if_neg h2]
        rcases hD with hD | ⟨e1, e2⟩ | ⟨e1, e2⟩
        · exact hdone p q hp hq hD
        · exact absurd (by rw [e1, e2]) h2
        · exact absurd (by rw [e1, e2]) h1

theorem AAt_row (NDEBUG : Bool) (array aa_t : Array ℚ 2) (h w address out : Nat)
    (memory m : Memory ℚ)
    (hrow : RowMajor array) (hshape : array.Shape = [(h : Int), (w : Int)])
    (hrow' : RowMajor aa_t) (hshape' : aa_t.Shape = [(h : Int), (h : Int)])
    (hw : NDEBUG = true ∨ 0 < w)
    (hA : address + h * w ≤ memory.length) (hO : out + h * h ≤ memory.length)
    (hapart : address + h * w ≤ out ∨ out + h * h ≤ address)
    (i : Nat) (hi : i < h) (D : Nat → Nat → Prop)
    (hlen : m.length = memory.length)
    (hframe : ∀ x : Nat, ¬ (out ≤ x ∧ x < out + h * h) → m[x]? = memory[x]?)
    (hdone : ∀ p q : Nat, p < h → q < h → D p q →
      m[out + (p * h + q)]? = some (rowProduct memory address w p q))
    (n : Nat) (hn : i + n ≤ h) :
    ∃ m' : Memory ℚ,
      (List.range n).foldl
        (fun (state : Option (Memory ℚ)) (step : Nat) =>
          Array.AAt.entry NDEBUG array aa_t address out w i state (i + step))
        (some m) = some m'
      ∧ m'.length = memory.length
      ∧ (∀ x : Nat, ¬ (out ≤ x ∧ x < out + h * h) → m'[x]? = memory[x]?)
      ∧ ∀ p q : Nat, p < h → q < h →
          (D p q ∨ (p = i ∧ i ≤ q ∧ q < i + n) ∨ (q = i ∧ i ≤ p ∧ p < i + n)) →
          m'[out + (p * h + q)]? = some (rowProduct memory address w p q) := by
  induction n with
  | zero =>
      refine ⟨m, rfl, hlen, hframe, ?_⟩
      intro p q hp hq hD
      rcases hD with hD | ⟨_, _, _⟩ | ⟨_, _, _⟩
      · exact hdone p q hp hq hD
      · omega
      · omega
  | succ n ih =>
      obtain ⟨m1, hfold, hlen1, hframe1, hdone1⟩ := ih (by omega)
      rw [List.range_succ, List.foldl_append, hfold]
      simp only [List.foldl_cons, List.foldl_nil]
      obtain ⟨m2, hentry, hlen2, hframe2, hdone2⟩ :=
        AAt_entry_invariant NDEBUG array aa_t h w address out memory m1 hrow hshape hrow'
          hshape' hw hA hO hapart i (i + n) hi (by omega)
          (fun p q => D p q ∨ (p = i ∧ i ≤ q ∧ q < i + n) ∨ (q = i ∧ i ≤ p ∧ p < i + n))
          hlen1 hframe1 hdone1
      refine ⟨m2, hentry, hlen2, hframe2, ?_⟩
      intro p q hp hq hD
      apply hdone2 p q hp hq
      rcases hD with hD | ⟨e, h1, h2⟩ | ⟨e, h1, h2⟩
      · exact Or.inl (Or.inl hD)
      · by_cases hlast : q = i + n
        · exact Or.inr (Or.inl ⟨e, hlast⟩)
        · exact Or.inl (Or.inr (Or.inl ⟨e, h1, by omega⟩))
      · by_cases hlast : p = i + n
        · exact Or.inr (Or.inr ⟨hlast, e⟩)
        · exact Or.inl (Or.inr (Or.inr ⟨e, h1, by omega⟩))

theorem AAt_rows (NDEBUG : Bool) (array aa_t : Array ℚ 2) (h w address out : Nat)
    (memory : Memory ℚ)
    (hrow : RowMajor array) (hshape : array.Shape = [(h : Int), (w : Int)])
    (hrow' : RowMajor aa_t) (hshape' : aa_t.Shape = [(h : Int), (h : Int)])
    (hw : NDEBUG = true ∨ 0 < w)
    (hA : address + h * w ≤ memory.length) (hO : out + h * h ≤ memory.length)
    (hapart : address + h * w ≤ out ∨ out + h * h ≤ address)
    (n : Nat) (hn : n ≤ h) :
    ∃ m' : Memory ℚ,
      (List.range n).foldl
        (fun (state : Option (Memory ℚ)) (i : Nat) =>
          (List.range (h - i)).foldl
            (fun (state : Option (Memory ℚ)) (step : Nat) =>
              Array.AAt.entry NDEBUG array aa_t address out w i state (i + step))
            state)
        (some memory) = some m'
      ∧ m'.length = memory.length
      ∧ (∀ x : Nat, ¬ (out ≤ x ∧ x < out + h * h) → m'[x]? = memory[x]?)
      ∧ ∀ p q : Nat, p < h → q < h → (p < n ∨ q < n) →
          m'[out + (p * h + q)]? = some (rowProduct memory address w p q) := by
  induction n with
  | zero =>
      refine ⟨memory, rfl, rfl, fun _ _ => rfl, ?_⟩
      intro p q _ _ hD
      omega
  | succ n ih =>
      obtain ⟨m1, hfold, hlen1, hframe1, hdone1⟩ := ih (by omega)
      rw [List.range_succ, List.foldl_append, hfold]
      simp only [List.foldl_cons, List.foldl_nil]
      obtain ⟨m2, hentry, hlen2, hframe2, hdone2⟩ :=
        AAt_row NDEBUG array aa_t h w address out memory m1 hrow hshape hrow' hshape' hw hA hO
          hapart n (by omega) (fun p q => p < n ∨ q < n) hlen1 hframe1 hdone1 (h - n) (by omega)
      refine ⟨m2, hentry, hlen2, hframe2, ?_⟩
      intro p q hp hq hD
      apply hdone2 p q hp hq
      by_cases hold : p < n ∨ q < n
      · exact Or.inl hold
      · by_cases hpn : p = n
        · exact Or.inr (Or.inl ⟨hpn, by omega, by omega⟩)
        · exact Or.inr (Or.inr ⟨by omega, by omega, by omega⟩)

theorem rowProduct_congr (memory memory2 : Memory ℚ) (address h w i j : Nat)
    (hi : i < h) (hj : j < h)
    (hsame : ∀ x : Nat, address ≤ x → x < address + h * w → memory2[x]? = memory[x]?) :
    rowProduct memory2 address w i j = rowProduct memory address w i j := by
  unfold rowProduct
  congr 1
  apply List.map_congr_left
  intro k hk
  rw [List.mem_range] at hk
  have hri := row_le i h w hi
  have hrj := row_le j h w hj
  simp only [List.getD_eq_getElem?_getD]
  rw [hsame (address + i * w + k) (by omega) (by omega),
    hsame (address + j * w + k) (by omega) (by omega)]

theorem AAt_correct (NDEBUG : Bool) (array aa_t : Array ℚ 2) (h w address out : Nat)
    (memory : Memory ℚ)
    (hrow : RowMajor array) (hshape : array.Shape = [(h : Int), (w : Int)])
    (hrow' : RowMajor aa_t) (hshape' : aa_t.Shape = [(h : Int), (h : Int)])
    (hdata : array.data_ = some address) (hdata' : aa_t.data_ = some out)
    (hA : address + h * w ≤ memory.length) (hO : out + h * h ≤ memory.length)
    (hapart : address + h * w ≤ out ∨ out + h * h ≤ address)
    (hw : NDEBUG = true ∨ 0 < w) :
    ∃ memory' : Memory ℚ,
      array.AAt NDEBUG aa_t memory = some memory'
      ∧ memory'.length = memory.length
      ∧ (∀ x : Nat, ¬ (out ≤ x ∧ x < out + h * h) → memory'[x]? = memory[x]?)
      ∧ ∀ i j : Nat, i < h → j < h →
          memory'[out + (i * h + j)]? = some (rowProduct memory address w i j) := by
  obtain ⟨m, hfold, hlen, hframe, hdone⟩ :=
    AAt_rows NDEBUG array aa_t h w address out memory hrow hshape hrow' hshape' hw hA hO hapart
      h (le_refl h)
  have hh : perDimension array.shape_ 0 0 = (h : Int) := by
    simp only [Array.Shape] at hshape
    rw [hshape]
    rfl
  have hw' : perDimension array.shape_ 1 0 = (w : Int) := by
    simp only [Array.Shape] at hshape
    rw [hshape]
    rfl
  refine ⟨m, ?_, hlen, hframe, ?_⟩
  · simp only [Array.AAt, hdata, hdata', hh, hw', Int.toNat_ofNat]
    exact hfold
  · intro i j hi hj
    exact hdone i j hi hj (Or.inl hi)

/-- C35 (amended): `Array::AAt` on a 2-dimensional array `A` of shape `(h, w)`,
given an output array of shape `(h, h)` whose scalars do not overlap those of
`A`, in a build with NDEBUG or with `w > 0`, returns and fills every entry of
the output so that `out(i, j)` is the sum over `k < w` of `A(i, k) * A(j, k)`
for all `i, j < h`; the result is symmetric, nothing but the output is written,
and the memory after the call does not depend on the previous contents of the
output.  Both arrays satisfy the shape invariant and hold their scalars in the
memory. -/
theorem C35_AAt_fills_the_product_with_the_transpose_into_an_output_apart
    (NDEBUG : Bool) (array aa_t : Array ℚ 2) (h w address out : Nat) (memory : Memory ℚ)
    (hrow : RowMajor array) (hshape : array.Shape = [(h : Int), (w : Int)])
    (hrow' : RowMajor aa_t) (hshape' : aa_t.Shape = [(h : Int), (h : Int)])
    (hdata : array.data_ = some address) (hdata' : aa_t.data_ = some out)
    (hA : address + h * w ≤ memory.length) (hO : out + h * h ≤ memory.length)
    (hapart : address + h * w ≤ out ∨ out + h * h ≤ address)
    (hw : NDEBUG = true ∨ 0 < w) :
    ∃ memory' : Memory ℚ,
      array.AAt NDEBUG aa_t memory = some memory'
      ∧ memory'.length = memory.length
      ∧ (∀ i j : Nat, i < h → j < h →
          aa_t.operatorParenConst NDEBUG [(i : Int), (j : Int)]
            = some ((i * h + j : Nat) : Int)
          ∧ memory'[out + (i * h + j)]? = some (rowProduct memory address w i j)
          ∧ memory'[out + (i * h + j)]? = memory'[out + (j * h + i)]?)
      ∧ (∀ i k : Nat, i < h → k < w →
          array.operatorParenConst NDEBUG [(i : Int), (k : Int)]
            = some ((i * w + k : Nat) : Int)
          ∧ memory'[address + (i * w + k)]? = memory[address + (i * w + k)]?)
      ∧ (∀ x : Nat, ¬ (out ≤ x ∧ x < out + h * h) → memory'[x]? = memory[x]?)
      ∧ ∀ memory2 : Memory ℚ, memory2.length = memory.length →
          (∀ x : Nat, ¬ (out ≤ x ∧ x < out + h * h) → memory2[x]? = memory[x]?) →
          array.AAt NDEBUG aa_t memory2 = some memory' := by
  obtain ⟨m, hcall, hlen, hframe, hdone⟩ :=
    AAt_correct NDEBUG array aa_t h w address out memory hrow hshape hrow' hshape' hdata hdata'
      hA hO hapart hw
  refine ⟨m, hcall, hlen, ?_, ?_, hframe, ?_⟩
  · intro i j hi hj
    refine ⟨?_, hdone i j hi hj, ?_⟩
    · rw [operatorParenConst_eq]
      exact AAt_offset NDEBUG aa_t h h hrow' hshape' i j hi (Or.inr hj) (le_of_lt hj)
    · rw [hdone i j hi hj, hdone j i hj hi, rowProduct_comm]
  · intro i k hi hk
    refine ⟨?_, ?_⟩
    · rw [operatorParenConst_eq]
      exact AAt_offset NDEBUG array h w hrow hshape i k hi (Or.inr hk) (le_of_lt hk)
    · have hri := row_le i h w hi
      exact hframe _ (by omega)
  · intro memory2 hlen2 hsame
    obtain ⟨m2, hcall2, hlen', hframe2, hdone2⟩ :=
      AAt_correct NDEBUG array aa_t h w address out memory2 hrow hshape hrow' hshape' hdata
        hdata' (by omega) (by omega) hapart hw
    rw [hcall2]
    congr 1
    apply List.ext_getElem?
    intro x
    by_cases hx : out ≤ x ∧ x < out + h * h
    · obtain ⟨hx0, hx1⟩ := hx
      have hpos : 0 < h := by
        rcases Nat.eq_zero_or_pos h with h0 | h0
        · subst h0
          omega
        · exact h0
      have hq : (x - out) % h < h := Nat.mod_lt _ hpos
      have hp : (x - out) / h < h := by
        rw [Nat.div_lt_iff_lt_mul hpos]
        omega
      have hsplit : x = out + ((x - out) / h * h + (x - out) % h) := by
        have := Nat.div_add_mod (x - out) h
        rw [Nat.mul_comm] at this
        omega
      rw [hsplit, hdone2 _ _ hp hq, hdone _ _ hp hq]
      congr 1
      exact rowProduct_congr memory memory2 address h w _ _ hp hq
        (fun y hy0 hy1 => hsame y (by omega))
    · rw [hframe2 x hx, hframe x hx, hsame x hx]

/-- C35 on the 2 x 3 array `((1, 2, 3), (4, 5, 6))` at the address 0 and a 2 x 2
output at the address 6, in a build without NDEBUG: the call returns, and the
entry `(0, 1)` of the output is `1 * 4 + 2 * 5 + 3 * 6 = 32`. -/
theorem C35_AAt_fills_the_product_with_the_transpose_into_an_output_apart_witness :
    ∃ memory' : Memory ℚ,
      Array.AAt false
        ({ own_data_ := false, data_ := some 0, size_ := 6, strides_ := [3],
           shape_ := [2, 3] } : Array ℚ 2)
        ({ own_data_ := false, data_ := some 6, size_ := 4, strides_ := [2],
           shape_ := [2, 2] } : Array ℚ 2)
        [1, 2, 3, 4, 5, 6, 7, 7, 7, 7] = some memory'
      ∧ memory'[6 + (0 * 2 + 1)]? = some (rowProduct [1, 2, 3, 4, 5, 6, 7, 7, 7, 7] 0 3 0 1)
      ∧ rowProduct [1, 2, 3, 4, 5, 6, 7, 7, 7, 7] 0 3 0 1 = 32 := by
  obtain ⟨memory', hcall, _, hentries, _⟩ :=
    C35_AAt_fills_the_product_with_the_transpose_into_an_output_apart false
      ({ own_data_ := false, data_ := some 0, size_ := 6, strides_ := [3],
         shape_ := [2, 3] } : Array ℚ 2)
      ({ own_data_ := false, data_ := some 6, size_ := 4, strides_ := [2],
         shape_ := [2, 2] } : Array ℚ 2)
      2 3 0 6 [1, 2, 3, 4, 5, 6, 7, 7, 7, 7]
      ⟨by decide, fun k hk => by
        have hk0 : k = 0 := by omega
        subst hk0
        decide, by decide⟩
      rfl
      ⟨by decide, fun k hk => by
        have hk0 : k = 0 := by omega
        subst hk0
        decide, by decide⟩
      rfl rfl rfl (by decide) (by decide) (Or.inl (by decide)) (Or.inr (by decide))
  exact ⟨memory', hcall, (hentries 0 1 (by decide) (by decide)).2.1, by decide!⟩

/-- C35 fails as stated, in two ways.  With the array itself as the output, the
2 x 2 array `((1, 2), (3, 4))` becomes `((4, 60), (60, 12963600))`, where the
product with the transpose is `((5, 11), (11, 25))`: the rows are read while the
output is written.  And on an array of shape `(2, 0)` the call does not return
in a build without NDEBUG: `operator()(i, 0)` fails its assertion, there being
no scalar `(i, 0)`; with NDEBUG the output is filled with the empty sums. -/
theorem C35_AAt_into_the_array_itself_or_of_an_empty_width :
    (∀ NDEBUG : Bool,
      Array.AAt NDEBUG
        ({ own_data_ := false, data_ := some 0, size_ := 4, strides_ := [2],
           shape_ := [2, 2] } : Array ℚ 2)
        ({ own_data_ := false, data_ := some 0, size_ := 4, strides_ := [2],
           shape_ := [2, 2] } : Array ℚ 2)
        [1, 2, 3, 4] = some [4, 60, 60, 12963600])
    ∧ rowProduct [1, 2, 3, 4] 0 2 0 0 = 5
    ∧ rowProduct [1, 2, 3, 4] 0 2 0 1 = 11
    ∧ rowProduct [1, 2, 3, 4] 0 2 1 1 = 25
    ∧ RowMajor
        ({ own_data_ := false, data_ := some 0, size_ := 0, strides_ := [0],
           shape_ := [2, 0] } : Array ℚ 2)
    ∧ Array.AAt false
        ({ own_data_ := false, data_ := some 0, size_ := 0, strides_ := [0],
           shape_ := [2, 0] } : Array ℚ 2)
        ({ own_data_ := false, data_ := some 0, size_ := 4, strides_ := [2],
           shape_ := [2, 2] } : Array ℚ 2)
        [7, 7, 7, 7] = none
    ∧ Array.AAt true
        ({ own_data_ := false, data_ := some 0, size_ := 0, strides_ := [0],
           shape_ := [2, 0] } : Array ℚ 2)
        ({ own_data_ := false, data_ := some 0, size_ := 4, strides_ := [2],
           shape_ := [2, 2] } : Array ℚ 2)
        [7, 7, 7, 7] = some [0, 0, 0, 0] := by
  refine ⟨?_, by decide!, by decide!, by decide!, ⟨by decide, ?_, by decide⟩, by decide!,
    by decide!⟩
  · intro NDEBUG
    cases NDEBUG <;> decide!
  · intro k hk
    have hk0 : k = 0 := by omega
    subst hk0
    decide

theorem RowMajor_of_members {DataType : Type} {dim : Nat} (array other : Array DataType dim)
    (hsize : array.size_ = other.size_) (hshape : array.shape_ = other.shape_)
    (hstrides : array.strides_ = other.strides_) (h : RowMajor other) : RowMajor array := by
  unfold RowMajor Array.size Array.Shape Array.Strides at *
  rw [hsize, hshape, hstrides]
  exact h

theorem RowMajor_SetShape {DataType : Type} {dim : Nat} (array : Array DataType dim)
    (shape : List Int) (hlen : shape.length = dim) (hdim : 0 < dim)
    (hfit : ∀ k : Nat, k < shape.length → IndexType.Representable (shape.drop k).prod) :
    RowMajor (array.SetShape shape) ∧ (array.SetShape shape).Shape = shape := by
  have hne : shape ≠ [] := by
    intro h
    rw [h] at hlen
    simp at hlen
    omega
  have hshape : (array.SetShape shape).Shape = shape := SetShape_shape array shape hne
  have hsize : (array.SetShape shape).size = shape.prod := SetShape_size array shape hne hfit
  refine ⟨⟨?_, ?_, ?_⟩, hshape⟩
  · rw [hshape]
    exact hsize
  · intro k hk
    rw [hshape]
    exact SetShape_strides array shape hfit k (by omega)
  · rw [hsize]
    have := hfit 0 (by omega)
    simpa using this

theorem DestroyData_members {DataType : Type} {dim : Nat} (array : Array DataType dim)
    (heap : Heap DataType) :
    (array.DestroyData heap).2.memory = heap.memory
    ∧ (array.DestroyData heap).2.allocated = heap.allocated
    ∧ (array.DestroyData heap).1.strides_ = array.strides_
    ∧ (array.DestroyData heap).1.shape_ = array.shape_
    ∧ (array.DestroyData heap).1.size_ = array.size_
    ∧ (array.DestroyData heap).1.own_data_ = false
    ∧ (array.DestroyData heap).1.data_ = none := by
  obtain ⟨own, data, size_, strides, shape⟩ := array
  cases own <;> cases data <;> exact ⟨rfl, rfl, rfl, rfl, rfl, rfl, rfl⟩

theorem Reallocate_members {DataType : Type} [Inhabited DataType] {dim : Nat}
    (array : Array DataType dim) (heap : Heap DataType) (size : Int)
    (result : Array DataType dim × Heap DataType)
    (h : array.Reallocate heap size = some result) :
    0 ≤ size ∧ result.1.own_data_ = true ∧ result.1.data_ = some heap.memory.length
    ∧ result.1.size_ = size ∧ result.1.strides_ = array.strides_
    ∧ (dim = 1 → result.1.shape_ = [size]) ∧ (dim ≠ 1 → result.1.shape_ = array.shape_)
    ∧ result.2.allocated = heap.memory.length :: heap.allocated
    ∧ result.2.memory = heap.memory ++ List.replicate size.toNat default := by
  obtain ⟨hm, ha, hst, hsh, _, _, _⟩ := DestroyData_members array heap
  unfold Array.Reallocate at h
  by_cases hs : size < 0
  · rw [if_pos hs] at h
    cases h
  · rw [if_neg hs] at h
    injection h with h
    subst h
    refine ⟨by omega, ?_⟩
    by_cases hd : dim = 1
    · rw [if_pos hd]
      exact ⟨rfl, by rw [← hm], rfl, hst, fun _ => rfl, fun hn => absurd hd hn,
        by rw [← hm, ← ha], by rw [← hm]⟩
    · rw [if_neg hd]
      exact ⟨rfl, by rw [← hm], rfl, hst, fun hn => absurd hn hd, fun _ => hsh,
        by rw [← hm, ← ha], by rw [← hm]⟩

theorem Reallocate_returns {DataType : Type} [Inhabited DataType] {dim : Nat}
    (array : Array DataType dim) (heap : Heap DataType) (size : Int) (h : 0 ≤ size) :
    ∃ result, array.Reallocate heap size = some result := by
  unfold Array.Reallocate
  rw [if_neg (by omega)]
  exact ⟨_, rfl⟩

theorem SetShape_members {DataType : Type} {dim : Nat} (array : Array DataType dim)
    (shape : List Int) :
    (array.SetShape shape).own_data_ = array.own_data_
    ∧ (array.SetShape shape).data_ = array.data_ := by
  match shape with
  | [] => exact ⟨rfl, rfl⟩
  | [s] => exact ⟨rfl, rfl⟩
  | s :: s' :: rest => exact ⟨rfl, rfl⟩

/-- C38: `SetData` and the data-wrapping constructor leave the array non-owning,
and `Reallocate` leaves it owning a buffer that `new[]` returned to it; but the
move constructor and the move assignment mark the array as owning whatever the
array moved from was (containers.hpp:207, 237).  Moved from a view of the
external scalars at the address 0 the array is owning, and its destructor hands
to `delete[]` an address that no `new[]` returned; the view itself releases
nothing. -/
theorem C38_move_marks_a_view_of_external_memory_as_owning {DataType : Type}
    [Inhabited DataType] {dim : Nat} :
    (∀ (array : Array DataType dim) (heap : Heap DataType) (data_pointer : Option Nat),
      (array.SetData heap data_pointer).1.own_data_ = false
      ∧ (array.SetData heap data_pointer).1.data_ = data_pointer)
    ∧ (∀ (strides_ shape_ : List Int) (heap : Heap DataType) (data_pointer : Option Nat)
        (shape : List Int),
      (Array.Wrap strides_ shape_ heap data_pointer shape :
        Array DataType dim × Heap DataType).1.own_data_ = false
      ∧ (Array.Wrap strides_ shape_ heap data_pointer shape :
        Array DataType dim × Heap DataType).1.data_ = data_pointer
      ∧ (Array.Wrap strides_ shape_ heap data_pointer shape :
        Array DataType dim × Heap DataType).2 = heap)
    ∧ (∀ (array : Array DataType dim) (heap : Heap DataType) (size : Int)
        (result : Array DataType dim × Heap DataType),
      array.Reallocate heap size = some result →
        result.1.own_data_ = true ∧ result.1.data_ = some heap.memory.length
        ∧ heap.memory.length ∈ result.2.allocated)
    ∧ (∀ other : Array DataType dim,
      (Array.Move other).1.own_data_ = true ∧ (Array.Move other).1.data_ = other.data_
      ∧ (Array.Move other).2.own_data_ = false)
    ∧ (∀ array rhs : Array DataType dim,
      (Array.MoveAssign array rhs).1.own_data_ = true
      ∧ (Array.MoveAssign array rhs).1.data_ = rhs.data_
      ∧ (Array.MoveAssign array rhs).2.own_data_ = false)
    ∧ (Array.Wrap [] [] ({ memory := [1, 2], allocated := [], deleted := [] } : Heap ℚ)
        (some 0) [2] : Array ℚ 1 × Heap ℚ)
      = ({ own_data_ := false, data_ := some 0, size_ := 2, strides_ := [], shape_ := [2] },
          { memory := [1, 2], allocated := [], deleted := [] })
    ∧ (Array.Move
        ({ own_data_ := false, data_ := some 0, size_ := 2, strides_ := [],
           shape_ := [2] } : Array ℚ 1)).1
      = { own_data_ := true, data_ := some 0, size_ := 2, strides_ := [], shape_ := [2] }
    ∧ Array.Destruct
        ({ own_data_ := true, data_ := some 0, size_ := 2, strides_ := [],
           shape_ := [2] } : Array ℚ 1)
        ({ memory := [1, 2], allocated := [], deleted := [] } : Heap ℚ)
      = { memory := [1, 2], allocated := [], deleted := [0] }
    ∧ Array.Destruct
        ({ own_data_ := false, data_ := some 0, size_ := 2, strides_ := [],
           shape_ := [2] } : Array ℚ 1)
        ({ memory := [1, 2], allocated := [], deleted := [] } : Heap ℚ)
      = { memory := [1, 2], allocated := [], deleted := [] }
    ∧ (Array.Construct [] [] ({ memory := [1, 2], allocated := [], deleted := [] } : Heap ℚ)
        [2] : Option (Array ℚ 1 × Heap ℚ))
      = some ({ own_data_ := true, data_ := some 2, size_ := 2, strides_ := [],
                shape_ := [2] },
          { memory := [1, 2, 0, 0], allocated := [2], deleted := [] })
    ∧ (Array.MoveAssign
        ({ own_data_ := true, data_ := some 2, size_ := 2, strides_ := [],
           shape_ := [2] } : Array ℚ 1)
        ({ own_data_ := false, data_ := some 0, size_ := 2, strides_ := [],
           shape_ := [2] } : Array ℚ 1)).1
      = { own_data_ := true, data_ := some 0, size_ := 2, strides_ := [], shape_ := [2] } := by
  refine ⟨?_, ?_, ?_, ?_, ?_, by decide!, by decide!, by decide!, by decide!, by decide!,
    by decide!⟩
  · intro array heap data_pointer
    exact ⟨(DestroyData_members array heap).2.2.2.2.2.1, rfl⟩
  · intro strides_ shape_ heap data_pointer shape
    refine ⟨?_, ?_, rfl⟩
    · unfold Array.Wrap
      rw [(SetShape_members _ shape).1]
      rfl
    · unfold Array.Wrap
      rw [(SetShape_members _ shape).2]
      rfl
  · intro array heap size result h
    obtain ⟨_, hown, hdata, _, _, _, _, halloc, _⟩ := Reallocate_members array heap size result h
    refine ⟨hown, hdata, ?_⟩
    rw [halloc]
    exact List.mem_cons_self _ _
  · intro other
    exact ⟨rfl, rfl, rfl⟩
  · intro array rhs
    exact ⟨rfl, rfl, rfl⟩

/-- C39 (amended): the shape constructor, the data-wrapping constructor and
`SetShape`, called with a shape none of whose products `s_k * ... * s_{n-1}`
leaves the range of `IndexType`, leave an array whose `Shape()` is the given
shape, whose `size()` is the product of the extents and whose `Strides()` are
the row-major strides; the copy constructor, the copy assignment and the moves
leave an array with this invariant when the array copied or moved from has it,
with the same `Shape()`; and `Reallocate(n)` on a 1-dimensional array leaves the
shape `(n)` and the size `n`.  The shape constructor returns for a shape whose
product is not negative, the copy constructor for an array of a size that is not
negative (with scalars, in a build without NDEBUG), and `Reallocate(n)` for
`n >= 0`. -/
theorem C39_constructors_assignments_and_moves_keep_the_shape_invariant_within_the_range_of_IndexType
    {DataType : Type} [Inhabited DataType] {dim : Nat} (shape : List Int)
    (hlen : shape.length = dim) (hdim : 0 < dim)
    (hfit : ∀ k : Nat, k < shape.length → IndexType.Representable (shape.drop k).prod) :
    (∀ (strides_ shape_ : List Int) (heap : Heap DataType),
      0 ≤ shape.prod →
      ∃ result : Array DataType dim × Heap DataType,
        Array.Construct strides_ shape_ heap shape = some result
        ∧ RowMajor result.1 ∧ result.1.Shape = shape)
    ∧ (∀ (strides_ shape_ : List Int) (heap : Heap DataType) (data_pointer : Option Nat),
      RowMajor (Array.Wrap strides_ shape_ heap data_pointer shape :
        Array DataType dim × Heap DataType).1
      ∧ (Array.Wrap strides_ shape_ heap data_pointer shape :
        Array DataType dim × Heap DataType).1.Shape = shape)
    ∧ (∀ (NDEBUG : Bool) (strides_ shape_ : List Int) (heap : Heap DataType)
        (other : Array DataType dim),
      RowMajor other → 0 ≤ other.size → (NDEBUG = true ∨ other.data_ ≠ none) →
      ∃ result : Array DataType dim × Heap DataType,
        Array.Copy NDEBUG strides_ shape_ heap other = some result
        ∧ RowMajor result.1 ∧ result.1.Shape = other.Shape)
    ∧ (∀ array : Array DataType dim,
      RowMajor (array.SetShape shape) ∧ (array.SetShape shape).Shape = shape)
    ∧ (∀ (NDEBUG : Bool) (array rhs : Array DataType dim) (memory : Memory DataType),
      RowMajor rhs → array.size = rhs.size → (NDEBUG = true ∨ rhs.data_ ≠ none) →
      ∃ result : Array DataType dim × Memory DataType,
        array.CopyAssign NDEBUG rhs memory = some (result, .ok ())
        ∧ RowMajor result.1 ∧ result.1.Shape = rhs.Shape)
    ∧ (∀ other : Array DataType dim,
      RowMajor other →
        RowMajor (Array.Move other).1 ∧ (Array.Move other).1.Shape = other.Shape)
    ∧ (∀ array rhs : Array DataType dim,
      RowMajor rhs →
        RowMajor (Array.MoveAssign array rhs).1
        ∧ (Array.MoveAssign array rhs).1.Shape = rhs.Shape)
    ∧ (dim = 1 →
      ∀ (array : Array DataType dim) (heap : Heap DataType) (n : Int), 0 ≤ n →
        IndexType.Representable n →
        ∃ result : Array DataType dim × Heap DataType,
          array.Reallocate heap n = some result
          ∧ RowMajor result.1 ∧ result.1.Shape = [n] ∧ result.1.size = n) := by
  refine ⟨?_, ?_, ?_, ?_, ?_, ?_, ?_, ?_⟩
  · intro strides_ shape_ heap hprod
    obtain ⟨hrow, hshape⟩ :=
      RowMajor_SetShape (Array.Default strides_ shape_ : Array DataType dim) shape hlen hdim
        hfit
    have hsize : ((Array.Default strides_ shape_ : Array DataType dim).SetShape shape).size_
        = shape.prod := by
      have := hrow.1
      rw [hshape] at this
      exact this
    obtain ⟨result, hresult⟩ :=
      Reallocate_returns ((Array.Default strides_ shape_ : Array DataType dim).SetShape shape)
        heap ((Array.Default strides_ shape_ : Array DataType dim).SetShape shape).size_
        (by rw [hsize]; exact hprod)
    obtain ⟨_, _, _, hs, hst, h1, hn1, _, _⟩ := Reallocate_members _ _ _ _ hresult
    have hsh : result.1.shape_
        = ((Array.Default strides_ shape_ : Array DataType dim).SetShape shape).shape_ := by
      by_cases hd : dim = 1
      · rw [h1 hd]
        have hl : shape.length = 1 := by omega
        match shape, hl with
        | [s], _ => rfl
      · exact hn1 hd
    refine ⟨result, hresult, RowMajor_of_members _ _ hs hsh hst hrow, ?_⟩
    simp only [Array.Shape] at hshape ⊢
    rw [hsh, hshape]
  · intro strides_ shape_ heap data_pointer
    exact RowMajor_SetShape _ shape hlen hdim hfit
  · intro NDEBUG strides_ shape_ heap other hother hsize hdata
    obtain ⟨result, hresult⟩ :=
      Reallocate_returns (Array.Default strides_ shape_ : Array DataType dim) heap other.size_
        hsize
    obtain ⟨_, _, _, hs, _, _, _, _, _⟩ := Reallocate_members _ _ _ _ hresult
    unfold Array.Copy
    rw [hresult]
    simp only []
    rw [if_neg (by
      rintro ⟨h1, h2⟩
      rcases hdata with h | h
      · exact h1 h
      · exact h h2)]
    exact ⟨_, rfl, RowMajor_of_members _ other hs rfl rfl hother, rfl⟩
  · intro array
    exact RowMajor_SetShape array shape hlen hdim hfit
  · intro NDEBUG array rhs memory hrhs hsize hdata
    unfold Array.CopyAssign
    rw [if_neg (by simpa [Array.size] using hsize), if_neg (by
      rintro ⟨h1, h2⟩
      rcases hdata with h | h
      · exact h1 h
      · exact h h2)]
    exact ⟨_, rfl, RowMajor_of_members _ rhs hsize rfl rfl hrhs, rfl⟩
  · intro other hother
    exact ⟨RowMajor_of_members _ other rfl rfl rfl hother, rfl⟩
  · intro array rhs hrhs
    exact ⟨RowMajor_of_members _ rhs rfl rfl rfl hrhs, rfl⟩
  · intro hd array heap n hn hfits
    obtain ⟨result, hresult⟩ := Reallocate_returns array heap n hn
    obtain ⟨_, _, _, hs, _, h1, _, _, _⟩ := Reallocate_members _ _ _ _ hresult
    refine ⟨result, hresult, ⟨?_, ?_, ?_⟩, h1 hd, hs⟩
    · simp only [Array.size, Array.Shape]
      rw [hs, h1 hd]
      simp
    · intro k hk
      omega
    · simp only [Array.size]
      rw [hs]
      exact hfits

/-- C39 (amended) on a 2-dimensional array of rationals and the shape `(2, 3)`:
the shape constructor returns an array of the size 6 with the stride 3. -/
theorem C39_constructors_assignments_and_moves_keep_the_shape_invariant_within_the_range_of_IndexType_witness :
    ∃ result : Array ℚ 2 × Heap ℚ,
      Array.Construct [] [] ({ memory := [1, 2], allocated := [], deleted := [] } : Heap ℚ)
        [2, 3] = some result
      ∧ RowMajor result.1 ∧ result.1.Shape = [2, 3] :=
  (@C39_constructors_assignments_and_moves_keep_the_shape_invariant_within_the_range_of_IndexType
    ℚ _ 2 [2, 3] rfl (by decide) (positive_fits [2, 3] (by decide) (by decide))).1 [] []
    { memory := [1, 2], allocated := [], deleted := [] } (by decide)

/-- C39 (as stated) fails where the product of the extents leaves the range of
`IndexType`: `SetShape(65536, 65536)`, the shape constructor and the
data-wrapping constructor leave an array of the shape `(65536, 65536)` and the
size 0, where the product of the extents is 4294967296. -/
theorem C39_the_size_is_not_the_product_outside_the_range_of_IndexType :
    (({ own_data_ := false, data_ := none, size_ := 0, strides_ := [], shape_ := [] } :
        Array ℚ 2).SetShape [65536, 65536])
      = { own_data_ := false, data_ := none, size_ := 0, strides_ := [65536],
          shape_ := [65536, 65536] }
    ∧ (Array.Construct [] [] ({ memory := [1, 2], allocated := [], deleted := [] } : Heap ℚ)
        [65536, 65536] : Option (Array ℚ 2 × Heap ℚ))
      = some ({ own_data_ := true, data_ := some 2, size_ := 0, strides_ := [65536],
                shape_ := [65536, 65536] },
          { memory := [1, 2], allocated := [2], deleted := [] })
    ∧ (Array.Wrap [] [] ({ memory := [1, 2], allocated := [], deleted := [] } : Heap ℚ)
        (some 0) [65536, 65536] : Array ℚ 2 × Heap ℚ).1
      = { own_data_ := false, data_ := some 0, size_ := 0, strides_ := [65536],
          shape_ := [65536, 65536] }
    ∧ ([65536, 65536] : List Int).prod = 4294967296
    ∧ ¬ RowMajor
        ({ own_data_ := true, data_ := some 2, size_ := 0, strides_ := [65536],
           shape_ := [65536, 65536] } : Array ℚ 2) := by
  refine ⟨by decide!, by decide!, by decide!, by decide, ?_⟩
  intro h
  have hsize := h.1
  revert hsize
  decide

end BSplineLib
